import Mathlib

/-! # FMI master-side driver (RTWCG_FMU1_target.c, RTWCG_FMU1ME_target.c, RTWCG_FMU2_target.c)

A shallow embedding of the three FMI drivers.

* The loaded FMU is external code.  Its internal state is an arbitrary type `W`, and every
  entry of a handle's function table is a function that takes the arguments of the C call and
  the FMU state and returns the C result and the new FMU state.
* Everything the driver does to its environment (a call through the function table, a host
  diagnostic, a call of the injected logger, closing the library, freeing memory) is appended,
  in program order, to a trace of `Event`s.
* Pointers are natural numbers, `NULL` is `0`.  The handle slot `*fmuv` is an `Option`.
* The preprocessor tests on `FMU_CG_TARGET` are outside the sources at hand; their outcomes
  are the fields of `Target`, so every build configuration is covered.
-/

namespace RTWCG

/-! ## Common data model -/

/-- A C pointer; `NULL` is `0`. -/
abbrev Ptr := Nat

/-- The null pointer. -/
abbrev NULL : Ptr := 0

/-- Status codes `fmiOK .. fmiPending` (FMI 1.0) and `fmi2OK .. fmi2Pending` (FMI 2.0): the two
enumerations have the same members in the same order. -/
inductive fmiStatus
  | fmiOK
  | fmiWarning
  | fmiDiscard
  | fmiError
  | fmiFatal
  | fmiPending
  deriving DecidableEq, Repr

/-- Reals (`fmiReal`, `fmi2Real`) are only passed through and compared by the driver. -/
abbrev fmiReal := Rat

/-- Value references (`fmiValueReference`, `fmi2ValueReference`) are only passed through by the
driver. -/
abbrev fmiValueReference := Nat

/-- Integers (`fmiInteger`, `fmi2Integer`) are only passed through by the driver. -/
abbrev fmiInteger := Int

/-- Strings (`fmiString`, `fmi2String`). -/
abbrev fmiString := String

/-- The build configuration: the outcomes of the preprocessor conditions of the drivers and
the two macro constants of the headers, which are not among the sources. -/
structure Target where
  /-- `FMU_CG_TARGET < FMUCG_STANDALONE_TARGETS`: diagnostics go to the host simulation engine. -/
  lt_STANDALONE_TARGETS : Bool
  /-- `FMU_CG_TARGET == FMUCG_SLRT`. -/
  eq_SLRT : Bool
  /-- `FMU_CG_TARGET < 20` (used once, in RTWCG_FMU1ME_target.c). -/
  lt_20 : Bool
  /-- `_WIN32` is defined. -/
  WIN32 : Bool
  /-- The macro `FCN_NAME_MAX_LEN`. -/
  FCN_NAME_MAX_LEN : Nat
  /-- The macro `FULL_FCN_NAME_MAX_LEN`, the size of the buffer `fullFcnName`. -/
  FULL_FCN_NAME_MAX_LEN : Nat
  deriving DecidableEq, Repr

/-- One variadic argument of `CreateDiagnosticAsVoidPtr` or of `formatString`. -/
inductive DiagArg
  | str (s : String)
  | real (r : fmiReal)
  | int (i : Int)
  /-- The character buffer filled by `snprintf(buf, 20, "%f", r)`. -/
  | realText (r : fmiReal)
  deriving DecidableEq, Repr

/-- The value of `CreateDiagnosticAsVoidPtr(id, n, args...)`. -/
structure Diagnostic where
  id : String
  args : List DiagArg
  deriving DecidableEq, Repr

/-- `CreateDiagnosticAsVoidPtr`: the argument count of the C call is the length of `args`. -/
def CreateDiagnosticAsVoidPtr (id : String) (args : List DiagArg) : Diagnostic :=
  { id := id, args := args }

/-- The value of `formatString(format, args...)`: the `vsnprintf` call that renders the text
into the static message buffer, kept as the format and its arguments. -/
structure Message where
  format : String
  args : List DiagArg
  deriving DecidableEq, Repr

/-- `formatString` of the three drivers. -/
def formatString (format : String) (args : List DiagArg) : Message :=
  { format := format, args := args }

/-- The entries of the function tables that the embedded driver functions call. -/
inductive FmuFcn
  /- FMI 2.0 -/
  | setupExperiment
  | enterInitializationMode
  | exitInitializationMode
  | terminate
  | freeInstance
  | enterEventMode
  | newDiscreteStates
  | enterContinuousTimeMode
  | setTime
  /- FMI 1.0 co-simulation -/
  | initializeSlave
  | terminateSlave
  | freeSlaveInstance
  | doStep
  /- FMI 1.0 model exchange; `initializeModel` is the entry `fmiInitialize` -/
  | initializeModel
  | freeModelInstance
  | eventUpdate
  /- FMI 2.0 co-simulation (`doStep` is above) -/
  | getBooleanStatus
  /- the instantiate entries of the three drivers -/
  | instantiate
  | instantiateSlave
  | instantiateModel
  /- the value accessors of the three drivers -/
  | setReal
  | getReal
  | setInteger
  | getInteger
  | setBoolean
  | getBoolean
  | setString
  | getString
  /- model exchange, FMI 1.0 and 2.0 -/
  | completedIntegratorStep
  | setContinuousStates
  | getDerivatives
  | getEventIndicators
  | getContinuousStates
  | getNominalsOfContinuousStates
  deriving DecidableEq, Repr

/-- What `callbacks.freeMemory` is applied to. -/
inductive Freed
  | fmustruct
  | paramIdxToOffset (p : Ptr)
  | enumValueList (p : Ptr)
  deriving DecidableEq, Repr

/-- One observable action of the driver. -/
inductive Event
  /-- A call `fmustruct->f(c, ...)` through the function table, with the status it returned
  (`none` for a function whose result is `void`). -/
  | fmuCall (f : FmuFcn) (c : Ptr) (ret : Option fmiStatus)
  /-- `rt_ssSet_slErrMsg(ss, diagnostic)`. -/
  | rt_ssSet_slErrMsg (ss : Ptr) (d : Diagnostic)
  /-- `rt_ssReportDiagnosticAsWarning(ss, diagnostic)`. -/
  | rt_ssReportDiagnosticAsWarning (ss : Ptr) (d : Diagnostic)
  /-- `rt_ssReportDiagnosticAsInfo(ss, diagnostic)`. -/
  | rt_ssReportDiagnosticAsInfo (ss : Ptr) (d : Diagnostic)
  /-- `ssSetStopRequested(ss, v)`. -/
  | ssSetStopRequested (ss : Ptr) (v : Int)
  /-- `callbacks.logger(c, instanceName, status, category, message)`. -/
  | logger (c : Ptr) (instanceName : String) (status : fmiStatus) (category : String)
      (message : Message)
  /-- `CLOSE_LIBRARY(handle)`. -/
  | closeLibrary (handle : Ptr)
  /-- `freeMemory(p)` with the handle's `callbacks.freeMemory`. -/
  | freeMemory (what : Freed)
  /-- A call of the instantiate entry `f` of the function table for the instance
  `instanceName`, with the component pointer it returned. -/
  | fmuInstantiate (f : FmuFcn) (instanceName : String) (c : Ptr)
  /-- `allocateMemory(1, sizeof(struct ...))` for the handle. -/
  | allocateMemory
  /-- `LOAD_LIBRARY(dllfile)`, with the library handle it returned (`NULL` on failure). -/
  | loadLibrary (dllfile : String) (handle : Ptr)
  /-- `LOAD_FUNCTION(handle, name)`, with whether the symbol was resolved. -/
  | loadFunction (handle : Ptr) (name : String) (resolved : Bool)
  /-- A call `fmustruct->f(c, &vr, nvr, value)` of a value accessor through the function table,
  with the status it returned: `vr` is the object whose address is handed over as the array of
  value references, `nvr` is the count handed over, and `nvalue` is the number of elements of
  the object handed over as the array of values. -/
  | fmuAccess (f : FmuFcn) (c : Ptr) (vr : List fmiValueReference) (nvr : Nat) (nvalue : Nat)
      (ret : fmiStatus)
  deriving DecidableEq, Repr

namespace Event

/-- The event is a call of entry `f` of the function table. -/
def isCallOf (f : FmuFcn) : Event → Bool
  | fmuCall g _ _ => decide (g = f)
  | fmuInstantiate g _ _ => decide (g = f)
  | fmuAccess g _ _ _ _ _ => decide (g = f)
  | _ => false

/-- The event is a call through the function table. -/
def isFmuCall : Event → Bool
  | fmuCall _ _ _ => true
  | fmuInstantiate _ _ _ => true
  | fmuAccess _ _ _ _ _ _ => true
  | _ => false

/-- The event is a diagnostic: a host error message, a host warning or info report, or a call
of the injected logger. -/
def isDiagnostic : Event → Bool
  | rt_ssSet_slErrMsg _ _ => true
  | rt_ssReportDiagnosticAsWarning _ _ => true
  | rt_ssReportDiagnosticAsInfo _ _ => true
  | logger _ _ _ _ _ => true
  | _ => false

/-- The diagnostic carries the string `name`: as an argument of the host diagnostic, or as the
instance name, the category or a format argument of the logger call. -/
def carries (name : String) : Event → Bool
  | rt_ssSet_slErrMsg _ d => decide (DiagArg.str name ∈ d.args)
  | rt_ssReportDiagnosticAsWarning _ d => decide (DiagArg.str name ∈ d.args)
  | rt_ssReportDiagnosticAsInfo _ d => decide (DiagArg.str name ∈ d.args)
  | logger _ instanceName _ category message =>
      decide (instanceName = name) || decide (category = name)
        || decide (DiagArg.str name ∈ message.args)
  | _ => false

/-- The status returned to the driver by the call, if the event is a call that returns one. -/
def status? : Event → Option fmiStatus
  | fmuCall _ _ ret => ret
  | fmuAccess _ _ _ _ _ ret => some ret
  | _ => none

/-- What a call of a value accessor handed to the FMU: the number of value references in the
object handed over as their array, the count, and the number of values in the object handed
over as their array. -/
def access? : Event → Option (Nat × Nat × Nat)
  | fmuAccess _ _ vr nvr nvalue _ => some (vr.length, nvr, nvalue)
  | _ => none

end Event

/-- The value of a member of the status enumeration (`fmiOK` is 0, `fmiPending` is 5). -/
def fmiStatus.code : fmiStatus → Nat
  | .fmiOK => 0
  | .fmiWarning => 1
  | .fmiDiscard => 2
  | .fmiError => 3
  | .fmiFatal => 4
  | .fmiPending => 5

/-- The untyped function pointer (`_fmi_default_fcn_type`, `_fmi2_default_fcn_type`) that
`LoadFMUFcn` returns. -/
inductive FcnPtr
  /-- `NULL`. -/
  | null
  /-- The address of the stub `defaultfcn`. -/
  | defaultfcn
  /-- The non-null result of `LOAD_FUNCTION(handle, name)`, for the symbol `name`. -/
  | symbol (name : String)
  deriving DecidableEq, Repr

/-- The cast of a pointer returned by `LoadFMUFcn` to the type of a table entry whose calls are
embedded: `code name` is the code of the library at the symbol `name`, run with the signature
of the entry, and `stub` is `defaultfcn` run with that signature.  A null entry must not be
called; where the embedding has to give it a behaviour, it is that of the stub. -/
def FcnPtr.cast {α : Type} (code : String → α) (stub : α) : FcnPtr → α
  | .symbol name => code name
  | .defaultfcn => stub
  | .null => stub

/-- Modelled from the spec: `strlen` of the C library.  C strings are modelled with one `Char`
per byte. -/
def strlen (s : String) : Nat :=
  s.data.length

/-- Modelled from the spec: `strncpy(dest, src, n)` of the C library into a buffer `dest` that
is filled with zeros and has more than `n` bytes: the string that `dest` then holds. -/
def strncpy (src : String) (n : Nat) : String :=
  ⟨src.data.take n⟩

/-- Modelled from the spec: `strncat(dest, src, n)` of the C library: the string that `dest`
then holds (at most `n` characters of `src` are appended). -/
def strncat (dest src : String) (n : Nat) : String :=
  ⟨dest.data ++ src.data.take n⟩

/-- The content of the buffer `fullFcnName` after
`memset(fullFcnName, 0, N); strncpy(fullFcnName, pfx, N - 1);`
`strncat(fullFcnName, "_", N - strlen(fullFcnName) - 1);`
`strncat(fullFcnName, fcnName, N - strlen(fullFcnName) - 1);`
with `N = FULL_FCN_NAME_MAX_LEN`, which is positive (the buffer has `N` bytes). -/
def fullFcnName (T : Target) (pfx fcnName : String) : String :=
  let fullFcnName := strncpy pfx (T.FULL_FCN_NAME_MAX_LEN - 1)
  let fullFcnName :=
    strncat fullFcnName "_" (T.FULL_FCN_NAME_MAX_LEN - strlen fullFcnName - 1)
  strncat fullFcnName fcnName (T.FULL_FCN_NAME_MAX_LEN - strlen fullFcnName - 1)

namespace Event

/-- The event is a call of `LOAD_LIBRARY`. -/
def isLoadLibrary : Event → Bool
  | loadLibrary _ _ => true
  | _ => false

/-- The event is a call of `LOAD_FUNCTION`, that is, a symbol resolution. -/
def isLoadFunction : Event → Bool
  | loadFunction _ _ _ => true
  | _ => false

/-- The status handed to the logger, if the event is a call of the logger. -/
def loggedStatus? : Event → Option fmiStatus
  | logger _ _ status _ _ => some status
  | _ => none

/-- The status that the driver hands to `CheckStatus` after the call, if it hands one over:
the status returned by a call through the function table, except for a call of
`getBooleanStatus`, whose result `FMU2_doStep` does not read. -/
def translated? : Event → Option fmiStatus
  | fmuCall f _ ret => if f = .getBooleanStatus then none else ret
  | fmuAccess _ _ _ _ _ ret => some ret
  | _ => none

/-- The event is the diagnostic of `LoadFMUFcn` for a function that could not be loaded: the
host warning `FMULoadLibFunctionError`, or the logger call with the text
`Unable to load function '%s' for FMU '%s'.` -/
def isUnableToLoadFunction : Event → Bool
  | rt_ssReportDiagnosticAsWarning _ d => decide (d.id = "FMUBlock:FMU:FMULoadLibFunctionError")
  | logger _ _ _ _ message =>
      decide (message.format = "Unable to load function '%s' for FMU '%s'.")
  | _ => false

end Event

/-- The driver's view of the system: the handle `*fmuv` points to, the state of the loaded FMU
and the trace of what the driver has done so far. -/
structure Sys (H W : Type) where
  fmustruct : H
  fmu : W
  trace : List Event

/-- Append events to the trace. -/
def Sys.emit {H W : Type} (s : Sys H W) (es : List Event) : Sys H W :=
  { s with trace := s.trace ++ es }

/-- A build for the host simulation engine (`FMU_CG_TARGET < FMUCG_STANDALONE_TARGETS`), for
examples; the two name lengths are example values. -/
def Target.host : Target :=
  { lt_STANDALONE_TARGETS := true, eq_SLRT := false, lt_20 := true, WIN32 := false,
    FCN_NAME_MAX_LEN := 36, FULL_FCN_NAME_MAX_LEN := 256 }

/-- A build for a standalone target, where diagnostics go to the injected logger, for
examples; the two name lengths are example values. -/
def Target.standalone : Target :=
  { lt_STANDALONE_TARGETS := false, eq_SLRT := false, lt_20 := false, WIN32 := false,
    FCN_NAME_MAX_LEN := 36, FULL_FCN_NAME_MAX_LEN := 256 }

/-- The statuses that the FMU returned to the driver, in the order of the calls. -/
def returnedStatuses (trace : List Event) : List fmiStatus :=
  trace.filterMap Event.status?

/-- The statuses that the driver handed to `CheckStatus`, in the order of the calls. -/
def translatedStatuses (trace : List Event) : List fmiStatus :=
  trace.filterMap Event.translated?

/-- The error status that `CheckStatus` of RTWCG_FMU2_target.c and of RTWCG_FMU1_target.c
leaves in the handle: the status just translated if it is Error, Fatal or Pending, and the
current one otherwise (`FMU2_CheckStatus_spec`, `FMU1_CheckStatus_spec`). -/
def recorded (current status : fmiStatus) : fmiStatus :=
  if status = .fmiError ∨ status = .fmiFatal ∨ status = .fmiPending then status else current

/-- The error status that `CheckStatus` of RTWCG_FMU1ME_target.c leaves in the handle: the
status just translated if it is Error or Fatal, and the current one otherwise
(`FMU1ME_CheckStatus_spec`). -/
def recordedME (current status : fmiStatus) : fmiStatus :=
  if status = .fmiError ∨ status = .fmiFatal then status else current

/-- Modelled from the spec: the severity of a status, by which one status is "worse" than
another.  The ranks are the positions in the FMI enumeration `OK, Warning, Discard, Error,
Fatal, Pending`; the driver itself has no such ordering. -/
def fmiStatus.severity : fmiStatus → Nat
  | .fmiOK => 0
  | .fmiWarning => 1
  | .fmiDiscard => 2
  | .fmiError => 3
  | .fmiFatal => 4
  | .fmiPending => 5

/-- Modelled from the spec: "the worse of current and new value" of the sticky error status;
the driver has no such function. -/
def fmiStatus.worse (current new : fmiStatus) : fmiStatus :=
  if current.severity ≤ new.severity then new else current

/-! ## RTWCG_FMU2_target.c -/

namespace FMU2

abbrev fmi2Status := fmiStatus
abbrev fmi2Component := Ptr
abbrev fmi2Real := fmiReal
abbrev fmi2ValueReference := fmiValueReference
abbrev fmi2Integer := fmiInteger
abbrev fmi2String := fmiString

/-- `fmi2Boolean`: the FMU hands back only `fmi2True` or `fmi2False`, so the tests
`x == fmi2True` of the driver are tests of a Boolean. -/
abbrev fmi2Boolean := Bool


@[match_pattern] abbrev fmi2OK : fmi2Status := fmiStatus.fmiOK
@[match_pattern] abbrev fmi2Warning : fmi2Status := fmiStatus.fmiWarning
@[match_pattern] abbrev fmi2Discard : fmi2Status := fmiStatus.fmiDiscard
@[match_pattern] abbrev fmi2Error : fmi2Status := fmiStatus.fmiError
@[match_pattern] abbrev fmi2Fatal : fmi2Status := fmiStatus.fmiFatal
@[match_pattern] abbrev fmi2Pending : fmi2Status := fmiStatus.fmiPending
abbrev fmi2True : fmi2Boolean := true
abbrev fmi2False : fmi2Boolean := false

/-- Modelled from the spec: the FMI 2.0 kinds of FMU (declared in the FMI headers, which are not
among the sources). -/
inductive fmi2Type
  | fmi2ModelExchange
  | fmi2CoSimulation
  deriving DecidableEq, Repr

/-- Modelled from the spec: the FMI 2.0 kinds of status inquiry (declared in the FMI headers,
which are not among the sources). -/
inductive fmi2StatusKind
  | fmi2DoStepStatus
  | fmi2PendingStatus
  | fmi2LastSuccessfulTime
  | fmi2Terminated
  deriving DecidableEq, Repr

/-- Modelled from the spec: the FMI 2.0 event-info record (declared in the FMI headers, which
are not among the sources), with the fields the driver reads or writes. -/
structure fmi2EventInfo where
  newDiscreteStatesNeeded : fmi2Boolean
  terminateSimulation : fmi2Boolean
  valuesOfContinuousStatesChanged : fmi2Boolean
  nextEventTimeDefined : fmi2Boolean
  nextEventTime : fmi2Real
  deriving DecidableEq, Repr

/-- Modelled from the spec: the callback bundle of the handle.  The logger, allocate, free and
step-finished members are pointers to external code (their calls are `Event`s); the component
environment is the pointer handed to the logger. -/
structure fmi2CallbackFunctions where
  componentEnvironment : Ptr
  deriving DecidableEq, Repr

/-- Modelled from the spec: `struct FMU2_CSME_RTWCG` (declared in RTWCG_FMU2_target.h, which is
not among the sources), with the fields the embedded functions use.  A function-table entry
takes the arguments of the C call and the state of the FMU. -/
structure FMU2_CSME_RTWCG (W : Type) where
  ssPtr : Ptr
  fmuname : String
  dllfile : String
  Handle : Ptr
  FMUErrorStatus : fmi2Status
  modelInitialized : Bool
  mFMIComp : fmi2Component
  callbacks : fmi2CallbackFunctions
  eventInfo : fmi2EventInfo
  paramIdxToOffset : Ptr
  enumValueList : Ptr
  setupExperiment :
    fmi2Component → fmi2Boolean → fmi2Real → fmi2Real → fmi2Boolean → fmi2Real → W → fmi2Status × W
  enterInitializationMode : fmi2Component → W → fmi2Status × W
  exitInitializationMode : fmi2Component → W → fmi2Status × W
  terminate : fmi2Component → W → fmi2Status × W
  freeInstance : fmi2Component → W → W
  enterEventMode : fmi2Component → W → fmi2Status × W
  newDiscreteStates : fmi2Component → fmi2EventInfo → W → fmi2Status × fmi2EventInfo × W
  enterContinuousTimeMode : fmi2Component → W → fmi2Status × W
  setTime : fmi2Component → fmi2Real → W → fmi2Status × W
  doStep : fmi2Component → fmi2Real → fmi2Real → fmi2Boolean → W → fmi2Status × W
  /-- `getBooleanStatus(c, s, &value)`: the third argument is the content of `value` before the
  call, the second component of the result is its content after the call. -/
  getBooleanStatus :
    fmi2Component → fmi2StatusKind → fmi2Boolean → W → fmi2Status × fmi2Boolean × W
  /-- `instantiate(instanceName, fmuType, fmuGUID, fmuResourceLocation, &callbacks, visible,
  loggingOn)`. -/
  instantiate :
    String → fmi2Type → String → String → fmi2CallbackFunctions → fmi2Boolean → fmi2Boolean →
      W → fmi2Component × W
  /- The value accessors `f(c, vr, nvr, value)`: the second argument is the object whose address
  is handed over as the array of value references, the third the count, the fourth the object
  handed over as the array of values (for a getter: its content before the call, and the
  second component of the result is its content after the call). -/
  setReal : fmi2Component → List fmi2ValueReference → Nat → List fmi2Real → W → fmi2Status × W
  getReal :
    fmi2Component → List fmi2ValueReference → Nat → List fmi2Real → W → fmi2Status × List fmi2Real × W
  setInteger :
    fmi2Component → List fmi2ValueReference → Nat → List fmi2Integer → W → fmi2Status × W
  getInteger :
    fmi2Component → List fmi2ValueReference → Nat → List fmi2Integer → W → fmi2Status × List fmi2Integer × W
  setBoolean :
    fmi2Component → List fmi2ValueReference → Nat → List fmi2Boolean → W → fmi2Status × W
  getBoolean :
    fmi2Component → List fmi2ValueReference → Nat → List fmi2Boolean → W → fmi2Status × List fmi2Boolean × W
  setString : fmi2Component → List fmi2ValueReference → Nat → List fmi2String → W → fmi2Status × W
  getString :
    fmi2Component → List fmi2ValueReference → Nat → List fmi2String → W → fmi2Status × List fmi2String × W
  /- `completedIntegratorStep(c, noSetFMUStatePriorToCurrentPoint, &enterEventMode,
  &terminateSimulation)`, and the functions on the array of continuous states
  `f(c, x, nx)`: objects that the FMU writes are given with their content before the call and
  returned with their content after it. -/
  completedIntegratorStep :
    fmi2Component → fmi2Boolean → fmi2Boolean → fmi2Boolean → W →
    fmi2Status × fmi2Boolean × fmi2Boolean × W
  setContinuousStates : fmi2Component → List fmi2Real → Nat → W → fmi2Status × W
  getDerivatives : fmi2Component → List fmi2Real → Nat → W → fmi2Status × List fmi2Real × W
  getEventIndicators : fmi2Component → List fmi2Real → Nat → W → fmi2Status × List fmi2Real × W
  getContinuousStates : fmi2Component → List fmi2Real → Nat → W → fmi2Status × List fmi2Real × W
  getNominalsOfContinuousStates :
    fmi2Component → List fmi2Real → Nat → W → fmi2Status × List fmi2Real × W

/-- The system seen through a non-null handle. -/
abbrev St (W : Type) := Sys (FMU2_CSME_RTWCG W) W

/-- The system seen through the handle slot `*fmuv`, which may hold `NULL`. -/
abbrev Slot (W : Type) := Sys (Option (FMU2_CSME_RTWCG W)) W

/-- `defaultfcn` of RTWCG_FMU2_target.c (the variadic arguments are not read). -/
def defaultfcn (c : fmi2Component) : fmi2Status :=
  if c = NULL then fmi2Fatal else fmi2Error

/-- `CheckStatus` of RTWCG_FMU2_target.c. -/
def CheckStatus {W : Type} (T : Target) (s : St W) (status : fmi2Status) (fcnName : String) :
    fmi2Boolean × St W :=
  let s : St W :=
    if T.lt_STANDALONE_TARGETS then
      let ss := s.fmustruct.ssPtr
      if status = fmi2Error ∨ status = fmi2Fatal then
        let diagnostic := CreateDiagnosticAsVoidPtr
          "FMUBlock:FMU:FMUSimFunctionErrorDebugToDisplayOn"
          [.str fcnName, .str s.fmustruct.fmuname]
        let s := s.emit [.rt_ssSet_slErrMsg ss diagnostic, .ssSetStopRequested ss 1]
        { s with fmustruct := { s.fmustruct with FMUErrorStatus := status } }
      else if status = fmi2Pending then
        let diagnostic := CreateDiagnosticAsVoidPtr
          "FMUBlock:FMU:FMUSimPendingNotAllowed"
          [.str fcnName, .str s.fmustruct.fmuname]
        let s := s.emit [.rt_ssSet_slErrMsg ss diagnostic, .ssSetStopRequested ss 1]
        { s with fmustruct := { s.fmustruct with FMUErrorStatus := status } }
      else s
    else
      if status = fmi2Error ∨ status = fmi2Fatal then
        let s : St W := { s with fmustruct := { s.fmustruct with FMUErrorStatus := status } }
        let message := formatString
          "Error in supplied FMU: An error occurred in function '%s' for block '%s' during simulation."
          [.str fcnName, .str s.fmustruct.fmuname]
        s.emit [.logger s.fmustruct.callbacks.componentEnvironment s.fmustruct.fmuname
          s.fmustruct.FMUErrorStatus fcnName message]
      else if status = fmi2Pending then
        let s : St W := { s with fmustruct := { s.fmustruct with FMUErrorStatus := status } }
        let message := formatString
          "Function '%s' in block '%s' returned 'fmiPending' flag during simulation."
          [.str fcnName, .str s.fmustruct.fmuname]
        s.emit [.logger s.fmustruct.callbacks.componentEnvironment s.fmustruct.fmuname
          s.fmustruct.FMUErrorStatus fcnName message]
      else s
  if status = fmi2OK then (fmi2True, s) else (fmi2False, s)

/-- `FMU2_setupExperiment`. -/
def FMU2_setupExperiment {W : Type} (T : Target) (s : St W) (isToleranceUsed : fmi2Boolean)
    (toleranceValue currentTime : fmi2Real) (isTFinalUsed : fmi2Boolean) (TFinal : fmi2Real) :
    fmi2Boolean × St W :=
  let r := s.fmustruct.setupExperiment s.fmustruct.mFMIComp isToleranceUsed toleranceValue
    currentTime isTFinalUsed TFinal s.fmu
  let fmi2Flag := r.1
  let s : St W := { s with fmu := r.2 }
  let s := s.emit [.fmuCall .setupExperiment s.fmustruct.mFMIComp (some fmi2Flag)]
  CheckStatus T s fmi2Flag "fmi2SetupExperiment"

/-- `FMU2_enterInitializationMode`. -/
def FMU2_enterInitializationMode {W : Type} (T : Target) (s : St W) : fmi2Boolean × St W :=
  let r := s.fmustruct.enterInitializationMode s.fmustruct.mFMIComp s.fmu
  let fmi2Flag := r.1
  let s : St W := { s with fmu := r.2 }
  let s := s.emit [.fmuCall .enterInitializationMode s.fmustruct.mFMIComp (some fmi2Flag)]
  CheckStatus T s fmi2Flag "fmi2EnterInitializationMode"

/-- `FMU2_exitInitializationMode`. -/
def FMU2_exitInitializationMode {W : Type} (T : Target) (s : St W) : fmi2Boolean × St W :=
  let r := s.fmustruct.exitInitializationMode s.fmustruct.mFMIComp s.fmu
  let fmi2Flag := r.1
  let s : St W := { s with fmu := r.2 }
  let s := s.emit [.fmuCall .exitInitializationMode s.fmustruct.mFMIComp (some fmi2Flag)]
  let s : St W := { s with fmustruct := { s.fmustruct with modelInitialized := true } }
  CheckStatus T s fmi2Flag "fmi2ExitInitializationMode"

/-- `FMU2_terminate`.  After the call the slot still holds the (dangling) pointer; the record
it is shown with is the handle as it was when it was freed. -/
def FMU2_terminate {W : Type} (T : Target) (v : Slot W) : fmi2Boolean × Slot W :=
  match v.fmustruct with
  | none => (fmi2True, v)
  | some fmustruct =>
    let s : St W := { fmustruct := fmustruct, fmu := v.fmu, trace := v.trace }
    let r : fmi2Boolean × St W :=
      if s.fmustruct.FMUErrorStatus ≠ fmi2Fatal then
        let r : fmi2Boolean × St W :=
          if s.fmustruct.FMUErrorStatus ≠ fmi2Error ∧ s.fmustruct.modelInitialized = true then
            let t := s.fmustruct.terminate s.fmustruct.mFMIComp s.fmu
            let fmi2Flag := t.1
            let s : St W := { s with fmu := t.2 }
            let s := s.emit [.fmuCall .terminate s.fmustruct.mFMIComp (some fmi2Flag)]
            CheckStatus T s fmi2Flag "fmi2TerminateSlave"
          else (fmi2True, s)
        let s := r.2
        let w := s.fmustruct.freeInstance s.fmustruct.mFMIComp s.fmu
        let s : St W := { s with fmu := w }
        (r.1, s.emit [.fmuCall .freeInstance s.fmustruct.mFMIComp none])
      else (fmi2True, s)
    let returnStatus := r.1
    let s := r.2
    let s := if s.fmustruct.Handle ≠ NULL then s.emit [.closeLibrary s.fmustruct.Handle] else s
    let s := s.emit [.freeMemory (.paramIdxToOffset s.fmustruct.paramIdxToOffset),
      .freeMemory (.enumValueList s.fmustruct.enumValueList), .freeMemory .fmustruct]
    (returnStatus, { fmustruct := some s.fmustruct, fmu := s.fmu, trace := s.trace })

/-- `FMU2_doStep`.  `boolVal` is the indeterminate initial content of the local variable of
that name, which the FMU's `getBooleanStatus` is given to write to. -/
def FMU2_doStep {W : Type} (T : Target) (s : St W)
    (currentCommunicationPoint communicationStepSize : fmi2Real)
    (noSetFMUStatePriorToCurrentPoint : fmi2Boolean) (boolVal : fmi2Boolean) :
    fmi2Boolean × St W :=
  let r := s.fmustruct.doStep s.fmustruct.mFMIComp currentCommunicationPoint
    communicationStepSize noSetFMUStatePriorToCurrentPoint s.fmu
  let fmi2Flag := r.1
  let s : St W := { s with fmu := r.2 }
  let s := s.emit [.fmuCall .doStep s.fmustruct.mFMIComp (some fmi2Flag)]
  let s : St W :=
    if fmi2Flag = fmi2Discard then
      let q := s.fmustruct.getBooleanStatus s.fmustruct.mFMIComp .fmi2Terminated boolVal s.fmu
      let boolVal := q.2.1
      let s : St W := { s with fmu := q.2.2 }
      let s := s.emit [.fmuCall .getBooleanStatus s.fmustruct.mFMIComp (some q.1)]
      if boolVal = fmi2True then
        if T.lt_STANDALONE_TARGETS then
          let diagnostic := CreateDiagnosticAsVoidPtr "FMUBlock:FMU2:FMU2SimDoStepTerminated"
            [.str s.fmustruct.fmuname, .realText currentCommunicationPoint]
          s.emit [.rt_ssReportDiagnosticAsInfo s.fmustruct.ssPtr diagnostic,
            .ssSetStopRequested s.fmustruct.ssPtr 1]
        else
          let message := formatString
            "'fmi2Terminated' flag was set to true for FMU '%s' after 'fmi2DoStep' function returns 'fmi2Discard' at time %f."
            [.str s.fmustruct.fmuname, .realText currentCommunicationPoint]
          s.emit [.logger s.fmustruct.callbacks.componentEnvironment s.fmustruct.fmuname
            s.fmustruct.FMUErrorStatus "FMU2_doStep" message]
      else s
    else s
  CheckStatus T s fmi2Flag "fmi2DoStep"

/-- The event is the notice of `FMU2_doStep` that the FMU is terminated after a Discard: the
host info report `FMU2SimDoStepTerminated`, or the logger call of category `FMU2_doStep`. -/
def isTerminatedNotice : Event → Bool
  | .rt_ssReportDiagnosticAsInfo _ d => decide (d.id = "FMUBlock:FMU2:FMU2SimDoStepTerminated")
  | .logger _ _ _ category _ => decide (category = "FMU2_doStep")
  | _ => false

/-- `FMU2_enterEventMode`. -/
def FMU2_enterEventMode {W : Type} (T : Target) (s : St W) : fmi2Boolean × St W :=
  let r := s.fmustruct.enterEventMode s.fmustruct.mFMIComp s.fmu
  let fmi2Flag := r.1
  let s : St W := { s with fmu := r.2 }
  let s := s.emit [.fmuCall .enterEventMode s.fmustruct.mFMIComp (some fmi2Flag)]
  CheckStatus T s fmi2Flag "fmi2EnterEventMode"

/-- `FMU2_enterContinuousTimeMode`. -/
def FMU2_enterContinuousTimeMode {W : Type} (T : Target) (s : St W) : fmi2Boolean × St W :=
  let r := s.fmustruct.enterContinuousTimeMode s.fmustruct.mFMIComp s.fmu
  let fmi2Flag := r.1
  let s : St W := { s with fmu := r.2 }
  let s := s.emit [.fmuCall .enterContinuousTimeMode s.fmustruct.mFMIComp (some fmi2Flag)]
  CheckStatus T s fmi2Flag "fmi2EnterContinuousTimeMode"

/-- `FMU2_setTime`. -/
def FMU2_setTime {W : Type} (T : Target) (s : St W) (time : fmi2Real) : fmi2Boolean × St W :=
  let r := s.fmustruct.setTime s.fmustruct.mFMIComp time s.fmu
  let fmi2Flag := r.1
  let s : St W := { s with fmu := r.2 }
  let s := s.emit [.fmuCall .setTime s.fmustruct.mFMIComp (some fmi2Flag)]
  CheckStatus T s fmi2Flag "fmi2SetTime"

/-- `FMU2_simTerminate`. -/
def FMU2_simTerminate {W : Type} (T : Target) (s : St W) (blkPath : String) (time : fmi2Real) :
    St W :=
  if T.lt_STANDALONE_TARGETS then
    let diagnostic := CreateDiagnosticAsVoidPtr "FMUBlock:FMU2:FMU2SimEventUpdateTerminated"
      [.str blkPath, .real time]
    s.emit [.rt_ssReportDiagnosticAsInfo s.fmustruct.ssPtr diagnostic,
      .ssSetStopRequested s.fmustruct.ssPtr 1]
  else
    let message := formatString
      "'TerminateSimulation' flag was set to true by FMU '%s' during event iteration. Simulation will stop after the current time step at '%f'."
      [.str blkPath, .real time]
    s.emit [.logger s.fmustruct.callbacks.componentEnvironment s.fmustruct.fmuname
      s.fmustruct.FMUErrorStatus "FMU2_simTerminate" message]

/-- The statements of one pass of the `while` loop of `FMU2_eventIteration` that precede the
test of the iteration cap: the call of `newDiscreteStates`, the translation of its status and
the stop notice.  The result is the new value of `returnStatus`. -/
def FMU2_eventIteration.body {W : Type} (T : Target) (blkPath : String) (time : fmi2Real)
    (s : St W) : fmi2Boolean × St W :=
  /- safe call to newDiscreteStates -/
  let r := s.fmustruct.newDiscreteStates s.fmustruct.mFMIComp s.fmustruct.eventInfo s.fmu
  let fmi2Flag := r.1
  let s : St W := { s with fmustruct := { s.fmustruct with eventInfo := r.2.1 }, fmu := r.2.2 }
  let s := s.emit [.fmuCall .newDiscreteStates s.fmustruct.mFMIComp (some fmi2Flag)]
  let c := CheckStatus T s fmi2Flag "fmi2NewDiscreteStates"
  let returnStatus := c.1
  let s := c.2
  if returnStatus = fmi2True ∧ s.fmustruct.eventInfo.terminateSimulation = fmi2True then
    /- terminate the simulation (successfully) -/
    (returnStatus, FMU2_simTerminate T s blkPath time)
  else (returnStatus, s)

/-- The diagnostic of `FMU2_eventIteration` when `iterationNumber >= 10000`. -/
def FMU2_eventIteration.capReport {W : Type} (T : Target) (blkPath : String) (time : fmi2Real)
    (iterationNumber : Nat) (s : St W) : St W :=
  if T.lt_STANDALONE_TARGETS then
    let diagnostic := CreateDiagnosticAsVoidPtr "FMUBlock:FMU:FMUSimEventUpdateTerminated"
      [.real time, .int iterationNumber]
    s.emit [.rt_ssReportDiagnosticAsInfo s.fmustruct.ssPtr diagnostic]
  else
    let message := formatString
      "'TerminateSimulation' flag was set to true by FMU '%s' during event iteration. Simulation will stop after the current time step at '%f'."
      [.str blkPath, .real time]
    s.emit [.logger s.fmustruct.callbacks.componentEnvironment s.fmustruct.fmuname
      s.fmustruct.FMUErrorStatus "FMU2_eventIteration" message]

/-- The `while` loop of `FMU2_eventIteration`, entered with the local variables
`iterationNumber` and `returnStatus`.  Each pass of the loop consumes one unit of `fuel`;
`none` means the fuel ran out before the loop ended. -/
def FMU2_eventIteration.loop {W : Type} (T : Target) (blkPath : String) (time : fmi2Real) :
    Nat → Nat → fmi2Boolean → St W → Option (fmi2Boolean × St W)
  | 0, _, _, _ => none
  | fuel + 1, iterationNumber, returnStatus, s =>
    if s.fmustruct.eventInfo.newDiscreteStatesNeeded = fmi2True then
      let b := FMU2_eventIteration.body T blkPath time s
      let returnStatus := b.1
      let s := b.2
      if iterationNumber ≥ 10000 then
        let s := FMU2_eventIteration.capReport T blkPath time iterationNumber s
        let returnStatus := fmi2False
        some (returnStatus, s)
      else
        FMU2_eventIteration.loop T blkPath time fuel (iterationNumber + 1) returnStatus s
    else some (returnStatus, s)

/-- `FMU2_eventIteration`.  The loop is given 10001 units of fuel, which it never exhausts
(`FMU2_eventIteration_loop_fuel`). -/
def FMU2_eventIteration {W : Type} (T : Target) (s : St W) (blkPath : String)
    (time : fmi2Real) : Option (fmi2Boolean × St W) :=
  let s : St W :=
    { s with fmustruct :=
      { s.fmustruct with eventInfo :=
        { s.fmustruct.eventInfo with newDiscreteStatesNeeded := fmi2True } } }
  FMU2_eventIteration.loop T blkPath time 10001 0 fmi2True s

/-! ### The value accessors -/

/-- `FMU2_setRealVal`. -/
def FMU2_setRealVal {W : Type} (T : Target) (s : St W) (dvr : fmi2ValueReference) (nvr : Nat)
    (dvalue : fmi2Real) : fmi2Boolean × St W :=
  let vr := dvr
  let value := dvalue
  let r := s.fmustruct.setReal s.fmustruct.mFMIComp [vr] nvr [value] s.fmu
  let fmi2Flag := r.1
  let s : St W := { s with fmu := r.2 }
  let s := s.emit [.fmuAccess .setReal s.fmustruct.mFMIComp [vr] nvr 1 fmi2Flag]
  CheckStatus T s fmi2Flag "fmi2SetReal"

/-- `FMU2_setReal`. -/
def FMU2_setReal {W : Type} (T : Target) (s : St W) (dvr : fmi2ValueReference) (nvr : Nat)
    (value : List fmi2Real) : fmi2Boolean × St W :=
  let vr := dvr
  let r := s.fmustruct.setReal s.fmustruct.mFMIComp [vr] nvr value s.fmu
  let fmi2Flag := r.1
  let s : St W := { s with fmu := r.2 }
  let s := s.emit [.fmuAccess .setReal s.fmustruct.mFMIComp [vr] nvr value.length fmi2Flag]
  CheckStatus T s fmi2Flag "fmi2SetReal"

/-- `FMU2_getReal`; `value` is the content of the caller's array before the call, and the
second component of the result is its content after the call. -/
def FMU2_getReal {W : Type} (T : Target) (s : St W) (dvr : fmi2ValueReference) (nvr : Nat)
    (value : List fmi2Real) : fmi2Boolean × List fmi2Real × St W :=
  let vr := dvr
  let r := s.fmustruct.getReal s.fmustruct.mFMIComp [vr] nvr value s.fmu
  let fmi2Flag := r.1
  let s : St W := { s with fmu := r.2.2 }
  let s := s.emit [.fmuAccess .getReal s.fmustruct.mFMIComp [vr] nvr value.length fmi2Flag]
  let c := CheckStatus T s fmi2Flag "fmi2GetReal"
  (c.1, r.2.1, c.2)

/-- `FMU2_setIntegerVal`. -/
def FMU2_setIntegerVal {W : Type} (T : Target) (s : St W) (dvr : fmi2ValueReference) (nvr : Nat)
    (dvalue : fmi2Integer) : fmi2Boolean × St W :=
  let vr := dvr
  let value := dvalue
  let r := s.fmustruct.setInteger s.fmustruct.mFMIComp [vr] nvr [value] s.fmu
  let fmi2Flag := r.1
  let s : St W := { s with fmu := r.2 }
  let s := s.emit [.fmuAccess .setInteger s.fmustruct.mFMIComp [vr] nvr 1 fmi2Flag]
  CheckStatus T s fmi2Flag "fmi2SetInteger"

/-- `FMU2_setInteger`. -/
def FMU2_setInteger {W : Type} (T : Target) (s : St W) (dvr : fmi2ValueReference) (nvr : Nat)
    (value : List fmi2Integer) : fmi2Boolean × St W :=
  let vr := dvr
  let r := s.fmustruct.setInteger s.fmustruct.mFMIComp [vr] nvr value s.fmu
  let fmi2Flag := r.1
  let s : St W := { s with fmu := r.2 }
  let s := s.emit [.fmuAccess .setInteger s.fmustruct.mFMIComp [vr] nvr value.length fmi2Flag]
  CheckStatus T s fmi2Flag "fmi2SetInteger"

/-- `FMU2_getInteger`; `value` is the content of the caller's array before the call, and the
second component of the result is its content after the call. -/
def FMU2_getInteger {W : Type} (T : Target) (s : St W) (dvr : fmi2ValueReference) (nvr : Nat)
    (value : List fmi2Integer) : fmi2Boolean × List fmi2Integer × St W :=
  let vr := dvr
  let r := s.fmustruct.getInteger s.fmustruct.mFMIComp [vr] nvr value s.fmu
  let fmi2Flag := r.1
  let s : St W := { s with fmu := r.2.2 }
  let s := s.emit [.fmuAccess .getInteger s.fmustruct.mFMIComp [vr] nvr value.length fmi2Flag]
  let c := CheckStatus T s fmi2Flag "fmi2GetInteger"
  (c.1, r.2.1, c.2)

/-- `FMU2_setBooleanVal`. -/
def FMU2_setBooleanVal {W : Type} (T : Target) (s : St W) (dvr : fmi2ValueReference) (nvr : Nat)
    (dvalue : fmi2Boolean) : fmi2Boolean × St W :=
  let vr := dvr
  let value := dvalue
  let r := s.fmustruct.setBoolean s.fmustruct.mFMIComp [vr] nvr [value] s.fmu
  let fmi2Flag := r.1
  let s : St W := { s with fmu := r.2 }
  let s := s.emit [.fmuAccess .setBoolean s.fmustruct.mFMIComp [vr] nvr 1 fmi2Flag]
  CheckStatus T s fmi2Flag "fmi2SetBoolean"

/-- `FMU2_setBoolean`. -/
def FMU2_setBoolean {W : Type} (T : Target) (s : St W) (dvr : fmi2ValueReference) (nvr : Nat)
    (value : List fmi2Boolean) : fmi2Boolean × St W :=
  let vr := dvr
  let r := s.fmustruct.setBoolean s.fmustruct.mFMIComp [vr] nvr value s.fmu
  let fmi2Flag := r.1
  let s : St W := { s with fmu := r.2 }
  let s := s.emit [.fmuAccess .setBoolean s.fmustruct.mFMIComp [vr] nvr value.length fmi2Flag]
  CheckStatus T s fmi2Flag "fmi2SetBoolean"

/-- `FMU2_getBoolean`; `value` is the content of the caller's array before the call, and the
second component of the result is its content after the call. -/
def FMU2_getBoolean {W : Type} (T : Target) (s : St W) (dvr : fmi2ValueReference) (nvr : Nat)
    (value : List fmi2Boolean) : fmi2Boolean × List fmi2Boolean × St W :=
  let vr := dvr
  let r := s.fmustruct.getBoolean s.fmustruct.mFMIComp [vr] nvr value s.fmu
  let fmi2Flag := r.1
  let s : St W := { s with fmu := r.2.2 }
  let s := s.emit [.fmuAccess .getBoolean s.fmustruct.mFMIComp [vr] nvr value.length fmi2Flag]
  let c := CheckStatus T s fmi2Flag "fmi2GetBoolean"
  (c.1, r.2.1, c.2)

/-- `FMU2_setStringVal`. -/
def FMU2_setStringVal {W : Type} (T : Target) (s : St W) (dvr : fmi2ValueReference) (nvr : Nat)
    (dvalue : fmi2String) : fmi2Boolean × St W :=
  let vr := dvr
  let value := dvalue
  let r := s.fmustruct.setString s.fmustruct.mFMIComp [vr] nvr [value] s.fmu
  let fmi2Flag := r.1
  let s : St W := { s with fmu := r.2 }
  let s := s.emit [.fmuAccess .setString s.fmustruct.mFMIComp [vr] nvr 1 fmi2Flag]
  CheckStatus T s fmi2Flag "fmiSetString"

/-- `FMU2_setString`. -/
def FMU2_setString {W : Type} (T : Target) (s : St W) (dvr : fmi2ValueReference) (nvr : Nat)
    (value : List fmi2String) : fmi2Boolean × St W :=
  let vr := dvr
  let r := s.fmustruct.setString s.fmustruct.mFMIComp [vr] nvr value s.fmu
  let fmi2Flag := r.1
  let s : St W := { s with fmu := r.2 }
  let s := s.emit [.fmuAccess .setString s.fmustruct.mFMIComp [vr] nvr value.length fmi2Flag]
  CheckStatus T s fmi2Flag "fmi2SetString"

/-- `FMU2_getString`; `value` is the content of the caller's array before the call, and the
second component of the result is its content after the call. -/
def FMU2_getString {W : Type} (T : Target) (s : St W) (dvr : fmi2ValueReference) (nvr : Nat)
    (value : List fmi2String) : fmi2Boolean × List fmi2String × St W :=
  let vr := dvr
  let r := s.fmustruct.getString s.fmustruct.mFMIComp [vr] nvr value s.fmu
  let fmi2Flag := r.1
  let s : St W := { s with fmu := r.2.2 }
  let s := s.emit [.fmuAccess .getString s.fmustruct.mFMIComp [vr] nvr value.length fmi2Flag]
  let c := CheckStatus T s fmi2Flag "fmi2GetString"
  (c.1, r.2.1, c.2)

/-! ### The model-exchange wrappers on the continuous states -/

/-- `FMU2_completedIntegratorStep`; `enterEventMode` and `terminateSimulation` are the contents
of the caller's two objects before the call, and the second and third components of the result
are their contents after the call. -/
def FMU2_completedIntegratorStep {W : Type} (T : Target) (s : St W)
    (noSetFMUStatePriorToCurrentPoint enterEventMode terminateSimulation : fmi2Boolean) :
    fmi2Boolean × fmi2Boolean × fmi2Boolean × St W :=
  let r := s.fmustruct.completedIntegratorStep s.fmustruct.mFMIComp
    noSetFMUStatePriorToCurrentPoint enterEventMode terminateSimulation s.fmu
  let fmi2Flag := r.1
  let s : St W := { s with fmu := r.2.2.2 }
  let s := s.emit [.fmuCall .completedIntegratorStep s.fmustruct.mFMIComp (some fmi2Flag)]
  let c := CheckStatus T s fmi2Flag "fmi2CompletedIntegratorStep"
  (c.1, r.2.1, r.2.2.1, c.2)

/-- `FMU2_setContinuousStates`. -/
def FMU2_setContinuousStates {W : Type} (T : Target) (s : St W) (states : List fmi2Real) (nx : Nat) :
    fmi2Boolean × St W :=
  let r := s.fmustruct.setContinuousStates s.fmustruct.mFMIComp states nx s.fmu
  let fmi2Flag := r.1
  let s : St W := { s with fmu := r.2 }
  let s := s.emit [.fmuCall .setContinuousStates s.fmustruct.mFMIComp (some fmi2Flag)]
  CheckStatus T s fmi2Flag "fmi2SetContinuousStates"

/-- `FMU2_getDerivatives`; `derivatives` is the content of the caller's array before the call, and the
second component of the result is its content after the call. -/
def FMU2_getDerivatives {W : Type} (T : Target) (s : St W) (derivatives : List fmi2Real) (nx : Nat) :
    fmi2Boolean × List fmi2Real × St W :=
  let r := s.fmustruct.getDerivatives s.fmustruct.mFMIComp derivatives nx s.fmu
  let fmi2Flag := r.1
  let s : St W := { s with fmu := r.2.2 }
  let s := s.emit [.fmuCall .getDerivatives s.fmustruct.mFMIComp (some fmi2Flag)]
  let c := CheckStatus T s fmi2Flag "fmi2GetDerivatives"
  (c.1, r.2.1, c.2)

/-- `FMU2_getEventIndicators`; `eventIndicators` is the content of the caller's array before the call, and the
second component of the result is its content after the call. -/
def FMU2_getEventIndicators {W : Type} (T : Target) (s : St W) (eventIndicators : List fmi2Real) (nx : Nat) :
    fmi2Boolean × List fmi2Real × St W :=
  let r := s.fmustruct.getEventIndicators s.fmustruct.mFMIComp eventIndicators nx s.fmu
  let fmi2Flag := r.1
  let s : St W := { s with fmu := r.2.2 }
  let s := s.emit [.fmuCall .getEventIndicators s.fmustruct.mFMIComp (some fmi2Flag)]
  let c := CheckStatus T s fmi2Flag "fmi2GetEventIndicators"
  (c.1, r.2.1, c.2)

/-- `FMU2_getContinuousStates`; `states` is the content of the caller's array before the call, and the
second component of the result is its content after the call. -/
def FMU2_getContinuousStates {W : Type} (T : Target) (s : St W) (states : List fmi2Real) (nx : Nat) :
    fmi2Boolean × List fmi2Real × St W :=
  let r := s.fmustruct.getContinuousStates s.fmustruct.mFMIComp states nx s.fmu
  let fmi2Flag := r.1
  let s : St W := { s with fmu := r.2.2 }
  let s := s.emit [.fmuCall .getContinuousStates s.fmustruct.mFMIComp (some fmi2Flag)]
  let c := CheckStatus T s fmi2Flag "fmi2GetContinuousStates"
  (c.1, r.2.1, c.2)

/-- `FMU2_getNominalsOfContinuousStates`; `states` is the content of the caller's array before the call, and the
second component of the result is its content after the call. -/
def FMU2_getNominalsOfContinuousStates {W : Type} (T : Target) (s : St W) (states : List fmi2Real) (nx : Nat) :
    fmi2Boolean × List fmi2Real × St W :=
  let r := s.fmustruct.getNominalsOfContinuousStates s.fmustruct.mFMIComp states nx s.fmu
  let fmi2Flag := r.1
  let s : St W := { s with fmu := r.2.2 }
  let s := s.emit [.fmuCall .getNominalsOfContinuousStates s.fmustruct.mFMIComp (some fmi2Flag)]
  let c := CheckStatus T s fmi2Flag "fmi2GetNominalsOfContinuousStates"
  (c.1, r.2.1, c.2)

/-! ### The helpers that read the event info -/

/-- `FMU2_getNextEventTime`: the values written to `*nextEventTime` and to
`*upcomingTimeEvent` (an `int32_T`, shown as a Boolean); the handle is only read. -/
def FMU2_getNextEventTime {W : Type} (s : St W) : fmi2Real × fmi2Boolean :=
  (s.fmustruct.eventInfo.nextEventTime, s.fmustruct.eventInfo.nextEventTimeDefined)

/-- `FMU2_valuesOfContinuousStatesChanged`: the value written to `*stateChanged` (an `int`,
shown as a Boolean); the handle is only read. -/
def FMU2_valuesOfContinuousStatesChanged {W : Type} (s : St W) : fmi2Boolean :=
  s.fmustruct.eventInfo.valuesOfContinuousStatesChanged

/-- A call of a function of the driver on a non-null handle, for sequences of calls: every
function of RTWCG_FMU2_target.c that takes the handle, in the order of the file, but the
initialization, which makes the handle, `FMU2_terminate`, which frees it, and the six helpers of
the parameter-offset and enum-value arrays (`createParamIdxToOffset` to `getEnumValueByIdx`),
which allocate, write and read the two arrays that the handle points to: they call
`CheckStatus` and the function table nowhere, and the arrays are not embedded. -/
inductive DriverCall
  | setupExperiment (tolUsed : Bool) (tol t0 : fmiReal) (tFinalUsed : Bool) (tFinal : fmiReal)
  | enterInitializationMode
  | exitInitializationMode
  | doStep (currentCommunicationPoint communicationStepSize : fmi2Real)
      (noSetFMUStatePriorToCurrentPoint boolVal : fmi2Boolean)
  | setRealVal (dvr : fmiValueReference) (nvr : Nat) (dvalue : fmiReal)
  | setReal (dvr : fmiValueReference) (nvr : Nat) (value : List fmiReal)
  | getReal (dvr : fmiValueReference) (nvr : Nat) (value : List fmiReal)
  | setIntegerVal (dvr : fmiValueReference) (nvr : Nat) (dvalue : fmiInteger)
  | setInteger (dvr : fmiValueReference) (nvr : Nat) (value : List fmiInteger)
  | getInteger (dvr : fmiValueReference) (nvr : Nat) (value : List fmiInteger)
  | setBooleanVal (dvr : fmiValueReference) (nvr : Nat) (dvalue : Bool)
  | setBoolean (dvr : fmiValueReference) (nvr : Nat) (value : List Bool)
  | getBoolean (dvr : fmiValueReference) (nvr : Nat) (value : List Bool)
  | setStringVal (dvr : fmiValueReference) (nvr : Nat) (dvalue : String)
  | setString (dvr : fmiValueReference) (nvr : Nat) (value : List String)
  | getString (dvr : fmiValueReference) (nvr : Nat) (value : List String)
  | enterEventMode
  | enterContinuousTimeMode
  | completedIntegratorStep (noSet enterEvent terminate : Bool)
  | setTime (time : fmiReal)
  | setContinuousStates (states : List fmiReal) (nx : Nat)
  | getDerivatives (derivatives : List fmiReal) (nx : Nat)
  | getEventIndicators (eventIndicators : List fmiReal) (nx : Nat)
  | getContinuousStates (states : List fmiReal) (nx : Nat)
  | getNominalsOfContinuousStates (states : List fmiReal) (nx : Nat)
  | getNextEventTime
  | simTerminate (blkPath : String) (time : fmi2Real)
  | eventIteration (blkPath : String) (time : fmi2Real)
  | valuesOfContinuousStatesChanged
  deriving Repr

/-- Run one driver call: the system after it, whatever the call returns. -/
def DriverCall.exec {W : Type} (T : Target) : DriverCall → St W → Option (St W)
  | .setupExperiment tolUsed tol t0 tFinalUsed tFinal, s =>
      some (FMU2_setupExperiment T s tolUsed tol t0 tFinalUsed tFinal).2
  | .enterInitializationMode, s => some (FMU2_enterInitializationMode T s).2
  | .exitInitializationMode, s => some (FMU2_exitInitializationMode T s).2
  | .doStep currentCommunicationPoint communicationStepSize noSetFMUStatePriorToCurrentPoint
      boolVal, s =>
      some (FMU2_doStep T s currentCommunicationPoint communicationStepSize
        noSetFMUStatePriorToCurrentPoint boolVal).2
  | .setRealVal dvr nvr dvalue, s => some (FMU2_setRealVal T s dvr nvr dvalue).2
  | .setReal dvr nvr value, s => some (FMU2_setReal T s dvr nvr value).2
  | .getReal dvr nvr value, s => some (FMU2_getReal T s dvr nvr value).2.2
  | .setIntegerVal dvr nvr dvalue, s => some (FMU2_setIntegerVal T s dvr nvr dvalue).2
  | .setInteger dvr nvr value, s => some (FMU2_setInteger T s dvr nvr value).2
  | .getInteger dvr nvr value, s => some (FMU2_getInteger T s dvr nvr value).2.2
  | .setBooleanVal dvr nvr dvalue, s => some (FMU2_setBooleanVal T s dvr nvr dvalue).2
  | .setBoolean dvr nvr value, s => some (FMU2_setBoolean T s dvr nvr value).2
  | .getBoolean dvr nvr value, s => some (FMU2_getBoolean T s dvr nvr value).2.2
  | .setStringVal dvr nvr dvalue, s => some (FMU2_setStringVal T s dvr nvr dvalue).2
  | .setString dvr nvr value, s => some (FMU2_setString T s dvr nvr value).2
  | .getString dvr nvr value, s => some (FMU2_getString T s dvr nvr value).2.2
  | .enterEventMode, s => some (FMU2_enterEventMode T s).2
  | .enterContinuousTimeMode, s => some (FMU2_enterContinuousTimeMode T s).2
  | .completedIntegratorStep noSet enterEvent terminate, s =>
      some (FMU2_completedIntegratorStep T s noSet enterEvent terminate).2.2.2
  | .setTime time, s => some (FMU2_setTime T s time).2
  | .setContinuousStates states nx, s => some (FMU2_setContinuousStates T s states nx).2
  | .getDerivatives derivatives nx, s => some (FMU2_getDerivatives T s derivatives nx).2.2
  | .getEventIndicators eventIndicators nx, s =>
      some (FMU2_getEventIndicators T s eventIndicators nx).2.2
  | .getContinuousStates states nx, s => some (FMU2_getContinuousStates T s states nx).2.2
  | .getNominalsOfContinuousStates states nx, s =>
      some (FMU2_getNominalsOfContinuousStates T s states nx).2.2
  | .getNextEventTime, s => let _ := FMU2_getNextEventTime s; some s
  | .simTerminate blkPath time, s => some (FMU2_simTerminate T s blkPath time)
  | .eventIteration blkPath time, s => (FMU2_eventIteration T s blkPath time).map Prod.snd
  | .valuesOfContinuousStatesChanged, s =>
      let _ := FMU2_valuesOfContinuousStatesChanged s; some s

/-- Run a sequence of driver calls on one handle, one after the other, whatever each call
returns. -/
def runCalls {W : Type} (T : Target) : List DriverCall → St W → Option (St W)
  | [], s => some s
  | c :: cs, s =>
    match c.exec T s with
    | none => none
    | some s => runCalls T cs s

/-- The handle slot that points to the handle of `s`. -/
def slot {W : Type} (s : St W) : Slot W :=
  { fmustruct := some s.fmustruct, fmu := s.fmu, trace := s.trace }

/-- A scripted FMU for examples: its state is the list of statuses it has still to return; it
returns them one per call, and `fmi2OK` once the list is used up.  `newDiscreteStates` reports
that no further discrete-state update is needed, and `getBooleanStatus` answers true. -/
def mockScripted : FMU2_CSME_RTWCG (List fmiStatus) where
  ssPtr := 1
  fmuname := "fmu"
  dllfile := "fmu.so"
  Handle := 7
  FMUErrorStatus := fmi2OK
  modelInitialized := false
  mFMIComp := 9
  callbacks := { componentEnvironment := 1 }
  eventInfo :=
    { newDiscreteStatesNeeded := fmi2False, terminateSimulation := fmi2False,
      valuesOfContinuousStatesChanged := fmi2False, nextEventTimeDefined := fmi2False,
      nextEventTime := 0 }
  paramIdxToOffset := 11
  enumValueList := 13
  setupExperiment := fun _ _ _ _ _ _ w => (w.headD fmi2OK, w.tail)
  enterInitializationMode := fun _ w => (w.headD fmi2OK, w.tail)
  exitInitializationMode := fun _ w => (w.headD fmi2OK, w.tail)
  terminate := fun _ w => (w.headD fmi2OK, w.tail)
  freeInstance := fun _ w => w
  enterEventMode := fun _ w => (w.headD fmi2OK, w.tail)
  newDiscreteStates := fun _ ei w =>
    (w.headD fmi2OK, { ei with newDiscreteStatesNeeded := fmi2False }, w.tail)
  enterContinuousTimeMode := fun _ w => (w.headD fmi2OK, w.tail)
  setTime := fun _ _ w => (w.headD fmi2OK, w.tail)
  doStep := fun _ _ _ _ w => (w.headD fmi2OK, w.tail)
  getBooleanStatus := fun _ _ _ w => (w.headD fmi2OK, fmi2True, w.tail)
  instantiate := fun _ _ _ _ _ _ _ w => (9, w)
  setReal := fun _ _ _ _ w => (w.headD fmi2OK, w.tail)
  getReal := fun _ _ _ value w => (w.headD fmi2OK, value, w.tail)
  setInteger := fun _ _ _ _ w => (w.headD fmi2OK, w.tail)
  getInteger := fun _ _ _ value w => (w.headD fmi2OK, value, w.tail)
  setBoolean := fun _ _ _ _ w => (w.headD fmi2OK, w.tail)
  getBoolean := fun _ _ _ value w => (w.headD fmi2OK, value, w.tail)
  setString := fun _ _ _ _ w => (w.headD fmi2OK, w.tail)
  getString := fun _ _ _ value w => (w.headD fmi2OK, value, w.tail)
  completedIntegratorStep := fun _ _ enterEventMode terminateSimulation w =>
    (w.headD fmi2OK, enterEventMode, terminateSimulation, w.tail)
  setContinuousStates := fun _ _ _ w => (w.headD fmi2OK, w.tail)
  getDerivatives := fun _ x _ w => (w.headD fmi2OK, x, w.tail)
  getEventIndicators := fun _ x _ w => (w.headD fmi2OK, x, w.tail)
  getContinuousStates := fun _ x _ w => (w.headD fmi2OK, x, w.tail)
  getNominalsOfContinuousStates := fun _ x _ w => (w.headD fmi2OK, x, w.tail)

/-- An FMU for examples whose `newDiscreteStates` always returns `fmi2OK` and always asks for
another discrete-state update; its state counts the calls of `newDiscreteStates`. -/
def mockNeverConverges : FMU2_CSME_RTWCG Nat where
  ssPtr := 1
  fmuname := "fmu"
  dllfile := "fmu.so"
  Handle := 7
  FMUErrorStatus := fmi2OK
  modelInitialized := true
  mFMIComp := 9
  callbacks := { componentEnvironment := 1 }
  eventInfo :=
    { newDiscreteStatesNeeded := fmi2False, terminateSimulation := fmi2False,
      valuesOfContinuousStatesChanged := fmi2False, nextEventTimeDefined := fmi2False,
      nextEventTime := 0 }
  paramIdxToOffset := 11
  enumValueList := 13
  setupExperiment := fun _ _ _ _ _ _ w => (fmi2OK, w)
  enterInitializationMode := fun _ w => (fmi2OK, w)
  exitInitializationMode := fun _ w => (fmi2OK, w)
  terminate := fun _ w => (fmi2OK, w)
  freeInstance := fun _ w => w
  enterEventMode := fun _ w => (fmi2OK, w)
  newDiscreteStates := fun _ ei w =>
    (fmi2OK, { ei with newDiscreteStatesNeeded := fmi2True }, w + 1)
  enterContinuousTimeMode := fun _ w => (fmi2OK, w)
  setTime := fun _ _ w => (fmi2OK, w)
  doStep := fun _ _ _ _ w => (fmi2OK, w)
  getBooleanStatus := fun _ _ value w => (fmi2OK, value, w)
  instantiate := fun _ _ _ _ _ _ _ w => (9, w)
  setReal := fun _ _ _ _ w => (fmi2OK, w)
  getReal := fun _ _ _ value w => (fmi2OK, value, w)
  setInteger := fun _ _ _ _ w => (fmi2OK, w)
  getInteger := fun _ _ _ value w => (fmi2OK, value, w)
  setBoolean := fun _ _ _ _ w => (fmi2OK, w)
  getBoolean := fun _ _ _ value w => (fmi2OK, value, w)
  setString := fun _ _ _ _ w => (fmi2OK, w)
  getString := fun _ _ _ value w => (fmi2OK, value, w)
  completedIntegratorStep := fun _ _ enterEventMode terminateSimulation w =>
    (fmi2OK, enterEventMode, terminateSimulation, w)
  setContinuousStates := fun _ _ _ w => (fmi2OK, w)
  getDerivatives := fun _ x _ w => (fmi2OK, x, w)
  getEventIndicators := fun _ x _ w => (fmi2OK, x, w)
  getContinuousStates := fun _ x _ w => (fmi2OK, x, w)
  getNominalsOfContinuousStates := fun _ x _ w => (fmi2OK, x, w)

/-- The event is the stop notice of `FMU2_simTerminate`: the host info report
`FMU2SimEventUpdateTerminated`, or the logger call of category `FMU2_simTerminate`. -/
def isStopNotice : Event → Bool
  | .rt_ssReportDiagnosticAsInfo _ d =>
      decide (d.id = "FMUBlock:FMU2:FMU2SimEventUpdateTerminated")
  | .logger _ _ _ category _ => decide (category = "FMU2_simTerminate")
  | _ => false

/-- An FMU for examples whose `newDiscreteStates` returns `fmi2Error` on its first call, still
asking for another discrete-state update, and `fmi2OK` with no further update needed on every
later call; its state counts the calls of `newDiscreteStates`. -/
def mockErrorThenOK : FMU2_CSME_RTWCG Nat :=
  { mockNeverConverges with
    newDiscreteStates := fun _ ei w =>
      if w = 0 then (fmi2Error, { ei with newDiscreteStatesNeeded := fmi2True }, 1)
      else (fmi2OK, { ei with newDiscreteStatesNeeded := fmi2False }, w + 1) }

/-- An FMU for examples whose `newDiscreteStates` always returns `fmi2OK` with
`terminateSimulation` set, and asks for another discrete-state update on its first call only;
its state counts the calls of `newDiscreteStates`. -/
def mockStopRequested : FMU2_CSME_RTWCG Nat :=
  { mockNeverConverges with
    newDiscreteStates := fun _ ei w =>
      (fmi2OK, { ei with newDiscreteStatesNeeded := decide (w = 0),
                         terminateSimulation := fmi2True }, w + 1) }

/-! ### Loading the library and instantiating the FMU -/

/-- The platform's dynamic-loading primitives (the macros `LOAD_LIBRARY` and `LOAD_FUNCTION`
of the header, which is not among the sources) and the code of the library they load. -/
structure Loader (W : Type) where
  /-- `LOAD_LIBRARY(dllfile)`: the library handle, `NULL` on failure. -/
  LOAD_LIBRARY : String → Ptr
  /-- The text that `getLoadLibraryErrorMessage()` renders from `dlerror()` or
  `GetLastError()`. -/
  getLoadLibraryErrorMessage : String
  /-- Whether `LOAD_FUNCTION(handle, name)` is not `NULL`. -/
  LOAD_FUNCTION : Ptr → String → Bool
  /- The code of the library at a symbol, run with the signature of a table entry. -/
  setupExperiment : String →
    fmi2Component → fmi2Boolean → fmi2Real → fmi2Real → fmi2Boolean → fmi2Real → W → fmi2Status × W
  enterInitializationMode : String → fmi2Component → W → fmi2Status × W
  exitInitializationMode : String → fmi2Component → W → fmi2Status × W
  terminate : String → fmi2Component → W → fmi2Status × W
  freeInstance : String → fmi2Component → W → W
  enterEventMode : String → fmi2Component → W → fmi2Status × W
  newDiscreteStates : String → fmi2Component → fmi2EventInfo → W → fmi2Status × fmi2EventInfo × W
  enterContinuousTimeMode : String → fmi2Component → W → fmi2Status × W
  setTime : String → fmi2Component → fmi2Real → W → fmi2Status × W
  doStep : String → fmi2Component → fmi2Real → fmi2Real → fmi2Boolean → W → fmi2Status × W
  getBooleanStatus : String →
    fmi2Component → fmi2StatusKind → fmi2Boolean → W → fmi2Status × fmi2Boolean × W
  instantiate : String →
    String → fmi2Type → String → String → fmi2CallbackFunctions → fmi2Boolean → fmi2Boolean →
      W → fmi2Component × W
  setReal : String →
    fmi2Component → List fmi2ValueReference → Nat → List fmi2Real → W → fmi2Status × W
  getReal : String →
    fmi2Component → List fmi2ValueReference → Nat → List fmi2Real → W → fmi2Status × List fmi2Real × W
  setInteger : String →
    fmi2Component → List fmi2ValueReference → Nat → List fmi2Integer → W → fmi2Status × W
  getInteger : String →
    fmi2Component → List fmi2ValueReference → Nat → List fmi2Integer → W → fmi2Status × List fmi2Integer × W
  setBoolean : String →
    fmi2Component → List fmi2ValueReference → Nat → List fmi2Boolean → W → fmi2Status × W
  getBoolean : String →
    fmi2Component → List fmi2ValueReference → Nat → List fmi2Boolean → W → fmi2Status × List fmi2Boolean × W
  setString : String →
    fmi2Component → List fmi2ValueReference → Nat → List fmi2String → W → fmi2Status × W
  getString : String →
    fmi2Component → List fmi2ValueReference → Nat → List fmi2String → W → fmi2Status × List fmi2String × W
  completedIntegratorStep : String →
    fmi2Component → fmi2Boolean → fmi2Boolean → fmi2Boolean → W →
    fmi2Status × fmi2Boolean × fmi2Boolean × W
  setContinuousStates : String →
    fmi2Component → List fmi2Real → Nat → W → fmi2Status × W
  getDerivatives : String →
    fmi2Component → List fmi2Real → Nat → W → fmi2Status × List fmi2Real × W
  getEventIndicators : String →
    fmi2Component → List fmi2Real → Nat → W → fmi2Status × List fmi2Real × W
  getContinuousStates : String →
    fmi2Component → List fmi2Real → Nat → W → fmi2Status × List fmi2Real × W
  getNominalsOfContinuousStates : String →
    fmi2Component → List fmi2Real → Nat → W → fmi2Status × List fmi2Real × W

/-- The handle as `allocateMemory(1, sizeof(struct FMU2_CSME_RTWCG))` returns it, filled with
zeros.  Its table entries are null pointers, which are not called before they are loaded; the
embedding shows a null entry with the behaviour of the stub `defaultfcn`: the stub reads its
first argument only, writes to none, and its status is what a caller gets back (read as a
pointer by a caller that expects the component of `instantiate`, whose first argument, the
instance name, is not null). -/
def zeroed {W : Type} : FMU2_CSME_RTWCG W where
  ssPtr := NULL
  fmuname := ""
  dllfile := ""
  Handle := NULL
  FMUErrorStatus := fmi2OK
  modelInitialized := false
  mFMIComp := NULL
  callbacks := { componentEnvironment := NULL }
  eventInfo :=
    { newDiscreteStatesNeeded := fmi2False, terminateSimulation := fmi2False,
      valuesOfContinuousStatesChanged := fmi2False, nextEventTimeDefined := fmi2False,
      nextEventTime := 0 }
  paramIdxToOffset := NULL
  enumValueList := NULL
  setupExperiment := fun c _ _ _ _ _ w => (defaultfcn c, w)
  enterInitializationMode := fun c w => (defaultfcn c, w)
  exitInitializationMode := fun c w => (defaultfcn c, w)
  terminate := fun c w => (defaultfcn c, w)
  freeInstance := fun _ w => w
  enterEventMode := fun c w => (defaultfcn c, w)
  newDiscreteStates := fun c ei w => (defaultfcn c, ei, w)
  enterContinuousTimeMode := fun c w => (defaultfcn c, w)
  setTime := fun c _ w => (defaultfcn c, w)
  doStep := fun c _ _ _ w => (defaultfcn c, w)
  getBooleanStatus := fun c _ value w => (defaultfcn c, value, w)
  instantiate := fun _ _ _ _ _ _ _ w => ((defaultfcn 1).code, w)
  setReal := fun c _ _ _ w => (defaultfcn c, w)
  getReal := fun c _ _ value w => (defaultfcn c, value, w)
  setInteger := fun c _ _ _ w => (defaultfcn c, w)
  getInteger := fun c _ _ value w => (defaultfcn c, value, w)
  setBoolean := fun c _ _ _ w => (defaultfcn c, w)
  getBoolean := fun c _ _ value w => (defaultfcn c, value, w)
  setString := fun c _ _ _ w => (defaultfcn c, w)
  getString := fun c _ _ value w => (defaultfcn c, value, w)
  completedIntegratorStep := fun c _ enterEventMode terminateSimulation w =>
    (defaultfcn c, enterEventMode, terminateSimulation, w)
  setContinuousStates := fun c _ _ w => (defaultfcn c, w)
  getDerivatives := fun c x _ w => (defaultfcn c, x, w)
  getEventIndicators := fun c x _ w => (defaultfcn c, x, w)
  getContinuousStates := fun c x _ w => (defaultfcn c, x, w)
  getNominalsOfContinuousStates := fun c x _ w => (defaultfcn c, x, w)

/-- Modelled from the spec: the model FMU of the round-trip property, which stores the real
value set for each value reference, returns it unchanged on get and always reports OK.  Its
state is the store; `setReal` and `getReal` treat the first `nvr` value references. -/
def mockEcho : FMU2_CSME_RTWCG (fmi2ValueReference → fmi2Real) :=
  { zeroed with
    mFMIComp := 9
    setReal := fun _ vr nvr value w =>
      (fmi2OK, ((vr.take nvr).zip value).foldl (fun w p => Function.update w p.1 p.2) w)
    getReal := fun _ vr nvr value w => (fmi2OK, (vr.take nvr).map w ++ value.drop nvr, w) }

/-- The symbol that `LoadFMUFcn` of RTWCG_FMU2_target.c looks up for `fcnName`. -/
def lookupName {W : Type} (T : Target) (s : St W) (fcnName : String) : String :=
  if T.WIN32 then fcnName
  else if T.eq_SLRT then
    /- creating a char array "fmuname_functionName" as the name to fetch from .so file. -/
    fullFcnName T s.fmustruct.fmuname fcnName
  else fcnName

/-- `LoadFMUFcn` of RTWCG_FMU2_target.c. -/
def LoadFMUFcn {W : Type} (T : Target) (P : Loader W) (s : St W) (fcnName : String)
    (isOptional : Bool) : FcnPtr × St W :=
  let name := lookupName T s fcnName
  let resolved := P.LOAD_FUNCTION s.fmustruct.Handle name
  let fcn : FcnPtr := if resolved = true then .symbol name else .null
  let s := s.emit [.loadFunction s.fmustruct.Handle name resolved]
  if isOptional = false ∧ fcn = .null then
    let s : St W := { s with fmustruct := { s.fmustruct with FMUErrorStatus := fmi2Warning } }
    let s :=
      if T.lt_STANDALONE_TARGETS then
        let diagnostic := CreateDiagnosticAsVoidPtr "FMUBlock:FMU:FMULoadLibFunctionError"
          [.str fcnName, .str s.fmustruct.fmuname]
        /- Loading failure will cause a warning, ANY CALL to default fcn will result in
        fmiError and stop -/
        s.emit [.rt_ssReportDiagnosticAsWarning s.fmustruct.ssPtr diagnostic]
      else
        let message := formatString "Unable to load function '%s' for FMU '%s'."
          [.str fcnName, .str s.fmustruct.fmuname]
        s.emit [.logger s.fmustruct.callbacks.componentEnvironment s.fmustruct.fmuname
          s.fmustruct.FMUErrorStatus fcnName message]
    (.defaultfcn, s)
  else (fcn, s)

/-- One assignment `fmustruct->entry = (type) LoadFMUFcn(fmustruct, fcnName, isOptional);`:
`store` puts the pointer, cast to the type of the entry, into the handle. -/
structure TableLoad (W : Type) where
  fcnName : String
  isOptional : Bool
  store : FcnPtr → FMU2_CSME_RTWCG W → FMU2_CSME_RTWCG W

/-- The `store` of a table entry that no embedded function calls: the record of the handle has
no field for it. -/
def notKept {W : Type} : FcnPtr → FMU2_CSME_RTWCG W → FMU2_CSME_RTWCG W :=
  fun _ fmustruct => fmustruct

/-- A sequence of assignments `fmustruct->entry = (type) LoadFMUFcn(...)`, in order. -/
def loadTable {W : Type} (T : Target) (P : Loader W) : List (TableLoad W) → St W → St W
  | [], s => s
  | e :: es, s =>
    let r := LoadFMUFcn T P s e.fcnName e.isOptional
    loadTable T P es { r.2 with fmustruct := e.store r.1 r.2.fmustruct }

/-- `LoadFMU2CommonFunctions`; a null flag is `false`. -/
def LoadFMU2CommonFunctions {W : Type} (T : Target) (P : Loader W) (s : St W)
    (loadFMUStateFcn loadSerializationFcn loadDirectionDerivativeFcn : Bool) : St W :=
  loadTable T P
    [ { fcnName := "fmi2GetTypesPlatform", isOptional := false, store := notKept },
      { fcnName := "fmi2GetVersion", isOptional := false, store := notKept },
      { fcnName := "fmi2SetDebugLogging", isOptional := false, store := notKept },
      { fcnName := "fmi2Instantiate", isOptional := false,
        store := fun p h => { h with instantiate := p.cast P.instantiate zeroed.instantiate } },
      { fcnName := "fmi2FreeInstance", isOptional := false,
        store := fun p h => { h with freeInstance := p.cast P.freeInstance zeroed.freeInstance } },
      { fcnName := "fmi2SetupExperiment", isOptional := false,
        store := fun p h =>
          { h with setupExperiment := p.cast P.setupExperiment zeroed.setupExperiment } },
      { fcnName := "fmi2EnterInitializationMode", isOptional := false,
        store := fun p h =>
          { h with enterInitializationMode :=
              p.cast P.enterInitializationMode zeroed.enterInitializationMode } },
      { fcnName := "fmi2ExitInitializationMode", isOptional := false,
        store := fun p h =>
          { h with exitInitializationMode :=
              p.cast P.exitInitializationMode zeroed.exitInitializationMode } },
      { fcnName := "fmi2Terminate", isOptional := false,
        store := fun p h => { h with terminate := p.cast P.terminate zeroed.terminate } },
      { fcnName := "fmi2Reset", isOptional := false, store := notKept },
      { fcnName := "fmi2SetReal", isOptional := false,
        store := fun p h => { h with setReal := p.cast P.setReal zeroed.setReal } },
      { fcnName := "fmi2SetInteger", isOptional := false,
        store := fun p h => { h with setInteger := p.cast P.setInteger zeroed.setInteger } },
      { fcnName := "fmi2SetBoolean", isOptional := false,
        store := fun p h => { h with setBoolean := p.cast P.setBoolean zeroed.setBoolean } },
      { fcnName := "fmi2SetString", isOptional := false,
        store := fun p h => { h with setString := p.cast P.setString zeroed.setString } },
      { fcnName := "fmi2GetReal", isOptional := false,
        store := fun p h => { h with getReal := p.cast P.getReal zeroed.getReal } },
      { fcnName := "fmi2GetInteger", isOptional := false,
        store := fun p h => { h with getInteger := p.cast P.getInteger zeroed.getInteger } },
      { fcnName := "fmi2GetBoolean", isOptional := false,
        store := fun p h => { h with getBoolean := p.cast P.getBoolean zeroed.getBoolean } },
      { fcnName := "fmi2GetString", isOptional := false,
        store := fun p h => { h with getString := p.cast P.getString zeroed.getString } },
      { fcnName := "fmi2GetFMUstate", isOptional := !loadFMUStateFcn, store := notKept },
      { fcnName := "fmi2SetFMUstate", isOptional := !loadFMUStateFcn, store := notKept },
      { fcnName := "fmi2FreeFMUstate", isOptional := !loadFMUStateFcn, store := notKept },
      { fcnName := "fmi2SerializedFMUstateSize", isOptional := !loadSerializationFcn,
        store := notKept },
      { fcnName := "fmi2SerializeFMUstate", isOptional := !loadSerializationFcn,
        store := notKept },
      { fcnName := "fmi2DeSerializeFMUstate", isOptional := !loadSerializationFcn,
        store := notKept },
      { fcnName := "fmi2GetDirectionalDerivative", isOptional := !loadDirectionDerivativeFcn,
        store := notKept } ]
    s

/-- `LoadFMU2CSFunctions`. -/
def LoadFMU2CSFunctions {W : Type} (T : Target) (P : Loader W) (s : St W) : St W :=
  loadTable T P
    [ { fcnName := "fmi2SetRealInputDerivatives", isOptional := false, store := notKept },
      { fcnName := "fmi2GetRealOutputDerivatives", isOptional := false, store := notKept },
      { fcnName := "fmi2CancelStep", isOptional := false, store := notKept },
      { fcnName := "fmi2DoStep", isOptional := false,
        store := fun p h => { h with doStep := p.cast P.doStep zeroed.doStep } },
      { fcnName := "fmi2GetStatus", isOptional := false, store := notKept },
      { fcnName := "fmi2GetRealStatus", isOptional := false, store := notKept },
      { fcnName := "fmi2GetIntegerStatus", isOptional := false, store := notKept },
      { fcnName := "fmi2GetBooleanStatus", isOptional := false,
        store := fun p h =>
          { h with getBooleanStatus := p.cast P.getBooleanStatus zeroed.getBooleanStatus } },
      { fcnName := "fmi2GetStringStatus", isOptional := false, store := notKept } ]
    s

/-- `LoadFMU2MEFunctions`. -/
def LoadFMU2MEFunctions {W : Type} (T : Target) (P : Loader W) (s : St W) : St W :=
  loadTable T P
    [ { fcnName := "fmi2EnterEventMode", isOptional := false,
        store := fun p h =>
          { h with enterEventMode := p.cast P.enterEventMode zeroed.enterEventMode } },
      { fcnName := "fmi2NewDiscreteStates", isOptional := false,
        store := fun p h =>
          { h with newDiscreteStates := p.cast P.newDiscreteStates zeroed.newDiscreteStates } },
      { fcnName := "fmi2EnterContinuousTimeMode", isOptional := false,
        store := fun p h =>
          { h with enterContinuousTimeMode :=
              p.cast P.enterContinuousTimeMode zeroed.enterContinuousTimeMode } },
      { fcnName := "fmi2CompletedIntegratorStep", isOptional := false,
        store := fun p h =>
          { h with completedIntegratorStep :=
              p.cast P.completedIntegratorStep zeroed.completedIntegratorStep } },
      { fcnName := "fmi2SetTime", isOptional := false,
        store := fun p h => { h with setTime := p.cast P.setTime zeroed.setTime } },
      { fcnName := "fmi2SetContinuousStates", isOptional := false,
        store := fun p h =>
          { h with setContinuousStates :=
              p.cast P.setContinuousStates zeroed.setContinuousStates } },
      { fcnName := "fmi2GetDerivatives", isOptional := false,
        store := fun p h =>
          { h with getDerivatives :=
              p.cast P.getDerivatives zeroed.getDerivatives } },
      { fcnName := "fmi2GetEventIndicators", isOptional := false,
        store := fun p h =>
          { h with getEventIndicators :=
              p.cast P.getEventIndicators zeroed.getEventIndicators } },
      { fcnName := "fmi2GetContinuousStates", isOptional := false,
        store := fun p h =>
          { h with getContinuousStates :=
              p.cast P.getContinuousStates zeroed.getContinuousStates } },
      { fcnName := "fmi2GetNominalsOfContinuousStates", isOptional := false,
        store := fun p h =>
          { h with getNominalsOfContinuousStates :=
              p.cast P.getNominalsOfContinuousStates zeroed.getNominalsOfContinuousStates } } ]
    s

/-- The first part of `FMU2_fmuInitialize`, up to the test of the name length: the handle is
allocated and its fields are set from the arguments.  `fmuCallBacks` is `none` for `NULL`. -/
def FMU2_fmuInitialize.allocate {W : Type} (T : Target) (lib instanceName : String)
    (ssPtr : Ptr) (fmuCallBacks : Option fmi2CallbackFunctions) (fmu : W)
    (trace : List Event) : St W :=
  let fmustruct : FMU2_CSME_RTWCG W := zeroed
  let s : St W := { fmustruct := fmustruct, fmu := fmu, trace := trace ++ [.allocateMemory] }
  let s : St W :=
    if T.lt_STANDALONE_TARGETS then { s with fmustruct := { s.fmustruct with ssPtr := ssPtr } }
    else s
  let s : St W :=
    { s with fmustruct :=
      { s.fmustruct with
        fmuname := instanceName, dllfile := lib, FMUErrorStatus := fmi2OK,
        modelInitialized := false } }
  /- fmi callback functions -/
  { s with fmustruct :=
    { s.fmustruct with
      callbacks :=
        { componentEnvironment :=
            match fmuCallBacks with
            | none => ssPtr
            | some cb => cb.componentEnvironment } } }

/-- The part of `FMU2_fmuInitialize` that loads the function table, after the library is
loaded. -/
def FMU2_fmuInitialize.load {W : Type} (T : Target) (P : Loader W) (s : St W)
    (fmuType : fmi2Type)
    (loadFMUStateFcn loadSerializationFcn loadDirectionDerivativeFcn : Bool) : St W :=
  /- load fmi functions -/
  let s := LoadFMU2CommonFunctions T P s loadFMUStateFcn loadSerializationFcn
    loadDirectionDerivativeFcn
  if fmuType = .fmi2CoSimulation then LoadFMU2CSFunctions T P s
  else if fmuType = .fmi2ModelExchange then LoadFMU2MEFunctions T P s
  else s

/-- The last part of `FMU2_fmuInitialize`, after the function table is loaded: the FMU is
instantiated. -/
def FMU2_fmuInitialize.instantiate {W : Type} (T : Target) (s : St W)
    (instanceName fmuGUID fmuResLocation : String) (fmuType : fmi2Type)
    (visible isLoggingOn : fmi2Boolean) : Option (FMU2_CSME_RTWCG W) × St W :=
  /- instantiate fmu -/
  let r := s.fmustruct.instantiate instanceName fmuType fmuGUID fmuResLocation
    s.fmustruct.callbacks visible isLoggingOn s.fmu
  let s : St W := { s with fmustruct := { s.fmustruct with mFMIComp := r.1 }, fmu := r.2 }
  let s := s.emit [.fmuInstantiate .instantiate instanceName r.1]
  if s.fmustruct.mFMIComp = NULL then
    (none, (CheckStatus T s fmi2Error "fmi2Instantiate").2)
  else (some s.fmustruct, s)

/-- The branch of `FMU2_fmuInitialize` for an instance name that is too long, up to its
`return NULL`. -/
def FMU2_fmuInitialize.nameTooLong {W : Type} (T : Target) (s : St W) (instanceName : String) :
    St W :=
  let s : St W := { s with fmustruct := { s.fmustruct with FMUErrorStatus := fmi2Fatal } }
  if T.lt_STANDALONE_TARGETS then
    /- FMU name is longer than 200+, rarely happens -/
    let diagnostic := CreateDiagnosticAsVoidPtr "SL_SERVICES:utils:PRINTFWRAPPER"
      [.str "FMU Name is too long."]
    s.emit [.rt_ssReportDiagnosticAsWarning s.fmustruct.ssPtr diagnostic,
      .ssSetStopRequested s.fmustruct.ssPtr 1]
  else
    let message := formatString "FMU Name '%s' is too long." [.str instanceName]
    s.emit [.logger s.fmustruct.callbacks.componentEnvironment s.fmustruct.fmuname
      s.fmustruct.FMUErrorStatus "FMU2_fmuInitialize" message]

/-- The statement `fmustruct->Handle = LOAD_LIBRARY(fmustruct->dllfile);` of
`FMU2_fmuInitialize`. -/
def FMU2_fmuInitialize.loadLibrary {W : Type} (P : Loader W) (s : St W) : St W :=
  let s : St W :=
    { s with fmustruct := { s.fmustruct with Handle := P.LOAD_LIBRARY s.fmustruct.dllfile } }
  s.emit [.loadLibrary s.fmustruct.dllfile s.fmustruct.Handle]

/-- The branch of `FMU2_fmuInitialize` for a library that could not be loaded, up to its
`return NULL`. -/
def FMU2_fmuInitialize.loadFailed {W : Type} (T : Target) (P : Loader W) (s : St W) : St W :=
  let s : St W := { s with fmustruct := { s.fmustruct with FMUErrorStatus := fmi2Fatal } }
  let s :=
    if T.lt_STANDALONE_TARGETS then
      let diagnostic := CreateDiagnosticAsVoidPtr "FMUBlock:FMU:FMULoadLibraryError"
        [.str s.fmustruct.dllfile, .str s.fmustruct.fmuname]
      /- loading lib failure will halt simulation -/
      s.emit [.rt_ssReportDiagnosticAsWarning s.fmustruct.ssPtr diagnostic,
        .ssSetStopRequested s.fmustruct.ssPtr 1]
    else
      let errorCodeMessage := P.getLoadLibraryErrorMessage
      let message := formatString "Unable to load dynamic library: '%s'. %s"
        [.str s.fmustruct.dllfile, .str errorCodeMessage]
      s.emit [.logger s.fmustruct.callbacks.componentEnvironment s.fmustruct.fmuname
        s.fmustruct.FMUErrorStatus "FMU2_fmuInitialize" message]
  s.emit [.closeLibrary s.fmustruct.Handle]

/-- `FMU2_fmuInitialize`.  The first component of the result is the pointer returned (`none`
for `NULL`, else the handle); the second is the system after the call, with the handle that
was allocated, whether it is returned or not.  `fmuCallBacks` is `none` for `NULL`; a null
flag is `false`. -/
def FMU2_fmuInitialize {W : Type} (T : Target) (P : Loader W)
    (lib instanceName fmuGUID fmuLocation : String) (fmuType : fmi2Type) (ssPtr : Ptr)
    (loadFMUStateFcn loadSerializationFcn loadDirectionDerivativeFcn : Bool)
    (fmuCallBacks : Option fmi2CallbackFunctions) (fmuVisible fmuLoggingOn : fmi2Boolean)
    (fmu : W) (trace : List Event) : Option (FMU2_CSME_RTWCG W) × St W :=
  let s := FMU2_fmuInitialize.allocate T lib instanceName ssPtr fmuCallBacks fmu trace
  let fmuResLocation := fmuLocation
  /- fmi parameters -/
  let visible : fmi2Boolean := if fmuCallBacks = none then fmi2False else fmuVisible
  let isLoggingOn : fmi2Boolean := if fmuCallBacks = none then fmi2False else fmuLoggingOn
  if strlen instanceName + T.FCN_NAME_MAX_LEN + 1 ≥ T.FULL_FCN_NAME_MAX_LEN then
    (none, FMU2_fmuInitialize.nameTooLong T s instanceName)
  else
    let s := FMU2_fmuInitialize.loadLibrary P s
    if s.fmustruct.Handle = NULL then
      (none, FMU2_fmuInitialize.loadFailed T P s)
    else
      let s := FMU2_fmuInitialize.load T P s fmuType loadFMUStateFcn loadSerializationFcn
        loadDirectionDerivativeFcn
      FMU2_fmuInitialize.instantiate T s instanceName fmuGUID fmuResLocation fmuType visible
        isLoggingOn

/-- `FMU2_fmuInitializeCS`. -/
def FMU2_fmuInitializeCS {W : Type} (T : Target) (P : Loader W)
    (lib instanceName fmuGUID fmuLocation : String) (ssPtr : Ptr)
    (loadFMUStateFcn loadSerializationFcn loadDirectionDerivativeFcn : Bool)
    (fmuCallBacks : Option fmi2CallbackFunctions) (fmuVisible fmuLoggingOn : fmi2Boolean)
    (fmu : W) (trace : List Event) : Option (FMU2_CSME_RTWCG W) × St W :=
  FMU2_fmuInitialize T P lib instanceName fmuGUID fmuLocation .fmi2CoSimulation ssPtr
    loadFMUStateFcn loadSerializationFcn loadDirectionDerivativeFcn fmuCallBacks fmuVisible
    fmuLoggingOn fmu trace

/-- `FMU2_fmuInitializeME`. -/
def FMU2_fmuInitializeME {W : Type} (T : Target) (P : Loader W)
    (lib instanceName fmuGUID fmuLocation : String) (ssPtr : Ptr)
    (loadFMUStateFcn loadSerializationFcn loadDirectionDerivativeFcn : Bool)
    (fmuCallBacks : Option fmi2CallbackFunctions) (fmuVisible fmuLoggingOn : fmi2Boolean)
    (fmu : W) (trace : List Event) : Option (FMU2_CSME_RTWCG W) × St W :=
  FMU2_fmuInitialize T P lib instanceName fmuGUID fmuLocation .fmi2ModelExchange ssPtr
    loadFMUStateFcn loadSerializationFcn loadDirectionDerivativeFcn fmuCallBacks fmuVisible
    fmuLoggingOn fmu trace

/-- A loader for examples: `LOAD_LIBRARY` returns `handle` for every path, every symbol is
resolved except those of `missing`, and the code of every symbol is that of the scripted
FMU. -/
def mockLoader (handle : Ptr) (missing : List String) : Loader (List fmiStatus) where
  LOAD_LIBRARY := fun _ => handle
  getLoadLibraryErrorMessage := "Load Library Error: 'no such file' "
  LOAD_FUNCTION := fun _ name => !missing.contains name
  setupExperiment := fun _ => mockScripted.setupExperiment
  enterInitializationMode := fun _ => mockScripted.enterInitializationMode
  exitInitializationMode := fun _ => mockScripted.exitInitializationMode
  terminate := fun _ => mockScripted.terminate
  freeInstance := fun _ => mockScripted.freeInstance
  enterEventMode := fun _ => mockScripted.enterEventMode
  newDiscreteStates := fun _ => mockScripted.newDiscreteStates
  enterContinuousTimeMode := fun _ => mockScripted.enterContinuousTimeMode
  setTime := fun _ => mockScripted.setTime
  doStep := fun _ => mockScripted.doStep
  getBooleanStatus := fun _ => mockScripted.getBooleanStatus
  instantiate := fun _ => mockScripted.instantiate
  setReal := fun _ => mockScripted.setReal
  getReal := fun _ => mockScripted.getReal
  setInteger := fun _ => mockScripted.setInteger
  getInteger := fun _ => mockScripted.getInteger
  setBoolean := fun _ => mockScripted.setBoolean
  getBoolean := fun _ => mockScripted.getBoolean
  setString := fun _ => mockScripted.setString
  getString := fun _ => mockScripted.getString
  completedIntegratorStep := fun _ => mockScripted.completedIntegratorStep
  setContinuousStates := fun _ => mockScripted.setContinuousStates
  getDerivatives := fun _ => mockScripted.getDerivatives
  getEventIndicators := fun _ => mockScripted.getEventIndicators
  getContinuousStates := fun _ => mockScripted.getContinuousStates
  getNominalsOfContinuousStates := fun _ => mockScripted.getNominalsOfContinuousStates

end FMU2

/-! ## FMI 1.0 types shared by RTWCG_FMU1_target.c and RTWCG_FMU1ME_target.c -/

abbrev fmiComponent := Ptr

/-- `fmiBoolean`: the FMU hands back only `fmiTrue` or `fmiFalse`, so the tests
`x == fmiTrue` and `x == fmiFalse` of the driver are tests of a Boolean. -/
abbrev fmiBoolean := Bool

abbrev fmiTrue : fmiBoolean := true
abbrev fmiFalse : fmiBoolean := false

/-! ## RTWCG_FMU1_target.c (FMI 1.0 co-simulation) -/

namespace FMU1

open fmiStatus

/-- Modelled from the spec: `struct FMU1_CS_RTWCG` (declared in RTWCG_FMU1_target.h, which is
not among the sources), with the fields the embedded functions use.  The members of
`callbacks` are pointers to external code; their calls are `Event`s. -/
structure FMU1_CS_RTWCG (W : Type) where
  ssPtr : Ptr
  fmuname : String
  modelIdentifier : String
  dllfile : String
  Handle : Ptr
  FMUErrorStatus : fmiStatus
  modelInitialized : Bool
  mFMIComp : fmiComponent
  initializeSlave : fmiComponent → fmiReal → fmiBoolean → fmiReal → W → fmiStatus × W
  terminateSlave : fmiComponent → W → fmiStatus × W
  freeSlaveInstance : fmiComponent → W → W
  doStep : fmiComponent → fmiReal → fmiReal → fmiBoolean → W → fmiStatus × W
  /-- The arguments are `instanceName`, `fmuGUID`, `fmuLocation`, `mimeType`, `timeout`,
  `visible`, `interactive` and `loggingOn`; the result is the component. -/
  instantiateSlave :
    String → String → String → String → fmiReal → fmiBoolean → fmiBoolean → fmiBoolean →
      W → fmiComponent × W
  /- The value accessors `f(c, vr, nvr, value)`: the second argument is the object whose address
  is handed over as the array of value references, the third the count, the fourth the object
  handed over as the array of values (for a getter: its content before the call, and the
  second component of the result is its content after the call). -/
  setReal : fmiComponent → List fmiValueReference → Nat → List fmiReal → W → fmiStatus × W
  getReal :
    fmiComponent → List fmiValueReference → Nat → List fmiReal → W → fmiStatus × List fmiReal × W
  setInteger : fmiComponent → List fmiValueReference → Nat → List fmiInteger → W → fmiStatus × W
  getInteger :
    fmiComponent → List fmiValueReference → Nat → List fmiInteger → W → fmiStatus × List fmiInteger × W
  setBoolean : fmiComponent → List fmiValueReference → Nat → List fmiBoolean → W → fmiStatus × W
  getBoolean :
    fmiComponent → List fmiValueReference → Nat → List fmiBoolean → W → fmiStatus × List fmiBoolean × W
  setString : fmiComponent → List fmiValueReference → Nat → List fmiString → W → fmiStatus × W
  getString :
    fmiComponent → List fmiValueReference → Nat → List fmiString → W → fmiStatus × List fmiString × W

/-- The system seen through a non-null handle. -/
abbrev St (W : Type) := Sys (FMU1_CS_RTWCG W) W

/-- The system seen through the handle slot `*fmuv`, which may hold `NULL`. -/
abbrev Slot (W : Type) := Sys (Option (FMU1_CS_RTWCG W)) W

/-- `defaultfcn` of RTWCG_FMU1_target.c (the variadic arguments are not read). -/
def defaultfcn (c : fmiComponent) : fmiStatus :=
  if c ≠ NULL then fmiFatal else fmiError

/-- `CheckStatus` of RTWCG_FMU1_target.c. -/
def CheckStatus {W : Type} (T : Target) (s : St W) (status : fmiStatus) (fcnName : String) :
    fmiBoolean × St W :=
  let s : St W :=
    if T.lt_STANDALONE_TARGETS then
      let ss := s.fmustruct.ssPtr
      if status = fmiError ∨ status = fmiFatal then
        let diagnostic := CreateDiagnosticAsVoidPtr
          "FMUBlock:FMU:FMUSimFunctionErrorDebugToDisplayOn"
          [.str fcnName, .str s.fmustruct.fmuname]
        let s : St W := { s with fmustruct := { s.fmustruct with FMUErrorStatus := status } }
        s.emit [.rt_ssSet_slErrMsg ss diagnostic, .ssSetStopRequested ss 1]
      else if status = fmiPending then
        let diagnostic := CreateDiagnosticAsVoidPtr
          "FMUBlock:FMU:FMUSimPendingNotAllowed"
          [.str fcnName, .str s.fmustruct.fmuname]
        let s : St W := { s with fmustruct := { s.fmustruct with FMUErrorStatus := status } }
        s.emit [.rt_ssSet_slErrMsg ss diagnostic, .ssSetStopRequested ss 1]
      else s
    else
      if status = fmiError ∨ status = fmiFatal then
        let s : St W := { s with fmustruct := { s.fmustruct with FMUErrorStatus := status } }
        let message := formatString
          "Error in supplied FMU: An error occurred in function '%s' for block '%s' during simulation."
          [.str fcnName, .str s.fmustruct.fmuname]
        s.emit [.logger s.fmustruct.mFMIComp s.fmustruct.fmuname s.fmustruct.FMUErrorStatus
          "CheckStatus" message]
      else if status = fmiPending then
        let s : St W := { s with fmustruct := { s.fmustruct with FMUErrorStatus := status } }
        let message := formatString
          "Function '%s' in block '%s' returned 'fmiPending' flag during simulation."
          [.str fcnName, .str s.fmustruct.fmuname]
        s.emit [.logger s.fmustruct.mFMIComp s.fmustruct.fmuname s.fmustruct.FMUErrorStatus
          "CheckStatus" message]
      else s
  if status = fmiOK then (fmiTrue, s) else (fmiFalse, s)

/-- `FMU1_initializeSlave`. -/
def FMU1_initializeSlave {W : Type} (T : Target) (s : St W) (tStart : fmiReal) :
    fmiBoolean × St W :=
  let r := s.fmustruct.initializeSlave s.fmustruct.mFMIComp tStart fmiFalse 0 s.fmu
  let fmiFlag := r.1
  let s : St W := { s with fmu := r.2 }
  let s := s.emit [.fmuCall .initializeSlave s.fmustruct.mFMIComp (some fmiFlag)]
  let s : St W := { s with fmustruct := { s.fmustruct with modelInitialized := true } }
  CheckStatus T s fmiFlag "fmiInitializeSlave"

/-- `FMU1_terminateSlave`.  After the call the slot still holds the (dangling) pointer; the
record it is shown with is the handle as it was when it was freed. -/
def FMU1_terminateSlave {W : Type} (T : Target) (v : Slot W) : fmiBoolean × Slot W :=
  match v.fmustruct with
  | none => (fmiTrue, v)
  | some fmustruct =>
    let s : St W := { fmustruct := fmustruct, fmu := v.fmu, trace := v.trace }
    let r : fmiBoolean × St W :=
      if s.fmustruct.FMUErrorStatus ≠ fmiFatal then
        let r : fmiBoolean × St W :=
          if s.fmustruct.FMUErrorStatus ≠ fmiError ∧ s.fmustruct.modelInitialized = true then
            let t := s.fmustruct.terminateSlave s.fmustruct.mFMIComp s.fmu
            let fmiFlag := t.1
            let s : St W := { s with fmu := t.2 }
            let s := s.emit [.fmuCall .terminateSlave s.fmustruct.mFMIComp (some fmiFlag)]
            CheckStatus T s fmiFlag "fmiTerminateSlave"
          else (fmiTrue, s)
        let s := r.2
        let w := s.fmustruct.freeSlaveInstance s.fmustruct.mFMIComp s.fmu
        let s : St W := { s with fmu := w }
        (r.1, s.emit [.fmuCall .freeSlaveInstance s.fmustruct.mFMIComp none])
      else (fmiTrue, s)
    let returnStatus := r.1
    let s := r.2
    let s := s.emit [.closeLibrary s.fmustruct.Handle]
    let s := s.emit [.freeMemory .fmustruct]
    (returnStatus, { fmustruct := some s.fmustruct, fmu := s.fmu, trace := s.trace })

/-- `FMU1_doStep`. -/
def FMU1_doStep {W : Type} (T : Target) (s : St W)
    (currentCommunicationPoint communicationStepSize : fmiReal) : fmiBoolean × St W :=
  let r := s.fmustruct.doStep s.fmustruct.mFMIComp currentCommunicationPoint
    communicationStepSize fmiTrue s.fmu
  let fmiFlag := r.1
  let s : St W := { s with fmu := r.2 }
  let s := s.emit [.fmuCall .doStep s.fmustruct.mFMIComp (some fmiFlag)]
  CheckStatus T s fmiFlag "fmiDoStep"

/-! ### The value accessors -/

/-- `FMU1_setRealVal`. -/
def FMU1_setRealVal {W : Type} (T : Target) (s : St W) (dvr : fmiValueReference) (nvr : Nat)
    (dvalue : fmiReal) : fmiBoolean × St W :=
  let vr := dvr
  let value := dvalue
  let r := s.fmustruct.setReal s.fmustruct.mFMIComp [vr] nvr [value] s.fmu
  let fmiFlag := r.1
  let s : St W := { s with fmu := r.2 }
  let s := s.emit [.fmuAccess .setReal s.fmustruct.mFMIComp [vr] nvr 1 fmiFlag]
  CheckStatus T s fmiFlag "fmiSetReal"

/-- `FMU1_setReal`. -/
def FMU1_setReal {W : Type} (T : Target) (s : St W) (dvr : fmiValueReference) (nvr : Nat)
    (value : List fmiReal) : fmiBoolean × St W :=
  let vr := dvr
  let r := s.fmustruct.setReal s.fmustruct.mFMIComp [vr] nvr value s.fmu
  let fmiFlag := r.1
  let s : St W := { s with fmu := r.2 }
  let s := s.emit [.fmuAccess .setReal s.fmustruct.mFMIComp [vr] nvr value.length fmiFlag]
  CheckStatus T s fmiFlag "fmiSetReal"

/-- `FMU1_getReal`; `value` is the content of the caller's array before the call, and the
second component of the result is its content after the call. -/
def FMU1_getReal {W : Type} (T : Target) (s : St W) (dvr : fmiValueReference) (nvr : Nat)
    (value : List fmiReal) : fmiBoolean × List fmiReal × St W :=
  let vr := dvr
  let r := s.fmustruct.getReal s.fmustruct.mFMIComp [vr] nvr value s.fmu
  let fmiFlag := r.1
  let s : St W := { s with fmu := r.2.2 }
  let s := s.emit [.fmuAccess .getReal s.fmustruct.mFMIComp [vr] nvr value.length fmiFlag]
  let c := CheckStatus T s fmiFlag "fmiGetReal"
  (c.1, r.2.1, c.2)

/-- `FMU1_setIntegerVal`. -/
def FMU1_setIntegerVal {W : Type} (T : Target) (s : St W) (dvr : fmiValueReference) (nvr : Nat)
    (dvalue : fmiInteger) : fmiBoolean × St W :=
  let vr := dvr
  let value := dvalue
  let r := s.fmustruct.setInteger s.fmustruct.mFMIComp [vr] nvr [value] s.fmu
  let fmiFlag := r.1
  let s : St W := { s with fmu := r.2 }
  let s := s.emit [.fmuAccess .setInteger s.fmustruct.mFMIComp [vr] nvr 1 fmiFlag]
  CheckStatus T s fmiFlag "fmiGetInteger"

/-- `FMU1_setInteger`. -/
def FMU1_setInteger {W : Type} (T : Target) (s : St W) (dvr : fmiValueReference) (nvr : Nat)
    (value : List fmiInteger) : fmiBoolean × St W :=
  let vr := dvr
  let r := s.fmustruct.setInteger s.fmustruct.mFMIComp [vr] nvr value s.fmu
  let fmiFlag := r.1
  let s : St W := { s with fmu := r.2 }
  let s := s.emit [.fmuAccess .setInteger s.fmustruct.mFMIComp [vr] nvr value.length fmiFlag]
  CheckStatus T s fmiFlag "fmiSetInteger"

/-- `FMU1_getInteger`; `value` is the content of the caller's array before the call, and the
second component of the result is its content after the call. -/
def FMU1_getInteger {W : Type} (T : Target) (s : St W) (dvr : fmiValueReference) (nvr : Nat)
    (value : List fmiInteger) : fmiBoolean × List fmiInteger × St W :=
  let vr := dvr
  let r := s.fmustruct.getInteger s.fmustruct.mFMIComp [vr] nvr value s.fmu
  let fmiFlag := r.1
  let s : St W := { s with fmu := r.2.2 }
  let s := s.emit [.fmuAccess .getInteger s.fmustruct.mFMIComp [vr] nvr value.length fmiFlag]
  let c := CheckStatus T s fmiFlag "fmiGetInteger"
  (c.1, r.2.1, c.2)

/-- `FMU1_setBooleanVal`; the `unsigned char` of the caller is shown as a Boolean. -/
def FMU1_setBooleanVal {W : Type} (T : Target) (s : St W) (dvr : fmiValueReference) (nvr : Nat)
    (dvalue : fmiBoolean) : fmiBoolean × St W :=
  let vr := dvr
  let value := dvalue
  let r := s.fmustruct.setBoolean s.fmustruct.mFMIComp [vr] nvr [value] s.fmu
  let fmiFlag := r.1
  let s : St W := { s with fmu := r.2 }
  let s := s.emit [.fmuAccess .setBoolean s.fmustruct.mFMIComp [vr] nvr 1 fmiFlag]
  CheckStatus T s fmiFlag "fmiSetBoolean"

/-- `FMU1_setBoolean`; the `unsigned char` array of the caller is shown as an array of
Booleans. -/
def FMU1_setBoolean {W : Type} (T : Target) (s : St W) (dvr : fmiValueReference) (nvr : Nat)
    (value : List fmiBoolean) : fmiBoolean × St W :=
  let vr := dvr
  let r := s.fmustruct.setBoolean s.fmustruct.mFMIComp [vr] nvr value s.fmu
  let fmiFlag := r.1
  let s : St W := { s with fmu := r.2 }
  let s := s.emit [.fmuAccess .setBoolean s.fmustruct.mFMIComp [vr] nvr value.length fmiFlag]
  CheckStatus T s fmiFlag "fmiSetBoolean"

/-- `FMU1_getBoolean`; `value` is the content of the caller's array before the call, and the
second component of the result is its content after the call.  The `unsigned char` array of the caller is
shown as an array of Booleans. -/
def FMU1_getBoolean {W : Type} (T : Target) (s : St W) (dvr : fmiValueReference) (nvr : Nat)
    (value : List fmiBoolean) : fmiBoolean × List fmiBoolean × St W :=
  let vr := dvr
  let r := s.fmustruct.getBoolean s.fmustruct.mFMIComp [vr] nvr value s.fmu
  let fmiFlag := r.1
  let s : St W := { s with fmu := r.2.2 }
  let s := s.emit [.fmuAccess .getBoolean s.fmustruct.mFMIComp [vr] nvr value.length fmiFlag]
  let c := CheckStatus T s fmiFlag "fmiGetBoolean"
  (c.1, r.2.1, c.2)

/-- `FMU1_setStringVal`. -/
def FMU1_setStringVal {W : Type} (T : Target) (s : St W) (dvr : fmiValueReference) (nvr : Nat)
    (dvalue : fmiString) : fmiBoolean × St W :=
  let vr := dvr
  let value := dvalue
  let r := s.fmustruct.setString s.fmustruct.mFMIComp [vr] nvr [value] s.fmu
  let fmiFlag := r.1
  let s : St W := { s with fmu := r.2 }
  let s := s.emit [.fmuAccess .setString s.fmustruct.mFMIComp [vr] nvr 1 fmiFlag]
  CheckStatus T s fmiFlag "fmiSetString"

/-- `FMU1_setString`. -/
def FMU1_setString {W : Type} (T : Target) (s : St W) (dvr : fmiValueReference) (nvr : Nat)
    (value : List fmiString) : fmiBoolean × St W :=
  let vr := dvr
  let r := s.fmustruct.setString s.fmustruct.mFMIComp [vr] nvr value s.fmu
  let fmiFlag := r.1
  let s : St W := { s with fmu := r.2 }
  let s := s.emit [.fmuAccess .setString s.fmustruct.mFMIComp [vr] nvr value.length fmiFlag]
  CheckStatus T s fmiFlag "fmiSetString"

/-- `FMU1_getString`; `value` is the content of the caller's array before the call, and the
second component of the result is its content after the call. -/
def FMU1_getString {W : Type} (T : Target) (s : St W) (dvr : fmiValueReference) (nvr : Nat)
    (value : List fmiString) : fmiBoolean × List fmiString × St W :=
  let vr := dvr
  let r := s.fmustruct.getString s.fmustruct.mFMIComp [vr] nvr value s.fmu
  let fmiFlag := r.1
  let s : St W := { s with fmu := r.2.2 }
  let s := s.emit [.fmuAccess .getString s.fmustruct.mFMIComp [vr] nvr value.length fmiFlag]
  let c := CheckStatus T s fmiFlag "fmiGetString"
  (c.1, r.2.1, c.2)

/-- A call of a function of the driver on a non-null handle, for sequences of calls: every
function of RTWCG_FMU1_target.c that takes the handle, in the order of the file, but the
initialization, which makes the handle, and `FMU1_terminateSlave`, which frees it. -/
inductive DriverCall
  | initializeSlave (tStart : fmiReal)
  | doStep (currentCommunicationPoint communicationStepSize : fmiReal)
  | setRealVal (dvr : fmiValueReference) (nvr : Nat) (dvalue : fmiReal)
  | setReal (dvr : fmiValueReference) (nvr : Nat) (value : List fmiReal)
  | getReal (dvr : fmiValueReference) (nvr : Nat) (value : List fmiReal)
  | setIntegerVal (dvr : fmiValueReference) (nvr : Nat) (dvalue : fmiInteger)
  | setInteger (dvr : fmiValueReference) (nvr : Nat) (value : List fmiInteger)
  | getInteger (dvr : fmiValueReference) (nvr : Nat) (value : List fmiInteger)
  | setBooleanVal (dvr : fmiValueReference) (nvr : Nat) (dvalue : Bool)
  | setBoolean (dvr : fmiValueReference) (nvr : Nat) (value : List Bool)
  | getBoolean (dvr : fmiValueReference) (nvr : Nat) (value : List Bool)
  | setStringVal (dvr : fmiValueReference) (nvr : Nat) (dvalue : String)
  | setString (dvr : fmiValueReference) (nvr : Nat) (value : List String)
  | getString (dvr : fmiValueReference) (nvr : Nat) (value : List String)
  deriving Repr

/-- Run one driver call: the system after it, whatever the call returns. -/
def DriverCall.exec {W : Type} (T : Target) : DriverCall → St W → St W
  | .initializeSlave tStart, s => (FMU1_initializeSlave T s tStart).2
  | .doStep currentCommunicationPoint communicationStepSize, s =>
      (FMU1_doStep T s currentCommunicationPoint communicationStepSize).2
  | .setRealVal dvr nvr dvalue, s => (FMU1_setRealVal T s dvr nvr dvalue).2
  | .setReal dvr nvr value, s => (FMU1_setReal T s dvr nvr value).2
  | .getReal dvr nvr value, s => (FMU1_getReal T s dvr nvr value).2.2
  | .setIntegerVal dvr nvr dvalue, s => (FMU1_setIntegerVal T s dvr nvr dvalue).2
  | .setInteger dvr nvr value, s => (FMU1_setInteger T s dvr nvr value).2
  | .getInteger dvr nvr value, s => (FMU1_getInteger T s dvr nvr value).2.2
  | .setBooleanVal dvr nvr dvalue, s => (FMU1_setBooleanVal T s dvr nvr dvalue).2
  | .setBoolean dvr nvr value, s => (FMU1_setBoolean T s dvr nvr value).2
  | .getBoolean dvr nvr value, s => (FMU1_getBoolean T s dvr nvr value).2.2
  | .setStringVal dvr nvr dvalue, s => (FMU1_setStringVal T s dvr nvr dvalue).2
  | .setString dvr nvr value, s => (FMU1_setString T s dvr nvr value).2
  | .getString dvr nvr value, s => (FMU1_getString T s dvr nvr value).2.2

/-- Run a sequence of driver calls on one handle, one after the other, whatever each call
returns. -/
def runCalls {W : Type} (T : Target) : List DriverCall → St W → St W
  | [], s => s
  | c :: cs, s => runCalls T cs (c.exec T s)

/-- The handle slot that points to the handle of `s`. -/
def slot {W : Type} (s : St W) : Slot W :=
  { fmustruct := some s.fmustruct, fmu := s.fmu, trace := s.trace }

/-- A scripted FMU for examples: its state is the list of statuses it has still to return; it
returns them one per call, and `fmiOK` once the list is used up. -/
def mockScripted : FMU1_CS_RTWCG (List fmiStatus) where
  ssPtr := 1
  fmuname := "fmu"
  modelIdentifier := "model"
  dllfile := "fmu.so"
  Handle := 7
  FMUErrorStatus := fmiOK
  modelInitialized := false
  mFMIComp := 9
  initializeSlave := fun _ _ _ _ w => (w.headD fmiOK, w.tail)
  terminateSlave := fun _ w => (w.headD fmiOK, w.tail)
  freeSlaveInstance := fun _ w => w
  doStep := fun _ _ _ _ w => (w.headD fmiOK, w.tail)
  instantiateSlave := fun _ _ _ _ _ _ _ _ w => (9, w)
  setReal := fun _ _ _ _ w => (w.headD fmiOK, w.tail)
  getReal := fun _ _ _ value w => (w.headD fmiOK, value, w.tail)
  setInteger := fun _ _ _ _ w => (w.headD fmiOK, w.tail)
  getInteger := fun _ _ _ value w => (w.headD fmiOK, value, w.tail)
  setBoolean := fun _ _ _ _ w => (w.headD fmiOK, w.tail)
  getBoolean := fun _ _ _ value w => (w.headD fmiOK, value, w.tail)
  setString := fun _ _ _ _ w => (w.headD fmiOK, w.tail)
  getString := fun _ _ _ value w => (w.headD fmiOK, value, w.tail)

/-! ### Loading the library and instantiating the FMU -/

/-- The platform's dynamic-loading primitives (the macros `LOAD_LIBRARY` and `LOAD_FUNCTION`
of the header, which is not among the sources) and the code of the library they load. -/
structure Loader (W : Type) where
  /-- `LOAD_LIBRARY(dllfile)`: the library handle, `NULL` on failure. -/
  LOAD_LIBRARY : String → Ptr
  /-- The text that `getLoadLibraryErrorMessage()` renders from `dlerror()` or
  `GetLastError()`. -/
  getLoadLibraryErrorMessage : String
  /-- Whether `LOAD_FUNCTION(handle, name)` is not `NULL`. -/
  LOAD_FUNCTION : Ptr → String → Bool
  /- The code of the library at a symbol, run with the signature of a table entry. -/
  instantiateSlave : String →
    String → String → String → String → fmiReal → fmiBoolean → fmiBoolean → fmiBoolean →
      W → fmiComponent × W
  initializeSlave : String → fmiComponent → fmiReal → fmiBoolean → fmiReal → W → fmiStatus × W
  terminateSlave : String → fmiComponent → W → fmiStatus × W
  freeSlaveInstance : String → fmiComponent → W → W
  doStep : String → fmiComponent → fmiReal → fmiReal → fmiBoolean → W → fmiStatus × W
  setReal : String →
    fmiComponent → List fmiValueReference → Nat → List fmiReal → W → fmiStatus × W
  getReal : String →
    fmiComponent → List fmiValueReference → Nat → List fmiReal → W → fmiStatus × List fmiReal × W
  setInteger : String →
    fmiComponent → List fmiValueReference → Nat → List fmiInteger → W → fmiStatus × W
  getInteger : String →
    fmiComponent → List fmiValueReference → Nat → List fmiInteger → W → fmiStatus × List fmiInteger × W
  setBoolean : String →
    fmiComponent → List fmiValueReference → Nat → List fmiBoolean → W → fmiStatus × W
  getBoolean : String →
    fmiComponent → List fmiValueReference → Nat → List fmiBoolean → W → fmiStatus × List fmiBoolean × W
  setString : String →
    fmiComponent → List fmiValueReference → Nat → List fmiString → W → fmiStatus × W
  getString : String →
    fmiComponent → List fmiValueReference → Nat → List fmiString → W → fmiStatus × List fmiString × W

/-- The handle as `allocateMemory(1, sizeof(struct FMU1_CS_RTWCG))` returns it, filled with
zeros.  Its table entries are null pointers, which are not called before they are loaded; the
embedding shows a null entry with the behaviour of the stub `defaultfcn`: the stub reads its
first argument only, writes to none, and its status is what a caller gets back (read as a
pointer by a caller that expects the component of `instantiateSlave`, whose first argument,
the instance name, is not null). -/
def zeroed {W : Type} : FMU1_CS_RTWCG W where
  ssPtr := NULL
  fmuname := ""
  modelIdentifier := ""
  dllfile := ""
  Handle := NULL
  FMUErrorStatus := fmiOK
  modelInitialized := false
  mFMIComp := NULL
  initializeSlave := fun c _ _ _ w => (defaultfcn c, w)
  terminateSlave := fun c w => (defaultfcn c, w)
  freeSlaveInstance := fun _ w => w
  doStep := fun c _ _ _ w => (defaultfcn c, w)
  instantiateSlave := fun _ _ _ _ _ _ _ _ w => ((defaultfcn 1).code, w)
  setReal := fun c _ _ _ w => (defaultfcn c, w)
  getReal := fun c _ _ value w => (defaultfcn c, value, w)
  setInteger := fun c _ _ _ w => (defaultfcn c, w)
  getInteger := fun c _ _ value w => (defaultfcn c, value, w)
  setBoolean := fun c _ _ _ w => (defaultfcn c, w)
  getBoolean := fun c _ _ value w => (defaultfcn c, value, w)
  setString := fun c _ _ _ w => (defaultfcn c, w)
  getString := fun c _ _ value w => (defaultfcn c, value, w)

/-- Modelled from the spec: the model FMU of the round-trip property, which stores the real
value set for each value reference, returns it unchanged on get and always reports OK.  Its
state is the store; `setReal` and `getReal` treat the first `nvr` value references. -/
def mockEcho : FMU1_CS_RTWCG (fmiValueReference → fmiReal) :=
  { zeroed with
    mFMIComp := 9
    setReal := fun _ vr nvr value w =>
      (fmiOK, ((vr.take nvr).zip value).foldl (fun w p => Function.update w p.1 p.2) w)
    getReal := fun _ vr nvr value w => (fmiOK, (vr.take nvr).map w ++ value.drop nvr, w) }

/-- The symbol that `LoadFMUFcn` of RTWCG_FMU1_target.c looks up for `fcnName`. -/
def lookupName {W : Type} (T : Target) (s : St W) (fcnName : String) : String :=
  fullFcnName T s.fmustruct.modelIdentifier fcnName

/-- `LoadFMUFcn` of RTWCG_FMU1_target.c. -/
def LoadFMUFcn {W : Type} (T : Target) (P : Loader W) (s : St W) (fcnName : String)
    (isOptional : Bool) : FcnPtr × St W :=
  let name := lookupName T s fcnName
  let resolved := P.LOAD_FUNCTION s.fmustruct.Handle name
  let fcn : FcnPtr := if resolved = true then .symbol name else .null
  let s := s.emit [.loadFunction s.fmustruct.Handle name resolved]
  if isOptional = false ∧ fcn = .null then
    let s : St W := { s with fmustruct := { s.fmustruct with FMUErrorStatus := fmiWarning } }
    let s :=
      if T.lt_STANDALONE_TARGETS then
        let diagnostic := CreateDiagnosticAsVoidPtr "FMUBlock:FMU:FMULoadLibFunctionError"
          [.str fcnName, .str s.fmustruct.fmuname]
        /- A loading failure will cause a warning, ANY CALL to default fcn will result in
        fmiError and stop -/
        s.emit [.rt_ssReportDiagnosticAsWarning s.fmustruct.ssPtr diagnostic]
      else
        let message := formatString "Unable to load function '%s' for FMU '%s'."
          [.str fcnName, .str s.fmustruct.fmuname]
        s.emit [.logger s.fmustruct.mFMIComp s.fmustruct.fmuname s.fmustruct.FMUErrorStatus
          "FMU1_fmuInitialize" message]
    (.defaultfcn, s)
  else (fcn, s)

/-- One assignment `fmustruct->entry = (type) LoadFMUFcn(fmustruct, fcnName, isOptional);`:
`store` puts the pointer, cast to the type of the entry, into the handle. -/
structure TableLoad (W : Type) where
  fcnName : String
  isOptional : Bool
  store : FcnPtr → FMU1_CS_RTWCG W → FMU1_CS_RTWCG W

/-- The `store` of a table entry that no embedded function calls: the record of the handle has
no field for it. -/
def notKept {W : Type} : FcnPtr → FMU1_CS_RTWCG W → FMU1_CS_RTWCG W :=
  fun _ fmustruct => fmustruct

/-- A sequence of assignments `fmustruct->entry = (type) LoadFMUFcn(...)`, in order. -/
def loadTable {W : Type} (T : Target) (P : Loader W) : List (TableLoad W) → St W → St W
  | [], s => s
  | e :: es, s =>
    let r := LoadFMUFcn T P s e.fcnName e.isOptional
    loadTable T P es { r.2 with fmustruct := e.store r.1 r.2.fmustruct }

/-- `LoadFMU1CSFunctions`; a null flag is `false`. -/
def LoadFMU1CSFunctions {W : Type} (T : Target) (P : Loader W) (s : St W)
    (loadGetRealOutputDerivativesFcn loadSetRealInputDerivativesFcn : Bool) : St W :=
  loadTable T P
    [ { fcnName := "fmiGetTypesPlatform", isOptional := false, store := notKept },
      { fcnName := "fmiInstantiateSlave", isOptional := false,
        store := fun p h =>
          { h with instantiateSlave := p.cast P.instantiateSlave zeroed.instantiateSlave } },
      { fcnName := "fmiInitializeSlave", isOptional := false,
        store := fun p h =>
          { h with initializeSlave := p.cast P.initializeSlave zeroed.initializeSlave } },
      { fcnName := "fmiTerminateSlave", isOptional := false,
        store := fun p h =>
          { h with terminateSlave := p.cast P.terminateSlave zeroed.terminateSlave } },
      { fcnName := "fmiResetSlave", isOptional := false, store := notKept },
      { fcnName := "fmiFreeSlaveInstance", isOptional := false,
        store := fun p h =>
          { h with freeSlaveInstance := p.cast P.freeSlaveInstance zeroed.freeSlaveInstance } },
      { fcnName := "fmiSetRealInputDerivatives", isOptional := !loadSetRealInputDerivativesFcn,
        store := notKept },
      { fcnName := "fmiGetRealOutputDerivatives",
        isOptional := !loadGetRealOutputDerivativesFcn, store := notKept },
      { fcnName := "fmiCancelStep", isOptional := false, store := notKept },
      { fcnName := "fmiDoStep", isOptional := false,
        store := fun p h => { h with doStep := p.cast P.doStep zeroed.doStep } },
      { fcnName := "fmiGetStatus", isOptional := false, store := notKept },
      { fcnName := "fmiGetRealStatus", isOptional := false, store := notKept },
      { fcnName := "fmiGetIntegerStatus", isOptional := false, store := notKept },
      { fcnName := "fmiGetBooleanStatus", isOptional := false, store := notKept },
      { fcnName := "fmiGetStringStatus", isOptional := false, store := notKept },
      { fcnName := "fmiGetVersion", isOptional := false, store := notKept },
      { fcnName := "fmiSetDebugLogging", isOptional := false, store := notKept },
      { fcnName := "fmiSetReal", isOptional := false,
        store := fun p h => { h with setReal := p.cast P.setReal zeroed.setReal } },
      { fcnName := "fmiSetInteger", isOptional := false,
        store := fun p h => { h with setInteger := p.cast P.setInteger zeroed.setInteger } },
      { fcnName := "fmiSetBoolean", isOptional := false,
        store := fun p h => { h with setBoolean := p.cast P.setBoolean zeroed.setBoolean } },
      { fcnName := "fmiSetString", isOptional := false,
        store := fun p h => { h with setString := p.cast P.setString zeroed.setString } },
      { fcnName := "fmiGetReal", isOptional := false,
        store := fun p h => { h with getReal := p.cast P.getReal zeroed.getReal } },
      { fcnName := "fmiGetInteger", isOptional := false,
        store := fun p h => { h with getInteger := p.cast P.getInteger zeroed.getInteger } },
      { fcnName := "fmiGetBoolean", isOptional := false,
        store := fun p h => { h with getBoolean := p.cast P.getBoolean zeroed.getBoolean } },
      { fcnName := "fmiGetString", isOptional := false,
        store := fun p h => { h with getString := p.cast P.getString zeroed.getString } } ]
    s

/-- The first part of `FMU1_fmuInitialize`, up to the test of the name length: the handle is
allocated and its fields are set from the arguments. -/
def FMU1_fmuInitialize.allocate {W : Type} (T : Target)
    (lib instanceName modelIdentifier : String) (ssPtr : Ptr) (fmu : W)
    (trace : List Event) : St W :=
  let fmustruct : FMU1_CS_RTWCG W := zeroed
  let s : St W := { fmustruct := fmustruct, fmu := fmu, trace := trace ++ [.allocateMemory] }
  let s : St W :=
    if T.lt_STANDALONE_TARGETS then { s with fmustruct := { s.fmustruct with ssPtr := ssPtr } }
    else s
  { s with fmustruct :=
    { s.fmustruct with
      fmuname := instanceName, modelIdentifier := modelIdentifier, dllfile := lib,
      FMUErrorStatus := fmiOK, modelInitialized := false } }

/-- The last part of `FMU1_fmuInitialize`, after the function table is loaded: the FMU is
instantiated. -/
def FMU1_fmuInitialize.instantiate {W : Type} (T : Target) (s : St W)
    (instanceName fmuGUID fmuResLocation : String)
    (visible isLoggingOn : fmiBoolean) : Option (FMU1_CS_RTWCG W) × St W :=
  /- wait period in milli seconds, 0 for unlimited wait period -/
  let timeout : fmiReal := 0
  let mimeType := "application/x-fmu-sharedlibrary"
  /- simulation run without user interaction -/
  let interactive : fmiBoolean := fmiFalse
  /- instantiate fmu -/
  let r := s.fmustruct.instantiateSlave instanceName fmuGUID fmuResLocation mimeType timeout
    visible interactive isLoggingOn s.fmu
  let s : St W := { s with fmustruct := { s.fmustruct with mFMIComp := r.1 }, fmu := r.2 }
  let s := s.emit [.fmuInstantiate .instantiateSlave instanceName r.1]
  if s.fmustruct.mFMIComp = NULL then
    (none, (CheckStatus T s fmiError "fmiInstantiateSlave").2)
  else (some s.fmustruct, s)

/-- The branch of `FMU1_fmuInitialize` for an instance name that is too long, up to its
`return NULL`. -/
def FMU1_fmuInitialize.nameTooLong {W : Type} (T : Target) (s : St W) (instanceName : String) :
    St W :=
  /- FMU name is longer than 200+, rarely happens -/
  let s : St W := { s with fmustruct := { s.fmustruct with FMUErrorStatus := fmiFatal } }
  if T.lt_STANDALONE_TARGETS then
    let diagnostic := CreateDiagnosticAsVoidPtr "SL_SERVICES:utils:PRINTFWRAPPER"
      [.str "FMU Name is too long."]
    s.emit [.rt_ssReportDiagnosticAsWarning s.fmustruct.ssPtr diagnostic,
      .ssSetStopRequested s.fmustruct.ssPtr 1]
  else
    let message := formatString "FMU Name '%s' is too long." [.str instanceName]
    s.emit [.logger s.fmustruct.mFMIComp s.fmustruct.fmuname s.fmustruct.FMUErrorStatus
      "FMU1_fmuInitialize" message]

/-- The statement `fmustruct->Handle = LOAD_LIBRARY(fmustruct->dllfile);` of
`FMU1_fmuInitialize`. -/
def FMU1_fmuInitialize.loadLibrary {W : Type} (P : Loader W) (s : St W) : St W :=
  let s : St W :=
    { s with fmustruct := { s.fmustruct with Handle := P.LOAD_LIBRARY s.fmustruct.dllfile } }
  s.emit [.loadLibrary s.fmustruct.dllfile s.fmustruct.Handle]

/-- The branch of `FMU1_fmuInitialize` for a library that could not be loaded, up to its
`return NULL`. -/
def FMU1_fmuInitialize.loadFailed {W : Type} (T : Target) (P : Loader W) (s : St W) : St W :=
  let s : St W := { s with fmustruct := { s.fmustruct with FMUErrorStatus := fmiFatal } }
  if T.lt_STANDALONE_TARGETS then
    let diagnostic := CreateDiagnosticAsVoidPtr "FMUBlock:FMU:FMULoadLibraryError"
      [.str s.fmustruct.dllfile, .str s.fmustruct.fmuname]
    /- loading lib failure will cause fmiFatal and stop -/
    s.emit [.rt_ssReportDiagnosticAsWarning s.fmustruct.ssPtr diagnostic,
      .ssSetStopRequested s.fmustruct.ssPtr 1]
  else
    let errorCodeMessage := P.getLoadLibraryErrorMessage
    let message := formatString "Unable to load dynamic library: '%s'. %s"
      [.str s.fmustruct.dllfile, .str errorCodeMessage]
    s.emit [.logger s.fmustruct.mFMIComp s.fmustruct.fmuname s.fmustruct.FMUErrorStatus
      "FMU1_fmuInitialize" message]

/-- `FMU1_fmuInitialize` of RTWCG_FMU1_target.c.  The first component of the result is the
pointer returned (`none` for `NULL`, else the handle); the second is the system after the
call, with the handle that was allocated, whether it is returned or not.  `fmuCallBacks` is
`true` for a non-null pointer (its members are pointers to external code); a null flag is
`false`. -/
def FMU1_fmuInitialize {W : Type} (T : Target) (P : Loader W)
    (lib instanceName modelIdentifier fmuGUID fmuLocation : String) (ssPtr : Ptr)
    (loadGetRealOutputDerivativesFcn loadSetRealInputDerivativesFcn : Bool)
    (fmuCallBacks : Bool) (fmuVisible fmuLoggingOn : fmiBoolean)
    (fmu : W) (trace : List Event) : Option (FMU1_CS_RTWCG W) × St W :=
  /- no simulator user interface in rapid accel -/
  let visible : fmiBoolean := if fmuCallBacks = false then fmiFalse else fmuVisible
  /- logging is currently disabled for rapid accel, on for debug -/
  let isLoggingOn : fmiBoolean := if fmuCallBacks = false then fmiFalse else fmuLoggingOn
  let s := FMU1_fmuInitialize.allocate T lib instanceName modelIdentifier ssPtr fmu trace
  let fmuResLocation := fmuLocation
  if strlen instanceName + T.FCN_NAME_MAX_LEN + 1 ≥ T.FULL_FCN_NAME_MAX_LEN then
    (none, FMU1_fmuInitialize.nameTooLong T s instanceName)
  else
    let s := FMU1_fmuInitialize.loadLibrary P s
    if s.fmustruct.Handle = NULL then
      (none, FMU1_fmuInitialize.loadFailed T P s)
    else
      /- load fmi functions -/
      let s := LoadFMU1CSFunctions T P s loadGetRealOutputDerivativesFcn
        loadSetRealInputDerivativesFcn
      FMU1_fmuInitialize.instantiate T s instanceName fmuGUID fmuResLocation visible
        isLoggingOn

/-- `FMU1_fmuInitializeCS`. -/
def FMU1_fmuInitializeCS {W : Type} (T : Target) (P : Loader W)
    (lib instanceName modelIdentifier fmuGUID fmuLocation : String) (ssPtr : Ptr)
    (loadGetRealOutputDerivativesFcn loadSetRealInputDerivativesFcn : Bool)
    (fmuCallBacks : Bool) (fmuVisible fmuLoggingOn : fmiBoolean)
    (fmu : W) (trace : List Event) : Option (FMU1_CS_RTWCG W) × St W :=
  FMU1_fmuInitialize T P lib instanceName modelIdentifier fmuGUID fmuLocation ssPtr
    loadGetRealOutputDerivativesFcn loadSetRealInputDerivativesFcn fmuCallBacks fmuVisible
    fmuLoggingOn fmu trace

/-- A loader for examples: `LOAD_LIBRARY` returns `handle` for every path, every symbol is
resolved except those of `missing`, and the code of every symbol is that of the scripted
FMU. -/
def mockLoader (handle : Ptr) (missing : List String) : Loader (List fmiStatus) where
  LOAD_LIBRARY := fun _ => handle
  getLoadLibraryErrorMessage := "Load Library Error: 'no such file' "
  LOAD_FUNCTION := fun _ name => !missing.contains name
  instantiateSlave := fun _ => mockScripted.instantiateSlave
  initializeSlave := fun _ => mockScripted.initializeSlave
  terminateSlave := fun _ => mockScripted.terminateSlave
  freeSlaveInstance := fun _ => mockScripted.freeSlaveInstance
  doStep := fun _ => mockScripted.doStep
  setReal := fun _ => mockScripted.setReal
  getReal := fun _ => mockScripted.getReal
  setInteger := fun _ => mockScripted.setInteger
  getInteger := fun _ => mockScripted.getInteger
  setBoolean := fun _ => mockScripted.setBoolean
  getBoolean := fun _ => mockScripted.getBoolean
  setString := fun _ => mockScripted.setString
  getString := fun _ => mockScripted.getString

end FMU1

/-! ## RTWCG_FMU1ME_target.c (FMI 1.0 model exchange) -/

namespace FMU1ME

open fmiStatus

/-- Modelled from the spec: the FMI 1.0 event-info record (declared in the FMI headers, which
are not among the sources), with the fields the driver reads or writes. -/
structure fmiEventInfo where
  iterationConverged : fmiBoolean
  stateValueReferencesChanged : fmiBoolean
  stateValuesChanged : fmiBoolean
  terminateSimulation : fmiBoolean
  upcomingTimeEvent : fmiBoolean
  nextEventTime : fmiReal
  deriving DecidableEq, Repr

/-- Modelled from the spec: `struct FMU1_ME_RTWCG` (declared in RTWCG_FMU1ME_target.h, which is
not among the sources), with the fields the embedded functions use.  The members of
`callbacks` are pointers to external code; their calls are `Event`s. -/
structure FMU1_ME_RTWCG (W : Type) where
  ssPtr : Ptr
  fmuname : String
  modelIdentifier : String
  dllfile : String
  Handle : Ptr
  FMUErrorStatus : fmiStatus
  modelInitialized : Bool
  mFMIComp : fmiComponent
  eventInfo : fmiEventInfo
  /-- The table entry for `fmiInitialize` (its C name is a reserved word here). -/
  initializeModel :
    fmiComponent → fmiBoolean → fmiReal → fmiEventInfo → W → fmiStatus × fmiEventInfo × W
  setTime : fmiComponent → fmiReal → W → fmiStatus × W
  eventUpdate : fmiComponent → fmiBoolean → fmiEventInfo → W → fmiStatus × fmiEventInfo × W
  terminate : fmiComponent → W → fmiStatus × W
  freeModelInstance : fmiComponent → W → W
  /-- The arguments are `instanceName`, `GUID` and `loggingOn`; the result is the
  component. -/
  instantiateModel : String → String → fmiBoolean → W → fmiComponent × W
  /- The value accessors `f(c, vr, nvr, value)`: the second argument is the object whose address
  is handed over as the array of value references, the third the count, the fourth the object
  handed over as the array of values (for a getter: its content before the call, and the
  second component of the result is its content after the call). -/
  setReal : fmiComponent → List fmiValueReference → Nat → List fmiReal → W → fmiStatus × W
  getReal :
    fmiComponent → List fmiValueReference → Nat → List fmiReal → W → fmiStatus × List fmiReal × W
  setInteger : fmiComponent → List fmiValueReference → Nat → List fmiInteger → W → fmiStatus × W
  getInteger :
    fmiComponent → List fmiValueReference → Nat → List fmiInteger → W → fmiStatus × List fmiInteger × W
  setBoolean : fmiComponent → List fmiValueReference → Nat → List fmiBoolean → W → fmiStatus × W
  getBoolean :
    fmiComponent → List fmiValueReference → Nat → List fmiBoolean → W → fmiStatus × List fmiBoolean × W
  setString : fmiComponent → List fmiValueReference → Nat → List fmiString → W → fmiStatus × W
  getString :
    fmiComponent → List fmiValueReference → Nat → List fmiString → W → fmiStatus × List fmiString × W
  /- `completedIntegratorStep(c, &callEventUpdate)`, and the functions on the array of
  continuous states `f(c, x, nx)`: objects that the FMU writes are given with their content
  before the call and returned with their content after it. -/
  completedIntegratorStep : fmiComponent → fmiBoolean → W → fmiStatus × fmiBoolean × W
  setContinuousStates : fmiComponent → List fmiReal → Nat → W → fmiStatus × W
  getContinuousStates : fmiComponent → List fmiReal → Nat → W → fmiStatus × List fmiReal × W
  getDerivatives : fmiComponent → List fmiReal → Nat → W → fmiStatus × List fmiReal × W
  getEventIndicators : fmiComponent → List fmiReal → Nat → W → fmiStatus × List fmiReal × W

/-- The system seen through a non-null handle. -/
abbrev St (W : Type) := Sys (FMU1_ME_RTWCG W) W

/-- The system seen through the handle slot `*fmuv`, which may hold `NULL`. -/
abbrev Slot (W : Type) := Sys (Option (FMU1_ME_RTWCG W)) W

/-- `defaultfcn` of RTWCG_FMU1ME_target.c (the variadic arguments are not read). -/
def defaultfcn (c : fmiComponent) : fmiStatus :=
  if c ≠ NULL then fmiFatal else fmiError

/-- `CheckStatus` of RTWCG_FMU1ME_target.c. -/
def CheckStatus {W : Type} (T : Target) (s : St W) (status : fmiStatus) (fcnName : String) :
    fmiBoolean × St W :=
  let s : St W :=
    if T.lt_STANDALONE_TARGETS then
      let ss := s.fmustruct.ssPtr
      if status = fmiError ∨ status = fmiFatal then
        let diagnostic := CreateDiagnosticAsVoidPtr
          "FMUBlock:FMU:FMUSimFunctionErrorDebugToDisplayOn"
          [.str fcnName, .str s.fmustruct.fmuname]
        let s : St W := { s with fmustruct := { s.fmustruct with FMUErrorStatus := status } }
        s.emit [.rt_ssSet_slErrMsg ss diagnostic, .ssSetStopRequested ss 1]
      else s
    else
      if status = fmiError ∨ status = fmiFatal then
        let s : St W := { s with fmustruct := { s.fmustruct with FMUErrorStatus := status } }
        let message := formatString
          "Error in supplied FMU: An error occurred in function '%s' for block '%s' during simulation."
          [.str fcnName, .str s.fmustruct.fmuname]
        s.emit [.logger s.fmustruct.mFMIComp s.fmustruct.fmuname s.fmustruct.FMUErrorStatus
          "CheckStatus" message]
      else s
  if status = fmiOK then (fmiTrue, s) else (fmiFalse, s)

/-- `FMU1_terminateModel`.  After the call the slot still holds the (dangling) pointer; the
record it is shown with is the handle as it was when it was freed. -/
def FMU1_terminateModel {W : Type} (T : Target) (v : Slot W) : fmiBoolean × Slot W :=
  match v.fmustruct with
  | none => (fmiTrue, v)
  | some fmustruct =>
    let s : St W := { fmustruct := fmustruct, fmu := v.fmu, trace := v.trace }
    let s : St W :=
      if s.fmustruct.FMUErrorStatus ≠ fmiFatal then
        let s : St W :=
          if s.fmustruct.FMUErrorStatus ≠ fmiError ∧ s.fmustruct.modelInitialized = true then
            let t := s.fmustruct.terminate s.fmustruct.mFMIComp s.fmu
            let fmiFlag := t.1
            let s : St W := { s with fmu := t.2 }
            let s := s.emit [.fmuCall .terminate s.fmustruct.mFMIComp (some fmiFlag)]
            (CheckStatus T s fmiFlag "fmiTerminate").2
          else s
        let w := s.fmustruct.freeModelInstance s.fmustruct.mFMIComp s.fmu
        let s : St W := { s with fmu := w }
        s.emit [.fmuCall .freeModelInstance s.fmustruct.mFMIComp none]
      else s
    let s := s.emit [.closeLibrary s.fmustruct.Handle]
    let s := s.emit [.freeMemory .fmustruct]
    (fmiTrue, { fmustruct := some s.fmustruct, fmu := s.fmu, trace := s.trace })

/-- `FMU1_initialize`. -/
def FMU1_initialize {W : Type} (T : Target) (s : St W) (isToleranceUsed : fmiBoolean)
    (toleranceValue : fmiReal) : fmiBoolean × St W :=
  let r := s.fmustruct.initializeModel s.fmustruct.mFMIComp isToleranceUsed toleranceValue
    s.fmustruct.eventInfo s.fmu
  let fmiFlag := r.1
  let s : St W := { s with fmustruct := { s.fmustruct with eventInfo := r.2.1 }, fmu := r.2.2 }
  let s := s.emit [.fmuCall .initializeModel s.fmustruct.mFMIComp (some fmiFlag)]
  let s : St W := { s with fmustruct := { s.fmustruct with modelInitialized := true } }
  CheckStatus T s fmiFlag "fmiInitialize"

/-- `FMU1_setTime`. -/
def FMU1_setTime {W : Type} (T : Target) (s : St W) (time : fmiReal) : fmiBoolean × St W :=
  let r := s.fmustruct.setTime s.fmustruct.mFMIComp time s.fmu
  let fmiFlag := r.1
  let s : St W := { s with fmu := r.2 }
  let s := s.emit [.fmuCall .setTime s.fmustruct.mFMIComp (some fmiFlag)]
  CheckStatus T s fmiFlag "fmisetTime"

/-- The statements of one pass of the `while` loop of `FMU1_eventIteration` that precede the
test of the iteration cap: the call of `eventUpdate`, the translation of its status and the
stop notice.  The result is the new value of `returnStatus`. -/
def FMU1_eventIteration.body {W : Type} (T : Target) (blkPath : String) (time : fmiReal)
    (s : St W) : fmiBoolean × St W :=
  /- safe call to eventUpdate -/
  let r := s.fmustruct.eventUpdate s.fmustruct.mFMIComp fmiFalse s.fmustruct.eventInfo s.fmu
  let fmiFlag := r.1
  let s : St W := { s with fmustruct := { s.fmustruct with eventInfo := r.2.1 }, fmu := r.2.2 }
  let s := s.emit [.fmuCall .eventUpdate s.fmustruct.mFMIComp (some fmiFlag)]
  let c := CheckStatus T s fmiFlag "eventUpdate"
  let returnStatus := c.1
  let s := c.2
  if returnStatus = fmiTrue ∧ s.fmustruct.eventInfo.terminateSimulation = fmiTrue then
    if T.lt_STANDALONE_TARGETS then
      /- terminate the simulation (successfully) -/
      let diagnostic := CreateDiagnosticAsVoidPtr "FMUBlock:FMU:FMUSimEventUpdateTerminated"
        [.str blkPath, .real time]
      (returnStatus, s.emit [.rt_ssReportDiagnosticAsInfo s.fmustruct.ssPtr diagnostic,
        .ssSetStopRequested s.fmustruct.ssPtr 1])
    else
      let message := formatString
        "'TerminateSimulation' flag was set to true by FMU %s during 'fmiEventUpdate'. Simulation will stop after the current time step at %f."
        [.str blkPath, .real time]
      (returnStatus, s.emit [.logger s.fmustruct.mFMIComp s.fmustruct.fmuname
        s.fmustruct.FMUErrorStatus "FMU1_checkSimTerminate" message])
  else (returnStatus, s)

/-- The diagnostic of `FMU1_eventIteration` when `iterationNumber >= 10000`. -/
def FMU1_eventIteration.capReport {W : Type} (T : Target) (blkPath : String) (time : fmiReal)
    (iterationNumber : Nat) (s : St W) : St W :=
  if T.lt_STANDALONE_TARGETS then
    let diagnostic := CreateDiagnosticAsVoidPtr "FMUBlock:FMU:FMUSimEventUpdateNotConverge"
      [.real time, .int iterationNumber, .str blkPath]
    s.emit [.rt_ssReportDiagnosticAsWarning s.fmustruct.ssPtr diagnostic]
  else
    /- the text formatted into `message` (from `time`, `iterationNumber` and `blkPath`) is
    not the one handed to the logger -/
    s.emit [.logger s.fmustruct.mFMIComp s.fmustruct.fmuname s.fmustruct.FMUErrorStatus
      "FMU1_eventIteration" (formatString "FMUSimEventUpdateNotConverge." [])]

/-- The `while` loop of `FMU1_eventIteration`, entered with the local variables
`iterationNumber` and `returnStatus`.  Each pass of the loop consumes one unit of `fuel`;
`none` means the fuel ran out before the loop ended. -/
def FMU1_eventIteration.loop {W : Type} (T : Target) (blkPath : String) (time : fmiReal) :
    Nat → Nat → fmiBoolean → St W → Option (fmiBoolean × St W)
  | 0, _, _, _ => none
  | fuel + 1, iterationNumber, returnStatus, s =>
    if s.fmustruct.eventInfo.iterationConverged = fmiFalse then
      let b := FMU1_eventIteration.body T blkPath time s
      let returnStatus := b.1
      let s := b.2
      if iterationNumber ≥ 10000 then
        let s := FMU1_eventIteration.capReport T blkPath time iterationNumber s
        let returnStatus := fmiFalse
        some (returnStatus, s)
      else
        FMU1_eventIteration.loop T blkPath time fuel (iterationNumber + 1) returnStatus s
    else some (returnStatus, s)

/-- `FMU1_eventIteration`.  The loop is given 10001 units of fuel, which it never exhausts
(`FMU1_eventIteration_loop_fuel`). -/
def FMU1_eventIteration {W : Type} (T : Target) (s : St W) (blkPath : String)
    (time : fmiReal) : Option (fmiBoolean × St W) :=
  FMU1_eventIteration.loop T blkPath time 10001 0 fmiTrue s

/-! ### The model-exchange wrappers on the continuous states -/

/-- `FMU1_completedIntegratorStep`; `hasStepEvent` is the content of the caller's object
before the call (an `int8_T`, shown as a Boolean), and the second component of the result is
its content after the call. -/
def FMU1_completedIntegratorStep {W : Type} (T : Target) (s : St W) (hasStepEvent : fmiBoolean) :
    fmiBoolean × fmiBoolean × St W :=
  let r := s.fmustruct.completedIntegratorStep s.fmustruct.mFMIComp hasStepEvent s.fmu
  let fmiFlag := r.1
  let s : St W := { s with fmu := r.2.2 }
  let s := s.emit [.fmuCall .completedIntegratorStep s.fmustruct.mFMIComp (some fmiFlag)]
  let c := CheckStatus T s fmiFlag "completedIntegratorStep"
  (c.1, r.2.1, c.2)

/-- `FMU1_setContinuousStates`. -/
def FMU1_setContinuousStates {W : Type} (T : Target) (s : St W) (states : List fmiReal) (nx : Nat) :
    fmiBoolean × St W :=
  let r := s.fmustruct.setContinuousStates s.fmustruct.mFMIComp states nx s.fmu
  let fmiFlag := r.1
  let s : St W := { s with fmu := r.2 }
  let s := s.emit [.fmuCall .setContinuousStates s.fmustruct.mFMIComp (some fmiFlag)]
  CheckStatus T s fmiFlag "setContinuousStates"

/-- `FMU1_getContinuousStates`; `states` is the content of the caller's array before the call, and the
second component of the result is its content after the call. -/
def FMU1_getContinuousStates {W : Type} (T : Target) (s : St W) (states : List fmiReal) (nx : Nat) :
    fmiBoolean × List fmiReal × St W :=
  let r := s.fmustruct.getContinuousStates s.fmustruct.mFMIComp states nx s.fmu
  let fmiFlag := r.1
  let s : St W := { s with fmu := r.2.2 }
  let s := s.emit [.fmuCall .getContinuousStates s.fmustruct.mFMIComp (some fmiFlag)]
  let c := CheckStatus T s fmiFlag "getContinuousStates"
  (c.1, r.2.1, c.2)

/-- `FMU1_getDerivatives`; `derivatives` is the content of the caller's array before the call, and the
second component of the result is its content after the call. -/
def FMU1_getDerivatives {W : Type} (T : Target) (s : St W) (derivatives : List fmiReal) (nx : Nat) :
    fmiBoolean × List fmiReal × St W :=
  let r := s.fmustruct.getDerivatives s.fmustruct.mFMIComp derivatives nx s.fmu
  let fmiFlag := r.1
  let s : St W := { s with fmu := r.2.2 }
  let s := s.emit [.fmuCall .getDerivatives s.fmustruct.mFMIComp (some fmiFlag)]
  let c := CheckStatus T s fmiFlag "getDerivatives"
  (c.1, r.2.1, c.2)

/-- `FMU1_getEventIndicators`; `eventIndicators` is the content of the caller's array before the call, and the
second component of the result is its content after the call. -/
def FMU1_getEventIndicators {W : Type} (T : Target) (s : St W) (eventIndicators : List fmiReal) (nx : Nat) :
    fmiBoolean × List fmiReal × St W :=
  let r := s.fmustruct.getEventIndicators s.fmustruct.mFMIComp eventIndicators nx s.fmu
  let fmiFlag := r.1
  let s : St W := { s with fmu := r.2.2 }
  let s := s.emit [.fmuCall .getEventIndicators s.fmustruct.mFMIComp (some fmiFlag)]
  let c := CheckStatus T s fmiFlag "getEventIndicators"
  (c.1, r.2.1, c.2)

/-- `FMU1_setIterationConverged`; `fmuIsInitialized` is an `int`. -/
def FMU1_setIterationConverged {W : Type} (s : St W) (fmuIsInitialized : Int)
    (time : fmiReal) : St W :=
  if fmuIsInitialized ≠ 0 then
    { s with fmustruct :=
      { s.fmustruct with eventInfo :=
        { s.fmustruct.eventInfo with iterationConverged := fmiFalse } } }
  else
    let callEventUpdate : Bool :=
      decide (s.fmustruct.eventInfo.upcomingTimeEvent = fmiTrue ∧
        s.fmustruct.eventInfo.nextEventTime ≤ time)
    { s with fmustruct :=
      { s.fmustruct with eventInfo :=
        { s.fmustruct.eventInfo with
          iterationConverged := if callEventUpdate then fmiFalse else fmiTrue } } }

/-! ### The value accessors -/

/-- `FMU1ME_setRealVal`. -/
def FMU1ME_setRealVal {W : Type} (T : Target) (s : St W) (dvr : fmiValueReference) (nvr : Nat)
    (dvalue : fmiReal) : fmiBoolean × St W :=
  let vr := dvr
  let value := dvalue
  let r := s.fmustruct.setReal s.fmustruct.mFMIComp [vr] nvr [value] s.fmu
  let fmiFlag := r.1
  let s : St W := { s with fmu := r.2 }
  let s := s.emit [.fmuAccess .setReal s.fmustruct.mFMIComp [vr] nvr 1 fmiFlag]
  CheckStatus T s fmiFlag "fmiSetReal"

/-- `FMU1ME_setReal`. -/
def FMU1ME_setReal {W : Type} (T : Target) (s : St W) (dvr : fmiValueReference) (nvr : Nat)
    (value : List fmiReal) : fmiBoolean × St W :=
  let vr := dvr
  let r := s.fmustruct.setReal s.fmustruct.mFMIComp [vr] nvr value s.fmu
  let fmiFlag := r.1
  let s : St W := { s with fmu := r.2 }
  let s := s.emit [.fmuAccess .setReal s.fmustruct.mFMIComp [vr] nvr value.length fmiFlag]
  CheckStatus T s fmiFlag "fmiSetReal"

/-- `FMU1ME_getReal`; `value` is the content of the caller's array before the call, and the
second component of the result is its content after the call. -/
def FMU1ME_getReal {W : Type} (T : Target) (s : St W) (dvr : fmiValueReference) (nvr : Nat)
    (value : List fmiReal) : fmiBoolean × List fmiReal × St W :=
  let vr := dvr
  let r := s.fmustruct.getReal s.fmustruct.mFMIComp [vr] nvr value s.fmu
  let fmiFlag := r.1
  let s : St W := { s with fmu := r.2.2 }
  let s := s.emit [.fmuAccess .getReal s.fmustruct.mFMIComp [vr] nvr value.length fmiFlag]
  let c := CheckStatus T s fmiFlag "fmiGetReal"
  (c.1, r.2.1, c.2)

/-- `FMU1ME_setIntegerVal`. -/
def FMU1ME_setIntegerVal {W : Type} (T : Target) (s : St W) (dvr : fmiValueReference) (nvr : Nat)
    (dvalue : fmiInteger) : fmiBoolean × St W :=
  let vr := dvr
  let value := dvalue
  let r := s.fmustruct.setInteger s.fmustruct.mFMIComp [vr] nvr [value] s.fmu
  let fmiFlag := r.1
  let s : St W := { s with fmu := r.2 }
  let s := s.emit [.fmuAccess .setInteger s.fmustruct.mFMIComp [vr] nvr 1 fmiFlag]
  CheckStatus T s fmiFlag "fmiGetInteger"

/-- `FMU1ME_setInteger`. -/
def FMU1ME_setInteger {W : Type} (T : Target) (s : St W) (dvr : fmiValueReference) (nvr : Nat)
    (value : List fmiInteger) : fmiBoolean × St W :=
  let vr := dvr
  let r := s.fmustruct.setInteger s.fmustruct.mFMIComp [vr] nvr value s.fmu
  let fmiFlag := r.1
  let s : St W := { s with fmu := r.2 }
  let s := s.emit [.fmuAccess .setInteger s.fmustruct.mFMIComp [vr] nvr value.length fmiFlag]
  CheckStatus T s fmiFlag "fmiSetInteger"

/-- `FMU1ME_getInteger`; `value` is the content of the caller's array before the call, and the
second component of the result is its content after the call. -/
def FMU1ME_getInteger {W : Type} (T : Target) (s : St W) (dvr : fmiValueReference) (nvr : Nat)
    (value : List fmiInteger) : fmiBoolean × List fmiInteger × St W :=
  let vr := dvr
  let r := s.fmustruct.getInteger s.fmustruct.mFMIComp [vr] nvr value s.fmu
  let fmiFlag := r.1
  let s : St W := { s with fmu := r.2.2 }
  let s := s.emit [.fmuAccess .getInteger s.fmustruct.mFMIComp [vr] nvr value.length fmiFlag]
  let c := CheckStatus T s fmiFlag "fmiGetInteger"
  (c.1, r.2.1, c.2)

/-- `FMU1ME_setBooleanVal`; the `unsigned char` of the caller is shown as a Boolean. -/
def FMU1ME_setBooleanVal {W : Type} (T : Target) (s : St W) (dvr : fmiValueReference) (nvr : Nat)
    (dvalue : fmiBoolean) : fmiBoolean × St W :=
  let vr := dvr
  let value := dvalue
  let r := s.fmustruct.setBoolean s.fmustruct.mFMIComp [vr] nvr [value] s.fmu
  let fmiFlag := r.1
  let s : St W := { s with fmu := r.2 }
  let s := s.emit [.fmuAccess .setBoolean s.fmustruct.mFMIComp [vr] nvr 1 fmiFlag]
  CheckStatus T s fmiFlag "fmiSetBoolean"

/-- `FMU1ME_setBoolean`; the `unsigned char` array of the caller is shown as an array of
Booleans. -/
def FMU1ME_setBoolean {W : Type} (T : Target) (s : St W) (dvr : fmiValueReference) (nvr : Nat)
    (value : List fmiBoolean) : fmiBoolean × St W :=
  let vr := dvr
  let r := s.fmustruct.setBoolean s.fmustruct.mFMIComp [vr] nvr value s.fmu
  let fmiFlag := r.1
  let s : St W := { s with fmu := r.2 }
  let s := s.emit [.fmuAccess .setBoolean s.fmustruct.mFMIComp [vr] nvr value.length fmiFlag]
  CheckStatus T s fmiFlag "fmiSetBoolean"

/-- `FMU1ME_getBoolean`; `value` is the content of the caller's array before the call, and the
second component of the result is its content after the call.  The `unsigned char` array of the caller is
shown as an array of Booleans. -/
def FMU1ME_getBoolean {W : Type} (T : Target) (s : St W) (dvr : fmiValueReference) (nvr : Nat)
    (value : List fmiBoolean) : fmiBoolean × List fmiBoolean × St W :=
  let vr := dvr
  let r := s.fmustruct.getBoolean s.fmustruct.mFMIComp [vr] nvr value s.fmu
  let fmiFlag := r.1
  let s : St W := { s with fmu := r.2.2 }
  let s := s.emit [.fmuAccess .getBoolean s.fmustruct.mFMIComp [vr] nvr value.length fmiFlag]
  let c := CheckStatus T s fmiFlag "fmiGetBoolean"
  (c.1, r.2.1, c.2)

/-- `FMU1ME_setStringVal`. -/
def FMU1ME_setStringVal {W : Type} (T : Target) (s : St W) (dvr : fmiValueReference) (nvr : Nat)
    (dvalue : fmiString) : fmiBoolean × St W :=
  let vr := dvr
  let value := dvalue
  let r := s.fmustruct.setString s.fmustruct.mFMIComp [vr] nvr [value] s.fmu
  let fmiFlag := r.1
  let s : St W := { s with fmu := r.2 }
  let s := s.emit [.fmuAccess .setString s.fmustruct.mFMIComp [vr] nvr 1 fmiFlag]
  CheckStatus T s fmiFlag "fmiSetString"

/-- `FMU1ME_setString`. -/
def FMU1ME_setString {W : Type} (T : Target) (s : St W) (dvr : fmiValueReference) (nvr : Nat)
    (value : List fmiString) : fmiBoolean × St W :=
  let vr := dvr
  let r := s.fmustruct.setString s.fmustruct.mFMIComp [vr] nvr value s.fmu
  let fmiFlag := r.1
  let s : St W := { s with fmu := r.2 }
  let s := s.emit [.fmuAccess .setString s.fmustruct.mFMIComp [vr] nvr value.length fmiFlag]
  CheckStatus T s fmiFlag "fmiSetString"

/-- `FMU1ME_getString`; `value` is the content of the caller's array before the call, and the
second component of the result is its content after the call. -/
def FMU1ME_getString {W : Type} (T : Target) (s : St W) (dvr : fmiValueReference) (nvr : Nat)
    (value : List fmiString) : fmiBoolean × List fmiString × St W :=
  let vr := dvr
  let r := s.fmustruct.getString s.fmustruct.mFMIComp [vr] nvr value s.fmu
  let fmiFlag := r.1
  let s : St W := { s with fmu := r.2.2 }
  let s := s.emit [.fmuAccess .getString s.fmustruct.mFMIComp [vr] nvr value.length fmiFlag]
  let c := CheckStatus T s fmiFlag "fmiGetString"
  (c.1, r.2.1, c.2)

/-! ### The helpers on the event info -/

/-- `FMU1_checkSimTerminate`.  A host build reports the stop only if the event info asks for
it; a standalone build logs the message whatever the event info says. -/
def FMU1_checkSimTerminate {W : Type} (T : Target) (s : St W) (blkPath : String)
    (time : fmiReal) : St W :=
  if T.lt_STANDALONE_TARGETS then
    if s.fmustruct.eventInfo.terminateSimulation = fmiTrue then
      /- terminate the simulation (successfully) -/
      let diagnostic := CreateDiagnosticAsVoidPtr "FMUBlock:FMU:FMUSimEventUpdateTerminated"
        [.str blkPath, .real time]
      s.emit [.rt_ssReportDiagnosticAsInfo s.fmustruct.ssPtr diagnostic,
        .ssSetStopRequested s.fmustruct.ssPtr 1]
    else s
  else
    let message := formatString
      "'TerminateSimulation' flag was set to true by FMU '%s' during 'fmiEventUpdate'. Simulation will stop after the current time step at %f."
      [.str blkPath, .real time]
    s.emit [.logger s.fmustruct.mFMIComp s.fmustruct.fmuname s.fmustruct.FMUErrorStatus
      "FMU1_checkSimTerminate" message]

/-- `FMU1_ifStateVRchanged`: the value written to `*fmustateValueOrStateValueRefChanged` (an
`int8_T`, shown as a Boolean); the handle is only read. -/
def FMU1_ifStateVRchanged {W : Type} (s : St W) : fmiBoolean :=
  s.fmustruct.eventInfo.stateValuesChanged || s.fmustruct.eventInfo.stateValueReferencesChanged

/-- `FMU1_getNextEventTime`: the values written to `*nextEventTime` and to
`*upcomingTimeEvent` (an `int8_T`, shown as a Boolean); the handle is only read. -/
def FMU1_getNextEventTime {W : Type} (s : St W) : fmiReal × fmiBoolean :=
  (s.fmustruct.eventInfo.nextEventTime, s.fmustruct.eventInfo.upcomingTimeEvent)

/-- A call of a function of the driver on a non-null handle, for sequences of calls: every
function of RTWCG_FMU1ME_target.c that takes the handle, in the order of the file
(`initializeModel` is `FMU1_initialize`), but the initialization `FMU1_fmuInitializeME`, which
makes the handle, and `FMU1_terminateModel`, which frees it. -/
inductive DriverCall
  | checkSimTerminate (blkPath : String) (time : fmiReal)
  | initializeModel (isToleranceUsed : fmiBoolean) (toleranceValue : fmiReal)
  | setTime (time : fmiReal)
  | completedIntegratorStep (hasStepEvent : Bool)
  | setContinuousStates (states : List fmiReal) (nx : Nat)
  | getContinuousStates (states : List fmiReal) (nx : Nat)
  | getDerivatives (derivatives : List fmiReal) (nx : Nat)
  | getEventIndicators (eventIndicators : List fmiReal) (nx : Nat)
  | eventIteration (blkPath : String) (time : fmiReal)
  | ifStateVRchanged
  | setIterationConverged (fmuIsInitialized : Int) (time : fmiReal)
  | getNextEventTime
  | setRealVal (dvr : fmiValueReference) (nvr : Nat) (dvalue : fmiReal)
  | setReal (dvr : fmiValueReference) (nvr : Nat) (value : List fmiReal)
  | getReal (dvr : fmiValueReference) (nvr : Nat) (value : List fmiReal)
  | setIntegerVal (dvr : fmiValueReference) (nvr : Nat) (dvalue : fmiInteger)
  | setInteger (dvr : fmiValueReference) (nvr : Nat) (value : List fmiInteger)
  | getInteger (dvr : fmiValueReference) (nvr : Nat) (value : List fmiInteger)
  | setBooleanVal (dvr : fmiValueReference) (nvr : Nat) (dvalue : Bool)
  | setBoolean (dvr : fmiValueReference) (nvr : Nat) (value : List Bool)
  | getBoolean (dvr : fmiValueReference) (nvr : Nat) (value : List Bool)
  | setStringVal (dvr : fmiValueReference) (nvr : Nat) (dvalue : String)
  | setString (dvr : fmiValueReference) (nvr : Nat) (value : List String)
  | getString (dvr : fmiValueReference) (nvr : Nat) (value : List String)
  deriving Repr

/-- Run one driver call: the system after it, whatever the call returns. -/
def DriverCall.exec {W : Type} (T : Target) : DriverCall → St W → Option (St W)
  | .checkSimTerminate blkPath time, s => some (FMU1_checkSimTerminate T s blkPath time)
  | .initializeModel isToleranceUsed toleranceValue, s =>
      some ( FMU1_initialize T s isToleranceUsed toleranceValue).2
  | .setTime time, s => some (FMU1_setTime T s time).2
  | .completedIntegratorStep hasStepEvent, s =>
      some (FMU1_completedIntegratorStep T s hasStepEvent).2.2
  | .setContinuousStates states nx, s => some (FMU1_setContinuousStates T s states nx).2
  | .getContinuousStates states nx, s => some (FMU1_getContinuousStates T s states nx).2.2
  | .getDerivatives derivatives nx, s => some (FMU1_getDerivatives T s derivatives nx).2.2
  | .getEventIndicators eventIndicators nx, s =>
      some (FMU1_getEventIndicators T s eventIndicators nx).2.2
  | .eventIteration blkPath time, s => (FMU1_eventIteration T s blkPath time).map Prod.snd
  | .ifStateVRchanged, s => let _ := FMU1_ifStateVRchanged s; some s
  | .setIterationConverged fmuIsInitialized time, s =>
      some (FMU1_setIterationConverged s fmuIsInitialized time)
  | .getNextEventTime, s => let _ := FMU1_getNextEventTime s; some s
  | .setRealVal dvr nvr dvalue, s => some (FMU1ME_setRealVal T s dvr nvr dvalue).2
  | .setReal dvr nvr value, s => some (FMU1ME_setReal T s dvr nvr value).2
  | .getReal dvr nvr value, s => some (FMU1ME_getReal T s dvr nvr value).2.2
  | .setIntegerVal dvr nvr dvalue, s => some (FMU1ME_setIntegerVal T s dvr nvr dvalue).2
  | .setInteger dvr nvr value, s => some (FMU1ME_setInteger T s dvr nvr value).2
  | .getInteger dvr nvr value, s => some (FMU1ME_getInteger T s dvr nvr value).2.2
  | .setBooleanVal dvr nvr dvalue, s => some (FMU1ME_setBooleanVal T s dvr nvr dvalue).2
  | .setBoolean dvr nvr value, s => some (FMU1ME_setBoolean T s dvr nvr value).2
  | .getBoolean dvr nvr value, s => some (FMU1ME_getBoolean T s dvr nvr value).2.2
  | .setStringVal dvr nvr dvalue, s => some (FMU1ME_setStringVal T s dvr nvr dvalue).2
  | .setString dvr nvr value, s => some (FMU1ME_setString T s dvr nvr value).2
  | .getString dvr nvr value, s => some (FMU1ME_getString T s dvr nvr value).2.2

/-- Run a sequence of driver calls on one handle, one after the other, whatever each call
returns. -/
def runCalls {W : Type} (T : Target) : List DriverCall → St W → Option (St W)
  | [], s => some s
  | c :: cs, s =>
    match c.exec T s with
    | none => none
    | some s => runCalls T cs s

/-- The handle slot that points to the handle of `s`. -/
def slot {W : Type} (s : St W) : Slot W :=
  { fmustruct := some s.fmustruct, fmu := s.fmu, trace := s.trace }

/-- A scripted FMU for examples: its state is the list of statuses it has still to return; it
returns them one per call, and `fmiOK` once the list is used up.  `eventUpdate` reports that
the event iteration has converged. -/
def mockScripted : FMU1_ME_RTWCG (List fmiStatus) where
  ssPtr := 1
  fmuname := "fmu"
  modelIdentifier := "model"
  dllfile := "fmu.so"
  Handle := 7
  FMUErrorStatus := fmiOK
  modelInitialized := false
  mFMIComp := 9
  eventInfo :=
    { iterationConverged := fmiFalse, stateValueReferencesChanged := fmiFalse,
      stateValuesChanged := fmiFalse, terminateSimulation := fmiFalse,
      upcomingTimeEvent := fmiFalse, nextEventTime := 0 }
  initializeModel := fun _ _ _ ei w => (w.headD fmiOK, ei, w.tail)
  setTime := fun _ _ w => (w.headD fmiOK, w.tail)
  eventUpdate := fun _ _ ei w => (w.headD fmiOK, { ei with iterationConverged := fmiTrue }, w.tail)
  terminate := fun _ w => (w.headD fmiOK, w.tail)
  freeModelInstance := fun _ w => w
  instantiateModel := fun _ _ _ w => (9, w)
  setReal := fun _ _ _ _ w => (w.headD fmiOK, w.tail)
  getReal := fun _ _ _ value w => (w.headD fmiOK, value, w.tail)
  setInteger := fun _ _ _ _ w => (w.headD fmiOK, w.tail)
  getInteger := fun _ _ _ value w => (w.headD fmiOK, value, w.tail)
  setBoolean := fun _ _ _ _ w => (w.headD fmiOK, w.tail)
  getBoolean := fun _ _ _ value w => (w.headD fmiOK, value, w.tail)
  setString := fun _ _ _ _ w => (w.headD fmiOK, w.tail)
  getString := fun _ _ _ value w => (w.headD fmiOK, value, w.tail)
  completedIntegratorStep := fun _ callEventUpdate w => (w.headD fmiOK, callEventUpdate, w.tail)
  setContinuousStates := fun _ _ _ w => (w.headD fmiOK, w.tail)
  getContinuousStates := fun _ x _ w => (w.headD fmiOK, x, w.tail)
  getDerivatives := fun _ x _ w => (w.headD fmiOK, x, w.tail)
  getEventIndicators := fun _ x _ w => (w.headD fmiOK, x, w.tail)

/-- An FMU for examples whose `eventUpdate` always returns `fmiOK` and never reports that the
event iteration has converged; its state counts the calls of `eventUpdate`. -/
def mockNeverConverges : FMU1_ME_RTWCG Nat where
  ssPtr := 1
  fmuname := "fmu"
  modelIdentifier := "model"
  dllfile := "fmu.so"
  Handle := 7
  FMUErrorStatus := fmiOK
  modelInitialized := true
  mFMIComp := 9
  eventInfo :=
    { iterationConverged := fmiFalse, stateValueReferencesChanged := fmiFalse,
      stateValuesChanged := fmiFalse, terminateSimulation := fmiFalse,
      upcomingTimeEvent := fmiFalse, nextEventTime := 0 }
  initializeModel := fun _ _ _ ei w => (fmiOK, ei, w)
  setTime := fun _ _ w => (fmiOK, w)
  eventUpdate := fun _ _ ei w => (fmiOK, { ei with iterationConverged := fmiFalse }, w + 1)
  terminate := fun _ w => (fmiOK, w)
  freeModelInstance := fun _ w => w
  instantiateModel := fun _ _ _ w => (9, w)
  setReal := fun _ _ _ _ w => (fmiOK, w)
  getReal := fun _ _ _ value w => (fmiOK, value, w)
  setInteger := fun _ _ _ _ w => (fmiOK, w)
  getInteger := fun _ _ _ value w => (fmiOK, value, w)
  setBoolean := fun _ _ _ _ w => (fmiOK, w)
  getBoolean := fun _ _ _ value w => (fmiOK, value, w)
  setString := fun _ _ _ _ w => (fmiOK, w)
  getString := fun _ _ _ value w => (fmiOK, value, w)
  completedIntegratorStep := fun _ callEventUpdate w => (fmiOK, callEventUpdate, w)
  setContinuousStates := fun _ _ _ w => (fmiOK, w)
  getContinuousStates := fun _ x _ w => (fmiOK, x, w)
  getDerivatives := fun _ x _ w => (fmiOK, x, w)
  getEventIndicators := fun _ x _ w => (fmiOK, x, w)

/-- The event is the stop notice of `FMU1_eventIteration`: the host info report
`FMUSimEventUpdateTerminated`, or the logger call of category `FMU1_checkSimTerminate`. -/
def isStopNotice : Event → Bool
  | .rt_ssReportDiagnosticAsInfo _ d =>
      decide (d.id = "FMUBlock:FMU:FMUSimEventUpdateTerminated")
  | .logger _ _ _ category _ => decide (category = "FMU1_checkSimTerminate")
  | _ => false

/-- An FMU for examples whose `eventUpdate` returns `fmiError` on its first call, without
reporting convergence, and `fmiOK` with convergence on every later call; its state counts the
calls of `eventUpdate`. -/
def mockErrorThenOK : FMU1_ME_RTWCG Nat :=
  { mockNeverConverges with
    eventUpdate := fun _ _ ei w =>
      if w = 0 then (fmiError, { ei with iterationConverged := fmiFalse }, 1)
      else (fmiOK, { ei with iterationConverged := fmiTrue }, w + 1) }

/-- An FMU for examples whose `eventUpdate` always returns `fmiOK` with `terminateSimulation`
set, and reports convergence from its second call on; its state counts the calls of
`eventUpdate`. -/
def mockStopRequested : FMU1_ME_RTWCG Nat :=
  { mockNeverConverges with
    eventUpdate := fun _ _ ei w =>
      (fmiOK, { ei with iterationConverged := decide (w ≠ 0),
                        terminateSimulation := fmiTrue }, w + 1) }

/-! ### Loading the library and instantiating the FMU -/

/-- The platform's dynamic-loading primitives (the macros `LOAD_LIBRARY` and `LOAD_FUNCTION`
of the header, which is not among the sources) and the code of the library they load. -/
structure Loader (W : Type) where
  /-- `LOAD_LIBRARY(dllfile)`: the library handle, `NULL` on failure. -/
  LOAD_LIBRARY : String → Ptr
  /-- The text that `getLoadLibraryErrorMessage()` renders from `dlerror()` or
  `GetLastError()`. -/
  getLoadLibraryErrorMessage : String
  /-- Whether `LOAD_FUNCTION(handle, name)` is not `NULL`. -/
  LOAD_FUNCTION : Ptr → String → Bool
  /- The code of the library at a symbol, run with the signature of a table entry. -/
  instantiateModel : String → String → String → fmiBoolean → W → fmiComponent × W
  freeModelInstance : String → fmiComponent → W → W
  setTime : String → fmiComponent → fmiReal → W → fmiStatus × W
  initializeModel : String →
    fmiComponent → fmiBoolean → fmiReal → fmiEventInfo → W → fmiStatus × fmiEventInfo × W
  eventUpdate : String →
    fmiComponent → fmiBoolean → fmiEventInfo → W → fmiStatus × fmiEventInfo × W
  terminate : String → fmiComponent → W → fmiStatus × W
  setReal : String →
    fmiComponent → List fmiValueReference → Nat → List fmiReal → W → fmiStatus × W
  getReal : String →
    fmiComponent → List fmiValueReference → Nat → List fmiReal → W → fmiStatus × List fmiReal × W
  setInteger : String →
    fmiComponent → List fmiValueReference → Nat → List fmiInteger → W → fmiStatus × W
  getInteger : String →
    fmiComponent → List fmiValueReference → Nat → List fmiInteger → W → fmiStatus × List fmiInteger × W
  setBoolean : String →
    fmiComponent → List fmiValueReference → Nat → List fmiBoolean → W → fmiStatus × W
  getBoolean : String →
    fmiComponent → List fmiValueReference → Nat → List fmiBoolean → W → fmiStatus × List fmiBoolean × W
  setString : String →
    fmiComponent → List fmiValueReference → Nat → List fmiString → W → fmiStatus × W
  getString : String →
    fmiComponent → List fmiValueReference → Nat → List fmiString → W → fmiStatus × List fmiString × W
  completedIntegratorStep : String →
    fmiComponent → fmiBoolean → W → fmiStatus × fmiBoolean × W
  setContinuousStates : String →
    fmiComponent → List fmiReal → Nat → W → fmiStatus × W
  getContinuousStates : String →
    fmiComponent → List fmiReal → Nat → W → fmiStatus × List fmiReal × W
  getDerivatives : String →
    fmiComponent → List fmiReal → Nat → W → fmiStatus × List fmiReal × W
  getEventIndicators : String →
    fmiComponent → List fmiReal → Nat → W → fmiStatus × List fmiReal × W

/-- The handle as `allocateMemory(1, sizeof(struct FMU1_ME_RTWCG))` returns it, filled with
zeros.  Its table entries are null pointers, which are not called before they are loaded; the
embedding shows a null entry with the behaviour of the stub `defaultfcn`: the stub reads its
first argument only, writes to none, and its status is what a caller gets back (read as a
pointer by a caller that expects the component of `instantiateModel`, whose first argument,
the instance name, is not null). -/
def zeroed {W : Type} : FMU1_ME_RTWCG W where
  ssPtr := NULL
  fmuname := ""
  modelIdentifier := ""
  dllfile := ""
  Handle := NULL
  FMUErrorStatus := fmiOK
  modelInitialized := false
  mFMIComp := NULL
  eventInfo :=
    { iterationConverged := fmiFalse, stateValueReferencesChanged := fmiFalse,
      stateValuesChanged := fmiFalse, terminateSimulation := fmiFalse,
      upcomingTimeEvent := fmiFalse, nextEventTime := 0 }
  initializeModel := fun c _ _ ei w => (defaultfcn c, ei, w)
  setTime := fun c _ w => (defaultfcn c, w)
  eventUpdate := fun c _ ei w => (defaultfcn c, ei, w)
  terminate := fun c w => (defaultfcn c, w)
  freeModelInstance := fun _ w => w
  instantiateModel := fun _ _ _ w => ((defaultfcn 1).code, w)
  setReal := fun c _ _ _ w => (defaultfcn c, w)
  getReal := fun c _ _ value w => (defaultfcn c, value, w)
  setInteger := fun c _ _ _ w => (defaultfcn c, w)
  getInteger := fun c _ _ value w => (defaultfcn c, value, w)
  setBoolean := fun c _ _ _ w => (defaultfcn c, w)
  getBoolean := fun c _ _ value w => (defaultfcn c, value, w)
  setString := fun c _ _ _ w => (defaultfcn c, w)
  getString := fun c _ _ value w => (defaultfcn c, value, w)
  completedIntegratorStep := fun c callEventUpdate w => (defaultfcn c, callEventUpdate, w)
  setContinuousStates := fun c _ _ w => (defaultfcn c, w)
  getContinuousStates := fun c x _ w => (defaultfcn c, x, w)
  getDerivatives := fun c x _ w => (defaultfcn c, x, w)
  getEventIndicators := fun c x _ w => (defaultfcn c, x, w)

/-- Modelled from the spec: the model FMU of the round-trip property, which stores the real
value set for each value reference, returns it unchanged on get and always reports OK.  Its
state is the store; `setReal` and `getReal` treat the first `nvr` value references. -/
def mockEcho : FMU1_ME_RTWCG (fmiValueReference → fmiReal) :=
  { zeroed with
    mFMIComp := 9
    setReal := fun _ vr nvr value w =>
      (fmiOK, ((vr.take nvr).zip value).foldl (fun w p => Function.update w p.1 p.2) w)
    getReal := fun _ vr nvr value w => (fmiOK, (vr.take nvr).map w ++ value.drop nvr, w) }

/-- The symbol that `LoadFMUFcn` of RTWCG_FMU1ME_target.c looks up for `fcnName`. -/
def lookupName {W : Type} (T : Target) (s : St W) (fcnName : String) : String :=
  fullFcnName T s.fmustruct.modelIdentifier fcnName

/-- `LoadFMUFcn` of RTWCG_FMU1ME_target.c. -/
def LoadFMUFcn {W : Type} (T : Target) (P : Loader W) (s : St W) (fcnName : String)
    (isOptional : Bool) : FcnPtr × St W :=
  let name := lookupName T s fcnName
  let resolved := P.LOAD_FUNCTION s.fmustruct.Handle name
  let fcn : FcnPtr := if resolved = true then .symbol name else .null
  let s := s.emit [.loadFunction s.fmustruct.Handle name resolved]
  if isOptional = false ∧ fcn = .null then
    let s : St W := { s with fmustruct := { s.fmustruct with FMUErrorStatus := fmiWarning } }
    let s :=
      if T.lt_STANDALONE_TARGETS then
        let diagnostic := CreateDiagnosticAsVoidPtr "FMUBlock:FMU:FMULoadLibFunctionError"
          [.str fcnName, .str s.fmustruct.fmuname]
        /- A loading failure will cause a warning, ANY CALL to defualt Fcn will result in an
        Error and Stop -/
        s.emit [.rt_ssReportDiagnosticAsWarning s.fmustruct.ssPtr diagnostic]
      else
        let message := formatString "Unable to load function '%s' for FMU '%s'."
          [.str fcnName, .str s.fmustruct.fmuname]
        s.emit [.logger s.fmustruct.mFMIComp s.fmustruct.fmuname s.fmustruct.FMUErrorStatus
          "LoadFMUFcn" message]
    (.defaultfcn, s)
  else (fcn, s)

/-- One assignment `fmustruct->entry = (type) LoadFMUFcn(fmustruct, fcnName, isOptional);`:
`store` puts the pointer, cast to the type of the entry, into the handle. -/
structure TableLoad (W : Type) where
  fcnName : String
  isOptional : Bool
  store : FcnPtr → FMU1_ME_RTWCG W → FMU1_ME_RTWCG W

/-- The `store` of a table entry that no embedded function calls: the record of the handle has
no field for it. -/
def notKept {W : Type} : FcnPtr → FMU1_ME_RTWCG W → FMU1_ME_RTWCG W :=
  fun _ fmustruct => fmustruct

/-- A sequence of assignments `fmustruct->entry = (type) LoadFMUFcn(...)`, in order. -/
def loadTable {W : Type} (T : Target) (P : Loader W) : List (TableLoad W) → St W → St W
  | [], s => s
  | e :: es, s =>
    let r := LoadFMUFcn T P s e.fcnName e.isOptional
    loadTable T P es { r.2 with fmustruct := e.store r.1 r.2.fmustruct }

/-- `LoadFMU1MEFunctions`; the two flags are not read. -/
def LoadFMU1MEFunctions {W : Type} (T : Target) (P : Loader W) (s : St W)
    (_loadGetRealOutputDerivativesFcn _loadSetRealInputDerivativesFcn : Bool) : St W :=
  loadTable T P
    [ { fcnName := "fmiGetModelTypesPlatform", isOptional := false, store := notKept },
      { fcnName := "fmiGetVersion", isOptional := false, store := notKept },
      { fcnName := "fmiSetDebugLogging", isOptional := false, store := notKept },
      { fcnName := "fmiInstantiateModel", isOptional := false,
        store := fun p h =>
          { h with instantiateModel := p.cast P.instantiateModel zeroed.instantiateModel } },
      { fcnName := "fmiFreeModelInstance", isOptional := false,
        store := fun p h =>
          { h with freeModelInstance := p.cast P.freeModelInstance zeroed.freeModelInstance } },
      { fcnName := "fmiSetTime", isOptional := false,
        store := fun p h => { h with setTime := p.cast P.setTime zeroed.setTime } },
      { fcnName := "fmiSetContinuousStates", isOptional := false,
        store := fun p h =>
          { h with setContinuousStates :=
              p.cast P.setContinuousStates zeroed.setContinuousStates } },
      { fcnName := "fmiCompletedIntegratorStep", isOptional := false,
        store := fun p h =>
          { h with completedIntegratorStep :=
              p.cast P.completedIntegratorStep zeroed.completedIntegratorStep } },
      { fcnName := "fmiInitialize", isOptional := false,
        store := fun p h =>
          { h with initializeModel := p.cast P.initializeModel zeroed.initializeModel } },
      { fcnName := "fmiGetDerivatives", isOptional := false,
        store := fun p h =>
          { h with getDerivatives :=
              p.cast P.getDerivatives zeroed.getDerivatives } },
      { fcnName := "fmiGetEventIndicators", isOptional := false,
        store := fun p h =>
          { h with getEventIndicators :=
              p.cast P.getEventIndicators zeroed.getEventIndicators } },
      { fcnName := "fmiEventUpdate", isOptional := false,
        store := fun p h => { h with eventUpdate := p.cast P.eventUpdate zeroed.eventUpdate } },
      { fcnName := "fmiGetContinuousStates", isOptional := false,
        store := fun p h =>
          { h with getContinuousStates :=
              p.cast P.getContinuousStates zeroed.getContinuousStates } },
      { fcnName := "fmiGetNominalContinuousStates", isOptional := false, store := notKept },
      { fcnName := "fmiGetStateValueReferences", isOptional := false, store := notKept },
      { fcnName := "fmiTerminate", isOptional := false,
        store := fun p h => { h with terminate := p.cast P.terminate zeroed.terminate } },
      { fcnName := "fmiSetReal", isOptional := false,
        store := fun p h => { h with setReal := p.cast P.setReal zeroed.setReal } },
      { fcnName := "fmiSetInteger", isOptional := false,
        store := fun p h => { h with setInteger := p.cast P.setInteger zeroed.setInteger } },
      { fcnName := "fmiSetBoolean", isOptional := false,
        store := fun p h => { h with setBoolean := p.cast P.setBoolean zeroed.setBoolean } },
      { fcnName := "fmiSetString", isOptional := false,
        store := fun p h => { h with setString := p.cast P.setString zeroed.setString } },
      { fcnName := "fmiGetReal", isOptional := false,
        store := fun p h => { h with getReal := p.cast P.getReal zeroed.getReal } },
      { fcnName := "fmiGetInteger", isOptional := false,
        store := fun p h => { h with getInteger := p.cast P.getInteger zeroed.getInteger } },
      { fcnName := "fmiGetBoolean", isOptional := false,
        store := fun p h => { h with getBoolean := p.cast P.getBoolean zeroed.getBoolean } },
      { fcnName := "fmiGetString", isOptional := false,
        store := fun p h => { h with getString := p.cast P.getString zeroed.getString } } ]
    s

/-- The first part of `FMU1_fmuInitialize`, up to the test of the name length: the handle is
allocated and its fields are set from the arguments. -/
def FMU1_fmuInitialize.allocate {W : Type} (T : Target)
    (lib instanceName modelIdentifier : String) (ssPtr : Ptr) (fmu : W)
    (trace : List Event) : St W :=
  let fmustruct : FMU1_ME_RTWCG W := zeroed
  let s : St W := { fmustruct := fmustruct, fmu := fmu, trace := trace ++ [.allocateMemory] }
  let s : St W :=
    if T.lt_STANDALONE_TARGETS then { s with fmustruct := { s.fmustruct with ssPtr := ssPtr } }
    else s
  { s with fmustruct :=
    { s.fmustruct with
      fmuname := instanceName, modelIdentifier := modelIdentifier, dllfile := lib,
      FMUErrorStatus := fmiOK, modelInitialized := false } }

/-- The last part of `FMU1_fmuInitialize`, after the function table is loaded: the FMU is
instantiated. -/
def FMU1_fmuInitialize.instantiate {W : Type} (T : Target) (s : St W)
    (instanceName fmuGUID : String)
    (isLoggingOn : fmiBoolean) : Option (FMU1_ME_RTWCG W) × St W :=
  /- instantiate fmu -/
  let r := s.fmustruct.instantiateModel instanceName fmuGUID isLoggingOn s.fmu
  let s : St W := { s with fmustruct := { s.fmustruct with mFMIComp := r.1 }, fmu := r.2 }
  let s := s.emit [.fmuInstantiate .instantiateModel instanceName r.1]
  if s.fmustruct.mFMIComp = NULL then
    (none, (CheckStatus T s fmiError "fmiInstantiateModel").2)
  else (some s.fmustruct, s)

/-- The branch of `FMU1_fmuInitialize` for an instance name that is too long, up to its
`return NULL`. -/
def FMU1_fmuInitialize.nameTooLong {W : Type} (T : Target) (s : St W) (instanceName : String) :
    St W :=
  /- FMU name is longer than 200+, rarely happens -/
  let s : St W := { s with fmustruct := { s.fmustruct with FMUErrorStatus := fmiFatal } }
  if T.lt_20 then
    let diagnostic := CreateDiagnosticAsVoidPtr "SL_SERVICES:utils:PRINTFWRAPPER"
      [.str "FMU Name is too long."]
    s.emit [.rt_ssReportDiagnosticAsWarning s.fmustruct.ssPtr diagnostic,
      .ssSetStopRequested s.fmustruct.ssPtr 1]
  else
    let message := formatString "FMU Name '%s' is too long." [.str instanceName]
    s.emit [.logger s.fmustruct.mFMIComp s.fmustruct.fmuname s.fmustruct.FMUErrorStatus
      "FMU1_fmuInitialize" message]

/-- The statement `fmustruct->Handle = LOAD_LIBRARY(fmustruct->dllfile);` of
`FMU1_fmuInitialize`. -/
def FMU1_fmuInitialize.loadLibrary {W : Type} (P : Loader W) (s : St W) : St W :=
  let s : St W :=
    { s with fmustruct := { s.fmustruct with Handle := P.LOAD_LIBRARY s.fmustruct.dllfile } }
  s.emit [.loadLibrary s.fmustruct.dllfile s.fmustruct.Handle]

/-- The branch of `FMU1_fmuInitialize` for a library that could not be loaded, up to its
`return NULL`. -/
def FMU1_fmuInitialize.loadFailed {W : Type} (T : Target) (P : Loader W) (s : St W) : St W :=
  let s : St W := { s with fmustruct := { s.fmustruct with FMUErrorStatus := fmiFatal } }
  if T.lt_STANDALONE_TARGETS then
    let diagnostic := CreateDiagnosticAsVoidPtr "FMUBlock:FMU:FMULoadLibraryError"
      [.str s.fmustruct.dllfile, .str s.fmustruct.fmuname]
    /- loading lib failure will cause an Fatal and Stop -/
    s.emit [.rt_ssReportDiagnosticAsWarning s.fmustruct.ssPtr diagnostic,
      .ssSetStopRequested s.fmustruct.ssPtr 1]
  else
    let errorCodeMessage := P.getLoadLibraryErrorMessage
    let message := formatString "Unable to load dynamic library: '%s'."
      [.str s.fmustruct.dllfile, .str errorCodeMessage]
    s.emit [.logger s.fmustruct.mFMIComp s.fmustruct.fmuname s.fmustruct.FMUErrorStatus
      "FMU1_fmuInitialize" message]

/-- `FMU1_fmuInitialize` of RTWCG_FMU1ME_target.c.  The first component of the result is the
pointer returned (`none` for `NULL`, else the handle); the second is the system after the
call, with the handle that was allocated, whether it is returned or not.  `fmuCallBacks` is
`true` for a non-null pointer (its members are pointers to external code); a null flag is
`false`.  `fmuLocation` and `fmuVisible` are not used. -/
def FMU1_fmuInitialize {W : Type} (T : Target) (P : Loader W)
    (lib instanceName modelIdentifier fmuGUID _fmuLocation : String) (ssPtr : Ptr)
    (loadGetRealOutputDerivativesFcn loadSetRealInputDerivativesFcn : Bool)
    (fmuCallBacks : Bool) (_fmuVisible fmuLoggingOn : fmiBoolean)
    (fmu : W) (trace : List Event) : Option (FMU1_ME_RTWCG W) × St W :=
  /- logging is currently disabled for rapid accel, on for debug -/
  let isLoggingOn : fmiBoolean := if fmuCallBacks = false then fmiFalse else fmuLoggingOn
  let s := FMU1_fmuInitialize.allocate T lib instanceName modelIdentifier ssPtr fmu trace
  if strlen instanceName + T.FCN_NAME_MAX_LEN + 1 ≥ T.FULL_FCN_NAME_MAX_LEN then
    (none, FMU1_fmuInitialize.nameTooLong T s instanceName)
  else
    let s := FMU1_fmuInitialize.loadLibrary P s
    if s.fmustruct.Handle = NULL then
      (none, FMU1_fmuInitialize.loadFailed T P s)
    else
      /- load fmi functions -/
      let s := LoadFMU1MEFunctions T P s loadGetRealOutputDerivativesFcn
        loadSetRealInputDerivativesFcn
      FMU1_fmuInitialize.instantiate T s instanceName fmuGUID isLoggingOn

/-- `FMU1_fmuInitializeME`. -/
def FMU1_fmuInitializeME {W : Type} (T : Target) (P : Loader W)
    (lib instanceName modelIdentifier fmuGUID fmuLocation : String) (ssPtr : Ptr)
    (loadGetRealOutputDerivativesFcn loadSetRealInputDerivativesFcn : Bool)
    (fmuCallBacks : Bool) (fmuVisible fmuLoggingOn : fmiBoolean)
    (fmu : W) (trace : List Event) : Option (FMU1_ME_RTWCG W) × St W :=
  FMU1_fmuInitialize T P lib instanceName modelIdentifier fmuGUID fmuLocation ssPtr
    loadGetRealOutputDerivativesFcn loadSetRealInputDerivativesFcn fmuCallBacks fmuVisible
    fmuLoggingOn fmu trace

/-- A loader for examples: `LOAD_LIBRARY` returns `handle` for every path, every symbol is
resolved except those of `missing`, and the code of every symbol is that of the scripted
FMU. -/
def mockLoader (handle : Ptr) (missing : List String) : Loader (List fmiStatus) where
  LOAD_LIBRARY := fun _ => handle
  getLoadLibraryErrorMessage := "Load Library Error: 'no such file' "
  LOAD_FUNCTION := fun _ name => !missing.contains name
  instantiateModel := fun _ => mockScripted.instantiateModel
  freeModelInstance := fun _ => mockScripted.freeModelInstance
  setTime := fun _ => mockScripted.setTime
  initializeModel := fun _ => mockScripted.initializeModel
  eventUpdate := fun _ => mockScripted.eventUpdate
  terminate := fun _ => mockScripted.terminate
  setReal := fun _ => mockScripted.setReal
  getReal := fun _ => mockScripted.getReal
  setInteger := fun _ => mockScripted.setInteger
  getInteger := fun _ => mockScripted.getInteger
  setBoolean := fun _ => mockScripted.setBoolean
  getBoolean := fun _ => mockScripted.getBoolean
  setString := fun _ => mockScripted.setString
  getString := fun _ => mockScripted.getString
  completedIntegratorStep := fun _ => mockScripted.completedIntegratorStep
  setContinuousStates := fun _ => mockScripted.setContinuousStates
  getContinuousStates := fun _ => mockScripted.getContinuousStates
  getDerivatives := fun _ => mockScripted.getDerivatives
  getEventIndicators := fun _ => mockScripted.getEventIndicators

end FMU1ME

/-! # Theorems -/

open fmiStatus

/-! ## Auxiliary facts about the status translators -/

theorem FMU2_CheckStatus_fst {W : Type} (T : Target) (s : FMU2.St W) (status : fmiStatus)
    (fcnName : String) :
    (FMU2.CheckStatus T s status fcnName).1 = decide (status = fmiOK) := by
  cases status <;> simp [FMU2.CheckStatus]

theorem FMU1_CheckStatus_fst {W : Type} (T : Target) (s : FMU1.St W) (status : fmiStatus)
    (fcnName : String) :
    (FMU1.CheckStatus T s status fcnName).1 = decide (status = fmiOK) := by
  cases status <;> simp [FMU1.CheckStatus]

theorem FMU1ME_CheckStatus_fst {W : Type} (T : Target) (s : FMU1ME.St W) (status : fmiStatus)
    (fcnName : String) :
    (FMU1ME.CheckStatus T s status fcnName).1 = decide (status = fmiOK) := by
  cases status <;> simp [FMU1ME.CheckStatus]

theorem FMU2_CheckStatus_quiet {W : Type} (T : Target) (s : FMU2.St W) (status : fmiStatus)
    (fcnName : String) (h1 : status ≠ fmiError) (h2 : status ≠ fmiFatal)
    (h3 : status ≠ fmiPending) : (FMU2.CheckStatus T s status fcnName).2 = s := by
  cases status <;> simp_all [FMU2.CheckStatus]

theorem FMU1_CheckStatus_quiet {W : Type} (T : Target) (s : FMU1.St W) (status : fmiStatus)
    (fcnName : String) (h1 : status ≠ fmiError) (h2 : status ≠ fmiFatal)
    (h3 : status ≠ fmiPending) : (FMU1.CheckStatus T s status fcnName).2 = s := by
  cases status <;> simp_all [FMU1.CheckStatus]

theorem FMU1ME_CheckStatus_quiet {W : Type} (T : Target) (s : FMU1ME.St W) (status : fmiStatus)
    (fcnName : String) (h1 : status ≠ fmiError) (h2 : status ≠ fmiFatal) :
    (FMU1ME.CheckStatus T s status fcnName).2 = s := by
  cases status <;> simp_all [FMU1ME.CheckStatus]

theorem FMU2_CheckStatus_error {W : Type} (T : Target) (s : FMU2.St W) (status : fmiStatus)
    (fcnName : String) (h : status = fmiError ∨ status = fmiFatal) :
    ∃ e, (FMU2.CheckStatus T s status fcnName).2 =
        { s with
          fmustruct := { s.fmustruct with FMUErrorStatus := status }
          trace := s.trace ++ e ::
            (if T.lt_STANDALONE_TARGETS then [Event.ssSetStopRequested s.fmustruct.ssPtr 1]
             else []) } ∧
      e.isDiagnostic = true ∧ e.isFmuCall = false ∧ e.carries fcnName = true ∧
      e.carries s.fmustruct.fmuname = true := by
  cases hT : T.lt_STANDALONE_TARGETS <;> rcases h with h | h <;> subst h <;>
    simp [FMU2.CheckStatus, hT, Sys.emit, Event.isDiagnostic, Event.isFmuCall, Event.carries,
      CreateDiagnosticAsVoidPtr, formatString]

theorem FMU1_CheckStatus_error {W : Type} (T : Target) (s : FMU1.St W) (status : fmiStatus)
    (fcnName : String) (h : status = fmiError ∨ status = fmiFatal) :
    ∃ e, (FMU1.CheckStatus T s status fcnName).2 =
        { s with
          fmustruct := { s.fmustruct with FMUErrorStatus := status }
          trace := s.trace ++ e ::
            (if T.lt_STANDALONE_TARGETS then [Event.ssSetStopRequested s.fmustruct.ssPtr 1]
             else []) } ∧
      e.isDiagnostic = true ∧ e.isFmuCall = false ∧ e.carries fcnName = true ∧
      e.carries s.fmustruct.fmuname = true := by
  cases hT : T.lt_STANDALONE_TARGETS <;> rcases h with h | h <;> subst h <;>
    simp [FMU1.CheckStatus, hT, Sys.emit, Event.isDiagnostic, Event.isFmuCall, Event.carries,
      CreateDiagnosticAsVoidPtr, formatString]

theorem FMU1ME_CheckStatus_error {W : Type} (T : Target) (s : FMU1ME.St W) (status : fmiStatus)
    (fcnName : String) (h : status = fmiError ∨ status = fmiFatal) :
    ∃ e, (FMU1ME.CheckStatus T s status fcnName).2 =
        { s with
          fmustruct := { s.fmustruct with FMUErrorStatus := status }
          trace := s.trace ++ e ::
            (if T.lt_STANDALONE_TARGETS then [Event.ssSetStopRequested s.fmustruct.ssPtr 1]
             else []) } ∧
      e.isDiagnostic = true ∧ e.isFmuCall = false ∧ e.carries fcnName = true ∧
      e.carries s.fmustruct.fmuname = true := by
  cases hT : T.lt_STANDALONE_TARGETS <;> rcases h with h | h <;> subst h <;>
    simp [FMU1ME.CheckStatus, hT, Sys.emit, Event.isDiagnostic, Event.isFmuCall, Event.carries,
      CreateDiagnosticAsVoidPtr, formatString]

/-! ## Auxiliary facts about traces -/

theorem Event.isCallOf_eq_false_of_isFmuCall_eq_false (f : FmuFcn) (e : Event)
    (h : e.isFmuCall = false) : e.isCallOf f = false := by
  cases e <;> simp_all [Event.isFmuCall, Event.isCallOf]

theorem Event.isCallOf_fmuCall_self (f : FmuFcn) (c : Ptr) (ret : Option fmiStatus) :
    (Event.fmuCall f c ret).isCallOf f = true := by
  simp [Event.isCallOf]

theorem Event.status?_eq_none_of_isFmuCall_eq_false (e : Event) (h : e.isFmuCall = false) :
    e.status? = none := by
  cases e <;> simp_all [Event.isFmuCall, Event.status?]

theorem countP_isCallOf_eq_zero (f : FmuFcn) (es : List Event)
    (h : ∀ e ∈ es, e.isFmuCall = false) : es.countP (Event.isCallOf f) = 0 := by
  rw [List.countP_eq_zero]
  intro e he
  simp [Event.isCallOf_eq_false_of_isFmuCall_eq_false f e (h e he)]

theorem returnedStatuses_eq_nil (es : List Event) (h : ∀ e ∈ es, e.isFmuCall = false) :
    returnedStatuses es = [] := by
  induction es with
  | nil => rfl
  | cons e es ih =>
    have he := Event.status?_eq_none_of_isFmuCall_eq_false e (h e (List.mem_cons_self _ _))
    have := ih (fun x hx => h x (List.mem_cons_of_mem _ hx))
    simp only [returnedStatuses] at this ⊢
    rw [List.filterMap_cons, he]
    exact this

theorem returnedStatuses_append (xs ys : List Event) :
    returnedStatuses (xs ++ ys) = returnedStatuses xs ++ returnedStatuses ys := by
  simp [returnedStatuses]

theorem Event.translated?_eq_none_of_isFmuCall_eq_false (e : Event) (h : e.isFmuCall = false) :
    e.translated? = none := by
  cases e <;> simp_all [Event.isFmuCall, Event.translated?]

theorem translatedStatuses_eq_nil (es : List Event) (h : ∀ e ∈ es, e.isFmuCall = false) :
    translatedStatuses es = [] := by
  simp only [translatedStatuses]
  rw [List.filterMap_eq_nil_iff]
  intro e he
  exact Event.translated?_eq_none_of_isFmuCall_eq_false e (h e he)

theorem translatedStatuses_append (xs ys : List Event) :
    translatedStatuses (xs ++ ys) = translatedStatuses xs ++ translatedStatuses ys := by
  simp [translatedStatuses]

/-! ## Auxiliary facts: what one status translation does to the system -/

theorem FMU2_CheckStatus_spec {W : Type} (T : Target) (s : FMU2.St W) (status : fmiStatus)
    (fcnName : String) :
    ∃ es, (FMU2.CheckStatus T s status fcnName).2 =
        { s with
          fmustruct :=
            { s.fmustruct with FMUErrorStatus := recorded s.fmustruct.FMUErrorStatus status }
          trace := s.trace ++ es } ∧
      ∀ e ∈ es, e.isFmuCall = false := by
  cases hT : T.lt_STANDALONE_TARGETS <;> cases status <;>
    simp [FMU2.CheckStatus, hT, Sys.emit, recorded, Event.isFmuCall]
  all_goals exact ⟨[], by simp⟩

/-! ## Auxiliary facts about terminate -/

/-- The events with which `FMU2_terminate` releases the host-side resources. -/
theorem FMU2_terminate_of_Fatal {W : Type} (T : Target) (s : FMU2.St W)
    (h : s.fmustruct.FMUErrorStatus = fmiFatal) :
    FMU2.FMU2_terminate T (FMU2.slot s) =
      (true, { fmustruct := some s.fmustruct, fmu := s.fmu,
               trace := s.trace ++
                 ((if s.fmustruct.Handle ≠ NULL then [Event.closeLibrary s.fmustruct.Handle]
                   else []) ++
                  [Event.freeMemory (.paramIdxToOffset s.fmustruct.paramIdxToOffset),
                   Event.freeMemory (.enumValueList s.fmustruct.enumValueList),
                   Event.freeMemory .fmustruct]) }) := by
  by_cases hH : s.fmustruct.Handle = NULL <;>
    simp [FMU2.FMU2_terminate, FMU2.slot, h, hH, Sys.emit]

theorem FMU1_terminateSlave_of_Fatal {W : Type} (T : Target) (s : FMU1.St W)
    (h : s.fmustruct.FMUErrorStatus = fmiFatal) :
    FMU1.FMU1_terminateSlave T (FMU1.slot s) =
      (true, { fmustruct := some s.fmustruct, fmu := s.fmu,
               trace := s.trace ++
                 [Event.closeLibrary s.fmustruct.Handle, Event.freeMemory .fmustruct] }) := by
  simp [FMU1.FMU1_terminateSlave, FMU1.slot, h, Sys.emit]

theorem FMU1_terminateModel_of_Fatal {W : Type} (T : Target) (s : FMU1ME.St W)
    (h : s.fmustruct.FMUErrorStatus = fmiFatal) :
    FMU1ME.FMU1_terminateModel T (FMU1ME.slot s) =
      (true, { fmustruct := some s.fmustruct, fmu := s.fmu,
               trace := s.trace ++
                 [Event.closeLibrary s.fmustruct.Handle, Event.freeMemory .fmustruct] }) := by
  simp [FMU1ME.FMU1_terminateModel, FMU1ME.slot, h, Sys.emit]

theorem FMU2_terminate_of_Error {W : Type} (T : Target) (s : FMU2.St W)
    (h : s.fmustruct.FMUErrorStatus = fmiError) :
    FMU2.FMU2_terminate T (FMU2.slot s) =
      (true, { fmustruct := some s.fmustruct,
               fmu := s.fmustruct.freeInstance s.fmustruct.mFMIComp s.fmu,
               trace := s.trace ++
                 (Event.fmuCall .freeInstance s.fmustruct.mFMIComp none ::
                  ((if s.fmustruct.Handle ≠ NULL then [Event.closeLibrary s.fmustruct.Handle]
                    else []) ++
                   [Event.freeMemory (.paramIdxToOffset s.fmustruct.paramIdxToOffset),
                    Event.freeMemory (.enumValueList s.fmustruct.enumValueList),
                    Event.freeMemory .fmustruct])) }) := by
  by_cases hH : s.fmustruct.Handle = NULL <;>
    simp [FMU2.FMU2_terminate, FMU2.slot, h, hH, Sys.emit]

theorem FMU1_terminateSlave_of_Error {W : Type} (T : Target) (s : FMU1.St W)
    (h : s.fmustruct.FMUErrorStatus = fmiError) :
    FMU1.FMU1_terminateSlave T (FMU1.slot s) =
      (true, { fmustruct := some s.fmustruct,
               fmu := s.fmustruct.freeSlaveInstance s.fmustruct.mFMIComp s.fmu,
               trace := s.trace ++
                 [Event.fmuCall .freeSlaveInstance s.fmustruct.mFMIComp none,
                  Event.closeLibrary s.fmustruct.Handle, Event.freeMemory .fmustruct] }) := by
  simp [FMU1.FMU1_terminateSlave, FMU1.slot, h, Sys.emit]

theorem FMU1_terminateModel_of_Error {W : Type} (T : Target) (s : FMU1ME.St W)
    (h : s.fmustruct.FMUErrorStatus = fmiError) :
    FMU1ME.FMU1_terminateModel T (FMU1ME.slot s) =
      (true, { fmustruct := some s.fmustruct,
               fmu := s.fmustruct.freeModelInstance s.fmustruct.mFMIComp s.fmu,
               trace := s.trace ++
                 [Event.fmuCall .freeModelInstance s.fmustruct.mFMIComp none,
                  Event.closeLibrary s.fmustruct.Handle, Event.freeMemory .fmustruct] }) := by
  simp [FMU1ME.FMU1_terminateModel, FMU1ME.slot, h, Sys.emit]

/-! ## Auxiliary facts: one pass of the event-iteration loop -/

theorem FMU2_body_spec {W : Type} (T : Target) (blkPath : String) (time : fmiReal)
    (s : FMU2.St W) :
    ∃ es, FMU2.FMU2_eventIteration.body T blkPath time s =
        (decide ((s.fmustruct.newDiscreteStates s.fmustruct.mFMIComp s.fmustruct.eventInfo
            s.fmu).1 = fmiOK),
         { fmustruct :=
             { s.fmustruct with
               eventInfo := (s.fmustruct.newDiscreteStates s.fmustruct.mFMIComp
                 s.fmustruct.eventInfo s.fmu).2.1
               FMUErrorStatus := recorded s.fmustruct.FMUErrorStatus
                 (s.fmustruct.newDiscreteStates s.fmustruct.mFMIComp s.fmustruct.eventInfo
                   s.fmu).1 }
           fmu := (s.fmustruct.newDiscreteStates s.fmustruct.mFMIComp s.fmustruct.eventInfo
             s.fmu).2.2
           trace := s.trace ++
             Event.fmuCall .newDiscreteStates s.fmustruct.mFMIComp
               (some (s.fmustruct.newDiscreteStates s.fmustruct.mFMIComp s.fmustruct.eventInfo
                 s.fmu).1) :: es }) ∧
      ∀ e ∈ es, e.isFmuCall = false := by
  rcases hr : s.fmustruct.newDiscreteStates s.fmustruct.mFMIComp s.fmustruct.eventInfo s.fmu
    with ⟨status, ei, w⟩
  obtain ⟨es, hes, hno⟩ := FMU2_CheckStatus_spec T
    (Sys.emit { s with fmustruct := { s.fmustruct with eventInfo := ei }, fmu := w }
      [Event.fmuCall .newDiscreteStates s.fmustruct.mFMIComp (some status)])
    status "fmi2NewDiscreteStates"
  have hfst := FMU2_CheckStatus_fst T
    (Sys.emit { s with fmustruct := { s.fmustruct with eventInfo := ei }, fmu := w }
      [Event.fmuCall .newDiscreteStates s.fmustruct.mFMIComp (some status)])
    status "fmi2NewDiscreteStates"
  by_cases hstop : (decide (status = fmiOK) = true ∧ ei.terminateSimulation = true)
  · cases hT : T.lt_STANDALONE_TARGETS
    · refine ⟨es ++ [Event.logger s.fmustruct.callbacks.componentEnvironment s.fmustruct.fmuname
        (recorded s.fmustruct.FMUErrorStatus status) "FMU2_simTerminate" (formatString
        "'TerminateSimulation' flag was set to true by FMU '%s' during event iteration. Simulation will stop after the current time step at '%f'."
        [.str blkPath, .real time])], ?_, ?_⟩
      · simp only [FMU2.FMU2_eventIteration.body, hr, hfst, hes]
        simp [hstop, FMU2.FMU2_simTerminate, hT, Sys.emit]
      · intro e he
        rcases List.mem_append.1 he with h | h
        · exact hno e h
        · simp at h
          subst h
          rfl
    · refine ⟨es ++ [Event.rt_ssReportDiagnosticAsInfo s.fmustruct.ssPtr
          (CreateDiagnosticAsVoidPtr "FMUBlock:FMU2:FMU2SimEventUpdateTerminated"
            [.str blkPath, .real time]),
          Event.ssSetStopRequested s.fmustruct.ssPtr 1], ?_, ?_⟩
      · simp only [FMU2.FMU2_eventIteration.body, hr, hfst, hes]
        simp [hstop, FMU2.FMU2_simTerminate, hT, Sys.emit]
      · intro e he
        rcases List.mem_append.1 he with h | h
        · exact hno e h
        · simp at h
          rcases h with h | h <;> subst h <;> rfl
  · refine ⟨es, ?_, hno⟩
    simp only [FMU2.FMU2_eventIteration.body, hr, hfst, hes]
    simp [Sys.emit]
    intro h1 h2
    exact absurd ⟨by simpa using h1, h2⟩ hstop

theorem FMU2_capReport_spec {W : Type} (T : Target) (blkPath : String) (time : fmiReal)
    (iterationNumber : Nat) (s : FMU2.St W) :
    ∃ e, FMU2.FMU2_eventIteration.capReport T blkPath time iterationNumber s =
        { s with trace := s.trace ++ [e] } ∧
      e.isFmuCall = false ∧ e.isDiagnostic = true := by
  cases hT : T.lt_STANDALONE_TARGETS <;>
    simp [FMU2.FMU2_eventIteration.capReport, hT, Sys.emit, Event.isFmuCall, Event.isDiagnostic]

/-- The fuel given by `FMU2_eventIteration` is enough, whatever the FMU does. -/
theorem FMU2_eventIteration_loop_fuel {W : Type} (T : Target) (blkPath : String)
    (time : fmiReal) :
    ∀ (fuel iterationNumber : Nat) (returnStatus : Bool) (s : FMU2.St W),
      0 < fuel → 10001 ≤ iterationNumber + fuel →
      (FMU2.FMU2_eventIteration.loop T blkPath time fuel iterationNumber returnStatus s).isSome
        = true := by
  intro fuel
  induction fuel with
  | zero => intro n rs s h; omega
  | succ fuel ih =>
    intro n rs s _ hn
    rw [FMU2.FMU2_eventIteration.loop]
    by_cases hneed : s.fmustruct.eventInfo.newDiscreteStatesNeeded = true
    · by_cases hcap : n ≥ 10000
      · simp [hneed, hcap]
      · simp only [hneed, hcap, if_true, if_false]
        exact ih _ _ _ (by omega) (by omega)
    · simp [hneed]

/-- A discrete-state function that always returns OK and always asks for another update is
called 10001 times by the loop of `FMU2_eventIteration` started with `iterationNumber = 0`. -/
theorem FMU2_loop_neverConverges {W : Type} (T : Target) (blkPath : String) (time : fmiReal) :
    ∀ (fuel iterationNumber : Nat) (returnStatus : Bool) (s : FMU2.St W),
      (∀ c ei w, (s.fmustruct.newDiscreteStates c ei w).1 = fmiOK ∧
        (s.fmustruct.newDiscreteStates c ei w).2.1.newDiscreteStatesNeeded = true) →
      s.fmustruct.eventInfo.newDiscreteStatesNeeded = true →
      iterationNumber ≤ 10000 → 10001 ≤ iterationNumber + fuel →
      ∃ s', FMU2.FMU2_eventIteration.loop T blkPath time fuel iterationNumber returnStatus s
          = some (false, s') ∧
        s'.trace.countP (Event.isCallOf .newDiscreteStates) =
          s.trace.countP (Event.isCallOf .newDiscreteStates) + (10001 - iterationNumber) := by
  intro fuel
  induction fuel with
  | zero => intro n rs s _ _ h1 h2; omega
  | succ fuel ih =>
    intro n rs s hf hneed hn hfuel
    obtain ⟨es, hbody, hes⟩ := FMU2_body_spec T blkPath time s
    have hcount := countP_isCallOf_eq_zero .newDiscreteStates es hes
    rw [FMU2.FMU2_eventIteration.loop]
    by_cases hcap : n ≥ 10000
    · obtain ⟨e, hcapr, he, -⟩ := FMU2_capReport_spec T blkPath time n
        (FMU2.FMU2_eventIteration.body T blkPath time s).2
      refine ⟨_, by simp only [hneed, hcap, if_true]; rfl, ?_⟩
      rw [hcapr, hbody]
      have hn' : n = 10000 := by omega
      subst hn'
      simp [List.countP_append, List.countP_cons, hcount, Event.isCallOf_fmuCall_self,
        Event.isCallOf_eq_false_of_isFmuCall_eq_false _ e he]
    · simp only [hneed, hcap, if_true, if_false]
      obtain ⟨s', hs', hc'⟩ := ih (n + 1) (FMU2.FMU2_eventIteration.body T blkPath time s).1
        (FMU2.FMU2_eventIteration.body T blkPath time s).2
        (by rw [hbody]; exact hf) (by rw [hbody]; exact (hf _ _ _).2) (by omega) (by omega)
      refine ⟨s', hs', ?_⟩
      rw [hc', hbody]
      simp [List.countP_append, List.countP_cons, hcount, Event.isCallOf_fmuCall_self]
      omega

/-- `FMU2_eventIteration` against a discrete-state function that always returns OK and always
asks for another update. -/
theorem FMU2_eventIteration_neverConverges {W : Type} (T : Target) (s : FMU2.St W)
    (blkPath : String) (time : fmiReal)
    (hf : ∀ c ei w, (s.fmustruct.newDiscreteStates c ei w).1 = fmiOK ∧
      (s.fmustruct.newDiscreteStates c ei w).2.1.newDiscreteStatesNeeded = true) :
    ∃ s', FMU2.FMU2_eventIteration T s blkPath time = some (false, s') ∧
      s'.trace.countP (Event.isCallOf .newDiscreteStates) =
        s.trace.countP (Event.isCallOf .newDiscreteStates) + 10001 := by
  exact FMU2_loop_neverConverges T blkPath time 10001 0 true _ hf rfl (by omega) (by omega)

theorem FMU1_CheckStatus_spec {W : Type} (T : Target) (s : FMU1.St W) (status : fmiStatus)
    (fcnName : String) :
    ∃ es, (FMU1.CheckStatus T s status fcnName).2 =
        { s with
          fmustruct :=
            { s.fmustruct with FMUErrorStatus := recorded s.fmustruct.FMUErrorStatus status }
          trace := s.trace ++ es } ∧
      ∀ e ∈ es, e.isFmuCall = false := by
  cases hT : T.lt_STANDALONE_TARGETS <;> cases status <;>
    simp [FMU1.CheckStatus, hT, Sys.emit, recorded, Event.isFmuCall]
  all_goals exact ⟨[], by simp⟩

theorem FMU1ME_CheckStatus_spec {W : Type} (T : Target) (s : FMU1ME.St W) (status : fmiStatus)
    (fcnName : String) :
    ∃ es, (FMU1ME.CheckStatus T s status fcnName).2 =
        { s with
          fmustruct :=
            { s.fmustruct with FMUErrorStatus := recordedME s.fmustruct.FMUErrorStatus status }
          trace := s.trace ++ es } ∧
      ∀ e ∈ es, e.isFmuCall = false := by
  cases hT : T.lt_STANDALONE_TARGETS <;> cases status <;>
    simp [FMU1ME.CheckStatus, hT, Sys.emit, recordedME, Event.isFmuCall]
  all_goals exact ⟨[], by simp⟩

theorem FMU1ME_body_spec {W : Type} (T : Target) (blkPath : String) (time : fmiReal)
    (s : FMU1ME.St W) :
    ∃ es, FMU1ME.FMU1_eventIteration.body T blkPath time s =
        (decide ((s.fmustruct.eventUpdate s.fmustruct.mFMIComp fmiFalse s.fmustruct.eventInfo
            s.fmu).1 = fmiOK),
         { fmustruct :=
             { s.fmustruct with
               eventInfo := (s.fmustruct.eventUpdate s.fmustruct.mFMIComp fmiFalse
                 s.fmustruct.eventInfo s.fmu).2.1
               FMUErrorStatus := recordedME s.fmustruct.FMUErrorStatus
                 (s.fmustruct.eventUpdate s.fmustruct.mFMIComp fmiFalse s.fmustruct.eventInfo
                   s.fmu).1 }
           fmu := (s.fmustruct.eventUpdate s.fmustruct.mFMIComp fmiFalse s.fmustruct.eventInfo
             s.fmu).2.2
           trace := s.trace ++
             Event.fmuCall .eventUpdate s.fmustruct.mFMIComp
               (some (s.fmustruct.eventUpdate s.fmustruct.mFMIComp fmiFalse
                 s.fmustruct.eventInfo s.fmu).1) :: es }) ∧
      ∀ e ∈ es, e.isFmuCall = false := by
  rcases hr : s.fmustruct.eventUpdate s.fmustruct.mFMIComp fmiFalse s.fmustruct.eventInfo s.fmu
    with ⟨status, ei, w⟩
  obtain ⟨es, hes, hno⟩ := FMU1ME_CheckStatus_spec T
    (Sys.emit { s with fmustruct := { s.fmustruct with eventInfo := ei }, fmu := w }
      [Event.fmuCall .eventUpdate s.fmustruct.mFMIComp (some status)])
    status "eventUpdate"
  have hfst := FMU1ME_CheckStatus_fst T
    (Sys.emit { s with fmustruct := { s.fmustruct with eventInfo := ei }, fmu := w }
      [Event.fmuCall .eventUpdate s.fmustruct.mFMIComp (some status)])
    status "eventUpdate"
  by_cases hstop : (decide (status = fmiOK) = true ∧ ei.terminateSimulation = true)
  · cases hT : T.lt_STANDALONE_TARGETS
    · refine ⟨es ++ [Event.logger s.fmustruct.mFMIComp s.fmustruct.fmuname
        (recordedME s.fmustruct.FMUErrorStatus status) "FMU1_checkSimTerminate" (formatString
        "'TerminateSimulation' flag was set to true by FMU %s during 'fmiEventUpdate'. Simulation will stop after the current time step at %f."
        [.str blkPath, .real time])], ?_, ?_⟩
      · simp only [FMU1ME.FMU1_eventIteration.body, hr, hfst, hes]
        simp [hstop, hT, Sys.emit]
      · intro e he
        rcases List.mem_append.1 he with h | h
        · exact hno e h
        · simp at h
          subst h
          rfl
    · refine ⟨es ++ [Event.rt_ssReportDiagnosticAsInfo s.fmustruct.ssPtr
          (CreateDiagnosticAsVoidPtr "FMUBlock:FMU:FMUSimEventUpdateTerminated"
            [.str blkPath, .real time]),
          Event.ssSetStopRequested s.fmustruct.ssPtr 1], ?_, ?_⟩
      · simp only [FMU1ME.FMU1_eventIteration.body, hr, hfst, hes]
        simp [hstop, hT, Sys.emit]
      · intro e he
        rcases List.mem_append.1 he with h | h
        · exact hno e h
        · simp at h
          rcases h with h | h <;> subst h <;> rfl
  · refine ⟨es, ?_, hno⟩
    simp only [FMU1ME.FMU1_eventIteration.body, hr, hfst, hes]
    simp [Sys.emit]
    intro h1 h2
    exact absurd ⟨by simpa using h1, h2⟩ hstop

theorem FMU1ME_capReport_spec {W : Type} (T : Target) (blkPath : String) (time : fmiReal)
    (iterationNumber : Nat) (s : FMU1ME.St W) :
    ∃ e, FMU1ME.FMU1_eventIteration.capReport T blkPath time iterationNumber s =
        { s with trace := s.trace ++ [e] } ∧
      e.isFmuCall = false ∧ e.isDiagnostic = true := by
  cases hT : T.lt_STANDALONE_TARGETS <;>
    simp [FMU1ME.FMU1_eventIteration.capReport, hT, Sys.emit, Event.isFmuCall,
      Event.isDiagnostic]

/-- The fuel given by `FMU1_eventIteration` is enough, whatever the FMU does. -/
theorem FMU1_eventIteration_loop_fuel {W : Type} (T : Target) (blkPath : String)
    (time : fmiReal) :
    ∀ (fuel iterationNumber : Nat) (returnStatus : Bool) (s : FMU1ME.St W),
      0 < fuel → 10001 ≤ iterationNumber + fuel →
      (FMU1ME.FMU1_eventIteration.loop T blkPath time fuel iterationNumber returnStatus
        s).isSome = true := by
  intro fuel
  induction fuel with
  | zero => intro n rs s h; omega
  | succ fuel ih =>
    intro n rs s _ hn
    rw [FMU1ME.FMU1_eventIteration.loop]
    by_cases hconv : s.fmustruct.eventInfo.iterationConverged = false
    · by_cases hcap : n ≥ 10000
      · simp [hconv, hcap]
      · simp only [hconv, hcap, if_true, if_false]
        exact ih _ _ _ (by omega) (by omega)
    · simp [hconv]

/-- An event-update function that always returns OK and never reports convergence is called
10001 times by the loop of `FMU1_eventIteration` started with `iterationNumber = 0`. -/
theorem FMU1ME_loop_neverConverges {W : Type} (T : Target) (blkPath : String)
    (time : fmiReal) :
    ∀ (fuel iterationNumber : Nat) (returnStatus : Bool) (s : FMU1ME.St W),
      (∀ c b ei w, (s.fmustruct.eventUpdate c b ei w).1 = fmiOK ∧
        (s.fmustruct.eventUpdate c b ei w).2.1.iterationConverged = false) →
      s.fmustruct.eventInfo.iterationConverged = false →
      iterationNumber ≤ 10000 → 10001 ≤ iterationNumber + fuel →
      ∃ s', FMU1ME.FMU1_eventIteration.loop T blkPath time fuel iterationNumber returnStatus s
          = some (false, s') ∧
        s'.trace.countP (Event.isCallOf .eventUpdate) =
          s.trace.countP (Event.isCallOf .eventUpdate) + (10001 - iterationNumber) := by
  intro fuel
  induction fuel with
  | zero => intro n rs s _ _ h1 h2; omega
  | succ fuel ih =>
    intro n rs s hf hconv hn hfuel
    obtain ⟨es, hbody, hes⟩ := FMU1ME_body_spec T blkPath time s
    have hcount := countP_isCallOf_eq_zero .eventUpdate es hes
    rw [FMU1ME.FMU1_eventIteration.loop]
    by_cases hcap : n ≥ 10000
    · obtain ⟨e, hcapr, he, -⟩ := FMU1ME_capReport_spec T blkPath time n
        (FMU1ME.FMU1_eventIteration.body T blkPath time s).2
      refine ⟨_, by simp only [hconv, hcap, if_true]; rfl, ?_⟩
      rw [hcapr, hbody]
      have hn' : n = 10000 := by omega
      subst hn'
      simp [List.countP_append, List.countP_cons, hcount, Event.isCallOf_fmuCall_self,
        Event.isCallOf_eq_false_of_isFmuCall_eq_false _ e he]
    · simp only [hconv, hcap, if_true, if_false]
      obtain ⟨s', hs', hc'⟩ := ih (n + 1) (FMU1ME.FMU1_eventIteration.body T blkPath time s).1
        (FMU1ME.FMU1_eventIteration.body T blkPath time s).2
        (by rw [hbody]; exact hf) (by rw [hbody]; exact (hf _ _ _ _).2) (by omega) (by omega)
      refine ⟨s', hs', ?_⟩
      rw [hc', hbody]
      simp [List.countP_append, List.countP_cons, hcount, Event.isCallOf_fmuCall_self]
      omega

/-- `FMU1_eventIteration`, entered with `iterationConverged` false, against an event-update
function that always returns OK and never reports convergence. -/
theorem FMU1_eventIteration_neverConverges {W : Type} (T : Target) (s : FMU1ME.St W)
    (blkPath : String) (time : fmiReal)
    (hconv : s.fmustruct.eventInfo.iterationConverged = false)
    (hf : ∀ c b ei w, (s.fmustruct.eventUpdate c b ei w).1 = fmiOK ∧
      (s.fmustruct.eventUpdate c b ei w).2.1.iterationConverged = false) :
    ∃ s', FMU1ME.FMU1_eventIteration T s blkPath time = some (false, s') ∧
      s'.trace.countP (Event.isCallOf .eventUpdate) =
        s.trace.countP (Event.isCallOf .eventUpdate) + 10001 := by
  exact FMU1ME_loop_neverConverges T blkPath time 10001 0 true s hf hconv (by omega) (by omega)

/-! ## Auxiliary facts: the error status after a sequence of driver calls -/

theorem foldl_recorded_Fatal (cur : fmiStatus) (pre post : List fmiStatus)
    (hpost : ∀ x ∈ post, x ≠ fmiError ∧ x ≠ fmiPending) :
    (pre ++ fmiFatal :: post).foldl recorded cur = fmiFatal := by
  rw [List.foldl_append, List.foldl_cons]
  have h1 : recorded (pre.foldl recorded cur) fmiFatal = fmiFatal := by simp [recorded]
  rw [h1]
  clear h1
  induction post with
  | nil => rfl
  | cons x xs ih =>
    have hx := hpost x (List.mem_cons_self _ _)
    have hstep : recorded fmiFatal x = fmiFatal := by
      cases x <;> simp_all [recorded]
    rw [List.foldl_cons, hstep]
    exact ih (fun y hy => hpost y (List.mem_cons_of_mem _ hy))

theorem foldl_recordedME_Fatal (cur : fmiStatus) (pre post : List fmiStatus)
    (hpost : ∀ x ∈ post, x ≠ fmiError) :
    (pre ++ fmiFatal :: post).foldl recordedME cur = fmiFatal := by
  rw [List.foldl_append, List.foldl_cons]
  have h1 : recordedME (pre.foldl recordedME cur) fmiFatal = fmiFatal := by simp [recordedME]
  rw [h1]
  clear h1
  induction post with
  | nil => rfl
  | cons x xs ih =>
    have hx := hpost x (List.mem_cons_self _ _)
    have hstep : recordedME fmiFatal x = fmiFatal := by
      cases x <;> simp_all [recordedME]
    rw [List.foldl_cons, hstep]
    exact ih (fun y hy => hpost y (List.mem_cons_of_mem _ hy))

theorem FMU2_loop_follows {W : Type} (T : Target) (blkPath : String) (time : fmiReal) :
    ∀ (fuel iterationNumber : Nat) (returnStatus : Bool) (s : FMU2.St W) (r : Bool × FMU2.St W),
      FMU2.FMU2_eventIteration.loop T blkPath time fuel iterationNumber returnStatus s = some r →
      ∃ es, r.2.trace = s.trace ++ es ∧
        r.2.fmustruct.FMUErrorStatus =
          (translatedStatuses es).foldl recorded s.fmustruct.FMUErrorStatus := by
  intro fuel
  induction fuel with
  | zero =>
    intro n rs s r h
    simp [FMU2.FMU2_eventIteration.loop] at h
  | succ fuel ih =>
    intro n rs s r h
    rw [FMU2.FMU2_eventIteration.loop] at h
    by_cases hneed : s.fmustruct.eventInfo.newDiscreteStatesNeeded = true
    · obtain ⟨es, hbody, hes⟩ := FMU2_body_spec T blkPath time s
      have hnil := translatedStatuses_eq_nil es hes
      by_cases hcap : n ≥ 10000
      · obtain ⟨e, hcapr, he, -⟩ := FMU2_capReport_spec T blkPath time n
          (FMU2.FMU2_eventIteration.body T blkPath time s).2
        simp only [hneed, hcap, if_true, Option.some.injEq] at h
        subst h
        refine ⟨Event.fmuCall .newDiscreteStates s.fmustruct.mFMIComp
          (some (s.fmustruct.newDiscreteStates s.fmustruct.mFMIComp s.fmustruct.eventInfo
            s.fmu).1) :: (es ++ [e]), ?_, ?_⟩
        · rw [hcapr, hbody]
          simp
        · have hnil' : translatedStatuses (es ++ [e]) = [] :=
            translatedStatuses_eq_nil _ (by
              intro x hx
              rcases List.mem_append.1 hx with hx | hx
              · exact hes x hx
              · simp at hx
                subst hx
                exact he)
          simp only [translatedStatuses] at hnil'
          rw [hcapr, hbody]
          simp [translatedStatuses, Event.translated?, hnil']
      · simp only [hneed, hcap, if_true, if_false] at h
        obtain ⟨es', htr, hst⟩ := ih _ _ _ r h
        refine ⟨Event.fmuCall .newDiscreteStates s.fmustruct.mFMIComp
          (some (s.fmustruct.newDiscreteStates s.fmustruct.mFMIComp s.fmustruct.eventInfo
            s.fmu).1) :: (es ++ es'), ?_, ?_⟩
        · rw [htr, hbody]
          simp
        · rw [hst, hbody]
          simp only [translatedStatuses] at hnil
          simp [translatedStatuses, Event.translated?, hnil]
    · simp [hneed] at h
      subst h
      exact ⟨[], by simp, by simp [translatedStatuses]⟩

theorem FMU1ME_loop_follows {W : Type} (T : Target) (blkPath : String) (time : fmiReal) :
    ∀ (fuel iterationNumber : Nat) (returnStatus : Bool) (s : FMU1ME.St W)
      (r : Bool × FMU1ME.St W),
      FMU1ME.FMU1_eventIteration.loop T blkPath time fuel iterationNumber returnStatus s
        = some r →
      ∃ es, r.2.trace = s.trace ++ es ∧
        r.2.fmustruct.FMUErrorStatus =
          (translatedStatuses es).foldl recordedME s.fmustruct.FMUErrorStatus := by
  intro fuel
  induction fuel with
  | zero =>
    intro n rs s r h
    simp [FMU1ME.FMU1_eventIteration.loop] at h
  | succ fuel ih =>
    intro n rs s r h
    rw [FMU1ME.FMU1_eventIteration.loop] at h
    by_cases hconv : s.fmustruct.eventInfo.iterationConverged = false
    · obtain ⟨es, hbody, hes⟩ := FMU1ME_body_spec T blkPath time s
      have hnil := translatedStatuses_eq_nil es hes
      by_cases hcap : n ≥ 10000
      · obtain ⟨e, hcapr, he, -⟩ := FMU1ME_capReport_spec T blkPath time n
          (FMU1ME.FMU1_eventIteration.body T blkPath time s).2
        simp only [hconv, hcap, if_true, Option.some.injEq] at h
        subst h
        refine ⟨Event.fmuCall .eventUpdate s.fmustruct.mFMIComp
          (some (s.fmustruct.eventUpdate s.fmustruct.mFMIComp fmiFalse s.fmustruct.eventInfo
            s.fmu).1) :: (es ++ [e]), ?_, ?_⟩
        · rw [hcapr, hbody]
          simp
        · have hnil' : translatedStatuses (es ++ [e]) = [] :=
            translatedStatuses_eq_nil _ (by
              intro x hx
              rcases List.mem_append.1 hx with hx | hx
              · exact hes x hx
              · simp at hx
                subst hx
                exact he)
          simp only [translatedStatuses] at hnil'
          rw [hcapr, hbody]
          simp [translatedStatuses, Event.translated?, hnil']
      · simp only [hconv, hcap, if_true, if_false] at h
        obtain ⟨es', htr, hst⟩ := ih _ _ _ r h
        refine ⟨Event.fmuCall .eventUpdate s.fmustruct.mFMIComp
          (some (s.fmustruct.eventUpdate s.fmustruct.mFMIComp fmiFalse s.fmustruct.eventInfo
            s.fmu).1) :: (es ++ es'), ?_, ?_⟩
        · rw [htr, hbody]
          simp
        · rw [hst, hbody]
          simp only [translatedStatuses] at hnil
          simp [translatedStatuses, Event.translated?, hnil]
    · simp [hconv] at h
      subst h
      exact ⟨[], by simp, by simp [translatedStatuses]⟩

/-! ## Event iteration against an FMU that never converges (C1) -/

/-- C1 (counterexample): the FMUs `mockNeverConverges` always return OK and never report
convergence, and event iteration against them does not end after exactly 10000 calls of the
discrete-state function. -/
theorem eventIteration_neverConverges_not_10000 :
    ((∀ c ei w, (FMU2.mockNeverConverges.newDiscreteStates c ei w).1 = fmiOK ∧
        (FMU2.mockNeverConverges.newDiscreteStates c ei w).2.1.newDiscreteStatesNeeded = true) ∧
      ¬ ∃ s', FMU2.FMU2_eventIteration Target.standalone ⟨FMU2.mockNeverConverges, 0, []⟩
          "blk" 0 = some (false, s') ∧
        s'.trace.countP (Event.isCallOf .newDiscreteStates) = 10000) ∧
    ((∀ c b ei w, (FMU1ME.mockNeverConverges.eventUpdate c b ei w).1 = fmiOK ∧
        (FMU1ME.mockNeverConverges.eventUpdate c b ei w).2.1.iterationConverged = false) ∧
      FMU1ME.mockNeverConverges.eventInfo.iterationConverged = false ∧
      ¬ ∃ s', FMU1ME.FMU1_eventIteration Target.standalone ⟨FMU1ME.mockNeverConverges, 0, []⟩
          "blk" 0 = some (false, s') ∧
        s'.trace.countP (Event.isCallOf .eventUpdate) = 10000) := by
  refine ⟨⟨fun _ _ _ => ⟨rfl, rfl⟩, ?_⟩, ⟨fun _ _ _ _ => ⟨rfl, rfl⟩, rfl, ?_⟩⟩
  · rintro ⟨s', hs', hc⟩
    obtain ⟨s'', hs'', hc''⟩ := FMU2_eventIteration_neverConverges Target.standalone
      ⟨FMU2.mockNeverConverges, 0, []⟩ "blk" 0 (fun _ _ _ => ⟨rfl, rfl⟩)
    rw [hs'] at hs''
    cases hs''
    rw [hc] at hc''
    simp at hc''
  · rintro ⟨s', hs', hc⟩
    obtain ⟨s'', hs'', hc''⟩ := FMU1_eventIteration_neverConverges Target.standalone
      ⟨FMU1ME.mockNeverConverges, 0, []⟩ "blk" 0 rfl (fun _ _ _ _ => ⟨rfl, rfl⟩)
    rw [hs'] at hs''
    cases hs''
    rw [hc] at hc''
    simp at hc''

/-- C1 (amended): for every FMU discrete-state function that always returns OK and never
reports convergence, `FMU2_eventIteration` (and `FMU1_eventIteration` entered with
`iterationConverged` false) returns false after calling the discrete-state function
(`newDiscreteStates`, `eventUpdate`) exactly 10001 times. -/
theorem eventIteration_neverConverges_10001 :
    (∀ (W : Type) (T : Target) (s : FMU2.St W) (blkPath : String) (time : fmiReal),
      (∀ c ei w, (s.fmustruct.newDiscreteStates c ei w).1 = fmiOK ∧
        (s.fmustruct.newDiscreteStates c ei w).2.1.newDiscreteStatesNeeded = true) →
      ∃ s', FMU2.FMU2_eventIteration T s blkPath time = some (false, s') ∧
        s'.trace.countP (Event.isCallOf .newDiscreteStates) =
          s.trace.countP (Event.isCallOf .newDiscreteStates) + 10001) ∧
    (∀ (W : Type) (T : Target) (s : FMU1ME.St W) (blkPath : String) (time : fmiReal),
      s.fmustruct.eventInfo.iterationConverged = false →
      (∀ c b ei w, (s.fmustruct.eventUpdate c b ei w).1 = fmiOK ∧
        (s.fmustruct.eventUpdate c b ei w).2.1.iterationConverged = false) →
      ∃ s', FMU1ME.FMU1_eventIteration T s blkPath time = some (false, s') ∧
        s'.trace.countP (Event.isCallOf .eventUpdate) =
          s.trace.countP (Event.isCallOf .eventUpdate) + 10001) :=
  ⟨fun _ T s blkPath time hf => FMU2_eventIteration_neverConverges T s blkPath time hf,
   fun _ T s blkPath time hconv hf =>
     FMU1_eventIteration_neverConverges T s blkPath time hconv hf⟩

/-- Witness of C1 (amended): the FMUs `mockNeverConverges`, in a host build. -/
theorem eventIteration_neverConverges_10001_witness :
    ((∀ c ei w, (FMU2.mockNeverConverges.newDiscreteStates c ei w).1 = fmiOK ∧
        (FMU2.mockNeverConverges.newDiscreteStates c ei w).2.1.newDiscreteStatesNeeded = true) ∧
      ∃ s', FMU2.FMU2_eventIteration Target.host ⟨FMU2.mockNeverConverges, 0, []⟩ "blk" 0
          = some (false, s') ∧
        s'.trace.countP (Event.isCallOf .newDiscreteStates) =
          ([] : List Event).countP (Event.isCallOf .newDiscreteStates) + 10001) ∧
    ((FMU1ME.mockNeverConverges.eventInfo.iterationConverged = false ∧
      ∀ c b ei w, (FMU1ME.mockNeverConverges.eventUpdate c b ei w).1 = fmiOK ∧
        (FMU1ME.mockNeverConverges.eventUpdate c b ei w).2.1.iterationConverged = false) ∧
      ∃ s', FMU1ME.FMU1_eventIteration Target.host ⟨FMU1ME.mockNeverConverges, 0, []⟩ "blk" 0
          = some (false, s') ∧
        s'.trace.countP (Event.isCallOf .eventUpdate) =
          ([] : List Event).countP (Event.isCallOf .eventUpdate) + 10001) :=
  ⟨⟨fun _ _ _ => ⟨rfl, rfl⟩,
    eventIteration_neverConverges_10001.1 Nat Target.host ⟨FMU2.mockNeverConverges, 0, []⟩
      "blk" 0 (fun _ _ _ => ⟨rfl, rfl⟩)⟩,
   ⟨⟨rfl, fun _ _ _ _ => ⟨rfl, rfl⟩⟩,
    eventIteration_neverConverges_10001.2 Nat Target.host ⟨FMU1ME.mockNeverConverges, 0, []⟩
      "blk" 0 rfl (fun _ _ _ _ => ⟨rfl, rfl⟩)⟩⟩

/-! ## The stub for unresolved mandatory functions (C2, C3) -/

/-- C2 (the code at the failing input): in RTWCG_FMU2_target.c the stub `defaultfcn` returns
`fmi2Error` for the non-null component `9` and `fmi2Fatal` for the null component, the
reverse of what the claim says and of what the stubs of the two FMI 1.0 drivers do. -/
theorem defaultfcn_FMI2_reversed :
    FMU2.defaultfcn 9 = FMU2.fmi2Error ∧ FMU2.defaultfcn NULL = FMU2.fmi2Fatal := by
  decide

/-- C3: in both FMI 1.0 drivers (co-simulation and model exchange) the stub `defaultfcn`
returns `fmiFatal` for every non-null component argument and `fmiError` for the null one. -/
theorem defaultfcn_FMI1 :
    (∀ c : fmiComponent, c ≠ NULL → FMU1.defaultfcn c = fmiFatal) ∧
    FMU1.defaultfcn NULL = fmiError ∧
    (∀ c : fmiComponent, c ≠ NULL → FMU1ME.defaultfcn c = fmiFatal) ∧
    FMU1ME.defaultfcn NULL = fmiError := by
  refine ⟨?_, by decide, ?_, by decide⟩
  · intro c hc
    simp [FMU1.defaultfcn, hc]
  · intro c hc
    simp [FMU1ME.defaultfcn, hc]

/-- Witness of C3 at the component pointer `9`. -/
theorem defaultfcn_FMI1_witness :
    ((9 : fmiComponent) ≠ NULL ∧ FMU1.defaultfcn 9 = fmiFatal) ∧
    ((9 : fmiComponent) ≠ NULL ∧ FMU1ME.defaultfcn 9 = fmiFatal) :=
  ⟨⟨by decide, defaultfcn_FMI1.1 9 (by decide)⟩,
   ⟨by decide, defaultfcn_FMI1.2.2.1 9 (by decide)⟩⟩

/-! ## The status translator (C4, C5, C6) -/

/-- C4 (counterexample): given `fmi2Warning` for the call `fmi2SetTime`, `CheckStatus` of the
FMI 2.0 driver does not return true; neither do the two FMI 1.0 translators. -/
theorem CheckStatus_Warning_not_true :
    (FMU2.CheckStatus Target.standalone ⟨FMU2.mockScripted, [], []⟩ fmiWarning "fmi2SetTime").1
      ≠ true ∧
    (FMU1.CheckStatus Target.standalone ⟨FMU1.mockScripted, [], []⟩ fmiWarning "fmiDoStep").1
      ≠ true ∧
    (FMU1ME.CheckStatus Target.standalone ⟨FMU1ME.mockScripted, [], []⟩ fmiWarning "fmisetTime").1
      ≠ true := by
  decide

/-- C4 (amended): for every handle and call name, `CheckStatus` of each of the three drivers
returns false when given the status Warning, and leaves the handle, the FMU and the trace as
they were. -/
theorem CheckStatus_Warning :
    (∀ (W : Type) (T : Target) (s : FMU2.St W) (fcnName : String),
      FMU2.CheckStatus T s fmiWarning fcnName = (false, s)) ∧
    (∀ (W : Type) (T : Target) (s : FMU1.St W) (fcnName : String),
      FMU1.CheckStatus T s fmiWarning fcnName = (false, s)) ∧
    (∀ (W : Type) (T : Target) (s : FMU1ME.St W) (fcnName : String),
      FMU1ME.CheckStatus T s fmiWarning fcnName = (false, s)) := by
  refine ⟨?_, ?_, ?_⟩
  · intro W T s fcnName
    simp [FMU2.CheckStatus]
  · intro W T s fcnName
    simp [FMU1.CheckStatus]
  · intro W T s fcnName
    simp [FMU1ME.CheckStatus]

/-- C5: for every handle, call name and status in {Error, Fatal}, `CheckStatus` of each of
the three drivers returns false and appends to the trace exactly one diagnostic, which
carries the call name and the FMU instance name of the handle. -/
theorem CheckStatus_Error_Fatal_diagnostic :
    (∀ (W : Type) (T : Target) (s : FMU2.St W) (fcnName : String) (status : fmiStatus),
      status = fmiError ∨ status = fmiFatal →
      (FMU2.CheckStatus T s status fcnName).1 = false ∧
      ∃ es e, (FMU2.CheckStatus T s status fcnName).2.trace = s.trace ++ es ∧
        es.filter Event.isDiagnostic = [e] ∧
        e.carries fcnName = true ∧ e.carries s.fmustruct.fmuname = true) ∧
    (∀ (W : Type) (T : Target) (s : FMU1.St W) (fcnName : String) (status : fmiStatus),
      status = fmiError ∨ status = fmiFatal →
      (FMU1.CheckStatus T s status fcnName).1 = false ∧
      ∃ es e, (FMU1.CheckStatus T s status fcnName).2.trace = s.trace ++ es ∧
        es.filter Event.isDiagnostic = [e] ∧
        e.carries fcnName = true ∧ e.carries s.fmustruct.fmuname = true) ∧
    (∀ (W : Type) (T : Target) (s : FMU1ME.St W) (fcnName : String) (status : fmiStatus),
      status = fmiError ∨ status = fmiFatal →
      (FMU1ME.CheckStatus T s status fcnName).1 = false ∧
      ∃ es e, (FMU1ME.CheckStatus T s status fcnName).2.trace = s.trace ++ es ∧
        es.filter Event.isDiagnostic = [e] ∧
        e.carries fcnName = true ∧ e.carries s.fmustruct.fmuname = true) := by
  refine ⟨?_, ?_, ?_⟩
  · intro W T s fcnName status h
    obtain ⟨e, he, hd, -, hc, hn⟩ := FMU2_CheckStatus_error T s status fcnName h
    refine ⟨by rcases h with h | h <;> simp [FMU2_CheckStatus_fst, h], _, e, by rw [he], ?_, hc, hn⟩
    have hstop : (Event.ssSetStopRequested s.fmustruct.ssPtr 1).isDiagnostic = false := rfl
    cases T.lt_STANDALONE_TARGETS <;> simp [List.filter_cons, hd, hstop]
  · intro W T s fcnName status h
    obtain ⟨e, he, hd, -, hc, hn⟩ := FMU1_CheckStatus_error T s status fcnName h
    refine ⟨by rcases h with h | h <;> simp [FMU1_CheckStatus_fst, h], _, e, by rw [he], ?_, hc, hn⟩
    have hstop : (Event.ssSetStopRequested s.fmustruct.ssPtr 1).isDiagnostic = false := rfl
    cases T.lt_STANDALONE_TARGETS <;> simp [List.filter_cons, hd, hstop]
  · intro W T s fcnName status h
    obtain ⟨e, he, hd, -, hc, hn⟩ := FMU1ME_CheckStatus_error T s status fcnName h
    refine ⟨by rcases h with h | h <;> simp [FMU1ME_CheckStatus_fst, h], _, e, by rw [he], ?_, hc, hn⟩
    have hstop : (Event.ssSetStopRequested s.fmustruct.ssPtr 1).isDiagnostic = false := rfl
    cases T.lt_STANDALONE_TARGETS <;> simp [List.filter_cons, hd, hstop]

/-- Witness of C5: the scripted FMI 2.0 handle, the call name `fmi2SetTime` and the status
Fatal, in a standalone build. -/
theorem CheckStatus_Error_Fatal_diagnostic_witness :
    (fmiFatal = fmiError ∨ fmiFatal = fmiFatal) ∧
    (FMU2.CheckStatus Target.standalone ⟨FMU2.mockScripted, [], []⟩ fmiFatal "fmi2SetTime").1
      = false ∧
    ∃ es e,
      (FMU2.CheckStatus Target.standalone ⟨FMU2.mockScripted, [], []⟩ fmiFatal
        "fmi2SetTime").2.trace = [] ++ es ∧
      es.filter Event.isDiagnostic = [e] ∧
      e.carries "fmi2SetTime" = true ∧ e.carries "fmu" = true :=
  ⟨Or.inr rfl,
   CheckStatus_Error_Fatal_diagnostic.1 (List fmiStatus) Target.standalone
     ⟨FMU2.mockScripted, [], []⟩ "fmi2SetTime" fmiFatal (Or.inr rfl)⟩

/-- C6 (counterexample): a handle whose error status is already Fatal is given the status
Error for the call `fmi2SetTime`; afterwards its error status is not Fatal, the worse of the
two, but Error.  The same holds in both FMI 1.0 drivers. -/
theorem CheckStatus_Fatal_then_Error :
    (FMU2.CheckStatus Target.standalone
        ⟨{ FMU2.mockScripted with FMUErrorStatus := fmiFatal }, [], []⟩ fmiError
        "fmi2SetTime").2.fmustruct.FMUErrorStatus ≠ fmiStatus.worse fmiFatal fmiError ∧
    (FMU2.CheckStatus Target.standalone
        ⟨{ FMU2.mockScripted with FMUErrorStatus := fmiFatal }, [], []⟩ fmiError
        "fmi2SetTime").2.fmustruct.FMUErrorStatus ≠ fmiFatal ∧
    (FMU1.CheckStatus Target.standalone
        ⟨{ FMU1.mockScripted with FMUErrorStatus := fmiFatal }, [], []⟩ fmiError
        "fmiDoStep").2.fmustruct.FMUErrorStatus ≠ fmiFatal ∧
    (FMU1ME.CheckStatus Target.standalone
        ⟨{ FMU1ME.mockScripted with FMUErrorStatus := fmiFatal }, [], []⟩ fmiError
        "fmisetTime").2.fmustruct.FMUErrorStatus ≠ fmiFatal := by
  decide

/-- C6 (amended): after `CheckStatus` of any of the three drivers is given a status in
{Error, Fatal}, the error status of the handle equals that status, whatever its previous
value was; in particular a handle whose error status is Fatal and that is given Error ends
with the error status Error. -/
theorem CheckStatus_Error_Fatal_overwrites :
    (∀ (W : Type) (T : Target) (s : FMU2.St W) (fcnName : String) (status : fmiStatus),
      status = fmiError ∨ status = fmiFatal →
      (FMU2.CheckStatus T s status fcnName).2.fmustruct.FMUErrorStatus = status) ∧
    (∀ (W : Type) (T : Target) (s : FMU1.St W) (fcnName : String) (status : fmiStatus),
      status = fmiError ∨ status = fmiFatal →
      (FMU1.CheckStatus T s status fcnName).2.fmustruct.FMUErrorStatus = status) ∧
    (∀ (W : Type) (T : Target) (s : FMU1ME.St W) (fcnName : String) (status : fmiStatus),
      status = fmiError ∨ status = fmiFatal →
      (FMU1ME.CheckStatus T s status fcnName).2.fmustruct.FMUErrorStatus = status) := by
  refine ⟨?_, ?_, ?_⟩
  · intro W T s fcnName status h
    obtain ⟨e, he, -⟩ := FMU2_CheckStatus_error T s status fcnName h
    rw [he]
  · intro W T s fcnName status h
    obtain ⟨e, he, -⟩ := FMU1_CheckStatus_error T s status fcnName h
    rw [he]
  · intro W T s fcnName status h
    obtain ⟨e, he, -⟩ := FMU1ME_CheckStatus_error T s status fcnName h
    rw [he]

/-- Witness of C6 (amended): the scripted FMI 2.0 handle with error status Fatal is given
Error. -/
theorem CheckStatus_Error_Fatal_overwrites_witness :
    (fmiError = fmiError ∨ fmiError = fmiFatal) ∧
    (FMU2.CheckStatus Target.host
      ⟨{ FMU2.mockScripted with FMUErrorStatus := fmiFatal }, [], []⟩ fmiError
      "fmi2SetTime").2.fmustruct.FMUErrorStatus = fmiError :=
  ⟨Or.inl rfl,
   CheckStatus_Error_Fatal_overwrites.1 (List fmiStatus) Target.host
     ⟨{ FMU2.mockScripted with FMUErrorStatus := fmiFatal }, [], []⟩ "fmi2SetTime" fmiError
     (Or.inl rfl)⟩

/-! ## Auxiliary facts: the statuses that a sequence of driver calls translates -/

theorem FMU2_CheckStatus_follows {W : Type} (T : Target) (s0 s1 : FMU2.St W)
    (status : fmiStatus) (fcnName : String) (ev : Event)
    (h1 : s1.trace = s0.trace ++ [ev])
    (h2 : s1.fmustruct.FMUErrorStatus = s0.fmustruct.FMUErrorStatus)
    (h3 : ev.translated? = some status) :
    ∃ es, (FMU2.CheckStatus T s1 status fcnName).2.trace = s0.trace ++ es ∧
      (FMU2.CheckStatus T s1 status fcnName).2.fmustruct.FMUErrorStatus =
        (translatedStatuses es).foldl recorded s0.fmustruct.FMUErrorStatus := by
  obtain ⟨es, hes, hno⟩ := FMU2_CheckStatus_spec T s1 status fcnName
  refine ⟨ev :: es, ?_, ?_⟩
  · rw [hes]
    simp [h1]
  · rw [hes]
    have := translatedStatuses_eq_nil es hno
    simp only [translatedStatuses] at this
    simp [translatedStatuses, h3, this, h2]

theorem FMU1_CheckStatus_follows {W : Type} (T : Target) (s0 s1 : FMU1.St W)
    (status : fmiStatus) (fcnName : String) (ev : Event)
    (h1 : s1.trace = s0.trace ++ [ev])
    (h2 : s1.fmustruct.FMUErrorStatus = s0.fmustruct.FMUErrorStatus)
    (h3 : ev.translated? = some status) :
    ∃ es, (FMU1.CheckStatus T s1 status fcnName).2.trace = s0.trace ++ es ∧
      (FMU1.CheckStatus T s1 status fcnName).2.fmustruct.FMUErrorStatus =
        (translatedStatuses es).foldl recorded s0.fmustruct.FMUErrorStatus := by
  obtain ⟨es, hes, hno⟩ := FMU1_CheckStatus_spec T s1 status fcnName
  refine ⟨ev :: es, ?_, ?_⟩
  · rw [hes]
    simp [h1]
  · rw [hes]
    have := translatedStatuses_eq_nil es hno
    simp only [translatedStatuses] at this
    simp [translatedStatuses, h3, this, h2]

theorem FMU1ME_CheckStatus_follows {W : Type} (T : Target) (s0 s1 : FMU1ME.St W)
    (status : fmiStatus) (fcnName : String) (ev : Event)
    (h1 : s1.trace = s0.trace ++ [ev])
    (h2 : s1.fmustruct.FMUErrorStatus = s0.fmustruct.FMUErrorStatus)
    (h3 : ev.translated? = some status) :
    ∃ es, (FMU1ME.CheckStatus T s1 status fcnName).2.trace = s0.trace ++ es ∧
      (FMU1ME.CheckStatus T s1 status fcnName).2.fmustruct.FMUErrorStatus =
        (translatedStatuses es).foldl recordedME s0.fmustruct.FMUErrorStatus := by
  obtain ⟨es, hes, hno⟩ := FMU1ME_CheckStatus_spec T s1 status fcnName
  refine ⟨ev :: es, ?_, ?_⟩
  · rw [hes]
    simp [h1]
  · rw [hes]
    have := translatedStatuses_eq_nil es hno
    simp only [translatedStatuses] at this
    simp [translatedStatuses, h3, this, h2]

theorem FMU2_doStep_follows {W : Type} (T : Target) (s : FMU2.St W)
    (currentCommunicationPoint communicationStepSize : fmiReal)
    (noSetFMUStatePriorToCurrentPoint boolVal : Bool) :
    ∃ es, (FMU2.FMU2_doStep T s currentCommunicationPoint communicationStepSize
        noSetFMUStatePriorToCurrentPoint boolVal).2.trace = s.trace ++ es ∧
      (FMU2.FMU2_doStep T s currentCommunicationPoint communicationStepSize
        noSetFMUStatePriorToCurrentPoint boolVal).2.fmustruct.FMUErrorStatus =
        (translatedStatuses es).foldl recorded s.fmustruct.FMUErrorStatus := by
  refine ⟨(FMU2.FMU2_doStep T s currentCommunicationPoint communicationStepSize
    noSetFMUStatePriorToCurrentPoint boolVal).2.trace.drop s.trace.length, ?_, ?_⟩ <;>
  · rcases hr : s.fmustruct.doStep s.fmustruct.mFMIComp currentCommunicationPoint
      communicationStepSize noSetFMUStatePriorToCurrentPoint s.fmu with ⟨status, w⟩
    rcases hq : s.fmustruct.getBooleanStatus s.fmustruct.mFMIComp .fmi2Terminated boolVal w
      with ⟨qstatus, qval, w1⟩
    cases hT : T.lt_STANDALONE_TARGETS <;> cases status <;> cases qval <;>
      simp [FMU2.FMU2_doStep, hr, hq, FMU2.CheckStatus, hT, Sys.emit, translatedStatuses,
        Event.translated?, recorded]

theorem FMU2_simTerminate_follows {W : Type} (T : Target) (s : FMU2.St W) (blkPath : String)
    (time : fmiReal) :
    ∃ es, (FMU2.FMU2_simTerminate T s blkPath time).trace = s.trace ++ es ∧
      (FMU2.FMU2_simTerminate T s blkPath time).fmustruct.FMUErrorStatus =
        (translatedStatuses es).foldl recorded s.fmustruct.FMUErrorStatus := by
  cases hT : T.lt_STANDALONE_TARGETS
  · exact ⟨_, by simp only [FMU2.FMU2_simTerminate, hT, Sys.emit]; rfl,
      by simp [FMU2.FMU2_simTerminate, hT, Sys.emit, translatedStatuses, Event.translated?]⟩
  · exact ⟨_, by simp only [FMU2.FMU2_simTerminate, hT, Sys.emit]; rfl,
      by simp [FMU2.FMU2_simTerminate, hT, Sys.emit, translatedStatuses, Event.translated?]⟩

theorem FMU1ME_checkSimTerminate_follows {W : Type} (T : Target) (s : FMU1ME.St W)
    (blkPath : String) (time : fmiReal) :
    ∃ es, (FMU1ME.FMU1_checkSimTerminate T s blkPath time).trace = s.trace ++ es ∧
      (FMU1ME.FMU1_checkSimTerminate T s blkPath time).fmustruct.FMUErrorStatus =
        (translatedStatuses es).foldl recordedME s.fmustruct.FMUErrorStatus := by
  refine ⟨(FMU1ME.FMU1_checkSimTerminate T s blkPath time).trace.drop s.trace.length, ?_, ?_⟩ <;>
    cases hT : T.lt_STANDALONE_TARGETS <;>
    cases hS : s.fmustruct.eventInfo.terminateSimulation <;>
    simp [FMU1ME.FMU1_checkSimTerminate, hT, hS, Sys.emit, translatedStatuses,
      Event.translated?]

theorem FMU1ME_setIterationConverged_follows {W : Type} (s : FMU1ME.St W)
    (fmuIsInitialized : Int) (time : fmiReal) :
    ∃ es, (FMU1ME.FMU1_setIterationConverged s fmuIsInitialized time).trace = s.trace ++ es ∧
      (FMU1ME.FMU1_setIterationConverged s fmuIsInitialized time).fmustruct.FMUErrorStatus =
        (translatedStatuses es).foldl recordedME s.fmustruct.FMUErrorStatus := by
  refine ⟨[], ?_, ?_⟩ <;> by_cases h0 : fmuIsInitialized = 0 <;>
    simp [FMU1ME.FMU1_setIterationConverged, h0, translatedStatuses]

theorem FMU2_exec_follows {W : Type} (T : Target) (c : FMU2.DriverCall) (s s' : FMU2.St W)
    (h : c.exec T s = some s') :
    ∃ es, s'.trace = s.trace ++ es ∧
      s'.fmustruct.FMUErrorStatus =
        (translatedStatuses es).foldl recorded s.fmustruct.FMUErrorStatus := by
  cases c
  case doStep a b c d =>
    simp only [FMU2.DriverCall.exec, Option.some.injEq] at h
    subst h
    exact FMU2_doStep_follows T s a b c d
  case eventIteration blkPath time =>
    simp only [FMU2.DriverCall.exec, Option.map_eq_some', FMU2.FMU2_eventIteration] at h
    obtain ⟨r, hr, hs⟩ := h
    subst hs
    have := FMU2_loop_follows T blkPath time _ _ _ _ r hr
    exact this
  case simTerminate blkPath time =>
    simp only [FMU2.DriverCall.exec, Option.some.injEq] at h
    subst h
    exact FMU2_simTerminate_follows T s blkPath time
  case getNextEventTime =>
    simp only [FMU2.DriverCall.exec, Option.some.injEq] at h
    subst h
    exact ⟨[], by simp, by simp [translatedStatuses]⟩
  case valuesOfContinuousStatesChanged =>
    simp only [FMU2.DriverCall.exec, Option.some.injEq] at h
    subst h
    exact ⟨[], by simp, by simp [translatedStatuses]⟩
  all_goals
    simp only [FMU2.DriverCall.exec, Option.some.injEq] at h
    subst h
    exact FMU2_CheckStatus_follows T s _ _ _ _ rfl rfl rfl

theorem FMU2_runCalls_follows {W : Type} (T : Target) :
    ∀ (calls : List FMU2.DriverCall) (s s' : FMU2.St W), FMU2.runCalls T calls s = some s' →
      ∃ es, s'.trace = s.trace ++ es ∧
        s'.fmustruct.FMUErrorStatus =
          (translatedStatuses es).foldl recorded s.fmustruct.FMUErrorStatus := by
  intro calls
  induction calls with
  | nil =>
    intro s s' h
    simp only [FMU2.runCalls, Option.some.injEq] at h
    subst h
    exact ⟨[], by simp, by simp [translatedStatuses]⟩
  | cons c cs ih =>
    intro s s' h
    rw [FMU2.runCalls] at h
    cases hc : c.exec T s with
    | none => simp [hc] at h
    | some r =>
      simp only [hc] at h
      obtain ⟨es1, ht1, hs1⟩ := FMU2_exec_follows T c s r hc
      obtain ⟨es2, ht2, hs2⟩ := ih r s' h
      refine ⟨es1 ++ es2, by rw [ht2, ht1, List.append_assoc], ?_⟩
      rw [hs2, hs1, translatedStatuses_append, List.foldl_append]

theorem FMU1_exec_follows {W : Type} (T : Target) (c : FMU1.DriverCall) (s : FMU1.St W) :
    ∃ es, (c.exec T s).trace = s.trace ++ es ∧
      (c.exec T s).fmustruct.FMUErrorStatus =
        (translatedStatuses es).foldl recorded s.fmustruct.FMUErrorStatus := by
  cases c
  all_goals exact FMU1_CheckStatus_follows T s _ _ _ _ rfl rfl rfl

theorem FMU1_runCalls_follows {W : Type} (T : Target) :
    ∀ (calls : List FMU1.DriverCall) (s : FMU1.St W),
      ∃ es, (FMU1.runCalls T calls s).trace = s.trace ++ es ∧
        (FMU1.runCalls T calls s).fmustruct.FMUErrorStatus =
          (translatedStatuses es).foldl recorded s.fmustruct.FMUErrorStatus := by
  intro calls
  induction calls with
  | nil =>
    intro s
    exact ⟨[], by simp [FMU1.runCalls], by simp [FMU1.runCalls, translatedStatuses]⟩
  | cons c cs ih =>
    intro s
    rw [FMU1.runCalls]
    obtain ⟨es1, ht1, hs1⟩ := FMU1_exec_follows T c s
    obtain ⟨es2, ht2, hs2⟩ := ih (c.exec T s)
    refine ⟨es1 ++ es2, by rw [ht2, ht1, List.append_assoc], ?_⟩
    rw [hs2, hs1, translatedStatuses_append, List.foldl_append]

theorem FMU1ME_exec_follows {W : Type} (T : Target) (c : FMU1ME.DriverCall)
    (s s' : FMU1ME.St W) (h : c.exec T s = some s') :
    ∃ es, s'.trace = s.trace ++ es ∧
      s'.fmustruct.FMUErrorStatus =
        (translatedStatuses es).foldl recordedME s.fmustruct.FMUErrorStatus := by
  cases c
  case eventIteration blkPath time =>
    simp only [FMU1ME.DriverCall.exec, Option.map_eq_some', FMU1ME.FMU1_eventIteration] at h
    obtain ⟨r, hr, hs⟩ := h
    subst hs
    have := FMU1ME_loop_follows T blkPath time _ _ _ _ r hr
    exact this
  case checkSimTerminate blkPath time =>
    simp only [FMU1ME.DriverCall.exec, Option.some.injEq] at h
    subst h
    exact FMU1ME_checkSimTerminate_follows T s blkPath time
  case setIterationConverged a b =>
    simp only [FMU1ME.DriverCall.exec, Option.some.injEq] at h
    subst h
    exact FMU1ME_setIterationConverged_follows s a b
  case ifStateVRchanged =>
    simp only [FMU1ME.DriverCall.exec, Option.some.injEq] at h
    subst h
    exact ⟨[], by simp, by simp [translatedStatuses]⟩
  case getNextEventTime =>
    simp only [FMU1ME.DriverCall.exec, Option.some.injEq] at h
    subst h
    exact ⟨[], by simp, by simp [translatedStatuses]⟩
  all_goals
    simp only [FMU1ME.DriverCall.exec, Option.some.injEq] at h
    subst h
    exact FMU1ME_CheckStatus_follows T s _ _ _ _ rfl rfl rfl

theorem FMU1ME_runCalls_follows {W : Type} (T : Target) :
    ∀ (calls : List FMU1ME.DriverCall) (s s' : FMU1ME.St W),
      FMU1ME.runCalls T calls s = some s' →
      ∃ es, s'.trace = s.trace ++ es ∧
        s'.fmustruct.FMUErrorStatus =
          (translatedStatuses es).foldl recordedME s.fmustruct.FMUErrorStatus := by
  intro calls
  induction calls with
  | nil =>
    intro s s' h
    simp only [FMU1ME.runCalls, Option.some.injEq] at h
    subst h
    exact ⟨[], by simp, by simp [translatedStatuses]⟩
  | cons c cs ih =>
    intro s s' h
    rw [FMU1ME.runCalls] at h
    cases hc : c.exec T s with
    | none => simp [hc] at h
    | some r =>
      simp only [hc] at h
      obtain ⟨es1, ht1, hs1⟩ := FMU1ME_exec_follows T c s r hc
      obtain ⟨es2, ht2, hs2⟩ := ih r s' h
      refine ⟨es1 ++ es2, by rw [ht2, ht1, List.append_assoc], ?_⟩
      rw [hs2, hs1, translatedStatuses_append, List.foldl_append]

/-! ## terminate after a Fatal status (C7) -/

/-- C7 (counterexample): three sequences of driver calls in which a call's status is
translated as Fatal and a later terminate nevertheless calls into the FMU.
FMI 2.0: `enterEventMode` returns Fatal, `setTime` returns Error, and terminate calls the
free-instance function.  FMI 1.0 co-simulation: `initializeSlave` returns Fatal, `doStep`
returns Pending, and terminate calls both the FMU's terminate and its free-instance function.
FMI 1.0 model exchange: the initialization returns Fatal, `setTime` returns Error, and
terminate calls the free-instance function. -/
theorem terminate_after_Fatal_calls_fmu :
    (∃ s', FMU2.runCalls Target.standalone [.enterEventMode, .setTime 0]
        ⟨FMU2.mockScripted, [fmiFatal, fmiError], []⟩ = some s' ∧
      fmiFatal ∈ translatedStatuses s'.trace ∧
      Event.fmuCall .freeInstance 9 none ∈
        (FMU2.FMU2_terminate Target.standalone (FMU2.slot s')).2.trace) ∧
    (fmiFatal ∈ translatedStatuses (FMU1.runCalls Target.standalone
        [.initializeSlave 0, .doStep 0 1] ⟨FMU1.mockScripted, [fmiFatal, fmiPending], []⟩).trace ∧
      Event.fmuCall .terminateSlave 9 (some fmiOK) ∈
        (FMU1.FMU1_terminateSlave Target.standalone (FMU1.slot
          (FMU1.runCalls Target.standalone [.initializeSlave 0, .doStep 0 1]
            ⟨FMU1.mockScripted, [fmiFatal, fmiPending], []⟩))).2.trace ∧
      Event.fmuCall .freeSlaveInstance 9 none ∈
        (FMU1.FMU1_terminateSlave Target.standalone (FMU1.slot
          (FMU1.runCalls Target.standalone [.initializeSlave 0, .doStep 0 1]
            ⟨FMU1.mockScripted, [fmiFatal, fmiPending], []⟩))).2.trace) ∧
    (∃ s', FMU1ME.runCalls Target.standalone [.initializeModel false 0, .setTime 0]
        ⟨FMU1ME.mockScripted, [fmiFatal, fmiError], []⟩ = some s' ∧
      fmiFatal ∈ translatedStatuses s'.trace ∧
      Event.fmuCall .freeModelInstance 9 none ∈
        (FMU1ME.FMU1_terminateModel Target.standalone (FMU1ME.slot s')).2.trace) := by
  refine ⟨⟨_, rfl, by decide, by decide⟩, ⟨by decide, by decide, by decide⟩,
    ⟨_, rfl, by decide, by decide⟩⟩

/-- The status that the FMU returns to the `getBooleanStatus` query of `FMU2_doStep` is not
translated: when `doStep` returns Discard and the query returns Fatal, the statuses returned
are Discard and Fatal, the only status translated is Discard, the error status of the handle
stays OK, and the terminate that follows calls the free-instance function. -/
theorem doStep_status_of_query_not_translated :
    ∃ s', FMU2.runCalls Target.standalone [.doStep 0 1 true false]
        ⟨FMU2.mockScripted, [fmiDiscard, fmiFatal], []⟩ = some s' ∧
      returnedStatuses s'.trace = [fmiDiscard, fmiFatal] ∧
      translatedStatuses s'.trace = [fmiDiscard] ∧
      s'.fmustruct.FMUErrorStatus = fmiOK ∧
      Event.fmuCall .freeInstance 9 none ∈
        (FMU2.FMU2_terminate Target.standalone (FMU2.slot s')).2.trace :=
  ⟨_, rfl, by decide, by decide, by decide, by decide⟩

/-- C7 (amended): for every sequence of calls of the driver's functions on one handle, the
error status of the handle after the sequence is the one that the statuses translated during
the sequence leave, in their order (each Error, Fatal or Pending status replaces the status
recorded; FMI 1.0 model exchange: each Error or Fatal status); and once some call's status has
been translated as Fatal and no status translated after it is Error or Pending (FMI 1.0 model
exchange: is Error), a terminate made after the sequence makes no call through the function
table: it invokes neither the FMU's terminate function nor its free-instance function, and
leaves the state of the FMU as it was.  The statuses translated are those of the trace after
the first `s.trace.length` events. -/
theorem terminate_after_last_Fatal_no_fmu_call :
    (∀ (W : Type) (T : Target) (calls : List FMU2.DriverCall) (s s' : FMU2.St W),
      FMU2.runCalls T calls s = some s' →
      s'.fmustruct.FMUErrorStatus =
        (translatedStatuses (s'.trace.drop s.trace.length)).foldl recorded
          s.fmustruct.FMUErrorStatus ∧
      ∀ (pre post : List fmiStatus),
        translatedStatuses (s'.trace.drop s.trace.length) = pre ++ fmiFatal :: post →
        (∀ x ∈ post, x ≠ fmiError ∧ x ≠ fmiPending) →
        (FMU2.FMU2_terminate T (FMU2.slot s')).2.fmu = s'.fmu ∧
        ∃ es', (FMU2.FMU2_terminate T (FMU2.slot s')).2.trace = s'.trace ++ es' ∧
          ∀ e ∈ es', e.isFmuCall = false) ∧
    (∀ (W : Type) (T : Target) (calls : List FMU1.DriverCall) (s : FMU1.St W),
      (FMU1.runCalls T calls s).fmustruct.FMUErrorStatus =
        (translatedStatuses ((FMU1.runCalls T calls s).trace.drop s.trace.length)).foldl
          recorded s.fmustruct.FMUErrorStatus ∧
      ∀ (pre post : List fmiStatus),
        translatedStatuses ((FMU1.runCalls T calls s).trace.drop s.trace.length) =
          pre ++ fmiFatal :: post →
        (∀ x ∈ post, x ≠ fmiError ∧ x ≠ fmiPending) →
        (FMU1.FMU1_terminateSlave T (FMU1.slot (FMU1.runCalls T calls s))).2.fmu
          = (FMU1.runCalls T calls s).fmu ∧
        ∃ es', (FMU1.FMU1_terminateSlave T (FMU1.slot (FMU1.runCalls T calls s))).2.trace
            = (FMU1.runCalls T calls s).trace ++ es' ∧
          ∀ e ∈ es', e.isFmuCall = false) ∧
    (∀ (W : Type) (T : Target) (calls : List FMU1ME.DriverCall) (s s' : FMU1ME.St W),
      FMU1ME.runCalls T calls s = some s' →
      s'.fmustruct.FMUErrorStatus =
        (translatedStatuses (s'.trace.drop s.trace.length)).foldl recordedME
          s.fmustruct.FMUErrorStatus ∧
      ∀ (pre post : List fmiStatus),
        translatedStatuses (s'.trace.drop s.trace.length) = pre ++ fmiFatal :: post →
        (∀ x ∈ post, x ≠ fmiError) →
        (FMU1ME.FMU1_terminateModel T (FMU1ME.slot s')).2.fmu = s'.fmu ∧
        ∃ es', (FMU1ME.FMU1_terminateModel T (FMU1ME.slot s')).2.trace = s'.trace ++ es' ∧
          ∀ e ∈ es', e.isFmuCall = false) := by
  refine ⟨?_, ?_, ?_⟩
  · intro W T calls s s' hrun
    obtain ⟨es0, ht0, hs0⟩ := FMU2_runCalls_follows T calls s s' hrun
    have hd : s'.trace.drop s.trace.length = es0 := by rw [ht0]; simp
    rw [hd]
    refine ⟨hs0, ?_⟩
    intro pre post hst hpost
    have hF : s'.fmustruct.FMUErrorStatus = fmiFatal := by
      rw [hs0, hst]
      exact foldl_recorded_Fatal _ pre post hpost
    rw [FMU2_terminate_of_Fatal T s' hF]
    refine ⟨rfl, _, rfl, ?_⟩
    by_cases hH : s'.fmustruct.Handle = NULL <;> simp [hH, Event.isFmuCall]
  · intro W T calls s
    obtain ⟨es0, ht0, hs0⟩ := FMU1_runCalls_follows T calls s
    have hd : (FMU1.runCalls T calls s).trace.drop s.trace.length = es0 := by rw [ht0]; simp
    rw [hd]
    refine ⟨hs0, ?_⟩
    intro pre post hst hpost
    have hF : (FMU1.runCalls T calls s).fmustruct.FMUErrorStatus = fmiFatal := by
      rw [hs0, hst]
      exact foldl_recorded_Fatal _ pre post hpost
    rw [FMU1_terminateSlave_of_Fatal T _ hF]
    refine ⟨rfl, _, rfl, ?_⟩
    simp [Event.isFmuCall]
  · intro W T calls s s' hrun
    obtain ⟨es0, ht0, hs0⟩ := FMU1ME_runCalls_follows T calls s s' hrun
    have hd : s'.trace.drop s.trace.length = es0 := by rw [ht0]; simp
    rw [hd]
    refine ⟨hs0, ?_⟩
    intro pre post hst hpost
    have hF : s'.fmustruct.FMUErrorStatus = fmiFatal := by
      rw [hs0, hst]
      exact foldl_recordedME_Fatal _ pre post hpost
    rw [FMU1_terminateModel_of_Fatal T s' hF]
    refine ⟨rfl, _, rfl, ?_⟩
    simp [Event.isFmuCall]

/-- Witness of C7 (amended): on the scripted FMI 2.0 handle the calls
`exitInitializationMode`, `enterEventMode`, `doStep`, `setTime`, `eventIteration` get the
statuses OK, Fatal, Discard (and Error for the `getBooleanStatus` query of `doStep`, which is
not translated), Warning, Discard; the terminate that follows makes no call into the FMU. -/
theorem terminate_after_last_Fatal_no_fmu_call_witness :
    ∃ s', (FMU2.runCalls Target.standalone
          [.exitInitializationMode, .enterEventMode, .doStep 0 1 true false, .setTime 0,
            .eventIteration "blk" 0]
          ⟨FMU2.mockScripted, [fmiOK, fmiFatal, fmiDiscard, fmiError, fmiWarning, fmiDiscard],
            []⟩ = some s' ∧
        translatedStatuses (s'.trace.drop 0) =
          [fmiOK] ++ fmiFatal :: [fmiDiscard, fmiWarning, fmiDiscard] ∧
        (∀ x ∈ [fmiDiscard, fmiWarning, fmiDiscard], x ≠ fmiError ∧ x ≠ fmiPending)) ∧
      (FMU2.FMU2_terminate Target.standalone (FMU2.slot s')).2.fmu = s'.fmu ∧
      ∃ es', (FMU2.FMU2_terminate Target.standalone (FMU2.slot s')).2.trace = s'.trace ++ es' ∧
        ∀ e ∈ es', e.isFmuCall = false :=
  ⟨_, ⟨rfl, by decide, by decide⟩,
    (terminate_after_last_Fatal_no_fmu_call.1 (List fmiStatus) Target.standalone
      [.exitInitializationMode, .enterEventMode, .doStep 0 1 true false, .setTime 0,
        .eventIteration "blk" 0]
      ⟨FMU2.mockScripted, [fmiOK, fmiFatal, fmiDiscard, fmiError, fmiWarning, fmiDiscard], []⟩
      _ rfl).2 [fmiOK] [fmiDiscard, fmiWarning, fmiDiscard] (by decide) (by decide)⟩

/-! ## terminate on a handle in error (C8, C9, C10) -/

/-- C8: for every non-null handle whose error status is Fatal, terminate (in each of the three
drivers) returns without any call of the FMU's own terminate function, closes the loaded
library (in FMI 2.0: the library handle if it is not null; in FMI 1.0: always) and frees the
handle; in FMI 2.0 it also frees the parameter-offset and enum-value tables. -/
theorem terminate_Fatal_releases_host_resources :
    (∀ (W : Type) (T : Target) (s : FMU2.St W), s.fmustruct.FMUErrorStatus = fmiFatal →
      ∃ es, (FMU2.FMU2_terminate T (FMU2.slot s)).2.trace = s.trace ++ es ∧
        (∀ e ∈ es, e.isCallOf .terminate = false) ∧
        (s.fmustruct.Handle ≠ NULL → Event.closeLibrary s.fmustruct.Handle ∈ es) ∧
        Event.freeMemory (.paramIdxToOffset s.fmustruct.paramIdxToOffset) ∈ es ∧
        Event.freeMemory (.enumValueList s.fmustruct.enumValueList) ∈ es ∧
        Event.freeMemory .fmustruct ∈ es) ∧
    (∀ (W : Type) (T : Target) (s : FMU1.St W), s.fmustruct.FMUErrorStatus = fmiFatal →
      ∃ es, (FMU1.FMU1_terminateSlave T (FMU1.slot s)).2.trace = s.trace ++ es ∧
        (∀ e ∈ es, e.isCallOf .terminateSlave = false) ∧
        Event.closeLibrary s.fmustruct.Handle ∈ es ∧
        Event.freeMemory .fmustruct ∈ es) ∧
    (∀ (W : Type) (T : Target) (s : FMU1ME.St W), s.fmustruct.FMUErrorStatus = fmiFatal →
      ∃ es, (FMU1ME.FMU1_terminateModel T (FMU1ME.slot s)).2.trace = s.trace ++ es ∧
        (∀ e ∈ es, e.isCallOf .terminate = false) ∧
        Event.closeLibrary s.fmustruct.Handle ∈ es ∧
        Event.freeMemory .fmustruct ∈ es) := by
  refine ⟨?_, ?_, ?_⟩
  · intro W T s h
    refine ⟨_, by rw [FMU2_terminate_of_Fatal T s h], ?_, ?_, ?_, ?_, ?_⟩
    · by_cases hH : s.fmustruct.Handle = NULL <;> simp [hH, Event.isCallOf]
    · intro hH
      simp [hH]
    · simp
    · simp
    · simp
  · intro W T s h
    refine ⟨_, by rw [FMU1_terminateSlave_of_Fatal T s h], ?_, by simp, by simp⟩
    simp [Event.isCallOf]
  · intro W T s h
    refine ⟨_, by rw [FMU1_terminateModel_of_Fatal T s h], ?_, by simp, by simp⟩
    simp [Event.isCallOf]

/-- Witness of C8: the scripted FMI 2.0 handle, already initialized, with error status
Fatal. -/
theorem terminate_Fatal_releases_host_resources_witness :
    ({ FMU2.mockScripted with FMUErrorStatus := fmiFatal, modelInitialized := true } :
        FMU2.FMU2_CSME_RTWCG (List fmiStatus)).FMUErrorStatus = fmiFatal ∧
    ∃ es, (FMU2.FMU2_terminate Target.standalone (FMU2.slot
        ⟨{ FMU2.mockScripted with FMUErrorStatus := fmiFatal, modelInitialized := true },
          [], []⟩)).2.trace = [] ++ es ∧
      (∀ e ∈ es, e.isCallOf .terminate = false) ∧
      ((7 : Ptr) ≠ NULL → Event.closeLibrary 7 ∈ es) ∧
      Event.freeMemory (.paramIdxToOffset 11) ∈ es ∧
      Event.freeMemory (.enumValueList 13) ∈ es ∧
      Event.freeMemory .fmustruct ∈ es :=
  ⟨rfl, terminate_Fatal_releases_host_resources.1 (List fmiStatus) Target.standalone
    ⟨{ FMU2.mockScripted with FMUErrorStatus := fmiFatal, modelInitialized := true }, [], []⟩
    rfl⟩

/-- C9 (counterexample): terminate on the scripted handles with error status Fatal makes no
call of the FMU's free-instance function on the handle's component `9`. -/
theorem terminate_Fatal_no_free_instance_example :
    Event.fmuCall .freeInstance 9 none ∉
      (FMU2.FMU2_terminate Target.standalone (FMU2.slot
        ⟨{ FMU2.mockScripted with FMUErrorStatus := fmiFatal, modelInitialized := true },
          [], []⟩)).2.trace ∧
    Event.fmuCall .freeSlaveInstance 9 none ∉
      (FMU1.FMU1_terminateSlave Target.standalone (FMU1.slot
        ⟨{ FMU1.mockScripted with FMUErrorStatus := fmiFatal, modelInitialized := true },
          [], []⟩)).2.trace ∧
    Event.fmuCall .freeModelInstance 9 none ∉
      (FMU1ME.FMU1_terminateModel Target.standalone (FMU1ME.slot
        ⟨{ FMU1ME.mockScripted with FMUErrorStatus := fmiFatal, modelInitialized := true },
          [], []⟩)).2.trace := by
  decide

/-- C9 (amended): for every non-null handle whose error status is Fatal, terminate (in each
of the three drivers) makes no call through the function table at all, so it does not call
the FMU's free-instance function; the state of the FMU is left as it was. -/
theorem terminate_Fatal_no_fmu_call :
    (∀ (W : Type) (T : Target) (s : FMU2.St W), s.fmustruct.FMUErrorStatus = fmiFatal →
      (FMU2.FMU2_terminate T (FMU2.slot s)).2.fmu = s.fmu ∧
      ∃ es, (FMU2.FMU2_terminate T (FMU2.slot s)).2.trace = s.trace ++ es ∧
        ∀ e ∈ es, e.isFmuCall = false) ∧
    (∀ (W : Type) (T : Target) (s : FMU1.St W), s.fmustruct.FMUErrorStatus = fmiFatal →
      (FMU1.FMU1_terminateSlave T (FMU1.slot s)).2.fmu = s.fmu ∧
      ∃ es, (FMU1.FMU1_terminateSlave T (FMU1.slot s)).2.trace = s.trace ++ es ∧
        ∀ e ∈ es, e.isFmuCall = false) ∧
    (∀ (W : Type) (T : Target) (s : FMU1ME.St W), s.fmustruct.FMUErrorStatus = fmiFatal →
      (FMU1ME.FMU1_terminateModel T (FMU1ME.slot s)).2.fmu = s.fmu ∧
      ∃ es, (FMU1ME.FMU1_terminateModel T (FMU1ME.slot s)).2.trace = s.trace ++ es ∧
        ∀ e ∈ es, e.isFmuCall = false) := by
  refine ⟨?_, ?_, ?_⟩
  · intro W T s h
    refine ⟨by rw [FMU2_terminate_of_Fatal T s h],
      _, by rw [FMU2_terminate_of_Fatal T s h], ?_⟩
    by_cases hH : s.fmustruct.Handle = NULL <;> simp [hH, Event.isFmuCall]
  · intro W T s h
    refine ⟨by rw [FMU1_terminateSlave_of_Fatal T s h],
      _, by rw [FMU1_terminateSlave_of_Fatal T s h], ?_⟩
    simp [Event.isFmuCall]
  · intro W T s h
    refine ⟨by rw [FMU1_terminateModel_of_Fatal T s h],
      _, by rw [FMU1_terminateModel_of_Fatal T s h], ?_⟩
    simp [Event.isFmuCall]

/-- Witness of C9 (amended): the scripted FMI 1.0 co-simulation handle with error status
Fatal. -/
theorem terminate_Fatal_no_fmu_call_witness :
    ({ FMU1.mockScripted with FMUErrorStatus := fmiFatal } :
        FMU1.FMU1_CS_RTWCG (List fmiStatus)).FMUErrorStatus = fmiFatal ∧
    (FMU1.FMU1_terminateSlave Target.host (FMU1.slot
      ⟨{ FMU1.mockScripted with FMUErrorStatus := fmiFatal }, [fmiOK], []⟩)).2.fmu = [fmiOK] ∧
    ∃ es, (FMU1.FMU1_terminateSlave Target.host (FMU1.slot
        ⟨{ FMU1.mockScripted with FMUErrorStatus := fmiFatal }, [fmiOK], []⟩)).2.trace
          = [] ++ es ∧
      ∀ e ∈ es, e.isFmuCall = false :=
  ⟨rfl, terminate_Fatal_no_fmu_call.2.1 (List fmiStatus) Target.host
    ⟨{ FMU1.mockScripted with FMUErrorStatus := fmiFatal }, [fmiOK], []⟩ rfl⟩

/-- C10 (counterexample): terminate on the scripted handles with error status Error and
`modelInitialized` true makes no call of the FMU's terminate function. -/
theorem terminate_Error_no_fmu_terminate_example :
    (∀ e ∈ (FMU2.FMU2_terminate Target.standalone (FMU2.slot
        ⟨{ FMU2.mockScripted with FMUErrorStatus := fmiError, modelInitialized := true },
          [], []⟩)).2.trace, e.isCallOf .terminate = false) ∧
    (∀ e ∈ (FMU1.FMU1_terminateSlave Target.standalone (FMU1.slot
        ⟨{ FMU1.mockScripted with FMUErrorStatus := fmiError, modelInitialized := true },
          [], []⟩)).2.trace, e.isCallOf .terminateSlave = false) ∧
    (∀ e ∈ (FMU1ME.FMU1_terminateModel Target.standalone (FMU1ME.slot
        ⟨{ FMU1ME.mockScripted with FMUErrorStatus := fmiError, modelInitialized := true },
          [], []⟩)).2.trace, e.isCallOf .terminate = false) := by
  decide

/-- C10 (amended): for every non-null handle whose error status is Error and whose
`modelInitialized` flag is true, terminate (in each of the three drivers) does not call the
FMU's terminate function: its only call through the function table is the call of the FMU's
free-instance function on the handle's component. -/
theorem terminate_Error_frees_instance_only :
    (∀ (W : Type) (T : Target) (s : FMU2.St W), s.fmustruct.FMUErrorStatus = fmiError →
      s.fmustruct.modelInitialized = true →
      ∃ es, (FMU2.FMU2_terminate T (FMU2.slot s)).2.trace = s.trace ++ es ∧
        es.filter Event.isFmuCall = [Event.fmuCall .freeInstance s.fmustruct.mFMIComp none]) ∧
    (∀ (W : Type) (T : Target) (s : FMU1.St W), s.fmustruct.FMUErrorStatus = fmiError →
      s.fmustruct.modelInitialized = true →
      ∃ es, (FMU1.FMU1_terminateSlave T (FMU1.slot s)).2.trace = s.trace ++ es ∧
        es.filter Event.isFmuCall =
          [Event.fmuCall .freeSlaveInstance s.fmustruct.mFMIComp none]) ∧
    (∀ (W : Type) (T : Target) (s : FMU1ME.St W), s.fmustruct.FMUErrorStatus = fmiError →
      s.fmustruct.modelInitialized = true →
      ∃ es, (FMU1ME.FMU1_terminateModel T (FMU1ME.slot s)).2.trace = s.trace ++ es ∧
        es.filter Event.isFmuCall =
          [Event.fmuCall .freeModelInstance s.fmustruct.mFMIComp none]) := by
  refine ⟨?_, ?_, ?_⟩
  · intro W T s h _
    refine ⟨_, by rw [FMU2_terminate_of_Error T s h], ?_⟩
    by_cases hH : s.fmustruct.Handle = NULL <;> simp [hH, List.filter, Event.isFmuCall]
  · intro W T s h _
    refine ⟨_, by rw [FMU1_terminateSlave_of_Error T s h], ?_⟩
    simp [List.filter, Event.isFmuCall]
  · intro W T s h _
    refine ⟨_, by rw [FMU1_terminateModel_of_Error T s h], ?_⟩
    simp [List.filter, Event.isFmuCall]

/-- Witness of C10 (amended): the scripted FMI 2.0 handle, initialized, with error status
Error. -/
theorem terminate_Error_frees_instance_only_witness :
    (({ FMU2.mockScripted with FMUErrorStatus := fmiError, modelInitialized := true } :
        FMU2.FMU2_CSME_RTWCG (List fmiStatus)).FMUErrorStatus = fmiError ∧
     ({ FMU2.mockScripted with FMUErrorStatus := fmiError, modelInitialized := true } :
        FMU2.FMU2_CSME_RTWCG (List fmiStatus)).modelInitialized = true) ∧
    ∃ es, (FMU2.FMU2_terminate Target.standalone (FMU2.slot
        ⟨{ FMU2.mockScripted with FMUErrorStatus := fmiError, modelInitialized := true },
          [], []⟩)).2.trace = [] ++ es ∧
      es.filter Event.isFmuCall = [Event.fmuCall .freeInstance 9 none] :=
  ⟨⟨rfl, rfl⟩, terminate_Error_frees_instance_only.1 (List fmiStatus) Target.standalone
    ⟨{ FMU2.mockScripted with FMUErrorStatus := fmiError, modelInitialized := true }, [], []⟩
    rfl rfl⟩

/-! ## terminate on a null handle (C11) -/

/-- C11: when the handle slot holds a null handle, terminate (`FMU2_terminate`,
`FMU1_terminateSlave`, `FMU1_terminateModel`) returns true and does nothing else: the slot,
the state of the FMU and the trace are as before, so no FMU function is called, no library is
closed, no memory is freed and no diagnostic is emitted. -/
theorem terminate_null_handle :
    (∀ (W : Type) (T : Target) (fmu : W) (trace : List Event),
      FMU2.FMU2_terminate T ⟨none, fmu, trace⟩ = (true, ⟨none, fmu, trace⟩)) ∧
    (∀ (W : Type) (T : Target) (fmu : W) (trace : List Event),
      FMU1.FMU1_terminateSlave T ⟨none, fmu, trace⟩ = (true, ⟨none, fmu, trace⟩)) ∧
    (∀ (W : Type) (T : Target) (fmu : W) (trace : List Event),
      FMU1ME.FMU1_terminateModel T ⟨none, fmu, trace⟩ = (true, ⟨none, fmu, trace⟩)) :=
  ⟨fun _ _ _ _ => rfl, fun _ _ _ _ => rfl, fun _ _ _ _ => rfl⟩

/-! ## The status translator: Pending, and the statuses without effect (C19, C20) -/

theorem FMU2_CheckStatus_Pending {W : Type} (T : Target) (s : FMU2.St W) (fcnName : String) :
    ∃ e, (FMU2.CheckStatus T s fmiPending fcnName).2 =
        { s with
          fmustruct := { s.fmustruct with FMUErrorStatus := fmiPending }
          trace := s.trace ++ e ::
            (if T.lt_STANDALONE_TARGETS then [Event.ssSetStopRequested s.fmustruct.ssPtr 1]
             else []) } ∧
      e.isDiagnostic = true ∧ e.isFmuCall = false ∧ e.carries fcnName = true ∧
      e.carries s.fmustruct.fmuname = true := by
  cases hT : T.lt_STANDALONE_TARGETS <;>
    simp [FMU2.CheckStatus, hT, Sys.emit, Event.isDiagnostic, Event.isFmuCall, Event.carries,
      CreateDiagnosticAsVoidPtr, formatString]

theorem FMU1_CheckStatus_Pending {W : Type} (T : Target) (s : FMU1.St W) (fcnName : String) :
    ∃ e, (FMU1.CheckStatus T s fmiPending fcnName).2 =
        { s with
          fmustruct := { s.fmustruct with FMUErrorStatus := fmiPending }
          trace := s.trace ++ e ::
            (if T.lt_STANDALONE_TARGETS then [Event.ssSetStopRequested s.fmustruct.ssPtr 1]
             else []) } ∧
      e.isDiagnostic = true ∧ e.isFmuCall = false ∧ e.carries fcnName = true ∧
      e.carries s.fmustruct.fmuname = true := by
  cases hT : T.lt_STANDALONE_TARGETS <;>
    simp [FMU1.CheckStatus, hT, Sys.emit, Event.isDiagnostic, Event.isFmuCall, Event.carries,
      CreateDiagnosticAsVoidPtr, formatString]

/-- C19 (counterexample): given Pending for the call `fmisetTime`, `CheckStatus` of the
FMI 1.0 model-exchange driver returns false but emits no diagnostic at all, in a standalone
build and in a host build. -/
theorem CheckStatus_Pending_FMU1ME_silent :
    (FMU1ME.CheckStatus Target.standalone ⟨FMU1ME.mockScripted, [], []⟩ fmiPending
        "fmisetTime").1 = false ∧
    (¬ ∃ e ∈ (FMU1ME.CheckStatus Target.standalone ⟨FMU1ME.mockScripted, [], []⟩ fmiPending
        "fmisetTime").2.trace, e.isDiagnostic = true) ∧
    (¬ ∃ e ∈ (FMU1ME.CheckStatus Target.host ⟨FMU1ME.mockScripted, [], []⟩ fmiPending
        "fmisetTime").2.trace, e.isDiagnostic = true) := by
  decide

/-- C19 (amended): `CheckStatus` of the FMI 2.0 driver and of the FMI 1.0 co-simulation driver,
given the status Pending, returns false and emits exactly one diagnostic, which carries the
call name and the FMU instance name; `CheckStatus` of the FMI 1.0 model-exchange driver, given
Pending, returns false and changes nothing (it emits no diagnostic). -/
theorem CheckStatus_Pending :
    (∀ (W : Type) (T : Target) (s : FMU2.St W) (fcnName : String),
      (FMU2.CheckStatus T s fmiPending fcnName).1 = false ∧
      ∃ es e, (FMU2.CheckStatus T s fmiPending fcnName).2.trace = s.trace ++ es ∧
        es.filter Event.isDiagnostic = [e] ∧
        e.carries fcnName = true ∧ e.carries s.fmustruct.fmuname = true) ∧
    (∀ (W : Type) (T : Target) (s : FMU1.St W) (fcnName : String),
      (FMU1.CheckStatus T s fmiPending fcnName).1 = false ∧
      ∃ es e, (FMU1.CheckStatus T s fmiPending fcnName).2.trace = s.trace ++ es ∧
        es.filter Event.isDiagnostic = [e] ∧
        e.carries fcnName = true ∧ e.carries s.fmustruct.fmuname = true) ∧
    (∀ (W : Type) (T : Target) (s : FMU1ME.St W) (fcnName : String),
      FMU1ME.CheckStatus T s fmiPending fcnName = (false, s)) := by
  refine ⟨?_, ?_, ?_⟩
  · intro W T s fcnName
    obtain ⟨e, he, hd, -, hc, hn⟩ := FMU2_CheckStatus_Pending T s fcnName
    refine ⟨by simp [FMU2_CheckStatus_fst], _, e, by rw [he], ?_, hc, hn⟩
    have hstop : (Event.ssSetStopRequested s.fmustruct.ssPtr 1).isDiagnostic = false := rfl
    cases T.lt_STANDALONE_TARGETS <;> simp [List.filter_cons, hd, hstop]
  · intro W T s fcnName
    obtain ⟨e, he, hd, -, hc, hn⟩ := FMU1_CheckStatus_Pending T s fcnName
    refine ⟨by simp [FMU1_CheckStatus_fst], _, e, by rw [he], ?_, hc, hn⟩
    have hstop : (Event.ssSetStopRequested s.fmustruct.ssPtr 1).isDiagnostic = false := rfl
    cases T.lt_STANDALONE_TARGETS <;> simp [List.filter_cons, hd, hstop]
  · intro W T s fcnName
    simp [FMU1ME.CheckStatus]

/-- C20: `CheckStatus` of each of the three drivers, given OK, returns true and leaves the
handle, the state of the FMU and the trace as they were (no diagnostic); given Warning or
Discard it likewise leaves the handle (so the sticky error status and every other field), the
state of the FMU and the trace as they were. -/
theorem CheckStatus_OK_Warning_Discard_frame :
    (∀ (W : Type) (T : Target) (s : FMU2.St W) (fcnName : String),
      FMU2.CheckStatus T s fmiOK fcnName = (true, s) ∧
      (FMU2.CheckStatus T s fmiWarning fcnName).2 = s ∧
      (FMU2.CheckStatus T s fmiDiscard fcnName).2 = s) ∧
    (∀ (W : Type) (T : Target) (s : FMU1.St W) (fcnName : String),
      FMU1.CheckStatus T s fmiOK fcnName = (true, s) ∧
      (FMU1.CheckStatus T s fmiWarning fcnName).2 = s ∧
      (FMU1.CheckStatus T s fmiDiscard fcnName).2 = s) ∧
    (∀ (W : Type) (T : Target) (s : FMU1ME.St W) (fcnName : String),
      FMU1ME.CheckStatus T s fmiOK fcnName = (true, s) ∧
      (FMU1ME.CheckStatus T s fmiWarning fcnName).2 = s ∧
      (FMU1ME.CheckStatus T s fmiDiscard fcnName).2 = s) := by
  refine ⟨?_, ?_, ?_⟩
  · intro W T s fcnName
    refine ⟨by simp [FMU2.CheckStatus], ?_, ?_⟩
    · exact FMU2_CheckStatus_quiet T s _ fcnName (by decide) (by decide) (by decide)
    · exact FMU2_CheckStatus_quiet T s _ fcnName (by decide) (by decide) (by decide)
  · intro W T s fcnName
    refine ⟨by simp [FMU1.CheckStatus], ?_, ?_⟩
    · exact FMU1_CheckStatus_quiet T s _ fcnName (by decide) (by decide) (by decide)
    · exact FMU1_CheckStatus_quiet T s _ fcnName (by decide) (by decide) (by decide)
  · intro W T s fcnName
    refine ⟨by simp [FMU1ME.CheckStatus], ?_, ?_⟩
    · exact FMU1ME_CheckStatus_quiet T s _ fcnName (by decide) (by decide)
    · exact FMU1ME_CheckStatus_quiet T s _ fcnName (by decide) (by decide)

/-! ## Auxiliary facts: the result and the calls of the event-iteration loop -/

theorem FMU2_body_calls {W : Type} (T : Target) (blkPath : String) (time : fmiReal)
    (s : FMU2.St W) :
    (FMU2.FMU2_eventIteration.body T blkPath time s).2.trace.countP
        (Event.isCallOf .newDiscreteStates) =
      s.trace.countP (Event.isCallOf .newDiscreteStates) + 1 := by
  obtain ⟨es, hbody, hes⟩ := FMU2_body_spec T blkPath time s
  have hcount := countP_isCallOf_eq_zero .newDiscreteStates es hes
  rw [hbody]
  simp [List.countP_append, List.countP_cons, hcount, Event.isCallOf_fmuCall_self]

theorem FMU2_loop_calls_le {W : Type} (T : Target) (blkPath : String) (time : fmiReal)
    (fuel iterationNumber : Nat) (returnStatus : Bool) (s : FMU2.St W) (r : Bool × FMU2.St W)
    (h : FMU2.FMU2_eventIteration.loop T blkPath time fuel iterationNumber returnStatus s
      = some r) (p : Event → Bool) :
    s.trace.countP p ≤ r.2.trace.countP p := by
  obtain ⟨es, hes, -⟩ := FMU2_loop_follows T blkPath time fuel iterationNumber returnStatus s r h
  rw [hes, List.countP_append]
  omega

theorem FMU2_loop_result {W : Type} (T : Target) (blkPath : String) (time : fmiReal) :
    ∀ (fuel iterationNumber : Nat) (returnStatus : Bool) (s : FMU2.St W) (r : Bool × FMU2.St W),
      iterationNumber ≤ 10000 →
      FMU2.FMU2_eventIteration.loop T blkPath time fuel iterationNumber returnStatus s = some r →
      ∃ es, r.2.trace = s.trace ++ es ∧
        ((returnedStatuses es = [] ∧ r.1 = returnStatus) ∨
         ((returnedStatuses es).length + iterationNumber = 10001 ∧ r.1 = false) ∨
         ((returnedStatuses es).length + iterationNumber < 10001 ∧
          ∃ last, (returnedStatuses es).getLast? = some last ∧ r.1 = decide (last = fmiOK))) := by
  intro fuel
  induction fuel with
  | zero =>
    intro n rs s r _ h
    simp [FMU2.FMU2_eventIteration.loop] at h
  | succ fuel ih =>
    intro n rs s r hn h
    rw [FMU2.FMU2_eventIteration.loop] at h
    by_cases hneed : s.fmustruct.eventInfo.newDiscreteStatesNeeded = true
    · obtain ⟨es, hbody, hes⟩ := FMU2_body_spec T blkPath time s
      have hnil := returnedStatuses_eq_nil es hes
      by_cases hcap : n ≥ 10000
      · obtain ⟨e, hcapr, he, -⟩ := FMU2_capReport_spec T blkPath time n
          (FMU2.FMU2_eventIteration.body T blkPath time s).2
        simp only [hneed, hcap, if_true, Option.some.injEq] at h
        subst h
        have hnil' : returnedStatuses (es ++ [e]) = [] :=
          returnedStatuses_eq_nil _ (by
            intro x hx
            rcases List.mem_append.1 hx with hx | hx
            · exact hes x hx
            · simp at hx
              subst hx
              exact he)
        refine ⟨Event.fmuCall .newDiscreteStates s.fmustruct.mFMIComp
          (some (s.fmustruct.newDiscreteStates s.fmustruct.mFMIComp s.fmustruct.eventInfo
            s.fmu).1) :: (es ++ [e]), ?_, Or.inr (Or.inl ⟨?_, rfl⟩)⟩
        · rw [hcapr, hbody]
          simp
        · have : returnedStatuses (Event.fmuCall .newDiscreteStates s.fmustruct.mFMIComp
              (some (s.fmustruct.newDiscreteStates s.fmustruct.mFMIComp s.fmustruct.eventInfo
                s.fmu).1) :: (es ++ [e])) =
              [(s.fmustruct.newDiscreteStates s.fmustruct.mFMIComp s.fmustruct.eventInfo
                s.fmu).1] := by
            simp only [returnedStatuses] at hnil'
            simp [returnedStatuses, Event.status?, hnil']
          rw [this]
          simp
          omega
      · simp only [hneed, hcap, if_true, if_false] at h
        obtain ⟨es', htr, hres⟩ := ih _ _ _ r (by omega) h
        have hst : returnedStatuses (Event.fmuCall .newDiscreteStates s.fmustruct.mFMIComp
            (some (s.fmustruct.newDiscreteStates s.fmustruct.mFMIComp s.fmustruct.eventInfo
              s.fmu).1) :: (es ++ es')) =
            (s.fmustruct.newDiscreteStates s.fmustruct.mFMIComp s.fmustruct.eventInfo
              s.fmu).1 :: returnedStatuses es' := by
          simp only [returnedStatuses] at hnil
          simp [returnedStatuses, Event.status?, hnil]
        refine ⟨Event.fmuCall .newDiscreteStates s.fmustruct.mFMIComp
          (some (s.fmustruct.newDiscreteStates s.fmustruct.mFMIComp s.fmustruct.eventInfo
            s.fmu).1) :: (es ++ es'), ?_, ?_⟩
        · rw [htr, hbody]
          simp
        · rw [hst]
          rcases hres with ⟨h0, h1⟩ | ⟨h0, h1⟩ | ⟨h0, last, h1, h2⟩
          · refine Or.inr (Or.inr ⟨by rw [h0]; simp; omega,
              (s.fmustruct.newDiscreteStates s.fmustruct.mFMIComp s.fmustruct.eventInfo
                s.fmu).1, by rw [h0]; rfl, ?_⟩)
            rw [h1, hbody]
          · exact Or.inr (Or.inl ⟨by simp; omega, h1⟩)
          · refine Or.inr (Or.inr ⟨by simp; omega, last, ?_, h2⟩)
            cases hl : returnedStatuses es' with
            | nil => rw [hl] at h1; simp at h1
            | cons a t => rw [hl] at h1; rw [List.getLast?_cons_cons]; exact h1
    · simp [hneed] at h
      subst h
      exact ⟨[], by simp, Or.inl ⟨rfl, rfl⟩⟩

theorem FMU2_body_stopNotice {W : Type} (T : Target) (blkPath : String) (time : fmiReal)
    (s : FMU2.St W) :
    (FMU2.FMU2_eventIteration.body T blkPath time s).2.trace.countP FMU2.isStopNotice =
      s.trace.countP FMU2.isStopNotice +
        (if (s.fmustruct.newDiscreteStates s.fmustruct.mFMIComp s.fmustruct.eventInfo
              s.fmu).1 = fmiOK ∧
            (s.fmustruct.newDiscreteStates s.fmustruct.mFMIComp s.fmustruct.eventInfo
              s.fmu).2.1.terminateSimulation = true
         then 1 else 0) := by
  rcases hr : s.fmustruct.newDiscreteStates s.fmustruct.mFMIComp s.fmustruct.eventInfo s.fmu
    with ⟨status, ei, w⟩
  cases hT : T.lt_STANDALONE_TARGETS <;> cases status <;> cases hterm : ei.terminateSimulation <;>
    simp [FMU2.FMU2_eventIteration.body, hr, FMU2.CheckStatus, hT, hterm,
      FMU2.FMU2_simTerminate, Sys.emit, FMU2.isStopNotice, List.countP_append,
      List.countP_cons, CreateDiagnosticAsVoidPtr, formatString]

/-- While the FMU asks for another update and the cap is not reached, the loop calls
`newDiscreteStates` again. -/
theorem FMU2_loop_called_again {W : Type} (T : Target) (blkPath : String) (time : fmiReal)
    (fuel iterationNumber : Nat) (returnStatus : Bool) (s : FMU2.St W)
    (hfuel : 10001 ≤ iterationNumber + fuel) (hn : iterationNumber < 10000)
    (hneed : s.fmustruct.eventInfo.newDiscreteStatesNeeded = true)
    (hagain : (FMU2.FMU2_eventIteration.body T blkPath time s).2.fmustruct.eventInfo.newDiscreteStatesNeeded
      = true) :
    ∃ r, FMU2.FMU2_eventIteration.loop T blkPath time fuel iterationNumber returnStatus s
        = some r ∧
      s.trace.countP (Event.isCallOf .newDiscreteStates) + 2 ≤
        r.2.trace.countP (Event.isCallOf .newDiscreteStates) := by
  have hsome := FMU2_eventIteration_loop_fuel T blkPath time fuel iterationNumber returnStatus s
    (by omega) hfuel
  obtain ⟨r, hr⟩ := Option.isSome_iff_exists.1 hsome
  refine ⟨r, hr, ?_⟩
  obtain ⟨fuel1, rfl⟩ : ∃ k, fuel = k + 1 := ⟨fuel - 1, by omega⟩
  obtain ⟨fuel2, rfl⟩ : ∃ k, fuel1 = k + 1 := ⟨fuel1 - 1, by omega⟩
  rw [FMU2.FMU2_eventIteration.loop] at hr
  have hcap : ¬ iterationNumber ≥ 10000 := by omega
  simp only [hneed, hcap, if_true, if_false] at hr
  rw [FMU2.FMU2_eventIteration.loop] at hr
  simp only [hagain, if_true] at hr
  have h1 := FMU2_body_calls T blkPath time s
  have h2 := FMU2_body_calls T blkPath time (FMU2.FMU2_eventIteration.body T blkPath time s).2
  by_cases hcap2 : iterationNumber + 1 ≥ 10000
  · obtain ⟨e, hcapr, -, -⟩ := FMU2_capReport_spec T blkPath time (iterationNumber + 1)
      (FMU2.FMU2_eventIteration.body T blkPath time
        (FMU2.FMU2_eventIteration.body T blkPath time s).2).2
    simp only [hcap2, if_true, Option.some.injEq] at hr
    subst hr
    rw [hcapr]
    simp only [List.countP_append]
    omega
  · simp only [hcap2, if_false] at hr
    have h3 := FMU2_loop_calls_le T blkPath time _ _ _ _ r hr (Event.isCallOf .newDiscreteStates)
    omega

/-- A call that returns Error or Fatal and reports that no further update is needed ends
the loop with the result false. -/
theorem FMU2_loop_error_converged {W : Type} (T : Target) (blkPath : String) (time : fmiReal)
    (fuel iterationNumber : Nat) (returnStatus : Bool) (s : FMU2.St W)
    (hfuel0 : 0 < fuel) (hfuel : 10001 ≤ iterationNumber + fuel)
    (hneed : s.fmustruct.eventInfo.newDiscreteStatesNeeded = true)
    (hst : (s.fmustruct.newDiscreteStates s.fmustruct.mFMIComp s.fmustruct.eventInfo
        s.fmu).1 = fmiError ∨
      (s.fmustruct.newDiscreteStates s.fmustruct.mFMIComp s.fmustruct.eventInfo
        s.fmu).1 = fmiFatal)
    (hconv : (s.fmustruct.newDiscreteStates s.fmustruct.mFMIComp s.fmustruct.eventInfo
        s.fmu).2.1.newDiscreteStatesNeeded = false ∨ iterationNumber ≥ 10000) :
    ∃ s', FMU2.FMU2_eventIteration.loop T blkPath time fuel iterationNumber returnStatus s
        = some (false, s') ∧
      s'.trace.countP (Event.isCallOf .newDiscreteStates) =
        s.trace.countP (Event.isCallOf .newDiscreteStates) + 1 := by
  obtain ⟨fuel1, rfl⟩ : ∃ k, fuel = k + 1 := ⟨fuel - 1, by omega⟩
  obtain ⟨es, hbody, hes⟩ := FMU2_body_spec T blkPath time s
  have hcalls := FMU2_body_calls T blkPath time s
  have hfst : (FMU2.FMU2_eventIteration.body T blkPath time s).1 = false := by
    rw [hbody]
    rcases hst with h | h <;> simp [h]
  have hconv' : (FMU2.FMU2_eventIteration.body T blkPath time
      s).2.fmustruct.eventInfo.newDiscreteStatesNeeded = false ∨ iterationNumber ≥ 10000 := by
    rw [hbody]; exact hconv
  rw [FMU2.FMU2_eventIteration.loop]
  by_cases hcap : iterationNumber ≥ 10000
  · obtain ⟨e, hcapr, he, -⟩ := FMU2_capReport_spec T blkPath time iterationNumber
      (FMU2.FMU2_eventIteration.body T blkPath time s).2
    refine ⟨_, by simp only [hneed, hcap, if_true]; rfl, ?_⟩
    rw [hcapr]
    simp only [List.countP_append, hcalls]
    simp [Event.isCallOf_eq_false_of_isFmuCall_eq_false _ e he]
  · obtain ⟨fuel2, rfl⟩ : ∃ k, fuel1 = k + 1 := ⟨fuel1 - 1, by omega⟩
    have hconv' := hconv'.resolve_right hcap
    simp only [hneed, hcap, if_true, if_false]
    rw [FMU2.FMU2_eventIteration.loop]
    simp only [hconv', hfst]
    exact ⟨_, by simp, hcalls⟩

theorem FMU1ME_body_calls {W : Type} (T : Target) (blkPath : String) (time : fmiReal)
    (s : FMU1ME.St W) :
    (FMU1ME.FMU1_eventIteration.body T blkPath time s).2.trace.countP
        (Event.isCallOf .eventUpdate) =
      s.trace.countP (Event.isCallOf .eventUpdate) + 1 := by
  obtain ⟨es, hbody, hes⟩ := FMU1ME_body_spec T blkPath time s
  have hcount := countP_isCallOf_eq_zero .eventUpdate es hes
  rw [hbody]
  simp [List.countP_append, List.countP_cons, hcount, Event.isCallOf_fmuCall_self]

theorem FMU1ME_loop_calls_le {W : Type} (T : Target) (blkPath : String) (time : fmiReal)
    (fuel iterationNumber : Nat) (returnStatus : Bool) (s : FMU1ME.St W) (r : Bool × FMU1ME.St W)
    (h : FMU1ME.FMU1_eventIteration.loop T blkPath time fuel iterationNumber returnStatus s
      = some r) (p : Event → Bool) :
    s.trace.countP p ≤ r.2.trace.countP p := by
  obtain ⟨es, hes, -⟩ := FMU1ME_loop_follows T blkPath time fuel iterationNumber returnStatus s r h
  rw [hes, List.countP_append]
  omega

theorem FMU1ME_loop_result {W : Type} (T : Target) (blkPath : String) (time : fmiReal) :
    ∀ (fuel iterationNumber : Nat) (returnStatus : Bool) (s : FMU1ME.St W) (r : Bool × FMU1ME.St W),
      iterationNumber ≤ 10000 →
      FMU1ME.FMU1_eventIteration.loop T blkPath time fuel iterationNumber returnStatus s = some r →
      ∃ es, r.2.trace = s.trace ++ es ∧
        ((returnedStatuses es = [] ∧ r.1 = returnStatus) ∨
         ((returnedStatuses es).length + iterationNumber = 10001 ∧ r.1 = false) ∨
         ((returnedStatuses es).length + iterationNumber < 10001 ∧
          ∃ last, (returnedStatuses es).getLast? = some last ∧ r.1 = decide (last = fmiOK))) := by
  intro fuel
  induction fuel with
  | zero =>
    intro n rs s r _ h
    simp [FMU1ME.FMU1_eventIteration.loop] at h
  | succ fuel ih =>
    intro n rs s r hn h
    rw [FMU1ME.FMU1_eventIteration.loop] at h
    by_cases hneed : s.fmustruct.eventInfo.iterationConverged = false
    · obtain ⟨es, hbody, hes⟩ := FMU1ME_body_spec T blkPath time s
      have hnil := returnedStatuses_eq_nil es hes
      by_cases hcap : n ≥ 10000
      · obtain ⟨e, hcapr, he, -⟩ := FMU1ME_capReport_spec T blkPath time n
          (FMU1ME.FMU1_eventIteration.body T blkPath time s).2
        simp only [hneed, hcap, if_true, Option.some.injEq] at h
        subst h
        have hnil' : returnedStatuses (es ++ [e]) = [] :=
          returnedStatuses_eq_nil _ (by
            intro x hx
            rcases List.mem_append.1 hx with hx | hx
            · exact hes x hx
            · simp at hx
              subst hx
              exact he)
        refine ⟨Event.fmuCall .eventUpdate s.fmustruct.mFMIComp
          (some (s.fmustruct.eventUpdate s.fmustruct.mFMIComp fmiFalse s.fmustruct.eventInfo
            s.fmu).1) :: (es ++ [e]), ?_, Or.inr (Or.inl ⟨?_, rfl⟩)⟩
        · rw [hcapr, hbody]
          simp
        · have : returnedStatuses (Event.fmuCall .eventUpdate s.fmustruct.mFMIComp
              (some (s.fmustruct.eventUpdate s.fmustruct.mFMIComp fmiFalse s.fmustruct.eventInfo
                s.fmu).1) :: (es ++ [e])) =
              [(s.fmustruct.eventUpdate s.fmustruct.mFMIComp fmiFalse s.fmustruct.eventInfo
                s.fmu).1] := by
            simp only [returnedStatuses] at hnil'
            simp [returnedStatuses, Event.status?, hnil']
          rw [this]
          simp
          omega
      · simp only [hneed, hcap, if_true, if_false] at h
        obtain ⟨es', htr, hres⟩ := ih _ _ _ r (by omega) h
        have hst : returnedStatuses (Event.fmuCall .eventUpdate s.fmustruct.mFMIComp
            (some (s.fmustruct.eventUpdate s.fmustruct.mFMIComp fmiFalse s.fmustruct.eventInfo
              s.fmu).1) :: (es ++ es')) =
            (s.fmustruct.eventUpdate s.fmustruct.mFMIComp fmiFalse s.fmustruct.eventInfo
              s.fmu).1 :: returnedStatuses es' := by
          simp only [returnedStatuses] at hnil
          simp [returnedStatuses, Event.status?, hnil]
        refine ⟨Event.fmuCall .eventUpdate s.fmustruct.mFMIComp
          (some (s.fmustruct.eventUpdate s.fmustruct.mFMIComp fmiFalse s.fmustruct.eventInfo
            s.fmu).1) :: (es ++ es'), ?_, ?_⟩
        · rw [htr, hbody]
          simp
        · rw [hst]
          rcases hres with ⟨h0, h1⟩ | ⟨h0, h1⟩ | ⟨h0, last, h1, h2⟩
          · refine Or.inr (Or.inr ⟨by rw [h0]; simp; omega,
              (s.fmustruct.eventUpdate s.fmustruct.mFMIComp fmiFalse s.fmustruct.eventInfo
                s.fmu).1, by rw [h0]; rfl, ?_⟩)
            rw [h1, hbody]
          · exact Or.inr (Or.inl ⟨by simp; omega, h1⟩)
          · refine Or.inr (Or.inr ⟨by simp; omega, last, ?_, h2⟩)
            cases hl : returnedStatuses es' with
            | nil => rw [hl] at h1; simp at h1
            | cons a t => rw [hl] at h1; rw [List.getLast?_cons_cons]; exact h1
    · simp [hneed] at h
      subst h
      exact ⟨[], by simp, Or.inl ⟨rfl, rfl⟩⟩

theorem FMU1ME_body_stopNotice {W : Type} (T : Target) (blkPath : String) (time : fmiReal)
    (s : FMU1ME.St W) :
    (FMU1ME.FMU1_eventIteration.body T blkPath time s).2.trace.countP FMU1ME.isStopNotice =
      s.trace.countP FMU1ME.isStopNotice +
        (if (s.fmustruct.eventUpdate s.fmustruct.mFMIComp fmiFalse s.fmustruct.eventInfo
              s.fmu).1 = fmiOK ∧
            (s.fmustruct.eventUpdate s.fmustruct.mFMIComp fmiFalse s.fmustruct.eventInfo
              s.fmu).2.1.terminateSimulation = true
         then 1 else 0) := by
  rcases hr : s.fmustruct.eventUpdate s.fmustruct.mFMIComp fmiFalse s.fmustruct.eventInfo s.fmu
    with ⟨status, ei, w⟩
  cases hT : T.lt_STANDALONE_TARGETS <;> cases status <;> cases hterm : ei.terminateSimulation <;>
    simp [FMU1ME.FMU1_eventIteration.body, hr, FMU1ME.CheckStatus, hT, hterm,
      Sys.emit, FMU1ME.isStopNotice, List.countP_append,
      List.countP_cons, CreateDiagnosticAsVoidPtr, formatString]

/-- While the FMU reports no convergence and the cap is not reached, the loop calls
`eventUpdate` again. -/
theorem FMU1ME_loop_called_again {W : Type} (T : Target) (blkPath : String) (time : fmiReal)
    (fuel iterationNumber : Nat) (returnStatus : Bool) (s : FMU1ME.St W)
    (hfuel : 10001 ≤ iterationNumber + fuel) (hn : iterationNumber < 10000)
    (hneed : s.fmustruct.eventInfo.iterationConverged = false)
    (hagain : (FMU1ME.FMU1_eventIteration.body T blkPath time s).2.fmustruct.eventInfo.iterationConverged
      = false) :
    ∃ r, FMU1ME.FMU1_eventIteration.loop T blkPath time fuel iterationNumber returnStatus s
        = some r ∧
      s.trace.countP (Event.isCallOf .eventUpdate) + 2 ≤
        r.2.trace.countP (Event.isCallOf .eventUpdate) := by
  have hsome := FMU1_eventIteration_loop_fuel T blkPath time fuel iterationNumber returnStatus s
    (by omega) hfuel
  obtain ⟨r, hr⟩ := Option.isSome_iff_exists.1 hsome
  refine ⟨r, hr, ?_⟩
  obtain ⟨fuel1, rfl⟩ : ∃ k, fuel = k + 1 := ⟨fuel - 1, by omega⟩
  obtain ⟨fuel2, rfl⟩ : ∃ k, fuel1 = k + 1 := ⟨fuel1 - 1, by omega⟩
  rw [FMU1ME.FMU1_eventIteration.loop] at hr
  have hcap : ¬ iterationNumber ≥ 10000 := by omega
  simp only [hneed, hcap, if_true, if_false] at hr
  rw [FMU1ME.FMU1_eventIteration.loop] at hr
  simp only [hagain, if_true] at hr
  have h1 := FMU1ME_body_calls T blkPath time s
  have h2 := FMU1ME_body_calls T blkPath time (FMU1ME.FMU1_eventIteration.body T blkPath time s).2
  by_cases hcap2 : iterationNumber + 1 ≥ 10000
  · obtain ⟨e, hcapr, -, -⟩ := FMU1ME_capReport_spec T blkPath time (iterationNumber + 1)
      (FMU1ME.FMU1_eventIteration.body T blkPath time
        (FMU1ME.FMU1_eventIteration.body T blkPath time s).2).2
    simp only [hcap2, if_true, Option.some.injEq] at hr
    subst hr
    rw [hcapr]
    simp only [List.countP_append]
    omega
  · simp only [hcap2, if_false] at hr
    have h3 := FMU1ME_loop_calls_le T blkPath time _ _ _ _ r hr (Event.isCallOf .eventUpdate)
    omega

/-- A call that returns Error or Fatal and reports convergence ends
the loop with the result false. -/
theorem FMU1ME_loop_error_converged {W : Type} (T : Target) (blkPath : String) (time : fmiReal)
    (fuel iterationNumber : Nat) (returnStatus : Bool) (s : FMU1ME.St W)
    (hfuel0 : 0 < fuel) (hfuel : 10001 ≤ iterationNumber + fuel)
    (hneed : s.fmustruct.eventInfo.iterationConverged = false)
    (hst : (s.fmustruct.eventUpdate s.fmustruct.mFMIComp fmiFalse s.fmustruct.eventInfo
        s.fmu).1 = fmiError ∨
      (s.fmustruct.eventUpdate s.fmustruct.mFMIComp fmiFalse s.fmustruct.eventInfo
        s.fmu).1 = fmiFatal)
    (hconv : (s.fmustruct.eventUpdate s.fmustruct.mFMIComp fmiFalse s.fmustruct.eventInfo
        s.fmu).2.1.iterationConverged = true ∨ iterationNumber ≥ 10000) :
    ∃ s', FMU1ME.FMU1_eventIteration.loop T blkPath time fuel iterationNumber returnStatus s
        = some (false, s') ∧
      s'.trace.countP (Event.isCallOf .eventUpdate) =
        s.trace.countP (Event.isCallOf .eventUpdate) + 1 := by
  obtain ⟨fuel1, rfl⟩ : ∃ k, fuel = k + 1 := ⟨fuel - 1, by omega⟩
  obtain ⟨es, hbody, hes⟩ := FMU1ME_body_spec T blkPath time s
  have hcalls := FMU1ME_body_calls T blkPath time s
  have hfst : (FMU1ME.FMU1_eventIteration.body T blkPath time s).1 = false := by
    rw [hbody]
    rcases hst with h | h <;> simp [h]
  have hconv' : (FMU1ME.FMU1_eventIteration.body T blkPath time
      s).2.fmustruct.eventInfo.iterationConverged = true ∨ iterationNumber ≥ 10000 := by
    rw [hbody]; exact hconv
  rw [FMU1ME.FMU1_eventIteration.loop]
  by_cases hcap : iterationNumber ≥ 10000
  · obtain ⟨e, hcapr, he, -⟩ := FMU1ME_capReport_spec T blkPath time iterationNumber
      (FMU1ME.FMU1_eventIteration.body T blkPath time s).2
    refine ⟨_, by simp only [hneed, hcap, if_true]; rfl, ?_⟩
    rw [hcapr]
    simp only [List.countP_append, hcalls]
    simp [Event.isCallOf_eq_false_of_isFmuCall_eq_false _ e he]
  · obtain ⟨fuel2, rfl⟩ : ∃ k, fuel1 = k + 1 := ⟨fuel1 - 1, by omega⟩
    have hconv' := hconv'.resolve_right hcap
    simp only [hneed, hcap, if_true, if_false]
    rw [FMU1ME.FMU1_eventIteration.loop]
    simp only [hconv', hfst]
    exact ⟨_, by simp, hcalls⟩

/-! ## The result of event iteration (C15) -/

/-- C15: every run of `FMU2_eventIteration` and of `FMU1_eventIteration` returns, and for
every run that makes at least one discrete-state call the returned boolean is false if the run
ended by hitting the iteration cap (which is the case exactly when 10001 calls were made), and
otherwise it is the translation of the status of the last call (true iff that status is OK),
whatever the statuses of the earlier calls were. -/
theorem eventIteration_result_is_last_translation :
    (∀ (W : Type) (T : Target) (s : FMU2.St W) (blkPath : String) (time : fmiReal),
      (FMU2.FMU2_eventIteration T s blkPath time).isSome = true ∧
      ∀ (ret : Bool) (s' : FMU2.St W) (es : List Event),
        FMU2.FMU2_eventIteration T s blkPath time = some (ret, s') →
        s'.trace = s.trace ++ es → returnedStatuses es ≠ [] →
        ((returnedStatuses es).length = 10001 → ret = false) ∧
        ((returnedStatuses es).length ≠ 10001 →
          ∃ last, (returnedStatuses es).getLast? = some last ∧ ret = decide (last = fmiOK))) ∧
    (∀ (W : Type) (T : Target) (s : FMU1ME.St W) (blkPath : String) (time : fmiReal),
      (FMU1ME.FMU1_eventIteration T s blkPath time).isSome = true ∧
      ∀ (ret : Bool) (s' : FMU1ME.St W) (es : List Event),
        FMU1ME.FMU1_eventIteration T s blkPath time = some (ret, s') →
        s'.trace = s.trace ++ es → returnedStatuses es ≠ [] →
        ((returnedStatuses es).length = 10001 → ret = false) ∧
        ((returnedStatuses es).length ≠ 10001 →
          ∃ last, (returnedStatuses es).getLast? = some last ∧ ret = decide (last = fmiOK))) := by
  refine ⟨?_, ?_⟩
  · intro W T s blkPath time
    refine ⟨FMU2_eventIteration_loop_fuel T blkPath time 10001 0 true _ (by omega) (by omega), ?_⟩
    intro ret s' es hrun htr hne
    have hres := FMU2_loop_result T blkPath time 10001 0 true _ (ret, s') (by omega) hrun
    obtain ⟨es0, ht0, hcases⟩ := hres
    have hes : es0 = es := List.append_cancel_left (ht0.symm.trans htr)
    subst hes
    rcases hcases with ⟨h0, -⟩ | ⟨h0, h1⟩ | ⟨h0, last, h1, h2⟩
    · exact absurd h0 hne
    · exact ⟨fun _ => h1, fun h => absurd (by omega) h⟩
    · exact ⟨fun h => by omega, fun _ => ⟨last, h1, h2⟩⟩
  · intro W T s blkPath time
    refine ⟨FMU1_eventIteration_loop_fuel T blkPath time 10001 0 true _ (by omega) (by omega), ?_⟩
    intro ret s' es hrun htr hne
    have hres := FMU1ME_loop_result T blkPath time 10001 0 true _ (ret, s') (by omega) hrun
    obtain ⟨es0, ht0, hcases⟩ := hres
    have hes : es0 = es := List.append_cancel_left (ht0.symm.trans htr)
    subst hes
    rcases hcases with ⟨h0, -⟩ | ⟨h0, h1⟩ | ⟨h0, last, h1, h2⟩
    · exact absurd h0 hne
    · exact ⟨fun _ => h1, fun h => absurd (by omega) h⟩
    · exact ⟨fun h => by omega, fun _ => ⟨last, h1, h2⟩⟩

/-- Witness of C15: against `mockErrorThenOK` the run of `FMU2_eventIteration` gets the
statuses Error, OK and returns true, the translation of the last one. -/
theorem eventIteration_result_is_last_translation_witness :
    ∃ (s' : FMU2.St Nat) (es : List Event),
      (FMU2.FMU2_eventIteration Target.standalone ⟨FMU2.mockErrorThenOK, 0, []⟩ "blk" 0
          = some (true, s') ∧
        s'.trace = [] ++ es ∧ returnedStatuses es = [fmiError, fmiOK] ∧
        returnedStatuses es ≠ []) ∧
      ((returnedStatuses es).length = 10001 → true = false) ∧
      ((returnedStatuses es).length ≠ 10001 →
        ∃ last, (returnedStatuses es).getLast? = some last ∧ true = decide (last = fmiOK)) :=
  ⟨_, _, ⟨rfl, rfl, by decide, by decide⟩,
    (eventIteration_result_is_last_translation.1 Nat Target.standalone
      ⟨FMU2.mockErrorThenOK, 0, []⟩ "blk" 0).2 true _ _ rfl rfl (by decide)⟩

/-! ## The stop notice of event iteration (C16) -/

/-- C16: in every pass of the loop of `FMU2_eventIteration` and of `FMU1_eventIteration` the
stop notice is emitted once if the status of the discrete-state call is OK and the event info
it left has `terminateSimulation` set, and not at all otherwise; and the notice does not end
the loop: whenever the event info still reports non-convergence after a pass and the cap is
not reached, the discrete-state function is called again. -/
theorem eventIteration_stop_notice :
    (∀ (W : Type) (T : Target) (blkPath : String) (time : fmiReal) (s : FMU2.St W),
      (FMU2.FMU2_eventIteration.body T blkPath time s).2.trace.countP FMU2.isStopNotice =
        s.trace.countP FMU2.isStopNotice +
          (if (s.fmustruct.newDiscreteStates s.fmustruct.mFMIComp s.fmustruct.eventInfo
                s.fmu).1 = fmiOK ∧
              (s.fmustruct.newDiscreteStates s.fmustruct.mFMIComp s.fmustruct.eventInfo
                s.fmu).2.1.terminateSimulation = true
           then 1 else 0)) ∧
    (∀ (W : Type) (T : Target) (blkPath : String) (time : fmiReal) (fuel iterationNumber : Nat)
        (returnStatus : Bool) (s : FMU2.St W),
      10001 ≤ iterationNumber + fuel → iterationNumber < 10000 →
      s.fmustruct.eventInfo.newDiscreteStatesNeeded = true →
      (FMU2.FMU2_eventIteration.body T blkPath time
        s).2.fmustruct.eventInfo.newDiscreteStatesNeeded = true →
      ∃ r, FMU2.FMU2_eventIteration.loop T blkPath time fuel iterationNumber returnStatus s
          = some r ∧
        s.trace.countP (Event.isCallOf .newDiscreteStates) + 2 ≤
          r.2.trace.countP (Event.isCallOf .newDiscreteStates)) ∧
    (∀ (W : Type) (T : Target) (blkPath : String) (time : fmiReal) (s : FMU1ME.St W),
      (FMU1ME.FMU1_eventIteration.body T blkPath time s).2.trace.countP FMU1ME.isStopNotice =
        s.trace.countP FMU1ME.isStopNotice +
          (if (s.fmustruct.eventUpdate s.fmustruct.mFMIComp fmiFalse s.fmustruct.eventInfo
                s.fmu).1 = fmiOK ∧
              (s.fmustruct.eventUpdate s.fmustruct.mFMIComp fmiFalse s.fmustruct.eventInfo
                s.fmu).2.1.terminateSimulation = true
           then 1 else 0)) ∧
    (∀ (W : Type) (T : Target) (blkPath : String) (time : fmiReal) (fuel iterationNumber : Nat)
        (returnStatus : Bool) (s : FMU1ME.St W),
      10001 ≤ iterationNumber + fuel → iterationNumber < 10000 →
      s.fmustruct.eventInfo.iterationConverged = false →
      (FMU1ME.FMU1_eventIteration.body T blkPath time
        s).2.fmustruct.eventInfo.iterationConverged = false →
      ∃ r, FMU1ME.FMU1_eventIteration.loop T blkPath time fuel iterationNumber returnStatus s
          = some r ∧
        s.trace.countP (Event.isCallOf .eventUpdate) + 2 ≤
          r.2.trace.countP (Event.isCallOf .eventUpdate)) :=
  ⟨fun _ T blkPath time s => FMU2_body_stopNotice T blkPath time s,
   fun _ T blkPath time fuel n rs s h1 h2 h3 h4 =>
     FMU2_loop_called_again T blkPath time fuel n rs s h1 h2 h3 h4,
   fun _ T blkPath time s => FMU1ME_body_stopNotice T blkPath time s,
   fun _ T blkPath time fuel n rs s h1 h2 h3 h4 =>
     FMU1ME_loop_called_again T blkPath time fuel n rs s h1 h2 h3 h4⟩

/-- Witness of C16: the loop of `FMU2_eventIteration` entered against `mockStopRequested`,
whose first call returns OK with `terminateSimulation` set and still asks for another update:
the stop notice of the first pass is followed by a second call. -/
theorem eventIteration_stop_notice_witness :
    ((10001 ≤ 0 + 10001 ∧ 0 < 10000) ∧
      ({ FMU2.mockStopRequested with
          eventInfo := { FMU2.mockStopRequested.eventInfo with
            newDiscreteStatesNeeded := true } } :
        FMU2.FMU2_CSME_RTWCG Nat).eventInfo.newDiscreteStatesNeeded = true ∧
      (FMU2.FMU2_eventIteration.body Target.standalone "blk" 0
        ⟨{ FMU2.mockStopRequested with
            eventInfo := { FMU2.mockStopRequested.eventInfo with
              newDiscreteStatesNeeded := true } }, 0, []⟩
        ).2.fmustruct.eventInfo.newDiscreteStatesNeeded = true ∧
      (FMU2.FMU2_eventIteration.body Target.standalone "blk" 0
        ⟨{ FMU2.mockStopRequested with
            eventInfo := { FMU2.mockStopRequested.eventInfo with
              newDiscreteStatesNeeded := true } }, 0, []⟩
        ).2.trace.countP FMU2.isStopNotice = 1) ∧
    ∃ r, FMU2.FMU2_eventIteration.loop Target.standalone "blk" 0 10001 0 true
        ⟨{ FMU2.mockStopRequested with
            eventInfo := { FMU2.mockStopRequested.eventInfo with
              newDiscreteStatesNeeded := true } }, 0, []⟩ = some r ∧
      ([] : List Event).countP (Event.isCallOf .newDiscreteStates) + 2 ≤
        r.2.trace.countP (Event.isCallOf .newDiscreteStates) :=
  ⟨⟨⟨by decide, by decide⟩, rfl, rfl, by decide⟩,
    eventIteration_stop_notice.2.1 Nat Target.standalone "blk" 0 10001 0 true
      ⟨{ FMU2.mockStopRequested with
          eventInfo := { FMU2.mockStopRequested.eventInfo with
            newDiscreteStatesNeeded := true } }, 0, []⟩
      (by decide) (by decide) rfl rfl⟩

/-! ## Error and Fatal during event iteration (C17) -/

/-- C17 (counterexample): against `mockErrorThenOK`, whose first discrete-state call returns
Error without reporting convergence, `FMU2_eventIteration` and `FMU1_eventIteration` call the
discrete-state function a second time and return true. -/
theorem eventIteration_Error_is_retried :
    (∃ s', FMU2.FMU2_eventIteration Target.standalone ⟨FMU2.mockErrorThenOK, 0, []⟩ "blk" 0
        = some (true, s') ∧
      returnedStatuses s'.trace = [fmiError, fmiOK] ∧
      s'.trace.countP (Event.isCallOf .newDiscreteStates) = 2) ∧
    (∃ s', FMU1ME.FMU1_eventIteration Target.standalone ⟨FMU1ME.mockErrorThenOK, 0, []⟩ "blk" 0
        = some (true, s') ∧
      returnedStatuses s'.trace = [fmiError, fmiOK] ∧
      s'.trace.countP (Event.isCallOf .eventUpdate) = 2) :=
  ⟨⟨_, rfl, by decide, by decide⟩, ⟨_, rfl, by decide, by decide⟩⟩

/-- C17 (amended): at any pass of the loop of `FMU2_eventIteration` or `FMU1_eventIteration`,
a discrete-state call that returns Error or Fatal and leaves the event info reporting
convergence (FMI 2.0: `newDiscreteStatesNeeded` false; FMI 1.0: `iterationConverged` true), or
that is made when the cap is reached, is the last call of the run: the run returns false
without calling the discrete-state function again. -/
theorem eventIteration_Error_Fatal_converged_returns_false :
    (∀ (W : Type) (T : Target) (blkPath : String) (time : fmiReal) (fuel iterationNumber : Nat)
        (returnStatus : Bool) (s : FMU2.St W),
      0 < fuel → 10001 ≤ iterationNumber + fuel →
      s.fmustruct.eventInfo.newDiscreteStatesNeeded = true →
      ((s.fmustruct.newDiscreteStates s.fmustruct.mFMIComp s.fmustruct.eventInfo s.fmu).1
          = fmiError ∨
        (s.fmustruct.newDiscreteStates s.fmustruct.mFMIComp s.fmustruct.eventInfo s.fmu).1
          = fmiFatal) →
      ((s.fmustruct.newDiscreteStates s.fmustruct.mFMIComp s.fmustruct.eventInfo
          s.fmu).2.1.newDiscreteStatesNeeded = false ∨ iterationNumber ≥ 10000) →
      ∃ s', FMU2.FMU2_eventIteration.loop T blkPath time fuel iterationNumber returnStatus s
          = some (false, s') ∧
        s'.trace.countP (Event.isCallOf .newDiscreteStates) =
          s.trace.countP (Event.isCallOf .newDiscreteStates) + 1) ∧
    (∀ (W : Type) (T : Target) (blkPath : String) (time : fmiReal) (fuel iterationNumber : Nat)
        (returnStatus : Bool) (s : FMU1ME.St W),
      0 < fuel → 10001 ≤ iterationNumber + fuel →
      s.fmustruct.eventInfo.iterationConverged = false →
      ((s.fmustruct.eventUpdate s.fmustruct.mFMIComp fmiFalse s.fmustruct.eventInfo s.fmu).1
          = fmiError ∨
        (s.fmustruct.eventUpdate s.fmustruct.mFMIComp fmiFalse s.fmustruct.eventInfo s.fmu).1
          = fmiFatal) →
      ((s.fmustruct.eventUpdate s.fmustruct.mFMIComp fmiFalse s.fmustruct.eventInfo
          s.fmu).2.1.iterationConverged = true ∨ iterationNumber ≥ 10000) →
      ∃ s', FMU1ME.FMU1_eventIteration.loop T blkPath time fuel iterationNumber returnStatus s
          = some (false, s') ∧
        s'.trace.countP (Event.isCallOf .eventUpdate) =
          s.trace.countP (Event.isCallOf .eventUpdate) + 1) :=
  ⟨fun _ T blkPath time fuel n rs s h0 h1 h2 h3 h4 =>
     FMU2_loop_error_converged T blkPath time fuel n rs s h0 h1 h2 h3 h4,
   fun _ T blkPath time fuel n rs s h0 h1 h2 h3 h4 =>
     FMU1ME_loop_error_converged T blkPath time fuel n rs s h0 h1 h2 h3 h4⟩

/-- Witness of C17 (amended): the loop of `FMU1_eventIteration` entered against the scripted
FMU that returns Fatal and reports convergence. -/
theorem eventIteration_Error_Fatal_converged_returns_false_witness :
    ((0 < 10001 ∧ 10001 ≤ 0 + 10001) ∧
      FMU1ME.mockScripted.eventInfo.iterationConverged = false ∧
      ((FMU1ME.mockScripted.eventUpdate 9 fmiFalse FMU1ME.mockScripted.eventInfo
          [fmiFatal]).1 = fmiError ∨
        (FMU1ME.mockScripted.eventUpdate 9 fmiFalse FMU1ME.mockScripted.eventInfo
          [fmiFatal]).1 = fmiFatal) ∧
      ((FMU1ME.mockScripted.eventUpdate 9 fmiFalse FMU1ME.mockScripted.eventInfo
          [fmiFatal]).2.1.iterationConverged = true ∨ 0 ≥ 10000)) ∧
    ∃ s', FMU1ME.FMU1_eventIteration.loop Target.host "blk" 0 10001 0 true
        ⟨FMU1ME.mockScripted, [fmiFatal], []⟩ = some (false, s') ∧
      s'.trace.countP (Event.isCallOf .eventUpdate) =
        ([] : List Event).countP (Event.isCallOf .eventUpdate) + 1 :=
  ⟨⟨⟨by decide, by decide⟩, rfl, Or.inr rfl, Or.inl rfl⟩,
    eventIteration_Error_Fatal_converged_returns_false.2 (List fmiStatus) Target.host "blk" 0
      10001 0 true ⟨FMU1ME.mockScripted, [fmiFatal], []⟩ (by decide) (by decide) rfl
      (Or.inr rfl) (Or.inl rfl)⟩

/-! ## `FMU2_doStep` and the status Discard (C18) -/

/-- C18: for every handle and step arguments, when the FMU's `doStep` returns `fmi2Discard`,
`FMU2_doStep` queries `getBooleanStatus` for `fmi2Terminated` exactly once (the FMU is left in
the state after that query), returns false, and emits the notice that the FMU is terminated
after a Discard once if the query reports true and not at all otherwise; for every other
status of `doStep` it makes no such query and emits no such notice. -/
theorem doStep_Discard_queries_terminated :
    ∀ (W : Type) (T : Target) (s : FMU2.St W)
      (currentCommunicationPoint communicationStepSize : fmiReal)
      (noSetFMUStatePriorToCurrentPoint boolVal : Bool),
      ((s.fmustruct.doStep s.fmustruct.mFMIComp currentCommunicationPoint communicationStepSize
          noSetFMUStatePriorToCurrentPoint s.fmu).1 = fmiDiscard →
        (FMU2.FMU2_doStep T s currentCommunicationPoint communicationStepSize
          noSetFMUStatePriorToCurrentPoint boolVal).1 = false ∧
        (FMU2.FMU2_doStep T s currentCommunicationPoint communicationStepSize
          noSetFMUStatePriorToCurrentPoint boolVal).2.fmu =
          (s.fmustruct.getBooleanStatus s.fmustruct.mFMIComp .fmi2Terminated boolVal
            (s.fmustruct.doStep s.fmustruct.mFMIComp currentCommunicationPoint
              communicationStepSize noSetFMUStatePriorToCurrentPoint s.fmu).2).2.2 ∧
        (FMU2.FMU2_doStep T s currentCommunicationPoint communicationStepSize
          noSetFMUStatePriorToCurrentPoint boolVal).2.trace.countP
            (Event.isCallOf .getBooleanStatus) =
          s.trace.countP (Event.isCallOf .getBooleanStatus) + 1 ∧
        (FMU2.FMU2_doStep T s currentCommunicationPoint communicationStepSize
          noSetFMUStatePriorToCurrentPoint boolVal).2.trace.countP FMU2.isTerminatedNotice =
          s.trace.countP FMU2.isTerminatedNotice +
            (if (s.fmustruct.getBooleanStatus s.fmustruct.mFMIComp .fmi2Terminated boolVal
                  (s.fmustruct.doStep s.fmustruct.mFMIComp currentCommunicationPoint
                    communicationStepSize noSetFMUStatePriorToCurrentPoint s.fmu).2).2.1 = true
             then 1 else 0)) ∧
      ((s.fmustruct.doStep s.fmustruct.mFMIComp currentCommunicationPoint communicationStepSize
          noSetFMUStatePriorToCurrentPoint s.fmu).1 ≠ fmiDiscard →
        (FMU2.FMU2_doStep T s currentCommunicationPoint communicationStepSize
          noSetFMUStatePriorToCurrentPoint boolVal).2.trace.countP
            (Event.isCallOf .getBooleanStatus) =
          s.trace.countP (Event.isCallOf .getBooleanStatus) ∧
        (FMU2.FMU2_doStep T s currentCommunicationPoint communicationStepSize
          noSetFMUStatePriorToCurrentPoint boolVal).2.trace.countP FMU2.isTerminatedNotice =
          s.trace.countP FMU2.isTerminatedNotice) := by
  intro W T s cur step noSet boolVal
  rcases hr : s.fmustruct.doStep s.fmustruct.mFMIComp cur step noSet s.fmu with ⟨status, w⟩
  rcases hq : s.fmustruct.getBooleanStatus s.fmustruct.mFMIComp .fmi2Terminated boolVal w
    with ⟨qstatus, qval, w'⟩
  cases hT : T.lt_STANDALONE_TARGETS <;> cases status <;> cases qval <;>
    simp [FMU2.FMU2_doStep, hr, hq, FMU2.CheckStatus, hT, Sys.emit, FMU2.isTerminatedNotice,
      Event.isCallOf, List.countP_append, List.countP_cons, CreateDiagnosticAsVoidPtr,
      formatString]

/-- C18 (witness): a standalone build and the scripted FMU whose `doStep` returns
`fmi2Discard` and whose `getBooleanStatus` reports true, for `doStep(0.0, 0.01, true)`: the
wrapper returns false. -/
theorem doStep_Discard_queries_terminated_witness :
    (FMU2.mockScripted.doStep FMU2.mockScripted.mFMIComp 0 (1 / 100) true [fmiDiscard]).1 =
      fmiDiscard ∧
    (FMU2.FMU2_doStep Target.standalone ⟨FMU2.mockScripted, [fmiDiscard], []⟩ 0 (1 / 100) true
      false).1 = false :=
  ⟨rfl,
    ((doStep_Discard_queries_terminated (List fmiStatus) Target.standalone
      ⟨FMU2.mockScripted, [fmiDiscard], []⟩ 0 (1 / 100) true false).1 rfl).1⟩

/-! ## Auxiliary facts about loading the function table -/

theorem FMU2_LoadFMUFcn_resolved {W : Type} (T : Target) (P : FMU2.Loader W) (s : FMU2.St W)
    (fcnName : String) (isOptional : Bool)
    (h : P.LOAD_FUNCTION s.fmustruct.Handle (FMU2.lookupName T s fcnName) = true) :
    FMU2.LoadFMUFcn T P s fcnName isOptional =
      (.symbol (FMU2.lookupName T s fcnName),
        { s with trace := s.trace ++
            [.loadFunction s.fmustruct.Handle (FMU2.lookupName T s fcnName) true] }) := by
  simp [FMU2.LoadFMUFcn, h, Sys.emit]

theorem FMU2_LoadFMUFcn_optional {W : Type} (T : Target) (P : FMU2.Loader W) (s : FMU2.St W)
    (fcnName : String)
    (h : P.LOAD_FUNCTION s.fmustruct.Handle (FMU2.lookupName T s fcnName) = false) :
    FMU2.LoadFMUFcn T P s fcnName true =
      (.null,
        { s with trace := s.trace ++
            [.loadFunction s.fmustruct.Handle (FMU2.lookupName T s fcnName) false] }) := by
  simp [FMU2.LoadFMUFcn, h, Sys.emit]

theorem FMU2_LoadFMUFcn_mandatory {W : Type} (T : Target) (P : FMU2.Loader W) (s : FMU2.St W)
    (fcnName : String)
    (h : P.LOAD_FUNCTION s.fmustruct.Handle (FMU2.lookupName T s fcnName) = false) :
    ∃ e, FMU2.LoadFMUFcn T P s fcnName false =
        (.defaultfcn,
          { s with
            fmustruct := { s.fmustruct with FMUErrorStatus := fmiWarning }
            trace := s.trace ++
              [.loadFunction s.fmustruct.Handle (FMU2.lookupName T s fcnName) false, e] }) ∧
      e.isUnableToLoadFunction = true ∧ e.isDiagnostic = true ∧ e.carries fcnName = true ∧
      e.carries s.fmustruct.fmuname = true ∧ e.isFmuCall = false ∧
      e.isLoadLibrary = false ∧ e.isLoadFunction = false := by
  cases hT : T.lt_STANDALONE_TARGETS <;>
    simp [FMU2.LoadFMUFcn, h, hT, Sys.emit, Event.isUnableToLoadFunction, Event.isDiagnostic,
      Event.carries, Event.isFmuCall, Event.isLoadLibrary, Event.isLoadFunction,
      CreateDiagnosticAsVoidPtr, formatString]

theorem FMU1_LoadFMUFcn_resolved {W : Type} (T : Target) (P : FMU1.Loader W) (s : FMU1.St W)
    (fcnName : String) (isOptional : Bool)
    (h : P.LOAD_FUNCTION s.fmustruct.Handle (FMU1.lookupName T s fcnName) = true) :
    FMU1.LoadFMUFcn T P s fcnName isOptional =
      (.symbol (FMU1.lookupName T s fcnName),
        { s with trace := s.trace ++
            [.loadFunction s.fmustruct.Handle (FMU1.lookupName T s fcnName) true] }) := by
  simp [FMU1.LoadFMUFcn, h, Sys.emit]

theorem FMU1_LoadFMUFcn_optional {W : Type} (T : Target) (P : FMU1.Loader W) (s : FMU1.St W)
    (fcnName : String)
    (h : P.LOAD_FUNCTION s.fmustruct.Handle (FMU1.lookupName T s fcnName) = false) :
    FMU1.LoadFMUFcn T P s fcnName true =
      (.null,
        { s with trace := s.trace ++
            [.loadFunction s.fmustruct.Handle (FMU1.lookupName T s fcnName) false] }) := by
  simp [FMU1.LoadFMUFcn, h, Sys.emit]

theorem FMU1_LoadFMUFcn_mandatory {W : Type} (T : Target) (P : FMU1.Loader W) (s : FMU1.St W)
    (fcnName : String)
    (h : P.LOAD_FUNCTION s.fmustruct.Handle (FMU1.lookupName T s fcnName) = false) :
    ∃ e, FMU1.LoadFMUFcn T P s fcnName false =
        (.defaultfcn,
          { s with
            fmustruct := { s.fmustruct with FMUErrorStatus := fmiWarning }
            trace := s.trace ++
              [.loadFunction s.fmustruct.Handle (FMU1.lookupName T s fcnName) false, e] }) ∧
      e.isUnableToLoadFunction = true ∧ e.isDiagnostic = true ∧ e.carries fcnName = true ∧
      e.carries s.fmustruct.fmuname = true ∧ e.isFmuCall = false ∧
      e.isLoadLibrary = false ∧ e.isLoadFunction = false := by
  cases hT : T.lt_STANDALONE_TARGETS <;>
    simp [FMU1.LoadFMUFcn, h, hT, Sys.emit, Event.isUnableToLoadFunction, Event.isDiagnostic,
      Event.carries, Event.isFmuCall, Event.isLoadLibrary, Event.isLoadFunction,
      CreateDiagnosticAsVoidPtr, formatString]

theorem FMU1_LoadFMUFcn_trace {W : Type} (T : Target) (P : FMU1.Loader W) (s : FMU1.St W)
    (fcnName : String) (isOptional : Bool) :
    ∃ es, (FMU1.LoadFMUFcn T P s fcnName isOptional).2.trace = s.trace ++ es ∧
      (FMU1.LoadFMUFcn T P s fcnName isOptional).2.fmu = s.fmu ∧
      ∀ e ∈ es, e.isFmuCall = false ∧ e.isLoadLibrary = false := by
  cases h : P.LOAD_FUNCTION s.fmustruct.Handle (FMU1.lookupName T s fcnName)
  · cases isOptional
    · obtain ⟨e, he, -, -, -, -, hc, hl, -⟩ := FMU1_LoadFMUFcn_mandatory T P s fcnName h
      refine ⟨_, by rw [he], by rw [he], ?_⟩
      intro e1 he1
      simp only [List.mem_cons, List.mem_singleton, List.not_mem_nil, or_false] at he1
      rcases he1 with rfl | rfl
      · exact ⟨rfl, rfl⟩
      · exact ⟨hc, hl⟩
    · rw [FMU1_LoadFMUFcn_optional T P s fcnName h]
      refine ⟨_, rfl, rfl, ?_⟩
      intro e1 he1
      simp only [List.mem_singleton] at he1
      subst he1
      exact ⟨rfl, rfl⟩
  · rw [FMU1_LoadFMUFcn_resolved T P s fcnName isOptional h]
    refine ⟨_, rfl, rfl, ?_⟩
    intro e1 he1
    simp only [List.mem_singleton] at he1
    subst he1
    exact ⟨rfl, rfl⟩

theorem FMU1_loadTable_trace {W : Type} (T : Target) (P : FMU1.Loader W)
    (l : List (FMU1.TableLoad W)) (s : FMU1.St W) :
    ∃ es, (FMU1.loadTable T P l s).trace = s.trace ++ es ∧
      (FMU1.loadTable T P l s).fmu = s.fmu ∧
      ∀ e ∈ es, e.isFmuCall = false ∧ e.isLoadLibrary = false := by
  induction l generalizing s with
  | nil => exact ⟨[], by simp [FMU1.loadTable], rfl, by simp⟩
  | cons a l ih =>
    obtain ⟨es1, h1, hf1, hp1⟩ := FMU1_LoadFMUFcn_trace T P s a.fcnName a.isOptional
    obtain ⟨es2, h2, hf2, hp2⟩ := ih
      { (FMU1.LoadFMUFcn T P s a.fcnName a.isOptional).2 with
        fmustruct := a.store (FMU1.LoadFMUFcn T P s a.fcnName a.isOptional).1
          (FMU1.LoadFMUFcn T P s a.fcnName a.isOptional).2.fmustruct }
    refine ⟨es1 ++ es2, ?_, ?_, ?_⟩
    · simp only [FMU1.loadTable]
      rw [h2]
      simp [h1]
    · simp only [FMU1.loadTable]
      rw [hf2]
      exact hf1
    · intro e he
      rcases List.mem_append.1 he with he | he
      · exact hp1 e he
      · exact hp2 e he

theorem FMU1ME_LoadFMUFcn_resolved {W : Type} (T : Target) (P : FMU1ME.Loader W) (s : FMU1ME.St W)
    (fcnName : String) (isOptional : Bool)
    (h : P.LOAD_FUNCTION s.fmustruct.Handle (FMU1ME.lookupName T s fcnName) = true) :
    FMU1ME.LoadFMUFcn T P s fcnName isOptional =
      (.symbol (FMU1ME.lookupName T s fcnName),
        { s with trace := s.trace ++
            [.loadFunction s.fmustruct.Handle (FMU1ME.lookupName T s fcnName) true] }) := by
  simp [FMU1ME.LoadFMUFcn, h, Sys.emit]

theorem FMU1ME_LoadFMUFcn_optional {W : Type} (T : Target) (P : FMU1ME.Loader W) (s : FMU1ME.St W)
    (fcnName : String)
    (h : P.LOAD_FUNCTION s.fmustruct.Handle (FMU1ME.lookupName T s fcnName) = false) :
    FMU1ME.LoadFMUFcn T P s fcnName true =
      (.null,
        { s with trace := s.trace ++
            [.loadFunction s.fmustruct.Handle (FMU1ME.lookupName T s fcnName) false] }) := by
  simp [FMU1ME.LoadFMUFcn, h, Sys.emit]

theorem FMU1ME_LoadFMUFcn_mandatory {W : Type} (T : Target) (P : FMU1ME.Loader W) (s : FMU1ME.St W)
    (fcnName : String)
    (h : P.LOAD_FUNCTION s.fmustruct.Handle (FMU1ME.lookupName T s fcnName) = false) :
    ∃ e, FMU1ME.LoadFMUFcn T P s fcnName false =
        (.defaultfcn,
          { s with
            fmustruct := { s.fmustruct with FMUErrorStatus := fmiWarning }
            trace := s.trace ++
              [.loadFunction s.fmustruct.Handle (FMU1ME.lookupName T s fcnName) false, e] }) ∧
      e.isUnableToLoadFunction = true ∧ e.isDiagnostic = true ∧ e.carries fcnName = true ∧
      e.carries s.fmustruct.fmuname = true ∧ e.isFmuCall = false ∧
      e.isLoadLibrary = false ∧ e.isLoadFunction = false := by
  cases hT : T.lt_STANDALONE_TARGETS <;>
    simp [FMU1ME.LoadFMUFcn, h, hT, Sys.emit, Event.isUnableToLoadFunction, Event.isDiagnostic,
      Event.carries, Event.isFmuCall, Event.isLoadLibrary, Event.isLoadFunction,
      CreateDiagnosticAsVoidPtr, formatString]

theorem FMU1ME_LoadFMUFcn_trace {W : Type} (T : Target) (P : FMU1ME.Loader W) (s : FMU1ME.St W)
    (fcnName : String) (isOptional : Bool) :
    ∃ es, (FMU1ME.LoadFMUFcn T P s fcnName isOptional).2.trace = s.trace ++ es ∧
      (FMU1ME.LoadFMUFcn T P s fcnName isOptional).2.fmu = s.fmu ∧
      ∀ e ∈ es, e.isFmuCall = false ∧ e.isLoadLibrary = false := by
  cases h : P.LOAD_FUNCTION s.fmustruct.Handle (FMU1ME.lookupName T s fcnName)
  · cases isOptional
    · obtain ⟨e, he, -, -, -, -, hc, hl, -⟩ := FMU1ME_LoadFMUFcn_mandatory T P s fcnName h
      refine ⟨_, by rw [he], by rw [he], ?_⟩
      intro e1 he1
      simp only [List.mem_cons, List.mem_singleton, List.not_mem_nil, or_false] at he1
      rcases he1 with rfl | rfl
      · exact ⟨rfl, rfl⟩
      · exact ⟨hc, hl⟩
    · rw [FMU1ME_LoadFMUFcn_optional T P s fcnName h]
      refine ⟨_, rfl, rfl, ?_⟩
      intro e1 he1
      simp only [List.mem_singleton] at he1
      subst he1
      exact ⟨rfl, rfl⟩
  · rw [FMU1ME_LoadFMUFcn_resolved T P s fcnName isOptional h]
    refine ⟨_, rfl, rfl, ?_⟩
    intro e1 he1
    simp only [List.mem_singleton] at he1
    subst he1
    exact ⟨rfl, rfl⟩

theorem FMU1ME_loadTable_trace {W : Type} (T : Target) (P : FMU1ME.Loader W)
    (l : List (FMU1ME.TableLoad W)) (s : FMU1ME.St W) :
    ∃ es, (FMU1ME.loadTable T P l s).trace = s.trace ++ es ∧
      (FMU1ME.loadTable T P l s).fmu = s.fmu ∧
      ∀ e ∈ es, e.isFmuCall = false ∧ e.isLoadLibrary = false := by
  induction l generalizing s with
  | nil => exact ⟨[], by simp [FMU1ME.loadTable], rfl, by simp⟩
  | cons a l ih =>
    obtain ⟨es1, h1, hf1, hp1⟩ := FMU1ME_LoadFMUFcn_trace T P s a.fcnName a.isOptional
    obtain ⟨es2, h2, hf2, hp2⟩ := ih
      { (FMU1ME.LoadFMUFcn T P s a.fcnName a.isOptional).2 with
        fmustruct := a.store (FMU1ME.LoadFMUFcn T P s a.fcnName a.isOptional).1
          (FMU1ME.LoadFMUFcn T P s a.fcnName a.isOptional).2.fmustruct }
    refine ⟨es1 ++ es2, ?_, ?_, ?_⟩
    · simp only [FMU1ME.loadTable]
      rw [h2]
      simp [h1]
    · simp only [FMU1ME.loadTable]
      rw [hf2]
      exact hf1
    · intro e he
      rcases List.mem_append.1 he with he | he
      · exact hp1 e he
      · exact hp2 e he

/-! ## Auxiliary facts about initialization -/

theorem FMU2_allocate_spec {W : Type} (T : Target) (lib instanceName : String) (ssPtr : Ptr)
    (fmuCallBacks : Option FMU2.fmi2CallbackFunctions) (fmu : W) (trace : List Event) :
    (FMU2.FMU2_fmuInitialize.allocate T lib instanceName ssPtr fmuCallBacks fmu trace).trace =
        trace ++ [Event.allocateMemory] ∧
      (FMU2.FMU2_fmuInitialize.allocate T lib instanceName ssPtr fmuCallBacks fmu trace).fmu =
        fmu ∧
      (FMU2.FMU2_fmuInitialize.allocate T lib instanceName ssPtr fmuCallBacks fmu
        trace).fmustruct.dllfile = lib := by
  cases hT : T.lt_STANDALONE_TARGETS <;> simp [FMU2.FMU2_fmuInitialize.allocate, hT]

theorem FMU2_nameTooLong_spec {W : Type} (T : Target) (s : FMU2.St W) (instanceName : String) :
    (FMU2.FMU2_fmuInitialize.nameTooLong T s instanceName).fmustruct.FMUErrorStatus = fmiFatal ∧
    (FMU2.FMU2_fmuInitialize.nameTooLong T s instanceName).fmu = s.fmu ∧
    ∃ es d, (FMU2.FMU2_fmuInitialize.nameTooLong T s instanceName).trace = s.trace ++ es ∧
      es.filter Event.isDiagnostic = [d] ∧
      (d.loggedStatus? = some fmiFatal ∨ d.carries "FMU Name is too long." = true) ∧
      ∀ e ∈ es, e.isLoadLibrary = false ∧ e.isLoadFunction = false ∧ e.isFmuCall = false := by
  cases hT : T.lt_STANDALONE_TARGETS <;>
    simp [FMU2.FMU2_fmuInitialize.nameTooLong, hT, Sys.emit, List.filter_cons,
      Event.isDiagnostic, Event.loggedStatus?, Event.carries, Event.isLoadLibrary,
      Event.isLoadFunction, Event.isFmuCall, CreateDiagnosticAsVoidPtr, formatString]

theorem FMU1_instantiate_spec {W : Type} (T : Target) (s : FMU1.St W)
    (instanceName fmuGUID fmuResLocation : String) (visible isLoggingOn : Bool) :
    ∃ c,
      (c ≠ NULL ∧
        (FMU1.FMU1_fmuInitialize.instantiate T s instanceName fmuGUID fmuResLocation visible isLoggingOn).1.isSome = true ∧
        (FMU1.FMU1_fmuInitialize.instantiate T s instanceName fmuGUID fmuResLocation visible isLoggingOn).2.trace =
          s.trace ++ [Event.fmuInstantiate .instantiateSlave instanceName c]) ∨
      (c = NULL ∧
        (FMU1.FMU1_fmuInitialize.instantiate T s instanceName fmuGUID fmuResLocation visible isLoggingOn).1.isSome = false ∧
        (FMU1.FMU1_fmuInitialize.instantiate T s instanceName fmuGUID fmuResLocation visible isLoggingOn).2.fmustruct.FMUErrorStatus =
          fmiError ∧
        ∃ d rest,
          (FMU1.FMU1_fmuInitialize.instantiate T s instanceName fmuGUID fmuResLocation visible isLoggingOn).2.trace =
            s.trace ++ [Event.fmuInstantiate .instantiateSlave instanceName NULL] ++ d :: rest ∧
          d.isDiagnostic = true ∧ d.carries "fmiInstantiateSlave" = true ∧ d.isFmuCall = false ∧
          ∀ e ∈ rest, e.isFmuCall = false) := by
  rcases hr : s.fmustruct.instantiateSlave instanceName fmuGUID fmuResLocation
    "application/x-fmu-sharedlibrary" 0 visible false isLoggingOn s.fmu with ⟨c, w⟩
  refine ⟨c, ?_⟩
  by_cases hc : c = NULL
  · right
    subst hc
    obtain ⟨d, hd, hdiag, hcall, hcar, -⟩ := FMU1_CheckStatus_error T
      ({ fmustruct := { s.fmustruct with mFMIComp := NULL }, fmu := w,
         trace := s.trace ++ [Event.fmuInstantiate .instantiateSlave instanceName NULL] } : FMU1.St W)
      fmiError "fmiInstantiateSlave" (Or.inl rfl)
    have hR : FMU1.FMU1_fmuInitialize.instantiate T s instanceName fmuGUID fmuResLocation visible isLoggingOn =
        (none, (FMU1.CheckStatus T
          ({ fmustruct := { s.fmustruct with mFMIComp := NULL }, fmu := w,
             trace := s.trace ++ [Event.fmuInstantiate .instantiateSlave instanceName NULL] } :
            FMU1.St W) fmiError "fmiInstantiateSlave").2) := by
      simp [FMU1.FMU1_fmuInitialize.instantiate, hr, Sys.emit]
    rw [hR, hd]
    refine ⟨rfl, rfl, rfl, d, _, rfl, hdiag, hcar, hcall, ?_⟩
    intro e he
    cases hT : T.lt_STANDALONE_TARGETS
    · simp [hT] at he
    · simp only [hT, if_true, List.mem_singleton] at he
      subst he
      rfl
  · left
    refine ⟨hc, ?_, ?_⟩ <;>
      simp [FMU1.FMU1_fmuInitialize.instantiate, hr, Sys.emit, hc]

theorem FMU1_allocate_spec {W : Type} (T : Target) (lib instanceName modelIdentifier : String)
    (ssPtr : Ptr) (fmu : W) (trace : List Event) :
    (FMU1.FMU1_fmuInitialize.allocate T lib instanceName modelIdentifier ssPtr fmu trace).trace =
        trace ++ [Event.allocateMemory] ∧
      (FMU1.FMU1_fmuInitialize.allocate T lib instanceName modelIdentifier ssPtr fmu trace).fmu =
        fmu ∧
      (FMU1.FMU1_fmuInitialize.allocate T lib instanceName modelIdentifier ssPtr fmu
        trace).fmustruct.dllfile = lib := by
  cases hT : T.lt_STANDALONE_TARGETS <;> simp [FMU1.FMU1_fmuInitialize.allocate, hT]

theorem FMU1_nameTooLong_spec {W : Type} (T : Target) (s : FMU1.St W)
    (instanceName : String) :
    (FMU1.FMU1_fmuInitialize.nameTooLong T s instanceName).fmustruct.FMUErrorStatus =
      fmiFatal ∧
    (FMU1.FMU1_fmuInitialize.nameTooLong T s instanceName).fmu = s.fmu ∧
    ∃ es d, (FMU1.FMU1_fmuInitialize.nameTooLong T s instanceName).trace = s.trace ++ es ∧
      es.filter Event.isDiagnostic = [d] ∧
      (d.loggedStatus? = some fmiFatal ∨ d.carries "FMU Name is too long." = true) ∧
      ∀ e ∈ es, e.isLoadLibrary = false ∧ e.isLoadFunction = false ∧ e.isFmuCall = false := by
  cases hT : T.lt_STANDALONE_TARGETS <;>
    simp [FMU1.FMU1_fmuInitialize.nameTooLong, hT, Sys.emit, List.filter_cons,
      Event.isDiagnostic, Event.loggedStatus?, Event.carries, Event.isLoadLibrary,
      Event.isLoadFunction, Event.isFmuCall, CreateDiagnosticAsVoidPtr, formatString]

theorem FMU1_loadLibrary_spec {W : Type} (P : FMU1.Loader W) (s : FMU1.St W) :
    (FMU1.FMU1_fmuInitialize.loadLibrary P s).trace =
        s.trace ++ [Event.loadLibrary s.fmustruct.dllfile (P.LOAD_LIBRARY s.fmustruct.dllfile)] ∧
      (FMU1.FMU1_fmuInitialize.loadLibrary P s).fmustruct.Handle =
        P.LOAD_LIBRARY s.fmustruct.dllfile := by
  simp [FMU1.FMU1_fmuInitialize.loadLibrary, Sys.emit]

theorem FMU1ME_instantiate_spec {W : Type} (T : Target) (s : FMU1ME.St W)
    (instanceName fmuGUID : String) (isLoggingOn : Bool) :
    ∃ c,
      (c ≠ NULL ∧
        (FMU1ME.FMU1_fmuInitialize.instantiate T s instanceName fmuGUID isLoggingOn).1.isSome = true ∧
        (FMU1ME.FMU1_fmuInitialize.instantiate T s instanceName fmuGUID isLoggingOn).2.trace =
          s.trace ++ [Event.fmuInstantiate .instantiateModel instanceName c]) ∨
      (c = NULL ∧
        (FMU1ME.FMU1_fmuInitialize.instantiate T s instanceName fmuGUID isLoggingOn).1.isSome = false ∧
        (FMU1ME.FMU1_fmuInitialize.instantiate T s instanceName fmuGUID isLoggingOn).2.fmustruct.FMUErrorStatus =
          fmiError ∧
        ∃ d rest,
          (FMU1ME.FMU1_fmuInitialize.instantiate T s instanceName fmuGUID isLoggingOn).2.trace =
            s.trace ++ [Event.fmuInstantiate .instantiateModel instanceName NULL] ++ d :: rest ∧
          d.isDiagnostic = true ∧ d.carries "fmiInstantiateModel" = true ∧ d.isFmuCall = false ∧
          ∀ e ∈ rest, e.isFmuCall = false) := by
  rcases hr : s.fmustruct.instantiateModel instanceName fmuGUID isLoggingOn s.fmu with ⟨c, w⟩
  refine ⟨c, ?_⟩
  by_cases hc : c = NULL
  · right
    subst hc
    obtain ⟨d, hd, hdiag, hcall, hcar, -⟩ := FMU1ME_CheckStatus_error T
      ({ fmustruct := { s.fmustruct with mFMIComp := NULL }, fmu := w,
         trace := s.trace ++ [Event.fmuInstantiate .instantiateModel instanceName NULL] } : FMU1ME.St W)
      fmiError "fmiInstantiateModel" (Or.inl rfl)
    have hR : FMU1ME.FMU1_fmuInitialize.instantiate T s instanceName fmuGUID isLoggingOn =
        (none, (FMU1ME.CheckStatus T
          ({ fmustruct := { s.fmustruct with mFMIComp := NULL }, fmu := w,
             trace := s.trace ++ [Event.fmuInstantiate .instantiateModel instanceName NULL] } :
            FMU1ME.St W) fmiError "fmiInstantiateModel").2) := by
      simp [FMU1ME.FMU1_fmuInitialize.instantiate, hr, Sys.emit]
    rw [hR, hd]
    refine ⟨rfl, rfl, rfl, d, _, rfl, hdiag, hcar, hcall, ?_⟩
    intro e he
    cases hT : T.lt_STANDALONE_TARGETS
    · simp [hT] at he
    · simp only [hT, if_true, List.mem_singleton] at he
      subst he
      rfl
  · left
    refine ⟨hc, ?_, ?_⟩ <;>
      simp [FMU1ME.FMU1_fmuInitialize.instantiate, hr, Sys.emit, hc]

theorem FMU1ME_allocate_spec {W : Type} (T : Target) (lib instanceName modelIdentifier : String)
    (ssPtr : Ptr) (fmu : W) (trace : List Event) :
    (FMU1ME.FMU1_fmuInitialize.allocate T lib instanceName modelIdentifier ssPtr fmu trace).trace =
        trace ++ [Event.allocateMemory] ∧
      (FMU1ME.FMU1_fmuInitialize.allocate T lib instanceName modelIdentifier ssPtr fmu trace).fmu =
        fmu ∧
      (FMU1ME.FMU1_fmuInitialize.allocate T lib instanceName modelIdentifier ssPtr fmu
        trace).fmustruct.dllfile = lib := by
  cases hT : T.lt_STANDALONE_TARGETS <;> simp [FMU1ME.FMU1_fmuInitialize.allocate, hT]

theorem FMU1ME_nameTooLong_spec {W : Type} (T : Target) (s : FMU1ME.St W)
    (instanceName : String) :
    (FMU1ME.FMU1_fmuInitialize.nameTooLong T s instanceName).fmustruct.FMUErrorStatus =
      fmiFatal ∧
    (FMU1ME.FMU1_fmuInitialize.nameTooLong T s instanceName).fmu = s.fmu ∧
    ∃ es d, (FMU1ME.FMU1_fmuInitialize.nameTooLong T s instanceName).trace = s.trace ++ es ∧
      es.filter Event.isDiagnostic = [d] ∧
      (d.loggedStatus? = some fmiFatal ∨ d.carries "FMU Name is too long." = true) ∧
      ∀ e ∈ es, e.isLoadLibrary = false ∧ e.isLoadFunction = false ∧ e.isFmuCall = false := by
  cases hT : T.lt_20 <;>
    simp [FMU1ME.FMU1_fmuInitialize.nameTooLong, hT, Sys.emit, List.filter_cons,
      Event.isDiagnostic, Event.loggedStatus?, Event.carries, Event.isLoadLibrary,
      Event.isLoadFunction, Event.isFmuCall, CreateDiagnosticAsVoidPtr, formatString]

theorem FMU1ME_loadLibrary_spec {W : Type} (P : FMU1ME.Loader W) (s : FMU1ME.St W) :
    (FMU1ME.FMU1_fmuInitialize.loadLibrary P s).trace =
        s.trace ++ [Event.loadLibrary s.fmustruct.dllfile (P.LOAD_LIBRARY s.fmustruct.dllfile)] ∧
      (FMU1ME.FMU1_fmuInitialize.loadLibrary P s).fmustruct.Handle =
        P.LOAD_LIBRARY s.fmustruct.dllfile := by
  simp [FMU1ME.FMU1_fmuInitialize.loadLibrary, Sys.emit]

theorem FMU2_fmuInitialize_tooLong {W : Type} (T : Target) (P : FMU2.Loader W)
    (lib instanceName fmuGUID fmuLocation : String) (fmuType : FMU2.fmi2Type) (ssPtr : Ptr)
    (loadFMUStateFcn loadSerializationFcn loadDirectionDerivativeFcn : Bool)
    (fmuCallBacks : Option FMU2.fmi2CallbackFunctions) (fmuVisible fmuLoggingOn : Bool)
    (fmu : W) (trace : List Event)
    (hlen : strlen instanceName + T.FCN_NAME_MAX_LEN + 1 ≥ T.FULL_FCN_NAME_MAX_LEN) :
    (FMU2.FMU2_fmuInitialize T P lib instanceName fmuGUID fmuLocation fmuType ssPtr
      loadFMUStateFcn loadSerializationFcn loadDirectionDerivativeFcn fmuCallBacks fmuVisible
      fmuLoggingOn fmu trace).1 = none ∧
    (FMU2.FMU2_fmuInitialize T P lib instanceName fmuGUID fmuLocation fmuType ssPtr
      loadFMUStateFcn loadSerializationFcn loadDirectionDerivativeFcn fmuCallBacks fmuVisible
      fmuLoggingOn fmu trace).2.fmustruct.FMUErrorStatus = fmiFatal ∧
    (FMU2.FMU2_fmuInitialize T P lib instanceName fmuGUID fmuLocation fmuType ssPtr
      loadFMUStateFcn loadSerializationFcn loadDirectionDerivativeFcn fmuCallBacks fmuVisible
      fmuLoggingOn fmu trace).2.fmu = fmu ∧
    ∃ es d, (FMU2.FMU2_fmuInitialize T P lib instanceName fmuGUID fmuLocation fmuType ssPtr
      loadFMUStateFcn loadSerializationFcn loadDirectionDerivativeFcn fmuCallBacks fmuVisible
      fmuLoggingOn fmu trace).2.trace = trace ++ es ∧
      es.filter Event.isDiagnostic = [d] ∧
      (d.loggedStatus? = some fmiFatal ∨ d.carries "FMU Name is too long." = true) ∧
      ∀ e ∈ es, e.isLoadLibrary = false ∧ e.isLoadFunction = false ∧ e.isFmuCall = false := by
  obtain ⟨ha, hf, -⟩ := FMU2_allocate_spec T lib instanceName ssPtr fmuCallBacks fmu trace
  obtain ⟨hst, hfmu, es, d, htr, hfil, hd, hes⟩ := FMU2_nameTooLong_spec T
    (FMU2.FMU2_fmuInitialize.allocate T lib instanceName ssPtr fmuCallBacks fmu trace) instanceName
  have hR : FMU2.FMU2_fmuInitialize T P lib instanceName fmuGUID fmuLocation fmuType ssPtr
      loadFMUStateFcn loadSerializationFcn loadDirectionDerivativeFcn fmuCallBacks fmuVisible
      fmuLoggingOn fmu trace =
      (none, FMU2.FMU2_fmuInitialize.nameTooLong T
        (FMU2.FMU2_fmuInitialize.allocate T lib instanceName ssPtr fmuCallBacks fmu trace) instanceName) := by
    simp only [FMU2.FMU2_fmuInitialize, ge_iff_le, hlen, if_true]
  rw [hR]
  refine ⟨rfl, hst, hfmu.trans hf, Event.allocateMemory :: es, d, ?_, ?_, hd, ?_⟩
  · show (FMU2.FMU2_fmuInitialize.nameTooLong T _ instanceName).trace = _
    rw [htr, ha]
    simp
  · rw [List.filter_cons]
    simpa [Event.isDiagnostic] using hfil
  · intro e he
    rcases List.mem_cons.1 he with rfl | he
    · exact ⟨rfl, rfl, rfl⟩
    · exact hes e he

theorem FMU1_fmuInitialize_tooLong {W : Type} (T : Target) (P : FMU1.Loader W)
    (lib instanceName modelIdentifier fmuGUID fmuLocation : String) (ssPtr : Ptr)
    (loadGetRealOutputDerivativesFcn loadSetRealInputDerivativesFcn : Bool)
    (fmuCallBacks : Bool) (fmuVisible fmuLoggingOn : Bool)
    (fmu : W) (trace : List Event)
    (hlen : strlen instanceName + T.FCN_NAME_MAX_LEN + 1 ≥ T.FULL_FCN_NAME_MAX_LEN) :
    (FMU1.FMU1_fmuInitialize T P lib instanceName modelIdentifier fmuGUID fmuLocation ssPtr
      loadGetRealOutputDerivativesFcn loadSetRealInputDerivativesFcn fmuCallBacks fmuVisible
      fmuLoggingOn fmu trace).1 = none ∧
    (FMU1.FMU1_fmuInitialize T P lib instanceName modelIdentifier fmuGUID fmuLocation ssPtr
      loadGetRealOutputDerivativesFcn loadSetRealInputDerivativesFcn fmuCallBacks fmuVisible
      fmuLoggingOn fmu trace).2.fmustruct.FMUErrorStatus = fmiFatal ∧
    (FMU1.FMU1_fmuInitialize T P lib instanceName modelIdentifier fmuGUID fmuLocation ssPtr
      loadGetRealOutputDerivativesFcn loadSetRealInputDerivativesFcn fmuCallBacks fmuVisible
      fmuLoggingOn fmu trace).2.fmu = fmu ∧
    ∃ es d, (FMU1.FMU1_fmuInitialize T P lib instanceName modelIdentifier fmuGUID fmuLocation ssPtr
      loadGetRealOutputDerivativesFcn loadSetRealInputDerivativesFcn fmuCallBacks fmuVisible
      fmuLoggingOn fmu trace).2.trace = trace ++ es ∧
      es.filter Event.isDiagnostic = [d] ∧
      (d.loggedStatus? = some fmiFatal ∨ d.carries "FMU Name is too long." = true) ∧
      ∀ e ∈ es, e.isLoadLibrary = false ∧ e.isLoadFunction = false ∧ e.isFmuCall = false := by
  obtain ⟨ha, hf, -⟩ := FMU1_allocate_spec T lib instanceName modelIdentifier ssPtr fmu trace
  obtain ⟨hst, hfmu, es, d, htr, hfil, hd, hes⟩ := FMU1_nameTooLong_spec T
    (FMU1.FMU1_fmuInitialize.allocate T lib instanceName modelIdentifier ssPtr fmu trace) instanceName
  have hR : FMU1.FMU1_fmuInitialize T P lib instanceName modelIdentifier fmuGUID fmuLocation ssPtr
      loadGetRealOutputDerivativesFcn loadSetRealInputDerivativesFcn fmuCallBacks fmuVisible
      fmuLoggingOn fmu trace =
      (none, FMU1.FMU1_fmuInitialize.nameTooLong T
        (FMU1.FMU1_fmuInitialize.allocate T lib instanceName modelIdentifier ssPtr fmu trace) instanceName) := by
    simp only [FMU1.FMU1_fmuInitialize, ge_iff_le, hlen, if_true]
  rw [hR]
  refine ⟨rfl, hst, hfmu.trans hf, Event.allocateMemory :: es, d, ?_, ?_, hd, ?_⟩
  · show (FMU1.FMU1_fmuInitialize.nameTooLong T _ instanceName).trace = _
    rw [htr, ha]
    simp
  · rw [List.filter_cons]
    simpa [Event.isDiagnostic] using hfil
  · intro e he
    rcases List.mem_cons.1 he with rfl | he
    · exact ⟨rfl, rfl, rfl⟩
    · exact hes e he

theorem FMU1ME_fmuInitialize_tooLong {W : Type} (T : Target) (P : FMU1ME.Loader W)
    (lib instanceName modelIdentifier fmuGUID fmuLocation : String) (ssPtr : Ptr)
    (loadGetRealOutputDerivativesFcn loadSetRealInputDerivativesFcn : Bool)
    (fmuCallBacks : Bool) (fmuVisible fmuLoggingOn : Bool)
    (fmu : W) (trace : List Event)
    (hlen : strlen instanceName + T.FCN_NAME_MAX_LEN + 1 ≥ T.FULL_FCN_NAME_MAX_LEN) :
    (FMU1ME.FMU1_fmuInitialize T P lib instanceName modelIdentifier fmuGUID fmuLocation ssPtr
      loadGetRealOutputDerivativesFcn loadSetRealInputDerivativesFcn fmuCallBacks fmuVisible
      fmuLoggingOn fmu trace).1 = none ∧
    (FMU1ME.FMU1_fmuInitialize T P lib instanceName modelIdentifier fmuGUID fmuLocation ssPtr
      loadGetRealOutputDerivativesFcn loadSetRealInputDerivativesFcn fmuCallBacks fmuVisible
      fmuLoggingOn fmu trace).2.fmustruct.FMUErrorStatus = fmiFatal ∧
    (FMU1ME.FMU1_fmuInitialize T P lib instanceName modelIdentifier fmuGUID fmuLocation ssPtr
      loadGetRealOutputDerivativesFcn loadSetRealInputDerivativesFcn fmuCallBacks fmuVisible
      fmuLoggingOn fmu trace).2.fmu = fmu ∧
    ∃ es d, (FMU1ME.FMU1_fmuInitialize T P lib instanceName modelIdentifier fmuGUID fmuLocation ssPtr
      loadGetRealOutputDerivativesFcn loadSetRealInputDerivativesFcn fmuCallBacks fmuVisible
      fmuLoggingOn fmu trace).2.trace = trace ++ es ∧
      es.filter Event.isDiagnostic = [d] ∧
      (d.loggedStatus? = some fmiFatal ∨ d.carries "FMU Name is too long." = true) ∧
      ∀ e ∈ es, e.isLoadLibrary = false ∧ e.isLoadFunction = false ∧ e.isFmuCall = false := by
  obtain ⟨ha, hf, -⟩ := FMU1ME_allocate_spec T lib instanceName modelIdentifier ssPtr fmu trace
  obtain ⟨hst, hfmu, es, d, htr, hfil, hd, hes⟩ := FMU1ME_nameTooLong_spec T
    (FMU1ME.FMU1_fmuInitialize.allocate T lib instanceName modelIdentifier ssPtr fmu trace) instanceName
  have hR : FMU1ME.FMU1_fmuInitialize T P lib instanceName modelIdentifier fmuGUID fmuLocation ssPtr
      loadGetRealOutputDerivativesFcn loadSetRealInputDerivativesFcn fmuCallBacks fmuVisible
      fmuLoggingOn fmu trace =
      (none, FMU1ME.FMU1_fmuInitialize.nameTooLong T
        (FMU1ME.FMU1_fmuInitialize.allocate T lib instanceName modelIdentifier ssPtr fmu trace) instanceName) := by
    simp only [FMU1ME.FMU1_fmuInitialize, ge_iff_le, hlen, if_true]
  rw [hR]
  refine ⟨rfl, hst, hfmu.trans hf, Event.allocateMemory :: es, d, ?_, ?_, hd, ?_⟩
  · show (FMU1ME.FMU1_fmuInitialize.nameTooLong T _ instanceName).trace = _
    rw [htr, ha]
    simp
  · rw [List.filter_cons]
    simpa [Event.isDiagnostic] using hfil
  · intro e he
    rcases List.mem_cons.1 he with rfl | he
    · exact ⟨rfl, rfl, rfl⟩
    · exact hes e he

/-! ## Initialization with an instance name that is too long (C12) -/

/-- C12: for every instance name whose length `n` satisfies
`n + FCN_NAME_MAX_LEN + 1 >= FULL_FCN_NAME_MAX_LEN`, each of `FMU2_fmuInitializeCS`,
`FMU2_fmuInitializeME`, `FMU1_fmuInitializeCS` and `FMU1_fmuInitializeME` returns null and
records the status Fatal on the handle it allocated; the FMU is left as it was; exactly one
diagnostic is emitted (the logger call with status Fatal, or the host warning
"FMU Name is too long."); and among the actions of the call there is no library load, no
symbol resolution and no call of the FMU. -/
theorem fmuInitialize_name_too_long :
    (∀ (W : Type) (T : Target) (P : FMU2.Loader W)
        (lib instanceName fmuGUID fmuLocation : String) (ssPtr : Ptr)
        (loadFMUStateFcn loadSerializationFcn loadDirectionDerivativeFcn : Bool)
        (fmuCallBacks : Option FMU2.fmi2CallbackFunctions) (fmuVisible fmuLoggingOn : Bool)
        (fmu : W) (trace : List Event)
        (R : Option (FMU2.FMU2_CSME_RTWCG W) × Sys (FMU2.FMU2_CSME_RTWCG W) W),
      strlen instanceName + T.FCN_NAME_MAX_LEN + 1 ≥ T.FULL_FCN_NAME_MAX_LEN →
      FMU2.FMU2_fmuInitializeCS T P lib instanceName fmuGUID fmuLocation ssPtr loadFMUStateFcn
          loadSerializationFcn loadDirectionDerivativeFcn fmuCallBacks fmuVisible fmuLoggingOn
          fmu trace = R →
      R.1 = none ∧ R.2.fmustruct.FMUErrorStatus = fmiFatal ∧ R.2.fmu = fmu ∧
      ∃ es d, R.2.trace = trace ++ es ∧ es.filter Event.isDiagnostic = [d] ∧
        (d.loggedStatus? = some fmiFatal ∨ d.carries "FMU Name is too long." = true) ∧
        ∀ e ∈ es, e.isLoadLibrary = false ∧ e.isLoadFunction = false ∧ e.isFmuCall = false) ∧
    (∀ (W : Type) (T : Target) (P : FMU2.Loader W)
        (lib instanceName fmuGUID fmuLocation : String) (ssPtr : Ptr)
        (loadFMUStateFcn loadSerializationFcn loadDirectionDerivativeFcn : Bool)
        (fmuCallBacks : Option FMU2.fmi2CallbackFunctions) (fmuVisible fmuLoggingOn : Bool)
        (fmu : W) (trace : List Event)
        (R : Option (FMU2.FMU2_CSME_RTWCG W) × Sys (FMU2.FMU2_CSME_RTWCG W) W),
      strlen instanceName + T.FCN_NAME_MAX_LEN + 1 ≥ T.FULL_FCN_NAME_MAX_LEN →
      FMU2.FMU2_fmuInitializeME T P lib instanceName fmuGUID fmuLocation ssPtr loadFMUStateFcn
          loadSerializationFcn loadDirectionDerivativeFcn fmuCallBacks fmuVisible fmuLoggingOn
          fmu trace = R →
      R.1 = none ∧ R.2.fmustruct.FMUErrorStatus = fmiFatal ∧ R.2.fmu = fmu ∧
      ∃ es d, R.2.trace = trace ++ es ∧ es.filter Event.isDiagnostic = [d] ∧
        (d.loggedStatus? = some fmiFatal ∨ d.carries "FMU Name is too long." = true) ∧
        ∀ e ∈ es, e.isLoadLibrary = false ∧ e.isLoadFunction = false ∧ e.isFmuCall = false) ∧
    (∀ (W : Type) (T : Target) (P : FMU1.Loader W)
        (lib instanceName modelIdentifier fmuGUID fmuLocation : String) (ssPtr : Ptr)
        (loadGetRealOutputDerivativesFcn loadSetRealInputDerivativesFcn : Bool)
        (fmuCallBacks : Bool) (fmuVisible fmuLoggingOn : Bool) (fmu : W) (trace : List Event)
        (R : Option (FMU1.FMU1_CS_RTWCG W) × Sys (FMU1.FMU1_CS_RTWCG W) W),
      strlen instanceName + T.FCN_NAME_MAX_LEN + 1 ≥ T.FULL_FCN_NAME_MAX_LEN →
      FMU1.FMU1_fmuInitializeCS T P lib instanceName modelIdentifier fmuGUID fmuLocation ssPtr
          loadGetRealOutputDerivativesFcn loadSetRealInputDerivativesFcn fmuCallBacks fmuVisible
          fmuLoggingOn fmu trace = R →
      R.1 = none ∧ R.2.fmustruct.FMUErrorStatus = fmiFatal ∧ R.2.fmu = fmu ∧
      ∃ es d, R.2.trace = trace ++ es ∧ es.filter Event.isDiagnostic = [d] ∧
        (d.loggedStatus? = some fmiFatal ∨ d.carries "FMU Name is too long." = true) ∧
        ∀ e ∈ es, e.isLoadLibrary = false ∧ e.isLoadFunction = false ∧ e.isFmuCall = false) ∧
    (∀ (W : Type) (T : Target) (P : FMU1ME.Loader W)
        (lib instanceName modelIdentifier fmuGUID fmuLocation : String) (ssPtr : Ptr)
        (loadGetRealOutputDerivativesFcn loadSetRealInputDerivativesFcn : Bool)
        (fmuCallBacks : Bool) (fmuVisible fmuLoggingOn : Bool) (fmu : W) (trace : List Event)
        (R : Option (FMU1ME.FMU1_ME_RTWCG W) × Sys (FMU1ME.FMU1_ME_RTWCG W) W),
      strlen instanceName + T.FCN_NAME_MAX_LEN + 1 ≥ T.FULL_FCN_NAME_MAX_LEN →
      FMU1ME.FMU1_fmuInitializeME T P lib instanceName modelIdentifier fmuGUID fmuLocation ssPtr
          loadGetRealOutputDerivativesFcn loadSetRealInputDerivativesFcn fmuCallBacks fmuVisible
          fmuLoggingOn fmu trace = R →
      R.1 = none ∧ R.2.fmustruct.FMUErrorStatus = fmiFatal ∧ R.2.fmu = fmu ∧
      ∃ es d, R.2.trace = trace ++ es ∧ es.filter Event.isDiagnostic = [d] ∧
        (d.loggedStatus? = some fmiFatal ∨ d.carries "FMU Name is too long." = true) ∧
        ∀ e ∈ es, e.isLoadLibrary = false ∧ e.isLoadFunction = false ∧ e.isFmuCall = false) := by
  refine ⟨?_, ?_, ?_, ?_⟩
  · intro W T P lib instanceName fmuGUID fmuLocation ssPtr f1 f2 f3 cb vis log fmu trace R hlen hR
    subst hR
    exact FMU2_fmuInitialize_tooLong T P lib instanceName fmuGUID fmuLocation .fmi2CoSimulation
      ssPtr f1 f2 f3 cb vis log fmu trace hlen
  · intro W T P lib instanceName fmuGUID fmuLocation ssPtr f1 f2 f3 cb vis log fmu trace R hlen hR
    subst hR
    exact FMU2_fmuInitialize_tooLong T P lib instanceName fmuGUID fmuLocation .fmi2ModelExchange
      ssPtr f1 f2 f3 cb vis log fmu trace hlen
  · intro W T P lib instanceName modelIdentifier fmuGUID fmuLocation ssPtr f1 f2 cb vis log fmu
      trace R hlen hR
    subst hR
    exact FMU1_fmuInitialize_tooLong T P lib instanceName modelIdentifier fmuGUID fmuLocation
      ssPtr f1 f2 cb vis log fmu trace hlen
  · intro W T P lib instanceName modelIdentifier fmuGUID fmuLocation ssPtr f1 f2 cb vis log fmu
      trace R hlen hR
    subst hR
    exact FMU1ME_fmuInitialize_tooLong T P lib instanceName modelIdentifier fmuGUID fmuLocation
      ssPtr f1 f2 cb vis log fmu trace hlen

/-- C12 (witness): the co-simulation initialization of the FMI 2.0 driver, in a standalone
build with the name lengths 36 and 256, for an instance name of 219 characters. -/
theorem fmuInitialize_name_too_long_witness :
    strlen ⟨List.replicate 219 'a'⟩ + Target.standalone.FCN_NAME_MAX_LEN + 1 ≥
      Target.standalone.FULL_FCN_NAME_MAX_LEN ∧
    (FMU2.FMU2_fmuInitializeCS Target.standalone (FMU2.mockLoader 7 []) "fmu.so"
      ⟨List.replicate 219 'a'⟩ "guid" "resources" 1 false false false none false false
      ([] : List fmiStatus) []).1 = none :=
  ⟨by simp only [strlen, List.length_replicate, Target.standalone]; decide,
    (fmuInitialize_name_too_long.1 (List fmiStatus) Target.standalone (FMU2.mockLoader 7 [])
      "fmu.so" ⟨List.replicate 219 'a'⟩ "guid" "resources" 1 false false false none false false
      [] [] _ (by simp only [strlen, List.length_replicate, Target.standalone]; decide) rfl).1⟩

/-! ## Auxiliary facts: the instantiate entry that the load leaves in the handle -/

/-- C14: `LoadFMUFcn` of each of the three drivers, for every function name and optional flag:
if the symbol it looks up resolves, it returns the resolved pointer and changes nothing but
the trace, to which the lookup is added (the handle is as before); if the symbol does not
resolve and the flag is false, it returns the stub `defaultfcn`, sets the handle's error
status to Warning and changes no other field, and emits exactly one diagnostic, the one for a
function that could not be loaded, which carries the function name and the FMU instance name;
if the symbol does not resolve and the flag is true, it returns null and changes nothing but
the trace, to which only the lookup is added (no diagnostic, error status as before). -/
theorem LoadFMUFcn_resolved_stub_or_null :
    (∀ (W : Type) (T : Target) (P : FMU2.Loader W) (s : FMU2.St W) (fcnName : String)
        (isOptional : Bool),
      (P.LOAD_FUNCTION s.fmustruct.Handle (FMU2.lookupName T s fcnName) = true →
        FMU2.LoadFMUFcn T P s fcnName isOptional =
          (FcnPtr.symbol (FMU2.lookupName T s fcnName),
            { s with trace := s.trace ++
                [Event.loadFunction s.fmustruct.Handle (FMU2.lookupName T s fcnName) true] })) ∧
      (P.LOAD_FUNCTION s.fmustruct.Handle (FMU2.lookupName T s fcnName) = false →
        isOptional = false →
        (FMU2.LoadFMUFcn T P s fcnName isOptional).1 = FcnPtr.defaultfcn ∧
        (FMU2.LoadFMUFcn T P s fcnName isOptional).2.fmustruct =
          { s.fmustruct with FMUErrorStatus := fmiWarning } ∧
        (FMU2.LoadFMUFcn T P s fcnName isOptional).2.fmu = s.fmu ∧
        ∃ es e, (FMU2.LoadFMUFcn T P s fcnName isOptional).2.trace = s.trace ++ es ∧
          es.filter Event.isDiagnostic = [e] ∧ e.isUnableToLoadFunction = true ∧
          e.carries fcnName = true ∧ e.carries s.fmustruct.fmuname = true) ∧
      (P.LOAD_FUNCTION s.fmustruct.Handle (FMU2.lookupName T s fcnName) = false →
        isOptional = true →
        FMU2.LoadFMUFcn T P s fcnName isOptional =
          (FcnPtr.null,
            { s with trace := s.trace ++
                [Event.loadFunction s.fmustruct.Handle (FMU2.lookupName T s fcnName) false] }))) ∧
    (∀ (W : Type) (T : Target) (P : FMU1.Loader W) (s : FMU1.St W) (fcnName : String)
        (isOptional : Bool),
      (P.LOAD_FUNCTION s.fmustruct.Handle (FMU1.lookupName T s fcnName) = true →
        FMU1.LoadFMUFcn T P s fcnName isOptional =
          (FcnPtr.symbol (FMU1.lookupName T s fcnName),
            { s with trace := s.trace ++
                [Event.loadFunction s.fmustruct.Handle (FMU1.lookupName T s fcnName) true] })) ∧
      (P.LOAD_FUNCTION s.fmustruct.Handle (FMU1.lookupName T s fcnName) = false →
        isOptional = false →
        (FMU1.LoadFMUFcn T P s fcnName isOptional).1 = FcnPtr.defaultfcn ∧
        (FMU1.LoadFMUFcn T P s fcnName isOptional).2.fmustruct =
          { s.fmustruct with FMUErrorStatus := fmiWarning } ∧
        (FMU1.LoadFMUFcn T P s fcnName isOptional).2.fmu = s.fmu ∧
        ∃ es e, (FMU1.LoadFMUFcn T P s fcnName isOptional).2.trace = s.trace ++ es ∧
          es.filter Event.isDiagnostic = [e] ∧ e.isUnableToLoadFunction = true ∧
          e.carries fcnName = true ∧ e.carries s.fmustruct.fmuname = true) ∧
      (P.LOAD_FUNCTION s.fmustruct.Handle (FMU1.lookupName T s fcnName) = false →
        isOptional = true →
        FMU1.LoadFMUFcn T P s fcnName isOptional =
          (FcnPtr.null,
            { s with trace := s.trace ++
                [Event.loadFunction s.fmustruct.Handle (FMU1.lookupName T s fcnName) false] }))) ∧
    (∀ (W : Type) (T : Target) (P : FMU1ME.Loader W) (s : FMU1ME.St W) (fcnName : String)
        (isOptional : Bool),
      (P.LOAD_FUNCTION s.fmustruct.Handle (FMU1ME.lookupName T s fcnName) = true →
        FMU1ME.LoadFMUFcn T P s fcnName isOptional =
          (FcnPtr.symbol (FMU1ME.lookupName T s fcnName),
            { s with trace := s.trace ++
                [Event.loadFunction s.fmustruct.Handle (FMU1ME.lookupName T s fcnName) true] })) ∧
      (P.LOAD_FUNCTION s.fmustruct.Handle (FMU1ME.lookupName T s fcnName) = false →
        isOptional = false →
        (FMU1ME.LoadFMUFcn T P s fcnName isOptional).1 = FcnPtr.defaultfcn ∧
        (FMU1ME.LoadFMUFcn T P s fcnName isOptional).2.fmustruct =
          { s.fmustruct with FMUErrorStatus := fmiWarning } ∧
        (FMU1ME.LoadFMUFcn T P s fcnName isOptional).2.fmu = s.fmu ∧
        ∃ es e, (FMU1ME.LoadFMUFcn T P s fcnName isOptional).2.trace = s.trace ++ es ∧
          es.filter Event.isDiagnostic = [e] ∧ e.isUnableToLoadFunction = true ∧
          e.carries fcnName = true ∧ e.carries s.fmustruct.fmuname = true) ∧
      (P.LOAD_FUNCTION s.fmustruct.Handle (FMU1ME.lookupName T s fcnName) = false →
        isOptional = true →
        FMU1ME.LoadFMUFcn T P s fcnName isOptional =
          (FcnPtr.null,
            { s with trace := s.trace ++
                [Event.loadFunction s.fmustruct.Handle (FMU1ME.lookupName T s fcnName) false] }))) := by
  refine ⟨?_, ?_, ?_⟩
  · intro W T P s fcnName isOptional
    refine ⟨fun h => FMU2_LoadFMUFcn_resolved T P s fcnName isOptional h, ?_, ?_⟩
    · intro h ho
      subst ho
      obtain ⟨e, he, hu, hd, hc, hn, -⟩ := FMU2_LoadFMUFcn_mandatory T P s fcnName h
      rw [he]
      refine ⟨rfl, rfl, rfl, _, e, rfl, ?_, hu, hc, hn⟩
      have h0 : ∀ a b c, (Event.loadFunction a b c).isDiagnostic = false := fun _ _ _ => rfl
      simp [List.filter_cons, hd, h0]
    · intro h ho
      subst ho
      exact FMU2_LoadFMUFcn_optional T P s fcnName h
  · intro W T P s fcnName isOptional
    refine ⟨fun h => FMU1_LoadFMUFcn_resolved T P s fcnName isOptional h, ?_, ?_⟩
    · intro h ho
      subst ho
      obtain ⟨e, he, hu, hd, hc, hn, -⟩ := FMU1_LoadFMUFcn_mandatory T P s fcnName h
      rw [he]
      refine ⟨rfl, rfl, rfl, _, e, rfl, ?_, hu, hc, hn⟩
      have h0 : ∀ a b c, (Event.loadFunction a b c).isDiagnostic = false := fun _ _ _ => rfl
      simp [List.filter_cons, hd, h0]
    · intro h ho
      subst ho
      exact FMU1_LoadFMUFcn_optional T P s fcnName h
  · intro W T P s fcnName isOptional
    refine ⟨fun h => FMU1ME_LoadFMUFcn_resolved T P s fcnName isOptional h, ?_, ?_⟩
    · intro h ho
      subst ho
      obtain ⟨e, he, hu, hd, hc, hn, -⟩ := FMU1ME_LoadFMUFcn_mandatory T P s fcnName h
      rw [he]
      refine ⟨rfl, rfl, rfl, _, e, rfl, ?_, hu, hc, hn⟩
      have h0 : ∀ a b c, (Event.loadFunction a b c).isDiagnostic = false := fun _ _ _ => rfl
      simp [List.filter_cons, hd, h0]
    · intro h ho
      subst ho
      exact FMU1ME_LoadFMUFcn_optional T P s fcnName h

/-- C14 (witness): `LoadFMUFcn` of the FMI 2.0 driver in a standalone build, for the mandatory
function `fmi2GetVersion` and a library that lacks it. -/
theorem LoadFMUFcn_resolved_stub_or_null_witness :
    (FMU2.mockLoader 7 ["fmi2GetVersion"]).LOAD_FUNCTION 7 "fmi2GetVersion" = false ∧
    (FMU2.LoadFMUFcn Target.standalone (FMU2.mockLoader 7 ["fmi2GetVersion"])
      ⟨FMU2.mockScripted, [], []⟩ "fmi2GetVersion" false).1 = FcnPtr.defaultfcn :=
  ⟨by decide,
    ((LoadFMUFcn_resolved_stub_or_null.1 (List fmiStatus) Target.standalone
      (FMU2.mockLoader 7 ["fmi2GetVersion"]) ⟨FMU2.mockScripted, [], []⟩ "fmi2GetVersion"
      false).2.1 (by decide) rfl).1⟩

/-! ## Auxiliary facts: a call through the function table followed by its translation -/

theorem Event.access?_eq_none_of_isFmuCall_eq_false (e : Event) (h : e.isFmuCall = false) :
    e.access? = none := by
  cases e <;> simp_all [Event.isFmuCall, Event.access?]

theorem filterMap_access?_eq_nil (es : List Event) (h : ∀ e ∈ es, e.isFmuCall = false) :
    es.filterMap Event.access? = [] := by
  rw [List.filterMap_eq_nil_iff]
  intro e he
  exact Event.access?_eq_none_of_isFmuCall_eq_false e (h e he)

theorem FMU2_checked_new {W : Type} (T : Target) (s : FMU2.St W) (w : W) (ev : Event)
    (status : fmiStatus) (fcnName : String) :
    ∃ es, (FMU2.CheckStatus T (Sys.emit { s with fmu := w } [ev]) status fcnName).2.trace.drop
        s.trace.length = ev :: es ∧ ∀ e ∈ es, e.isFmuCall = false := by
  obtain ⟨es, hes, hno⟩ := FMU2_CheckStatus_spec T (Sys.emit { s with fmu := w } [ev]) status
    fcnName
  refine ⟨es, ?_, hno⟩
  rw [hes]
  simp [Sys.emit]

theorem FMU2_checked_access {W : Type} (T : Target) (s : FMU2.St W) (w : W)
    (ev : Event) (a : Nat × Nat × Nat) (status : fmiStatus) (fcnName : String)
    (hev : ev.access? = some a) :
    ((FMU2.CheckStatus T (Sys.emit { s with fmu := w } [ev]) status fcnName).2.trace.drop
      s.trace.length).filterMap Event.access? = [a] := by
  obtain ⟨es, hes, hno⟩ := FMU2_checked_new T s w ev status fcnName
  rw [hes, List.filterMap_cons, hev, filterMap_access?_eq_nil es hno]

theorem FMU1_checked_new {W : Type} (T : Target) (s : FMU1.St W) (w : W) (ev : Event)
    (status : fmiStatus) (fcnName : String) :
    ∃ es, (FMU1.CheckStatus T (Sys.emit { s with fmu := w } [ev]) status fcnName).2.trace.drop
        s.trace.length = ev :: es ∧ ∀ e ∈ es, e.isFmuCall = false := by
  obtain ⟨es, hes, hno⟩ := FMU1_CheckStatus_spec T (Sys.emit { s with fmu := w } [ev]) status
    fcnName
  refine ⟨es, ?_, hno⟩
  rw [hes]
  simp [Sys.emit]

theorem FMU1_checked_access {W : Type} (T : Target) (s : FMU1.St W) (w : W)
    (ev : Event) (a : Nat × Nat × Nat) (status : fmiStatus) (fcnName : String)
    (hev : ev.access? = some a) :
    ((FMU1.CheckStatus T (Sys.emit { s with fmu := w } [ev]) status fcnName).2.trace.drop
      s.trace.length).filterMap Event.access? = [a] := by
  obtain ⟨es, hes, hno⟩ := FMU1_checked_new T s w ev status fcnName
  rw [hes, List.filterMap_cons, hev, filterMap_access?_eq_nil es hno]

theorem FMU1ME_checked_new {W : Type} (T : Target) (s : FMU1ME.St W) (w : W) (ev : Event)
    (status : fmiStatus) (fcnName : String) :
    ∃ es, (FMU1ME.CheckStatus T (Sys.emit { s with fmu := w } [ev]) status fcnName).2.trace.drop
        s.trace.length = ev :: es ∧ ∀ e ∈ es, e.isFmuCall = false := by
  obtain ⟨es, hes, hno⟩ := FMU1ME_CheckStatus_spec T (Sys.emit { s with fmu := w } [ev]) status
    fcnName
  refine ⟨es, ?_, hno⟩
  rw [hes]
  simp [Sys.emit]

theorem FMU1ME_checked_access {W : Type} (T : Target) (s : FMU1ME.St W) (w : W)
    (ev : Event) (a : Nat × Nat × Nat) (status : fmiStatus) (fcnName : String)
    (hev : ev.access? = some a) :
    ((FMU1ME.CheckStatus T (Sys.emit { s with fmu := w } [ev]) status fcnName).2.trace.drop
      s.trace.length).filterMap Event.access? = [a] := by
  obtain ⟨es, hes, hno⟩ := FMU1ME_checked_new T s w ev status fcnName
  rw [hes, List.filterMap_cons, hev, filterMap_access?_eq_nil es hno]

/-! ## The per-call wrappers -/

/-- C22: Round trip against an FMU that keeps the real value set for each value
reference (its state is the map from value references to values), returns it on get and always
reports OK: for every handle with these two entries, every value reference `vr` and every real
`x`, `setRealVal` with count 1, and likewise `setReal` with count 1 on an array that starts
with `x`, returns true, and `getReal` on `vr` with count 1 after it returns true and writes `x`
to the first element of the caller's array, leaving the others as they were.  This holds for
the FMI-2 driver and for both FMI-1 drivers. -/
theorem setReal_getReal_round_trip :
    (∀ (T : Target) (h : FMU2.FMU2_CSME_RTWCG (FMU2.fmi2ValueReference → FMU2.fmi2Real))
      (w : FMU2.fmi2ValueReference → FMU2.fmi2Real) (trace : List Event) (vr : FMU2.fmi2ValueReference) (x : FMU2.fmi2Real)
      (rest value : List FMU2.fmi2Real),
      (FMU2.FMU2_setRealVal T (⟨{ h with setReal := FMU2.mockEcho.setReal, getReal := FMU2.mockEcho.getReal }, w, trace⟩ : FMU2.St (FMU2.fmi2ValueReference → FMU2.fmi2Real)) vr 1 x).1 = true ∧
      (FMU2.FMU2_getReal T (FMU2.FMU2_setRealVal T (⟨{ h with setReal := FMU2.mockEcho.setReal, getReal := FMU2.mockEcho.getReal }, w, trace⟩ : FMU2.St (FMU2.fmi2ValueReference → FMU2.fmi2Real)) vr 1 x).2 vr 1 value).1 = true ∧
      (FMU2.FMU2_getReal T (FMU2.FMU2_setRealVal T (⟨{ h with setReal := FMU2.mockEcho.setReal, getReal := FMU2.mockEcho.getReal }, w, trace⟩ : FMU2.St (FMU2.fmi2ValueReference → FMU2.fmi2Real)) vr 1 x).2 vr 1 value).2.1 =
        x :: value.drop 1 ∧
      (FMU2.FMU2_setReal T (⟨{ h with setReal := FMU2.mockEcho.setReal, getReal := FMU2.mockEcho.getReal }, w, trace⟩ : FMU2.St (FMU2.fmi2ValueReference → FMU2.fmi2Real)) vr 1 (x :: rest)).1 = true ∧
      (FMU2.FMU2_getReal T (FMU2.FMU2_setReal T (⟨{ h with setReal := FMU2.mockEcho.setReal, getReal := FMU2.mockEcho.getReal }, w, trace⟩ : FMU2.St (FMU2.fmi2ValueReference → FMU2.fmi2Real)) vr 1 (x :: rest)).2 vr 1 value).1 = true ∧
      (FMU2.FMU2_getReal T (FMU2.FMU2_setReal T (⟨{ h with setReal := FMU2.mockEcho.setReal, getReal := FMU2.mockEcho.getReal }, w, trace⟩ : FMU2.St (FMU2.fmi2ValueReference → FMU2.fmi2Real)) vr 1 (x :: rest)).2 vr 1 value).2.1 =
        x :: value.drop 1) ∧
    (∀ (T : Target) (h : FMU1.FMU1_CS_RTWCG (fmiValueReference → fmiReal))
      (w : fmiValueReference → fmiReal) (trace : List Event) (vr : fmiValueReference) (x : fmiReal)
      (rest value : List fmiReal),
      (FMU1.FMU1_setRealVal T (⟨{ h with setReal := FMU1.mockEcho.setReal, getReal := FMU1.mockEcho.getReal }, w, trace⟩ : FMU1.St (fmiValueReference → fmiReal)) vr 1 x).1 = true ∧
      (FMU1.FMU1_getReal T (FMU1.FMU1_setRealVal T (⟨{ h with setReal := FMU1.mockEcho.setReal, getReal := FMU1.mockEcho.getReal }, w, trace⟩ : FMU1.St (fmiValueReference → fmiReal)) vr 1 x).2 vr 1 value).1 = true ∧
      (FMU1.FMU1_getReal T (FMU1.FMU1_setRealVal T (⟨{ h with setReal := FMU1.mockEcho.setReal, getReal := FMU1.mockEcho.getReal }, w, trace⟩ : FMU1.St (fmiValueReference → fmiReal)) vr 1 x).2 vr 1 value).2.1 =
        x :: value.drop 1 ∧
      (FMU1.FMU1_setReal T (⟨{ h with setReal := FMU1.mockEcho.setReal, getReal := FMU1.mockEcho.getReal }, w, trace⟩ : FMU1.St (fmiValueReference → fmiReal)) vr 1 (x :: rest)).1 = true ∧
      (FMU1.FMU1_getReal T (FMU1.FMU1_setReal T (⟨{ h with setReal := FMU1.mockEcho.setReal, getReal := FMU1.mockEcho.getReal }, w, trace⟩ : FMU1.St (fmiValueReference → fmiReal)) vr 1 (x :: rest)).2 vr 1 value).1 = true ∧
      (FMU1.FMU1_getReal T (FMU1.FMU1_setReal T (⟨{ h with setReal := FMU1.mockEcho.setReal, getReal := FMU1.mockEcho.getReal }, w, trace⟩ : FMU1.St (fmiValueReference → fmiReal)) vr 1 (x :: rest)).2 vr 1 value).2.1 =
        x :: value.drop 1) ∧
    (∀ (T : Target) (h : FMU1ME.FMU1_ME_RTWCG (fmiValueReference → fmiReal))
      (w : fmiValueReference → fmiReal) (trace : List Event) (vr : fmiValueReference) (x : fmiReal)
      (rest value : List fmiReal),
      (FMU1ME.FMU1ME_setRealVal T (⟨{ h with setReal := FMU1ME.mockEcho.setReal, getReal := FMU1ME.mockEcho.getReal }, w, trace⟩ : FMU1ME.St (fmiValueReference → fmiReal)) vr 1 x).1 = true ∧
      (FMU1ME.FMU1ME_getReal T (FMU1ME.FMU1ME_setRealVal T (⟨{ h with setReal := FMU1ME.mockEcho.setReal, getReal := FMU1ME.mockEcho.getReal }, w, trace⟩ : FMU1ME.St (fmiValueReference → fmiReal)) vr 1 x).2 vr 1 value).1 = true ∧
      (FMU1ME.FMU1ME_getReal T (FMU1ME.FMU1ME_setRealVal T (⟨{ h with setReal := FMU1ME.mockEcho.setReal, getReal := FMU1ME.mockEcho.getReal }, w, trace⟩ : FMU1ME.St (fmiValueReference → fmiReal)) vr 1 x).2 vr 1 value).2.1 =
        x :: value.drop 1 ∧
      (FMU1ME.FMU1ME_setReal T (⟨{ h with setReal := FMU1ME.mockEcho.setReal, getReal := FMU1ME.mockEcho.getReal }, w, trace⟩ : FMU1ME.St (fmiValueReference → fmiReal)) vr 1 (x :: rest)).1 = true ∧
      (FMU1ME.FMU1ME_getReal T (FMU1ME.FMU1ME_setReal T (⟨{ h with setReal := FMU1ME.mockEcho.setReal, getReal := FMU1ME.mockEcho.getReal }, w, trace⟩ : FMU1ME.St (fmiValueReference → fmiReal)) vr 1 (x :: rest)).2 vr 1 value).1 = true ∧
      (FMU1ME.FMU1ME_getReal T (FMU1ME.FMU1ME_setReal T (⟨{ h with setReal := FMU1ME.mockEcho.setReal, getReal := FMU1ME.mockEcho.getReal }, w, trace⟩ : FMU1ME.St (fmiValueReference → fmiReal)) vr 1 (x :: rest)).2 vr 1 value).2.1 =
        x :: value.drop 1) := by
  refine ⟨?_, ?_, ?_⟩
  · intro T h w trace vr x rest value
    simp [FMU2.FMU2_setRealVal, FMU2.FMU2_setReal, FMU2.FMU2_getReal, FMU2.CheckStatus,
      FMU2.mockEcho, Sys.emit]
  · intro T h w trace vr x rest value
    simp [FMU1.FMU1_setRealVal, FMU1.FMU1_setReal, FMU1.FMU1_getReal, FMU1.CheckStatus,
      FMU1.mockEcho, Sys.emit]
  · intro T h w trace vr x rest value
    simp [FMU1ME.FMU1ME_setRealVal, FMU1ME.FMU1ME_setReal, FMU1ME.FMU1ME_getReal, FMU1ME.CheckStatus,
      FMU1ME.mockEcho, Sys.emit]

/-! ## The function name in the diagnostic of a wrapper -/

/-- C23: When the FMU function that a wrapper called returns Error or Fatal, the wrapper
emits one diagnostic, which carries the function name written in the wrapper.  In four
wrappers that name is not the name of the function that was called: `FMU1_setIntegerVal` and
`FMU1ME_setIntegerVal` call `setInteger` and name `fmiGetInteger`, not `fmiSetInteger`;
`FMU2_setStringVal` calls `setString` and names `fmiSetString`, not `fmi2SetString`;
`FMU2_terminate` calls `terminate` (loaded as `fmi2Terminate`) and names `fmi2TerminateSlave`,
not `fmi2Terminate`.  The vector forms `FMU1_setInteger`, `FMU1ME_setInteger` and
`FMU2_setString` do name `fmiSetInteger` and `fmi2SetString`.  Each pair tells whether the
diagnostic carries the first and the second name; the instance name is supposed not to be the
name looked for. -/
theorem wrapper_diagnostic_names_other_function :
    (∀ (W : Type) (T : Target) (s : FMU1.St W) (dvr : fmiValueReference) (nvr : Nat)
      (dvalue : fmiInteger),
      (s.fmustruct.setInteger s.fmustruct.mFMIComp [dvr] nvr [dvalue] s.fmu).1 = fmiError ∨
        (s.fmustruct.setInteger s.fmustruct.mFMIComp [dvr] nvr [dvalue] s.fmu).1 = fmiFatal →
      s.fmustruct.fmuname ≠ "fmiSetInteger" →
      (((FMU1.FMU1_setIntegerVal T s dvr nvr dvalue).2.trace.drop s.trace.length).filter
          Event.isDiagnostic).map
            (fun d => (d.carries "fmiGetInteger", d.carries "fmiSetInteger")) =
        [(true, false)]) ∧
    (∀ (W : Type) (T : Target) (s : FMU1ME.St W) (dvr : fmiValueReference) (nvr : Nat)
      (dvalue : fmiInteger),
      (s.fmustruct.setInteger s.fmustruct.mFMIComp [dvr] nvr [dvalue] s.fmu).1 = fmiError ∨
        (s.fmustruct.setInteger s.fmustruct.mFMIComp [dvr] nvr [dvalue] s.fmu).1 = fmiFatal →
      s.fmustruct.fmuname ≠ "fmiSetInteger" →
      (((FMU1ME.FMU1ME_setIntegerVal T s dvr nvr dvalue).2.trace.drop s.trace.length).filter
          Event.isDiagnostic).map
            (fun d => (d.carries "fmiGetInteger", d.carries "fmiSetInteger")) =
        [(true, false)]) ∧
    (∀ (W : Type) (T : Target) (s : FMU2.St W) (dvr : fmiValueReference) (nvr : Nat)
      (dvalue : String),
      (s.fmustruct.setString s.fmustruct.mFMIComp [dvr] nvr [dvalue] s.fmu).1 = fmiError ∨
        (s.fmustruct.setString s.fmustruct.mFMIComp [dvr] nvr [dvalue] s.fmu).1 = fmiFatal →
      s.fmustruct.fmuname ≠ "fmi2SetString" →
      (((FMU2.FMU2_setStringVal T s dvr nvr dvalue).2.trace.drop s.trace.length).filter
          Event.isDiagnostic).map
            (fun d => (d.carries "fmiSetString", d.carries "fmi2SetString")) =
        [(true, false)]) ∧
    (∀ (W : Type) (T : Target) (h : FMU2.FMU2_CSME_RTWCG W) (fmu : W) (trace : List Event),
      h.FMUErrorStatus ≠ fmiError → h.FMUErrorStatus ≠ fmiFatal → h.modelInitialized = true →
      (h.terminate h.mFMIComp fmu).1 = fmiError ∨ (h.terminate h.mFMIComp fmu).1 = fmiFatal →
      h.fmuname ≠ "fmi2Terminate" →
      (((FMU2.FMU2_terminate T ⟨some h, fmu, trace⟩).2.trace.drop trace.length).filter
          Event.isDiagnostic).map
            (fun d => (d.carries "fmi2TerminateSlave", d.carries "fmi2Terminate")) =
        [(true, false)]) ∧
    (∀ (W : Type) (T : Target) (s : FMU1.St W) (dvr : fmiValueReference) (nvr : Nat)
      (value : List fmiInteger),
      (s.fmustruct.setInteger s.fmustruct.mFMIComp [dvr] nvr value s.fmu).1 = fmiError ∨
        (s.fmustruct.setInteger s.fmustruct.mFMIComp [dvr] nvr value s.fmu).1 = fmiFatal →
      s.fmustruct.fmuname ≠ "fmiGetInteger" →
      (((FMU1.FMU1_setInteger T s dvr nvr value).2.trace.drop s.trace.length).filter
          Event.isDiagnostic).map
            (fun d => (d.carries "fmiGetInteger", d.carries "fmiSetInteger")) =
        [(false, true)]) ∧
    (∀ (W : Type) (T : Target) (s : FMU1ME.St W) (dvr : fmiValueReference) (nvr : Nat)
      (value : List fmiInteger),
      (s.fmustruct.setInteger s.fmustruct.mFMIComp [dvr] nvr value s.fmu).1 = fmiError ∨
        (s.fmustruct.setInteger s.fmustruct.mFMIComp [dvr] nvr value s.fmu).1 = fmiFatal →
      s.fmustruct.fmuname ≠ "fmiGetInteger" →
      (((FMU1ME.FMU1ME_setInteger T s dvr nvr value).2.trace.drop s.trace.length).filter
          Event.isDiagnostic).map
            (fun d => (d.carries "fmiGetInteger", d.carries "fmiSetInteger")) =
        [(false, true)]) ∧
    (∀ (W : Type) (T : Target) (s : FMU2.St W) (dvr : fmiValueReference) (nvr : Nat)
      (value : List String),
      (s.fmustruct.setString s.fmustruct.mFMIComp [dvr] nvr value s.fmu).1 = fmiError ∨
        (s.fmustruct.setString s.fmustruct.mFMIComp [dvr] nvr value s.fmu).1 = fmiFatal →
      s.fmustruct.fmuname ≠ "fmiSetString" →
      (((FMU2.FMU2_setString T s dvr nvr value).2.trace.drop s.trace.length).filter
          Event.isDiagnostic).map
            (fun d => (d.carries "fmiSetString", d.carries "fmi2SetString")) =
        [(false, true)]) := by
  refine ⟨?_, ?_, ?_, ?_, ?_, ?_, ?_⟩
  · intro W T s dvr nvr v h hname
    rcases hr : (s.fmustruct.setInteger s.fmustruct.mFMIComp [dvr] nvr [v] s.fmu) with ⟨status, w⟩
    rw [hr] at h
    cases hT : T.lt_STANDALONE_TARGETS <;> rcases h with h | h <;> simp only at h <;> subst h <;>
      simp [FMU1.FMU1_setIntegerVal, hr, FMU1.CheckStatus, hT, Sys.emit, List.filter_cons,
        Event.isDiagnostic, Event.carries, CreateDiagnosticAsVoidPtr, formatString, hname,
        Ne.symm hname]
  · intro W T s dvr nvr v h hname
    rcases hr : (s.fmustruct.setInteger s.fmustruct.mFMIComp [dvr] nvr [v] s.fmu) with ⟨status, w⟩
    rw [hr] at h
    cases hT : T.lt_STANDALONE_TARGETS <;> rcases h with h | h <;> simp only at h <;> subst h <;>
      simp [FMU1ME.FMU1ME_setIntegerVal, hr, FMU1ME.CheckStatus, hT, Sys.emit, List.filter_cons,
        Event.isDiagnostic, Event.carries, CreateDiagnosticAsVoidPtr, formatString, hname,
        Ne.symm hname]
  · intro W T s dvr nvr v h hname
    rcases hr : (s.fmustruct.setString s.fmustruct.mFMIComp [dvr] nvr [v] s.fmu) with ⟨status, w⟩
    rw [hr] at h
    cases hT : T.lt_STANDALONE_TARGETS <;> rcases h with h | h <;> simp only at h <;> subst h <;>
      simp [FMU2.FMU2_setStringVal, hr, FMU2.CheckStatus, hT, Sys.emit, List.filter_cons,
        Event.isDiagnostic, Event.carries, CreateDiagnosticAsVoidPtr, formatString, hname,
        Ne.symm hname]
  · intro W T h fmu trace h1 h2 h3 ht hname
    rcases hr : h.terminate h.mFMIComp fmu with ⟨status, w⟩
    rw [hr] at ht
    by_cases hH : h.Handle = NULL <;>
    cases hT : T.lt_STANDALONE_TARGETS <;> rcases ht with ht | ht <;> simp only at ht <;>
      subst ht <;>
      simp [FMU2.FMU2_terminate, hr, h1, h2, h3, hH, FMU2.CheckStatus, hT, Sys.emit,
        List.filter_cons, Event.isDiagnostic, Event.carries, CreateDiagnosticAsVoidPtr,
        formatString, hname, Ne.symm hname]
  · intro W T s dvr nvr v h hname
    rcases hr : (s.fmustruct.setInteger s.fmustruct.mFMIComp [dvr] nvr v s.fmu) with ⟨status, w⟩
    rw [hr] at h
    cases hT : T.lt_STANDALONE_TARGETS <;> rcases h with h | h <;> simp only at h <;> subst h <;>
      simp [FMU1.FMU1_setInteger, hr, FMU1.CheckStatus, hT, Sys.emit, List.filter_cons,
        Event.isDiagnostic, Event.carries, CreateDiagnosticAsVoidPtr, formatString, hname,
        Ne.symm hname]
  · intro W T s dvr nvr v h hname
    rcases hr : (s.fmustruct.setInteger s.fmustruct.mFMIComp [dvr] nvr v s.fmu) with ⟨status, w⟩
    rw [hr] at h
    cases hT : T.lt_STANDALONE_TARGETS <;> rcases h with h | h <;> simp only at h <;> subst h <;>
      simp [FMU1ME.FMU1ME_setInteger, hr, FMU1ME.CheckStatus, hT, Sys.emit, List.filter_cons,
        Event.isDiagnostic, Event.carries, CreateDiagnosticAsVoidPtr, formatString, hname,
        Ne.symm hname]
  · intro W T s dvr nvr v h hname
    rcases hr : (s.fmustruct.setString s.fmustruct.mFMIComp [dvr] nvr v s.fmu) with ⟨status, w⟩
    rw [hr] at h
    cases hT : T.lt_STANDALONE_TARGETS <;> rcases h with h | h <;> simp only at h <;> subst h <;>
      simp [FMU2.FMU2_setString, hr, FMU2.CheckStatus, hT, Sys.emit, List.filter_cons,
        Event.isDiagnostic, Event.carries, CreateDiagnosticAsVoidPtr, formatString, hname,
        Ne.symm hname]

/-- C23 (witness): the scripted FMU whose next call returns Error (or Fatal), for the four
wrappers and for the three vector forms. -/
theorem wrapper_diagnostic_names_other_function_witness :
    (((FMU1.FMU1_setIntegerVal Target.standalone ⟨FMU1.mockScripted, [fmiError], []⟩ 5 1
        3).2.trace.drop 0).filter Event.isDiagnostic).map
          (fun d => (d.carries "fmiGetInteger", d.carries "fmiSetInteger")) = [(true, false)] ∧
    (((FMU1ME.FMU1ME_setIntegerVal Target.host ⟨FMU1ME.mockScripted, [fmiFatal], []⟩ 5 1
        3).2.trace.drop 0).filter Event.isDiagnostic).map
          (fun d => (d.carries "fmiGetInteger", d.carries "fmiSetInteger")) = [(true, false)] ∧
    (((FMU2.FMU2_setStringVal Target.standalone ⟨FMU2.mockScripted, [fmiError], []⟩ 5 1
        "on").2.trace.drop 0).filter Event.isDiagnostic).map
          (fun d => (d.carries "fmiSetString", d.carries "fmi2SetString")) = [(true, false)] ∧
    (((FMU2.FMU2_terminate Target.standalone
        ⟨some { FMU2.mockScripted with modelInitialized := true }, [fmiError],
          []⟩).2.trace.drop 0).filter Event.isDiagnostic).map
          (fun d => (d.carries "fmi2TerminateSlave", d.carries "fmi2Terminate")) =
        [(true, false)] ∧
    (((FMU1.FMU1_setInteger Target.standalone ⟨FMU1.mockScripted, [fmiError], []⟩ 5 1
        [3]).2.trace.drop 0).filter Event.isDiagnostic).map
          (fun d => (d.carries "fmiGetInteger", d.carries "fmiSetInteger")) = [(false, true)] ∧
    (((FMU1ME.FMU1ME_setInteger Target.host ⟨FMU1ME.mockScripted, [fmiFatal], []⟩ 5 1
        [3]).2.trace.drop 0).filter Event.isDiagnostic).map
          (fun d => (d.carries "fmiGetInteger", d.carries "fmiSetInteger")) = [(false, true)] ∧
    (((FMU2.FMU2_setString Target.standalone ⟨FMU2.mockScripted, [fmiError], []⟩ 5 1
        ["on"]).2.trace.drop 0).filter Event.isDiagnostic).map
          (fun d => (d.carries "fmiSetString", d.carries "fmi2SetString")) = [(false, true)] :=
  ⟨wrapper_diagnostic_names_other_function.1 _ Target.standalone
      ⟨FMU1.mockScripted, [fmiError], []⟩ 5 1 3 (Or.inl rfl) (by decide),
   wrapper_diagnostic_names_other_function.2.1 _ Target.host
      ⟨FMU1ME.mockScripted, [fmiFatal], []⟩ 5 1 3 (Or.inr rfl) (by decide),
   wrapper_diagnostic_names_other_function.2.2.1 _ Target.standalone
      ⟨FMU2.mockScripted, [fmiError], []⟩ 5 1 "on" (Or.inl rfl) (by decide),
   wrapper_diagnostic_names_other_function.2.2.2.1 _ Target.standalone
      { FMU2.mockScripted with modelInitialized := true } [fmiError] []
      (by decide) (by decide) rfl (Or.inl rfl) (by decide),
   wrapper_diagnostic_names_other_function.2.2.2.2.1 _ Target.standalone
      ⟨FMU1.mockScripted, [fmiError], []⟩ 5 1 [3] (Or.inl rfl) (by decide),
   wrapper_diagnostic_names_other_function.2.2.2.2.2.1 _ Target.host
      ⟨FMU1ME.mockScripted, [fmiFatal], []⟩ 5 1 [3] (Or.inr rfl) (by decide),
   wrapper_diagnostic_names_other_function.2.2.2.2.2.2 _ Target.standalone
      ⟨FMU2.mockScripted, [fmiError], []⟩ 5 1 ["on"] (Or.inl rfl) (by decide)⟩

/-! ## What the value accessors hand to the FMU -/

/-- C24 (counterexample): `FMU2_setReal` called with the count 3 and three values hands
the FMU one value reference with the count 3, and `FMU2_setRealVal` called with the count 3
hands the FMU one value reference and one value with the count 3: the count is not the number
of value references supplied. -/
theorem accessor_count_exceeds_references :
    ((FMU2.FMU2_setReal Target.standalone ⟨FMU2.mockScripted, [], []⟩ 5 3
        [1, 2, 3]).2.trace.filterMap Event.access? = [(1, 3, 3)]) ∧
    ((FMU2.FMU2_setRealVal Target.standalone ⟨FMU2.mockScripted, [], []⟩ 5 3
        1).2.trace.filterMap Event.access? = [(1, 3, 1)]) ∧
    ((FMU1.FMU1_getReal Target.standalone ⟨FMU1.mockScripted, [], []⟩ 5 3
        [0, 0, 0]).2.2.trace.filterMap Event.access? = [(1, 3, 3)]) := by
  refine ⟨?_, ?_, ?_⟩
  · exact FMU2_checked_access Target.standalone ⟨FMU2.mockScripted, [], []⟩ _ _ _ _ _ rfl
  · exact FMU2_checked_access Target.standalone ⟨FMU2.mockScripted, [], []⟩ _ _ _ _ _ rfl
  · exact FMU1_checked_access Target.standalone ⟨FMU1.mockScripted, [], []⟩ _ _ _ _ _ rfl

/-- C24 (amended): Every value accessor of the three drivers makes one accessor call, in
which the array of value references handed to the FMU is one boxed reference (the address of
the local copy of `dvr`) and the count is the caller's `nvr`, unchanged: the count equals the
number of references supplied only for `nvr = 1`.  The single-value forms hand over one boxed
value; the vector forms hand over the caller's array of values.  Each triple is: number of
references supplied, count, number of values supplied. -/
theorem accessor_forwards_one_reference_and_nvr :
    (∀ (W : Type) (T : Target) (s : FMU2.St W) (dvr : fmiValueReference) (nvr : Nat)
      (dvalue : fmiReal),
      ((FMU2.FMU2_setRealVal T s dvr nvr dvalue).2.trace.drop s.trace.length).filterMap
          Event.access? =
        [(1, nvr, 1)]) ∧
    (∀ (W : Type) (T : Target) (s : FMU2.St W) (dvr : fmiValueReference) (nvr : Nat)
      (value : List fmiReal),
      ((FMU2.FMU2_setReal T s dvr nvr value).2.trace.drop s.trace.length).filterMap Event.access? =
        [(1, nvr, value.length)]) ∧
    (∀ (W : Type) (T : Target) (s : FMU2.St W) (dvr : fmiValueReference) (nvr : Nat)
      (value : List fmiReal),
      ((FMU2.FMU2_getReal T s dvr nvr value).2.2.trace.drop s.trace.length).filterMap Event.access?
          =
        [(1, nvr, value.length)]) ∧
    (∀ (W : Type) (T : Target) (s : FMU2.St W) (dvr : fmiValueReference) (nvr : Nat)
      (dvalue : fmiInteger),
      ((FMU2.FMU2_setIntegerVal T s dvr nvr dvalue).2.trace.drop s.trace.length).filterMap
          Event.access? =
        [(1, nvr, 1)]) ∧
    (∀ (W : Type) (T : Target) (s : FMU2.St W) (dvr : fmiValueReference) (nvr : Nat)
      (value : List fmiInteger),
      ((FMU2.FMU2_setInteger T s dvr nvr value).2.trace.drop s.trace.length).filterMap Event.access?
          =
        [(1, nvr, value.length)]) ∧
    (∀ (W : Type) (T : Target) (s : FMU2.St W) (dvr : fmiValueReference) (nvr : Nat)
      (value : List fmiInteger),
      ((FMU2.FMU2_getInteger T s dvr nvr value).2.2.trace.drop s.trace.length).filterMap
          Event.access? =
        [(1, nvr, value.length)]) ∧
    (∀ (W : Type) (T : Target) (s : FMU2.St W) (dvr : fmiValueReference) (nvr : Nat)
      (dvalue : Bool),
      ((FMU2.FMU2_setBooleanVal T s dvr nvr dvalue).2.trace.drop s.trace.length).filterMap
          Event.access? =
        [(1, nvr, 1)]) ∧
    (∀ (W : Type) (T : Target) (s : FMU2.St W) (dvr : fmiValueReference) (nvr : Nat)
      (value : List Bool),
      ((FMU2.FMU2_setBoolean T s dvr nvr value).2.trace.drop s.trace.length).filterMap Event.access?
          =
        [(1, nvr, value.length)]) ∧
    (∀ (W : Type) (T : Target) (s : FMU2.St W) (dvr : fmiValueReference) (nvr : Nat)
      (value : List Bool),
      ((FMU2.FMU2_getBoolean T s dvr nvr value).2.2.trace.drop s.trace.length).filterMap
          Event.access? =
        [(1, nvr, value.length)]) ∧
    (∀ (W : Type) (T : Target) (s : FMU2.St W) (dvr : fmiValueReference) (nvr : Nat)
      (dvalue : String),
      ((FMU2.FMU2_setStringVal T s dvr nvr dvalue).2.trace.drop s.trace.length).filterMap
          Event.access? =
        [(1, nvr, 1)]) ∧
    (∀ (W : Type) (T : Target) (s : FMU2.St W) (dvr : fmiValueReference) (nvr : Nat)
      (value : List String),
      ((FMU2.FMU2_setString T s dvr nvr value).2.trace.drop s.trace.length).filterMap Event.access?
          =
        [(1, nvr, value.length)]) ∧
    (∀ (W : Type) (T : Target) (s : FMU2.St W) (dvr : fmiValueReference) (nvr : Nat)
      (value : List String),
      ((FMU2.FMU2_getString T s dvr nvr value).2.2.trace.drop s.trace.length).filterMap
          Event.access? =
        [(1, nvr, value.length)]) ∧
    (∀ (W : Type) (T : Target) (s : FMU1.St W) (dvr : fmiValueReference) (nvr : Nat)
      (dvalue : fmiReal),
      ((FMU1.FMU1_setRealVal T s dvr nvr dvalue).2.trace.drop s.trace.length).filterMap
          Event.access? =
        [(1, nvr, 1)]) ∧
    (∀ (W : Type) (T : Target) (s : FMU1.St W) (dvr : fmiValueReference) (nvr : Nat)
      (value : List fmiReal),
      ((FMU1.FMU1_setReal T s dvr nvr value).2.trace.drop s.trace.length).filterMap Event.access? =
        [(1, nvr, value.length)]) ∧
    (∀ (W : Type) (T : Target) (s : FMU1.St W) (dvr : fmiValueReference) (nvr : Nat)
      (value : List fmiReal),
      ((FMU1.FMU1_getReal T s dvr nvr value).2.2.trace.drop s.trace.length).filterMap Event.access?
          =
        [(1, nvr, value.length)]) ∧
    (∀ (W : Type) (T : Target) (s : FMU1.St W) (dvr : fmiValueReference) (nvr : Nat)
      (dvalue : fmiInteger),
      ((FMU1.FMU1_setIntegerVal T s dvr nvr dvalue).2.trace.drop s.trace.length).filterMap
          Event.access? =
        [(1, nvr, 1)]) ∧
    (∀ (W : Type) (T : Target) (s : FMU1.St W) (dvr : fmiValueReference) (nvr : Nat)
      (value : List fmiInteger),
      ((FMU1.FMU1_setInteger T s dvr nvr value).2.trace.drop s.trace.length).filterMap Event.access?
          =
        [(1, nvr, value.length)]) ∧
    (∀ (W : Type) (T : Target) (s : FMU1.St W) (dvr : fmiValueReference) (nvr : Nat)
      (value : List fmiInteger),
      ((FMU1.FMU1_getInteger T s dvr nvr value).2.2.trace.drop s.trace.length).filterMap
          Event.access? =
        [(1, nvr, value.length)]) ∧
    (∀ (W : Type) (T : Target) (s : FMU1.St W) (dvr : fmiValueReference) (nvr : Nat)
      (dvalue : Bool),
      ((FMU1.FMU1_setBooleanVal T s dvr nvr dvalue).2.trace.drop s.trace.length).filterMap
          Event.access? =
        [(1, nvr, 1)]) ∧
    (∀ (W : Type) (T : Target) (s : FMU1.St W) (dvr : fmiValueReference) (nvr : Nat)
      (value : List Bool),
      ((FMU1.FMU1_setBoolean T s dvr nvr value).2.trace.drop s.trace.length).filterMap Event.access?
          =
        [(1, nvr, value.length)]) ∧
    (∀ (W : Type) (T : Target) (s : FMU1.St W) (dvr : fmiValueReference) (nvr : Nat)
      (value : List Bool),
      ((FMU1.FMU1_getBoolean T s dvr nvr value).2.2.trace.drop s.trace.length).filterMap
          Event.access? =
        [(1, nvr, value.length)]) ∧
    (∀ (W : Type) (T : Target) (s : FMU1.St W) (dvr : fmiValueReference) (nvr : Nat)
      (dvalue : String),
      ((FMU1.FMU1_setStringVal T s dvr nvr dvalue).2.trace.drop s.trace.length).filterMap
          Event.access? =
        [(1, nvr, 1)]) ∧
    (∀ (W : Type) (T : Target) (s : FMU1.St W) (dvr : fmiValueReference) (nvr : Nat)
      (value : List String),
      ((FMU1.FMU1_setString T s dvr nvr value).2.trace.drop s.trace.length).filterMap Event.access?
          =
        [(1, nvr, value.length)]) ∧
    (∀ (W : Type) (T : Target) (s : FMU1.St W) (dvr : fmiValueReference) (nvr : Nat)
      (value : List String),
      ((FMU1.FMU1_getString T s dvr nvr value).2.2.trace.drop s.trace.length).filterMap
          Event.access? =
        [(1, nvr, value.length)]) ∧
    (∀ (W : Type) (T : Target) (s : FMU1ME.St W) (dvr : fmiValueReference) (nvr : Nat)
      (dvalue : fmiReal),
      ((FMU1ME.FMU1ME_setRealVal T s dvr nvr dvalue).2.trace.drop s.trace.length).filterMap
          Event.access? =
        [(1, nvr, 1)]) ∧
    (∀ (W : Type) (T : Target) (s : FMU1ME.St W) (dvr : fmiValueReference) (nvr : Nat)
      (value : List fmiReal),
      ((FMU1ME.FMU1ME_setReal T s dvr nvr value).2.trace.drop s.trace.length).filterMap
          Event.access? =
        [(1, nvr, value.length)]) ∧
    (∀ (W : Type) (T : Target) (s : FMU1ME.St W) (dvr : fmiValueReference) (nvr : Nat)
      (value : List fmiReal),
      ((FMU1ME.FMU1ME_getReal T s dvr nvr value).2.2.trace.drop s.trace.length).filterMap
          Event.access? =
        [(1, nvr, value.length)]) ∧
    (∀ (W : Type) (T : Target) (s : FMU1ME.St W) (dvr : fmiValueReference) (nvr : Nat)
      (dvalue : fmiInteger),
      ((FMU1ME.FMU1ME_setIntegerVal T s dvr nvr dvalue).2.trace.drop s.trace.length).filterMap
          Event.access? =
        [(1, nvr, 1)]) ∧
    (∀ (W : Type) (T : Target) (s : FMU1ME.St W) (dvr : fmiValueReference) (nvr : Nat)
      (value : List fmiInteger),
      ((FMU1ME.FMU1ME_setInteger T s dvr nvr value).2.trace.drop s.trace.length).filterMap
          Event.access? =
        [(1, nvr, value.length)]) ∧
    (∀ (W : Type) (T : Target) (s : FMU1ME.St W) (dvr : fmiValueReference) (nvr : Nat)
      (value : List fmiInteger),
      ((FMU1ME.FMU1ME_getInteger T s dvr nvr value).2.2.trace.drop s.trace.length).filterMap
          Event.access? =
        [(1, nvr, value.length)]) ∧
    (∀ (W : Type) (T : Target) (s : FMU1ME.St W) (dvr : fmiValueReference) (nvr : Nat)
      (dvalue : Bool),
      ((FMU1ME.FMU1ME_setBooleanVal T s dvr nvr dvalue).2.trace.drop s.trace.length).filterMap
          Event.access? =
        [(1, nvr, 1)]) ∧
    (∀ (W : Type) (T : Target) (s : FMU1ME.St W) (dvr : fmiValueReference) (nvr : Nat)
      (value : List Bool),
      ((FMU1ME.FMU1ME_setBoolean T s dvr nvr value).2.trace.drop s.trace.length).filterMap
          Event.access? =
        [(1, nvr, value.length)]) ∧
    (∀ (W : Type) (T : Target) (s : FMU1ME.St W) (dvr : fmiValueReference) (nvr : Nat)
      (value : List Bool),
      ((FMU1ME.FMU1ME_getBoolean T s dvr nvr value).2.2.trace.drop s.trace.length).filterMap
          Event.access? =
        [(1, nvr, value.length)]) ∧
    (∀ (W : Type) (T : Target) (s : FMU1ME.St W) (dvr : fmiValueReference) (nvr : Nat)
      (dvalue : String),
      ((FMU1ME.FMU1ME_setStringVal T s dvr nvr dvalue).2.trace.drop s.trace.length).filterMap
          Event.access? =
        [(1, nvr, 1)]) ∧
    (∀ (W : Type) (T : Target) (s : FMU1ME.St W) (dvr : fmiValueReference) (nvr : Nat)
      (value : List String),
      ((FMU1ME.FMU1ME_setString T s dvr nvr value).2.trace.drop s.trace.length).filterMap
          Event.access? =
        [(1, nvr, value.length)]) ∧
    (∀ (W : Type) (T : Target) (s : FMU1ME.St W) (dvr : fmiValueReference) (nvr : Nat)
      (value : List String),
      ((FMU1ME.FMU1ME_getString T s dvr nvr value).2.2.trace.drop s.trace.length).filterMap
          Event.access? =
        [(1, nvr, value.length)]) := by
  refine ⟨?_, ?_, ?_, ?_, ?_, ?_, ?_, ?_, ?_, ?_, ?_, ?_, ?_, ?_, ?_, ?_, ?_, ?_, ?_, ?_, ?_, ?_,
      ?_, ?_, ?_, ?_, ?_, ?_, ?_, ?_, ?_, ?_, ?_, ?_, ?_, ?_⟩
  · intro W T s dvr nvr v
    exact FMU2_checked_access T s _ _ _ _ _ rfl
  · intro W T s dvr nvr v
    exact FMU2_checked_access T s _ _ _ _ _ rfl
  · intro W T s dvr nvr v
    exact FMU2_checked_access T s _ _ _ _ _ rfl
  · intro W T s dvr nvr v
    exact FMU2_checked_access T s _ _ _ _ _ rfl
  · intro W T s dvr nvr v
    exact FMU2_checked_access T s _ _ _ _ _ rfl
  · intro W T s dvr nvr v
    exact FMU2_checked_access T s _ _ _ _ _ rfl
  · intro W T s dvr nvr v
    exact FMU2_checked_access T s _ _ _ _ _ rfl
  · intro W T s dvr nvr v
    exact FMU2_checked_access T s _ _ _ _ _ rfl
  · intro W T s dvr nvr v
    exact FMU2_checked_access T s _ _ _ _ _ rfl
  · intro W T s dvr nvr v
    exact FMU2_checked_access T s _ _ _ _ _ rfl
  · intro W T s dvr nvr v
    exact FMU2_checked_access T s _ _ _ _ _ rfl
  · intro W T s dvr nvr v
    exact FMU2_checked_access T s _ _ _ _ _ rfl
  · intro W T s dvr nvr v
    exact FMU1_checked_access T s _ _ _ _ _ rfl
  · intro W T s dvr nvr v
    exact FMU1_checked_access T s _ _ _ _ _ rfl
  · intro W T s dvr nvr v
    exact FMU1_checked_access T s _ _ _ _ _ rfl
  · intro W T s dvr nvr v
    exact FMU1_checked_access T s _ _ _ _ _ rfl
  · intro W T s dvr nvr v
    exact FMU1_checked_access T s _ _ _ _ _ rfl
  · intro W T s dvr nvr v
    exact FMU1_checked_access T s _ _ _ _ _ rfl
  · intro W T s dvr nvr v
    exact FMU1_checked_access T s _ _ _ _ _ rfl
  · intro W T s dvr nvr v
    exact FMU1_checked_access T s _ _ _ _ _ rfl
  · intro W T s dvr nvr v
    exact FMU1_checked_access T s _ _ _ _ _ rfl
  · intro W T s dvr nvr v
    exact FMU1_checked_access T s _ _ _ _ _ rfl
  · intro W T s dvr nvr v
    exact FMU1_checked_access T s _ _ _ _ _ rfl
  · intro W T s dvr nvr v
    exact FMU1_checked_access T s _ _ _ _ _ rfl
  · intro W T s dvr nvr v
    exact FMU1ME_checked_access T s _ _ _ _ _ rfl
  · intro W T s dvr nvr v
    exact FMU1ME_checked_access T s _ _ _ _ _ rfl
  · intro W T s dvr nvr v
    exact FMU1ME_checked_access T s _ _ _ _ _ rfl
  · intro W T s dvr nvr v
    exact FMU1ME_checked_access T s _ _ _ _ _ rfl
  · intro W T s dvr nvr v
    exact FMU1ME_checked_access T s _ _ _ _ _ rfl
  · intro W T s dvr nvr v
    exact FMU1ME_checked_access T s _ _ _ _ _ rfl
  · intro W T s dvr nvr v
    exact FMU1ME_checked_access T s _ _ _ _ _ rfl
  · intro W T s dvr nvr v
    exact FMU1ME_checked_access T s _ _ _ _ _ rfl
  · intro W T s dvr nvr v
    exact FMU1ME_checked_access T s _ _ _ _ _ rfl
  · intro W T s dvr nvr v
    exact FMU1ME_checked_access T s _ _ _ _ _ rfl
  · intro W T s dvr nvr v
    exact FMU1ME_checked_access T s _ _ _ _ _ rfl
  · intro W T s dvr nvr v
    exact FMU1ME_checked_access T s _ _ _ _ _ rfl

/-! ## Auxiliary facts about the symbol that is looked up -/

theorem strlen_append (a b : String) : strlen (a ++ b) = strlen a + strlen b := by
  simp [strlen]

theorem fullFcnName_exact (T : Target) (pfx fcnName : String)
    (h : strlen pfx + 1 + strlen fcnName < T.FULL_FCN_NAME_MAX_LEN) :
    fullFcnName T pfx fcnName = pfx ++ "_" ++ fcnName := by
  have h1 : ("_" : String).data = [(Char.ofNat 95)] := rfl
  simp only [strlen] at h
  apply String.ext
  simp only [fullFcnName, strncat, strncpy, strlen, String.data_append, h1]
  rw [List.take_of_length_le (by omega)]
  rw [List.take_of_length_le (by simp only [List.length_singleton]; omega)]
  rw [List.take_of_length_le (by simp only [List.length_append, List.length_singleton]; omega)]

theorem fullFcnName_strlen_le (T : Target) (pfx fcnName : String) :
    strlen (fullFcnName T pfx fcnName) ≤ T.FULL_FCN_NAME_MAX_LEN - 1 := by
  have h1 : ("_" : String).data = [(Char.ofNat 95)] := rfl
  simp only [fullFcnName, strncat, strncpy, strlen, h1, List.length_append, List.length_take,
    List.length_singleton]
  omega

theorem fullFcnName_truncated (T : Target) (pfx fcnName : String)
    (h : T.FULL_FCN_NAME_MAX_LEN ≤ strlen pfx + 1 + strlen fcnName) :
    strlen (fullFcnName T pfx fcnName) < strlen (pfx ++ "_" ++ fcnName) ∧
      fullFcnName T pfx fcnName ≠ pfx ++ "_" ++ fcnName := by
  have h1 : strlen ("_" : String) = 1 := rfl
  have h2 := fullFcnName_strlen_le T pfx fcnName
  have h3 : strlen (fullFcnName T pfx fcnName) < strlen (pfx ++ "_" ++ fcnName) := by
    rw [strlen_append, strlen_append, h1]
    by_cases h0 : T.FULL_FCN_NAME_MAX_LEN = 0
    · have h4 : strlen (fullFcnName T pfx fcnName) = 0 := by omega
      omega
    · omega
  refine ⟨h3, ?_⟩
  intro he
  rw [he] at h3
  exact Nat.lt_irrefl _ h3

theorem FMU1_allocate_modelIdentifier {W : Type} (T : Target)
    (lib instanceName modelIdentifier : String) (ssPtr : Ptr) (fmu : W) (trace : List Event) :
    (FMU1.FMU1_fmuInitialize.allocate T lib instanceName modelIdentifier ssPtr fmu
      trace).fmustruct.modelIdentifier = modelIdentifier := by
  cases hT : T.lt_STANDALONE_TARGETS <;> simp [FMU1.FMU1_fmuInitialize.allocate, hT]

theorem FMU1_loadLibrary_modelIdentifier {W : Type} (P : FMU1.Loader W) (s : FMU1.St W) :
    (FMU1.FMU1_fmuInitialize.loadLibrary P s).fmustruct.modelIdentifier =
      s.fmustruct.modelIdentifier := by
  simp [FMU1.FMU1_fmuInitialize.loadLibrary, Sys.emit]

theorem FMU1_LoadFMUFcn_first {W : Type} (T : Target) (P : FMU1.Loader W) (s : FMU1.St W)
    (fcnName : String) (isOptional : Bool) :
    ∃ es, (FMU1.LoadFMUFcn T P s fcnName isOptional).2.trace =
      s.trace ++ Event.loadFunction s.fmustruct.Handle (FMU1.lookupName T s fcnName)
        (P.LOAD_FUNCTION s.fmustruct.Handle (FMU1.lookupName T s fcnName)) :: es := by
  cases h : P.LOAD_FUNCTION s.fmustruct.Handle (FMU1.lookupName T s fcnName)
  · cases isOptional
    · obtain ⟨e, he, -⟩ := FMU1_LoadFMUFcn_mandatory T P s fcnName h
      exact ⟨[e], by rw [he]⟩
    · rw [FMU1_LoadFMUFcn_optional T P s fcnName h]
      exact ⟨[], rfl⟩
  · rw [FMU1_LoadFMUFcn_resolved T P s fcnName isOptional h]
    exact ⟨[], rfl⟩

theorem FMU1_loadTable_first {W : Type} (T : Target) (P : FMU1.Loader W)
    (a : FMU1.TableLoad W) (l : List (FMU1.TableLoad W)) (s : FMU1.St W) :
    ∃ es, (FMU1.loadTable T P (a :: l) s).trace =
      s.trace ++ Event.loadFunction s.fmustruct.Handle (FMU1.lookupName T s a.fcnName)
        (P.LOAD_FUNCTION s.fmustruct.Handle (FMU1.lookupName T s a.fcnName)) :: es := by
  obtain ⟨es1, h1⟩ := FMU1_LoadFMUFcn_first T P s a.fcnName a.isOptional
  obtain ⟨es2, h2, -, -⟩ := FMU1_loadTable_trace T P l
    { (FMU1.LoadFMUFcn T P s a.fcnName a.isOptional).2 with
      fmustruct := a.store (FMU1.LoadFMUFcn T P s a.fcnName a.isOptional).1
        (FMU1.LoadFMUFcn T P s a.fcnName a.isOptional).2.fmustruct }
  refine ⟨es1 ++ es2, ?_⟩
  simp only [FMU1.loadTable]
  rw [h2]
  simp [h1]

/-- The first symbol that `FMU1_fmuInitialize` of the FMI-1 co-simulation driver looks up, when the
instance name passes the test of its length and the library is loaded: the content of the
buffer `fullFcnName` for the model identifier and `fmiGetTypesPlatform`. -/
theorem FMU1_fmuInitialize_first_lookup {W : Type} (T : Target) (P : FMU1.Loader W)
    (lib instanceName modelIdentifier fmuGUID fmuLocation : String) (ssPtr : Ptr)
    (loadGetRealOutputDerivativesFcn loadSetRealInputDerivativesFcn : Bool)
    (fmuCallBacks : Bool) (fmuVisible fmuLoggingOn : Bool)
    (fmu : W) (trace : List Event)
    (hlen : strlen instanceName + T.FCN_NAME_MAX_LEN + 1 < T.FULL_FCN_NAME_MAX_LEN)
    (hN : P.LOAD_LIBRARY lib ≠ NULL) :
    ∃ es, (FMU1.FMU1_fmuInitialize T P lib instanceName modelIdentifier fmuGUID fmuLocation
        ssPtr loadGetRealOutputDerivativesFcn loadSetRealInputDerivativesFcn fmuCallBacks
        fmuVisible fmuLoggingOn fmu trace).2.trace =
      trace ++ [Event.allocateMemory, Event.loadLibrary lib (P.LOAD_LIBRARY lib),
        Event.loadFunction (P.LOAD_LIBRARY lib)
          (fullFcnName T modelIdentifier "fmiGetTypesPlatform")
          (P.LOAD_FUNCTION (P.LOAD_LIBRARY lib)
            (fullFcnName T modelIdentifier "fmiGetTypesPlatform"))] ++ es := by
  have hlen' : ¬ (T.FULL_FCN_NAME_MAX_LEN ≤ strlen instanceName + T.FCN_NAME_MAX_LEN + 1) :=
    Nat.not_le.2 hlen
  obtain ⟨ha, -, hdll⟩ := FMU1_allocate_spec T lib instanceName modelIdentifier ssPtr fmu trace
  have hm0 := FMU1_allocate_modelIdentifier T lib instanceName modelIdentifier ssPtr fmu trace
  obtain ⟨hl, hH⟩ := FMU1_loadLibrary_spec P
    (FMU1.FMU1_fmuInitialize.allocate T lib instanceName modelIdentifier ssPtr fmu trace)
  have hm := FMU1_loadLibrary_modelIdentifier P
    (FMU1.FMU1_fmuInitialize.allocate T lib instanceName modelIdentifier ssPtr fmu trace)
  rw [hdll] at hl hH
  rw [ha] at hl
  rw [hm0] at hm
  obtain ⟨es1, h1⟩ : ∃ es, (FMU1.LoadFMU1CSFunctions T P (FMU1.FMU1_fmuInitialize.loadLibrary P
        (FMU1.FMU1_fmuInitialize.allocate T lib instanceName modelIdentifier ssPtr fmu trace))
        loadGetRealOutputDerivativesFcn loadSetRealInputDerivativesFcn).trace =
      (FMU1.FMU1_fmuInitialize.loadLibrary P
        (FMU1.FMU1_fmuInitialize.allocate T lib instanceName modelIdentifier ssPtr fmu
          trace)).trace ++
      Event.loadFunction (FMU1.FMU1_fmuInitialize.loadLibrary P
          (FMU1.FMU1_fmuInitialize.allocate T lib instanceName modelIdentifier ssPtr fmu
            trace)).fmustruct.Handle
        (FMU1.lookupName T (FMU1.FMU1_fmuInitialize.loadLibrary P
          (FMU1.FMU1_fmuInitialize.allocate T lib instanceName modelIdentifier ssPtr fmu
            trace)) "fmiGetTypesPlatform")
        (P.LOAD_FUNCTION (FMU1.FMU1_fmuInitialize.loadLibrary P
          (FMU1.FMU1_fmuInitialize.allocate T lib instanceName modelIdentifier ssPtr fmu
            trace)).fmustruct.Handle
          (FMU1.lookupName T (FMU1.FMU1_fmuInitialize.loadLibrary P
            (FMU1.FMU1_fmuInitialize.allocate T lib instanceName modelIdentifier ssPtr fmu
              trace)) "fmiGetTypesPlatform")) :: es :=
    FMU1_loadTable_first T P ⟨"fmiGetTypesPlatform", false, FMU1.notKept⟩ _ _
  have hname : FMU1.lookupName T (FMU1.FMU1_fmuInitialize.loadLibrary P
      (FMU1.FMU1_fmuInitialize.allocate T lib instanceName modelIdentifier ssPtr fmu
        trace)) "fmiGetTypesPlatform" = fullFcnName T modelIdentifier "fmiGetTypesPlatform" := by
    simp only [FMU1.lookupName, hm]
  rw [hname, hH, hl] at h1
  have hR : FMU1.FMU1_fmuInitialize T P lib instanceName modelIdentifier fmuGUID fmuLocation
      ssPtr loadGetRealOutputDerivativesFcn loadSetRealInputDerivativesFcn fmuCallBacks
      fmuVisible fmuLoggingOn fmu trace =
      FMU1.FMU1_fmuInitialize.instantiate T
        (FMU1.LoadFMU1CSFunctions T P (FMU1.FMU1_fmuInitialize.loadLibrary P
          (FMU1.FMU1_fmuInitialize.allocate T lib instanceName modelIdentifier ssPtr fmu trace))
          loadGetRealOutputDerivativesFcn loadSetRealInputDerivativesFcn)
        instanceName fmuGUID fmuLocation
        (if fmuCallBacks = false then false else fmuVisible)
        (if fmuCallBacks = false then false else fmuLoggingOn) := by
    simp only [FMU1.FMU1_fmuInitialize, ge_iff_le, hlen', if_false, hH, hN]
  obtain ⟨c, hc | hc⟩ := FMU1_instantiate_spec T
    (FMU1.LoadFMU1CSFunctions T P (FMU1.FMU1_fmuInitialize.loadLibrary P
      (FMU1.FMU1_fmuInitialize.allocate T lib instanceName modelIdentifier ssPtr fmu trace))
      loadGetRealOutputDerivativesFcn loadSetRealInputDerivativesFcn)
    instanceName fmuGUID fmuLocation
        (if fmuCallBacks = false then false else fmuVisible)
        (if fmuCallBacks = false then false else fmuLoggingOn)
  · obtain ⟨-, -, htrace⟩ := hc
    rw [← hR] at htrace
    rw [h1] at htrace
    exact ⟨es1 ++ [Event.fmuInstantiate .instantiateSlave instanceName c], by rw [htrace]; simp⟩
  · obtain ⟨-, -, -, d, rest, htrace, -⟩ := hc
    rw [← hR] at htrace
    rw [h1] at htrace
    exact ⟨es1 ++ [Event.fmuInstantiate .instantiateSlave instanceName NULL] ++ d :: rest,
      by rw [htrace]; simp⟩

theorem FMU1ME_allocate_modelIdentifier {W : Type} (T : Target)
    (lib instanceName modelIdentifier : String) (ssPtr : Ptr) (fmu : W) (trace : List Event) :
    (FMU1ME.FMU1_fmuInitialize.allocate T lib instanceName modelIdentifier ssPtr fmu
      trace).fmustruct.modelIdentifier = modelIdentifier := by
  cases hT : T.lt_STANDALONE_TARGETS <;> simp [FMU1ME.FMU1_fmuInitialize.allocate, hT]

theorem FMU1ME_loadLibrary_modelIdentifier {W : Type} (P : FMU1ME.Loader W) (s : FMU1ME.St W) :
    (FMU1ME.FMU1_fmuInitialize.loadLibrary P s).fmustruct.modelIdentifier =
      s.fmustruct.modelIdentifier := by
  simp [FMU1ME.FMU1_fmuInitialize.loadLibrary, Sys.emit]

theorem FMU1ME_LoadFMUFcn_first {W : Type} (T : Target) (P : FMU1ME.Loader W) (s : FMU1ME.St W)
    (fcnName : String) (isOptional : Bool) :
    ∃ es, (FMU1ME.LoadFMUFcn T P s fcnName isOptional).2.trace =
      s.trace ++ Event.loadFunction s.fmustruct.Handle (FMU1ME.lookupName T s fcnName)
        (P.LOAD_FUNCTION s.fmustruct.Handle (FMU1ME.lookupName T s fcnName)) :: es := by
  cases h : P.LOAD_FUNCTION s.fmustruct.Handle (FMU1ME.lookupName T s fcnName)
  · cases isOptional
    · obtain ⟨e, he, -⟩ := FMU1ME_LoadFMUFcn_mandatory T P s fcnName h
      exact ⟨[e], by rw [he]⟩
    · rw [FMU1ME_LoadFMUFcn_optional T P s fcnName h]
      exact ⟨[], rfl⟩
  · rw [FMU1ME_LoadFMUFcn_resolved T P s fcnName isOptional h]
    exact ⟨[], rfl⟩

theorem FMU1ME_loadTable_first {W : Type} (T : Target) (P : FMU1ME.Loader W)
    (a : FMU1ME.TableLoad W) (l : List (FMU1ME.TableLoad W)) (s : FMU1ME.St W) :
    ∃ es, (FMU1ME.loadTable T P (a :: l) s).trace =
      s.trace ++ Event.loadFunction s.fmustruct.Handle (FMU1ME.lookupName T s a.fcnName)
        (P.LOAD_FUNCTION s.fmustruct.Handle (FMU1ME.lookupName T s a.fcnName)) :: es := by
  obtain ⟨es1, h1⟩ := FMU1ME_LoadFMUFcn_first T P s a.fcnName a.isOptional
  obtain ⟨es2, h2, -, -⟩ := FMU1ME_loadTable_trace T P l
    { (FMU1ME.LoadFMUFcn T P s a.fcnName a.isOptional).2 with
      fmustruct := a.store (FMU1ME.LoadFMUFcn T P s a.fcnName a.isOptional).1
        (FMU1ME.LoadFMUFcn T P s a.fcnName a.isOptional).2.fmustruct }
  refine ⟨es1 ++ es2, ?_⟩
  simp only [FMU1ME.loadTable]
  rw [h2]
  simp [h1]

/-- The first symbol that `FMU1_fmuInitialize` of the FMI-1 model-exchange driver looks up, when the
instance name passes the test of its length and the library is loaded: the content of the
buffer `fullFcnName` for the model identifier and `fmiGetModelTypesPlatform`. -/
theorem FMU1ME_fmuInitialize_first_lookup {W : Type} (T : Target) (P : FMU1ME.Loader W)
    (lib instanceName modelIdentifier fmuGUID fmuLocation : String) (ssPtr : Ptr)
    (loadGetRealOutputDerivativesFcn loadSetRealInputDerivativesFcn : Bool)
    (fmuCallBacks : Bool) (fmuVisible fmuLoggingOn : Bool)
    (fmu : W) (trace : List Event)
    (hlen : strlen instanceName + T.FCN_NAME_MAX_LEN + 1 < T.FULL_FCN_NAME_MAX_LEN)
    (hN : P.LOAD_LIBRARY lib ≠ NULL) :
    ∃ es, (FMU1ME.FMU1_fmuInitialize T P lib instanceName modelIdentifier fmuGUID fmuLocation
        ssPtr loadGetRealOutputDerivativesFcn loadSetRealInputDerivativesFcn fmuCallBacks
        fmuVisible fmuLoggingOn fmu trace).2.trace =
      trace ++ [Event.allocateMemory, Event.loadLibrary lib (P.LOAD_LIBRARY lib),
        Event.loadFunction (P.LOAD_LIBRARY lib)
          (fullFcnName T modelIdentifier "fmiGetModelTypesPlatform")
          (P.LOAD_FUNCTION (P.LOAD_LIBRARY lib)
            (fullFcnName T modelIdentifier "fmiGetModelTypesPlatform"))] ++ es := by
  have hlen' : ¬ (T.FULL_FCN_NAME_MAX_LEN ≤ strlen instanceName + T.FCN_NAME_MAX_LEN + 1) :=
    Nat.not_le.2 hlen
  obtain ⟨ha, -, hdll⟩ := FMU1ME_allocate_spec T lib instanceName modelIdentifier ssPtr fmu trace
  have hm0 := FMU1ME_allocate_modelIdentifier T lib instanceName modelIdentifier ssPtr fmu trace
  obtain ⟨hl, hH⟩ := FMU1ME_loadLibrary_spec P
    (FMU1ME.FMU1_fmuInitialize.allocate T lib instanceName modelIdentifier ssPtr fmu trace)
  have hm := FMU1ME_loadLibrary_modelIdentifier P
    (FMU1ME.FMU1_fmuInitialize.allocate T lib instanceName modelIdentifier ssPtr fmu trace)
  rw [hdll] at hl hH
  rw [ha] at hl
  rw [hm0] at hm
  obtain ⟨es1, h1⟩ : ∃ es, (FMU1ME.LoadFMU1MEFunctions T P (FMU1ME.FMU1_fmuInitialize.loadLibrary P
        (FMU1ME.FMU1_fmuInitialize.allocate T lib instanceName modelIdentifier ssPtr fmu trace))
        loadGetRealOutputDerivativesFcn loadSetRealInputDerivativesFcn).trace =
      (FMU1ME.FMU1_fmuInitialize.loadLibrary P
        (FMU1ME.FMU1_fmuInitialize.allocate T lib instanceName modelIdentifier ssPtr fmu
          trace)).trace ++
      Event.loadFunction (FMU1ME.FMU1_fmuInitialize.loadLibrary P
          (FMU1ME.FMU1_fmuInitialize.allocate T lib instanceName modelIdentifier ssPtr fmu
            trace)).fmustruct.Handle
        (FMU1ME.lookupName T (FMU1ME.FMU1_fmuInitialize.loadLibrary P
          (FMU1ME.FMU1_fmuInitialize.allocate T lib instanceName modelIdentifier ssPtr fmu
            trace)) "fmiGetModelTypesPlatform")
        (P.LOAD_FUNCTION (FMU1ME.FMU1_fmuInitialize.loadLibrary P
          (FMU1ME.FMU1_fmuInitialize.allocate T lib instanceName modelIdentifier ssPtr fmu
            trace)).fmustruct.Handle
          (FMU1ME.lookupName T (FMU1ME.FMU1_fmuInitialize.loadLibrary P
            (FMU1ME.FMU1_fmuInitialize.allocate T lib instanceName modelIdentifier ssPtr fmu
              trace)) "fmiGetModelTypesPlatform")) :: es :=
    FMU1ME_loadTable_first T P ⟨"fmiGetModelTypesPlatform", false, FMU1ME.notKept⟩ _ _
  have hname : FMU1ME.lookupName T (FMU1ME.FMU1_fmuInitialize.loadLibrary P
      (FMU1ME.FMU1_fmuInitialize.allocate T lib instanceName modelIdentifier ssPtr fmu
        trace)) "fmiGetModelTypesPlatform" = fullFcnName T modelIdentifier "fmiGetModelTypesPlatform" := by
    simp only [FMU1ME.lookupName, hm]
  rw [hname, hH, hl] at h1
  have hR : FMU1ME.FMU1_fmuInitialize T P lib instanceName modelIdentifier fmuGUID fmuLocation
      ssPtr loadGetRealOutputDerivativesFcn loadSetRealInputDerivativesFcn fmuCallBacks
      fmuVisible fmuLoggingOn fmu trace =
      FMU1ME.FMU1_fmuInitialize.instantiate T
        (FMU1ME.LoadFMU1MEFunctions T P (FMU1ME.FMU1_fmuInitialize.loadLibrary P
          (FMU1ME.FMU1_fmuInitialize.allocate T lib instanceName modelIdentifier ssPtr fmu trace))
          loadGetRealOutputDerivativesFcn loadSetRealInputDerivativesFcn)
        instanceName fmuGUID
        (if fmuCallBacks = false then false else fmuLoggingOn) := by
    simp only [FMU1ME.FMU1_fmuInitialize, ge_iff_le, hlen', if_false, hH, hN]
  obtain ⟨c, hc | hc⟩ := FMU1ME_instantiate_spec T
    (FMU1ME.LoadFMU1MEFunctions T P (FMU1ME.FMU1_fmuInitialize.loadLibrary P
      (FMU1ME.FMU1_fmuInitialize.allocate T lib instanceName modelIdentifier ssPtr fmu trace))
      loadGetRealOutputDerivativesFcn loadSetRealInputDerivativesFcn)
    instanceName fmuGUID
        (if fmuCallBacks = false then false else fmuLoggingOn)
  · obtain ⟨-, -, htrace⟩ := hc
    rw [← hR] at htrace
    rw [h1] at htrace
    exact ⟨es1 ++ [Event.fmuInstantiate .instantiateModel instanceName c], by rw [htrace]; simp⟩
  · obtain ⟨-, -, -, d, rest, htrace, -⟩ := hc
    rw [← hR] at htrace
    rw [h1] at htrace
    exact ⟨es1 ++ [Event.fmuInstantiate .instantiateModel instanceName NULL] ++ d :: rest,
      by rw [htrace]; simp⟩

/-! ## The symbol that is looked up in the library -/

/-- C25: The symbol that `LoadFMUFcn` looks up.  In the FMI-2 driver, on `_WIN32` and on
every target that is not Speedgoat (`FMU_CG_TARGET != FMUCG_SLRT`), it is the standard name `f`
itself.  In both FMI-1 drivers it is the content of the buffer `fullFcnName`, which is `m`
followed by `"_"` followed by `f` whenever that string fits the buffer
(`strlen m + 1 + strlen f < FULL_FCN_NAME_MAX_LEN`).  But the test of the name length of
`FMU1_fmuInitialize` reads the instance name, not the model identifier `m`: for every model
identifier with `FULL_FCN_NAME_MAX_LEN ≤ strlen m + 1 + strlen f`, where `f` is the first name
of the table, an initialization whose instance name passes the test and whose library is
loaded looks up, right after the library is loaded, a symbol that is shorter than, and so
different from, `m` followed by `"_"` followed by `f`. -/
theorem fmuInitialize_symbol_looked_up :
    (∀ (W : Type) (T : Target) (s : FMU2.St W) (f : String),
      T.WIN32 = true ∨ T.eq_SLRT = false → FMU2.lookupName T s f = f) ∧
    (∀ (W : Type) (T : Target) (s : FMU1.St W) (f : String),
      strlen s.fmustruct.modelIdentifier + 1 + strlen f < T.FULL_FCN_NAME_MAX_LEN →
      FMU1.lookupName T s f = s.fmustruct.modelIdentifier ++ "_" ++ f) ∧
    (∀ (W : Type) (T : Target) (s : FMU1ME.St W) (f : String),
      strlen s.fmustruct.modelIdentifier + 1 + strlen f < T.FULL_FCN_NAME_MAX_LEN →
      FMU1ME.lookupName T s f = s.fmustruct.modelIdentifier ++ "_" ++ f) ∧
    (∀ (W : Type) (T : Target) (P : FMU1.Loader W)
      (lib instanceName m fmuGUID fmuLocation : String) (ssPtr : Ptr)
      (loadGetRealOutputDerivativesFcn loadSetRealInputDerivativesFcn : Bool)
      (fmuCallBacks : Bool) (fmuVisible fmuLoggingOn : Bool) (fmu : W) (trace : List Event),
      strlen instanceName + T.FCN_NAME_MAX_LEN + 1 < T.FULL_FCN_NAME_MAX_LEN →
      P.LOAD_LIBRARY lib ≠ NULL →
      T.FULL_FCN_NAME_MAX_LEN ≤ strlen m + 1 + strlen "fmiGetTypesPlatform" →
      ∃ name es,
        (FMU1.FMU1_fmuInitializeCS T P lib instanceName m fmuGUID fmuLocation ssPtr
          loadGetRealOutputDerivativesFcn loadSetRealInputDerivativesFcn fmuCallBacks
          fmuVisible fmuLoggingOn fmu trace).2.trace =
          trace ++ [Event.allocateMemory, Event.loadLibrary lib (P.LOAD_LIBRARY lib),
            Event.loadFunction (P.LOAD_LIBRARY lib) name
              (P.LOAD_FUNCTION (P.LOAD_LIBRARY lib) name)] ++ es ∧
        strlen name < strlen (m ++ "_" ++ "fmiGetTypesPlatform") ∧
        name ≠ m ++ "_" ++ "fmiGetTypesPlatform") ∧
    (∀ (W : Type) (T : Target) (P : FMU1ME.Loader W)
      (lib instanceName m fmuGUID fmuLocation : String) (ssPtr : Ptr)
      (loadGetRealOutputDerivativesFcn loadSetRealInputDerivativesFcn : Bool)
      (fmuCallBacks : Bool) (fmuVisible fmuLoggingOn : Bool) (fmu : W) (trace : List Event),
      strlen instanceName + T.FCN_NAME_MAX_LEN + 1 < T.FULL_FCN_NAME_MAX_LEN →
      P.LOAD_LIBRARY lib ≠ NULL →
      T.FULL_FCN_NAME_MAX_LEN ≤ strlen m + 1 + strlen "fmiGetModelTypesPlatform" →
      ∃ name es,
        (FMU1ME.FMU1_fmuInitializeME T P lib instanceName m fmuGUID fmuLocation ssPtr
          loadGetRealOutputDerivativesFcn loadSetRealInputDerivativesFcn fmuCallBacks
          fmuVisible fmuLoggingOn fmu trace).2.trace =
          trace ++ [Event.allocateMemory, Event.loadLibrary lib (P.LOAD_LIBRARY lib),
            Event.loadFunction (P.LOAD_LIBRARY lib) name
              (P.LOAD_FUNCTION (P.LOAD_LIBRARY lib) name)] ++ es ∧
        strlen name < strlen (m ++ "_" ++ "fmiGetModelTypesPlatform") ∧
        name ≠ m ++ "_" ++ "fmiGetModelTypesPlatform") := by
  refine ⟨?_, ?_, ?_, ?_, ?_⟩
  · intro W T s f h
    rcases h with h | h
    · simp [FMU2.lookupName, h]
    · simp [FMU2.lookupName, h]
  · intro W T s f h
    exact fullFcnName_exact T _ f h
  · intro W T s f h
    exact fullFcnName_exact T _ f h
  · intro W T P lib instanceName m fmuGUID fmuLocation ssPtr f1 f2 cb vis log fmu trace hlen hN hm
    obtain ⟨es, hes⟩ := FMU1_fmuInitialize_first_lookup T P lib instanceName m fmuGUID
      fmuLocation ssPtr f1 f2 cb vis log fmu trace hlen hN
    obtain ⟨h1, h2⟩ := fullFcnName_truncated T m "fmiGetTypesPlatform" hm
    exact ⟨_, es, hes, h1, h2⟩
  · intro W T P lib instanceName m fmuGUID fmuLocation ssPtr f1 f2 cb vis log fmu trace hlen hN hm
    obtain ⟨es, hes⟩ := FMU1ME_fmuInitialize_first_lookup T P lib instanceName m fmuGUID
      fmuLocation ssPtr f1 f2 cb vis log fmu trace hlen hN
    obtain ⟨h1, h2⟩ := fullFcnName_truncated T m "fmiGetModelTypesPlatform" hm
    exact ⟨_, es, hes, h1, h2⟩

/-- C25 (witness): the three lookups that are not truncated, and the initialization of both
FMI-1 drivers for the instance name `inst` and a model identifier of 250 characters, with a
buffer of 256 bytes. -/
theorem fmuInitialize_symbol_looked_up_witness :
    FMU2.lookupName Target.host (⟨FMU2.mockScripted, [], []⟩ : FMU2.St (List fmiStatus))
        "fmi2DoStep" = "fmi2DoStep" ∧
    FMU1.lookupName Target.host
        (⟨{ FMU1.mockScripted with modelIdentifier := "model" }, [], []⟩ :
          FMU1.St (List fmiStatus)) "fmiDoStep" = "model" ++ "_" ++ "fmiDoStep" ∧
    FMU1ME.lookupName Target.host
        (⟨{ FMU1ME.mockScripted with modelIdentifier := "model" }, [], []⟩ :
          FMU1ME.St (List fmiStatus)) "fmiSetTime" = "model" ++ "_" ++ "fmiSetTime" ∧
    (∃ name es,
        (FMU1.FMU1_fmuInitializeCS Target.standalone (FMU1.mockLoader 7 []) "fmu.so" "inst"
          ⟨List.replicate 250 (Char.ofNat 109)⟩ "guid" "loc" 0 false false false false false
          [] []).2.trace =
          [] ++ [Event.allocateMemory,
            Event.loadLibrary "fmu.so" ((FMU1.mockLoader 7 []).LOAD_LIBRARY "fmu.so"),
            Event.loadFunction ((FMU1.mockLoader 7 []).LOAD_LIBRARY "fmu.so") name
              ((FMU1.mockLoader 7 []).LOAD_FUNCTION
                ((FMU1.mockLoader 7 []).LOAD_LIBRARY "fmu.so") name)] ++ es ∧
        strlen name <
          strlen ((⟨List.replicate 250 (Char.ofNat 109)⟩ : String) ++ "_" ++
            "fmiGetTypesPlatform") ∧
        name ≠ (⟨List.replicate 250 (Char.ofNat 109)⟩ : String) ++ "_" ++
          "fmiGetTypesPlatform") ∧
    (∃ name es,
        (FMU1ME.FMU1_fmuInitializeME Target.standalone (FMU1ME.mockLoader 7 []) "fmu.so" "inst"
          ⟨List.replicate 250 (Char.ofNat 109)⟩ "guid" "loc" 0 false false false false false
          [] []).2.trace =
          [] ++ [Event.allocateMemory,
            Event.loadLibrary "fmu.so" ((FMU1ME.mockLoader 7 []).LOAD_LIBRARY "fmu.so"),
            Event.loadFunction ((FMU1ME.mockLoader 7 []).LOAD_LIBRARY "fmu.so") name
              ((FMU1ME.mockLoader 7 []).LOAD_FUNCTION
                ((FMU1ME.mockLoader 7 []).LOAD_LIBRARY "fmu.so") name)] ++ es ∧
        strlen name <
          strlen ((⟨List.replicate 250 (Char.ofNat 109)⟩ : String) ++ "_" ++
            "fmiGetModelTypesPlatform") ∧
        name ≠ (⟨List.replicate 250 (Char.ofNat 109)⟩ : String) ++ "_" ++
          "fmiGetModelTypesPlatform") :=
  ⟨fmuInitialize_symbol_looked_up.1 _ Target.host _ "fmi2DoStep" (Or.inr rfl),
   fmuInitialize_symbol_looked_up.2.1 _ Target.host _ "fmiDoStep" (by decide),
   fmuInitialize_symbol_looked_up.2.2.1 _ Target.host _ "fmiSetTime" (by decide),
   fmuInitialize_symbol_looked_up.2.2.2.1 _ Target.standalone (FMU1.mockLoader 7 []) "fmu.so"
     "inst" ⟨List.replicate 250 (Char.ofNat 109)⟩ "guid" "loc" 0 false false false false false
     [] [] (by decide) (by decide)
     (by simp only [strlen, List.length_replicate, Target.standalone]; decide),
   fmuInitialize_symbol_looked_up.2.2.2.2 _ Target.standalone (FMU1ME.mockLoader 7 []) "fmu.so"
     "inst" ⟨List.replicate 250 (Char.ofNat 109)⟩ "guid" "loc" 0 false false false false false
     [] [] (by decide) (by decide)
     (by simp only [strlen, List.length_replicate, Target.standalone]; decide)⟩

/-! ## The diagnostic of `FMU2_eventIteration` at the iteration cap (C26) -/

/-- C26: when the loop of `FMU2_eventIteration` stops because the iteration cap is reached, it
returns false and the diagnostic it emits is that of `capReport`.  In a standalone build this
is a logger call whose message is the very message of the stop notice of `FMU2_simTerminate`
for the same block path and time (same format, "'TerminateSimulation' flag was set to true
...", same arguments); only the category differs.  In a host build it is an info report whose
identifier is `FMUBlock:FMU:FMUSimEventUpdateTerminated`, the identifier of the stop notice of
the FMI 1.0 driver.  The diagnostic of `FMU1_eventIteration` at the cap is the non-convergence
one (`FMUSimEventUpdateNotConverge`). -/
theorem eventIteration_cap_diagnostic_FMI2 :
    (∀ (W : Type) (T : Target) (blkPath : String) (time : fmiReal) (fuel iterationNumber : Nat)
        (returnStatus : Bool) (s : FMU2.St W),
      iterationNumber ≥ 10000 → s.fmustruct.eventInfo.newDiscreteStatesNeeded = true →
      FMU2.FMU2_eventIteration.loop T blkPath time (fuel + 1) iterationNumber returnStatus s =
        some (false, FMU2.FMU2_eventIteration.capReport T blkPath time iterationNumber
          (FMU2.FMU2_eventIteration.body T blkPath time s).2)) ∧
    (∀ (W : Type) (T : Target) (blkPath : String) (time : fmiReal) (iterationNumber : Nat)
        (s : FMU2.St W),
      T.lt_STANDALONE_TARGETS = false →
      ∃ message : Message,
        message.format =
          "'TerminateSimulation' flag was set to true by FMU '%s' during event iteration. Simulation will stop after the current time step at '%f'." ∧
        (FMU2.FMU2_eventIteration.capReport T blkPath time iterationNumber s).trace =
          s.trace ++ [Event.logger s.fmustruct.callbacks.componentEnvironment
            s.fmustruct.fmuname s.fmustruct.FMUErrorStatus "FMU2_eventIteration" message] ∧
        (FMU2.FMU2_simTerminate T s blkPath time).trace =
          s.trace ++ [Event.logger s.fmustruct.callbacks.componentEnvironment
            s.fmustruct.fmuname s.fmustruct.FMUErrorStatus "FMU2_simTerminate" message]) ∧
    (∀ (W : Type) (T : Target) (blkPath : String) (time : fmiReal) (iterationNumber : Nat)
        (s : FMU2.St W),
      T.lt_STANDALONE_TARGETS = true →
      ∃ e, (FMU2.FMU2_eventIteration.capReport T blkPath time iterationNumber s).trace =
          s.trace ++ [e] ∧
        e = Event.rt_ssReportDiagnosticAsInfo s.fmustruct.ssPtr
          (CreateDiagnosticAsVoidPtr "FMUBlock:FMU:FMUSimEventUpdateTerminated"
            [.real time, .int iterationNumber]) ∧
        FMU1ME.isStopNotice e = true) ∧
    (∀ (W : Type) (T : Target) (blkPath : String) (time : fmiReal) (iterationNumber : Nat)
        (s : FMU1ME.St W),
      (FMU1ME.FMU1_eventIteration.capReport T blkPath time iterationNumber s).trace =
        s.trace ++
          [if T.lt_STANDALONE_TARGETS then
             Event.rt_ssReportDiagnosticAsWarning s.fmustruct.ssPtr
               (CreateDiagnosticAsVoidPtr "FMUBlock:FMU:FMUSimEventUpdateNotConverge"
                 [.real time, .int iterationNumber, .str blkPath])
           else
             Event.logger s.fmustruct.mFMIComp s.fmustruct.fmuname s.fmustruct.FMUErrorStatus
               "FMU1_eventIteration" (formatString "FMUSimEventUpdateNotConverge." [])]) := by
  refine ⟨?_, ?_, ?_, ?_⟩
  · intro W T blkPath time fuel n rs s hn hneed
    rw [FMU2.FMU2_eventIteration.loop]
    simp [hneed, hn]
  · intro W T blkPath time n s hT
    refine ⟨formatString
      "'TerminateSimulation' flag was set to true by FMU '%s' during event iteration. Simulation will stop after the current time step at '%f'."
      [.str blkPath, .real time], rfl, ?_, ?_⟩
    · simp [FMU2.FMU2_eventIteration.capReport, hT, Sys.emit]
    · simp [FMU2.FMU2_simTerminate, hT, Sys.emit]
  · intro W T blkPath time n s hT
    refine ⟨_, ?_, rfl, rfl⟩
    simp [FMU2.FMU2_eventIteration.capReport, hT, Sys.emit]
  · intro W T blkPath time n s
    cases hT : T.lt_STANDALONE_TARGETS <;>
      simp [FMU1ME.FMU1_eventIteration.capReport, hT, Sys.emit]

/-- C26 (witness): the loop of `FMU2_eventIteration` at the cap, in a standalone build, against
the FMU that never stops asking for another update; and the report at the cap in a standalone
and in a host build. -/
theorem eventIteration_cap_diagnostic_FMI2_witness :
    ((10000 ≥ 10000 ∧
      ({ FMU2.mockNeverConverges with
          eventInfo := { FMU2.mockNeverConverges.eventInfo with
            newDiscreteStatesNeeded := true } } :
        FMU2.FMU2_CSME_RTWCG Nat).eventInfo.newDiscreteStatesNeeded = true) ∧
    FMU2.FMU2_eventIteration.loop Target.standalone "blk" 0 (0 + 1) 10000 true
        ⟨{ FMU2.mockNeverConverges with
            eventInfo := { FMU2.mockNeverConverges.eventInfo with
              newDiscreteStatesNeeded := true } }, 0, []⟩ =
      some (false, FMU2.FMU2_eventIteration.capReport Target.standalone "blk" 0 10000
        (FMU2.FMU2_eventIteration.body Target.standalone "blk" 0
          ⟨{ FMU2.mockNeverConverges with
              eventInfo := { FMU2.mockNeverConverges.eventInfo with
                newDiscreteStatesNeeded := true } }, 0, []⟩).2)) ∧
    (Target.standalone.lt_STANDALONE_TARGETS = false ∧
      ∃ message : Message,
        message.format =
          "'TerminateSimulation' flag was set to true by FMU '%s' during event iteration. Simulation will stop after the current time step at '%f'." ∧
        (FMU2.FMU2_eventIteration.capReport Target.standalone "blk" 0 10000
            (⟨FMU2.mockNeverConverges, 0, []⟩ : FMU2.St Nat)).trace =
          [] ++ [Event.logger FMU2.mockNeverConverges.callbacks.componentEnvironment
            FMU2.mockNeverConverges.fmuname FMU2.mockNeverConverges.FMUErrorStatus
            "FMU2_eventIteration" message] ∧
        (FMU2.FMU2_simTerminate Target.standalone
            (⟨FMU2.mockNeverConverges, 0, []⟩ : FMU2.St Nat) "blk" 0).trace =
          [] ++ [Event.logger FMU2.mockNeverConverges.callbacks.componentEnvironment
            FMU2.mockNeverConverges.fmuname FMU2.mockNeverConverges.FMUErrorStatus
            "FMU2_simTerminate" message]) ∧
    (Target.host.lt_STANDALONE_TARGETS = true ∧
      ∃ e, (FMU2.FMU2_eventIteration.capReport Target.host "blk" 0 10000
            (⟨FMU2.mockNeverConverges, 0, []⟩ : FMU2.St Nat)).trace = [] ++ [e] ∧
        e = Event.rt_ssReportDiagnosticAsInfo FMU2.mockNeverConverges.ssPtr
          (CreateDiagnosticAsVoidPtr "FMUBlock:FMU:FMUSimEventUpdateTerminated"
            [.real 0, .int 10000]) ∧
        FMU1ME.isStopNotice e = true) :=
  ⟨⟨⟨by decide, rfl⟩,
    eventIteration_cap_diagnostic_FMI2.1 Nat Target.standalone "blk" 0 0 10000 true
      ⟨{ FMU2.mockNeverConverges with
          eventInfo := { FMU2.mockNeverConverges.eventInfo with
            newDiscreteStatesNeeded := true } }, 0, []⟩ (by decide) rfl⟩,
   ⟨rfl, eventIteration_cap_diagnostic_FMI2.2.1 Nat Target.standalone "blk" 0 10000
      ⟨FMU2.mockNeverConverges, 0, []⟩ rfl⟩,
   ⟨rfl, eventIteration_cap_diagnostic_FMI2.2.2.1 Nat Target.host "blk" 0 10000
      ⟨FMU2.mockNeverConverges, 0, []⟩ rfl⟩⟩

/-! ## The decision table of terminate (C27) -/

/-- C27: on a non-null handle, `FMU2_terminate` and `FMU1_terminateSlave` call the FMU's
terminate function if and only if the error status at entry is neither Error nor Fatal and
`modelInitialized` is true; they call the FMU's free-instance function if and only if the
error status at entry is not Fatal, after terminate when both are called; these are all the
calls of the FMU; and the result is the translation of the status of terminate (true iff OK)
when terminate was called, and true otherwise.  The actions of the call are the events of the
trace after the first `trace.length` ones. -/
theorem terminate_decision_table :
    (∀ (W : Type) (T : Target) (h : FMU2.FMU2_CSME_RTWCG W) (fmu : W) (trace : List Event),
      ((FMU2.FMU2_terminate T ⟨some h, fmu, trace⟩).2.trace.drop trace.length).filter
          Event.isFmuCall =
        (if h.FMUErrorStatus ≠ fmiError ∧ h.FMUErrorStatus ≠ fmiFatal ∧
            h.modelInitialized = true
         then [Event.fmuCall .terminate h.mFMIComp (some (h.terminate h.mFMIComp fmu).1)]
         else []) ++
        (if h.FMUErrorStatus ≠ fmiFatal then [Event.fmuCall .freeInstance h.mFMIComp none]
         else []) ∧
      (FMU2.FMU2_terminate T ⟨some h, fmu, trace⟩).1 =
        (if h.FMUErrorStatus ≠ fmiError ∧ h.FMUErrorStatus ≠ fmiFatal ∧
            h.modelInitialized = true
         then decide ((h.terminate h.mFMIComp fmu).1 = fmiOK) else true)) ∧
    (∀ (W : Type) (T : Target) (h : FMU1.FMU1_CS_RTWCG W) (fmu : W) (trace : List Event),
      ((FMU1.FMU1_terminateSlave T ⟨some h, fmu, trace⟩).2.trace.drop trace.length).filter
          Event.isFmuCall =
        (if h.FMUErrorStatus ≠ fmiError ∧ h.FMUErrorStatus ≠ fmiFatal ∧
            h.modelInitialized = true
         then [Event.fmuCall .terminateSlave h.mFMIComp
           (some (h.terminateSlave h.mFMIComp fmu).1)]
         else []) ++
        (if h.FMUErrorStatus ≠ fmiFatal then [Event.fmuCall .freeSlaveInstance h.mFMIComp none]
         else []) ∧
      (FMU1.FMU1_terminateSlave T ⟨some h, fmu, trace⟩).1 =
        (if h.FMUErrorStatus ≠ fmiError ∧ h.FMUErrorStatus ≠ fmiFatal ∧
            h.modelInitialized = true
         then decide ((h.terminateSlave h.mFMIComp fmu).1 = fmiOK) else true)) := by
  refine ⟨?_, ?_⟩
  · intro W T h fmu trace
    rcases ht : h.terminate h.mFMIComp fmu with ⟨st, w⟩
    by_cases hH : h.Handle = NULL <;> cases hE : h.FMUErrorStatus <;>
      cases hM : h.modelInitialized <;> cases hT : T.lt_STANDALONE_TARGETS <;> cases st <;>
      simp [FMU2.FMU2_terminate, hH, hE, hM, hT, ht, FMU2.CheckStatus, Sys.emit,
        Event.isFmuCall, List.filter_cons]
  · intro W T h fmu trace
    rcases ht : h.terminateSlave h.mFMIComp fmu with ⟨st, w⟩
    cases hE : h.FMUErrorStatus <;>
      cases hM : h.modelInitialized <;> cases hT : T.lt_STANDALONE_TARGETS <;> cases st <;>
      simp [FMU1.FMU1_terminateSlave, hE, hM, hT, ht, FMU1.CheckStatus, Sys.emit,
        Event.isFmuCall, List.filter_cons]

/-! ## Auxiliary facts: bounds on the calls of the event-iteration loops -/

theorem FMU2_loop_calls_bound {W : Type} (T : Target) (blkPath : String) (time : fmiReal) :
    ∀ (fuel iterationNumber : Nat) (returnStatus : Bool) (s : FMU2.St W) (r : Bool × FMU2.St W),
      iterationNumber ≤ 10000 →
      FMU2.FMU2_eventIteration.loop T blkPath time fuel iterationNumber returnStatus s = some r →
      r.2.trace.countP (Event.isCallOf .newDiscreteStates) + iterationNumber ≤
        s.trace.countP (Event.isCallOf .newDiscreteStates) + 10001 := by
  intro fuel
  induction fuel with
  | zero =>
    intro n rs s r _ h
    simp [FMU2.FMU2_eventIteration.loop] at h
  | succ fuel ih =>
    intro n rs s r hn h
    rw [FMU2.FMU2_eventIteration.loop] at h
    have hb := FMU2_body_calls T blkPath time s
    by_cases hneed : s.fmustruct.eventInfo.newDiscreteStatesNeeded = true
    · by_cases hcap : n ≥ 10000
      · obtain ⟨e, hcapr, he, -⟩ := FMU2_capReport_spec T blkPath time n
          (FMU2.FMU2_eventIteration.body T blkPath time s).2
        simp only [hneed, hcap, if_true] at h
        have hr := (Option.some.inj h).symm
        subst hr
        simp only [hcapr, List.countP_append, List.countP_cons, List.countP_nil,
          Event.isCallOf_eq_false_of_isFmuCall_eq_false _ e he]
        simp
        omega
      · simp only [hneed, hcap, if_true, if_false] at h
        have := ih (n + 1) _ _ r (by omega) h
        omega
    · simp only [hneed] at h
      have hr := (Option.some.inj h).symm
      subst hr
      simp
      omega

theorem FMU1ME_loop_calls_bound {W : Type} (T : Target) (blkPath : String) (time : fmiReal) :
    ∀ (fuel iterationNumber : Nat) (returnStatus : Bool) (s : FMU1ME.St W)
      (r : Bool × FMU1ME.St W),
      iterationNumber ≤ 10000 →
      FMU1ME.FMU1_eventIteration.loop T blkPath time fuel iterationNumber returnStatus s
        = some r →
      r.2.trace.countP (Event.isCallOf .eventUpdate) + iterationNumber ≤
        s.trace.countP (Event.isCallOf .eventUpdate) + 10001 := by
  intro fuel
  induction fuel with
  | zero =>
    intro n rs s r _ h
    simp [FMU1ME.FMU1_eventIteration.loop] at h
  | succ fuel ih =>
    intro n rs s r hn h
    rw [FMU1ME.FMU1_eventIteration.loop] at h
    have hb := FMU1ME_body_calls T blkPath time s
    by_cases hneed : s.fmustruct.eventInfo.iterationConverged = false
    · by_cases hcap : n ≥ 10000
      · obtain ⟨e, hcapr, he, -⟩ := FMU1ME_capReport_spec T blkPath time n
          (FMU1ME.FMU1_eventIteration.body T blkPath time s).2
        simp only [hneed, hcap, if_true] at h
        have hr := (Option.some.inj h).symm
        subst hr
        simp only [hcapr, List.countP_append, List.countP_cons, List.countP_nil,
          Event.isCallOf_eq_false_of_isFmuCall_eq_false _ e he]
        simp
        omega
      · simp only [hneed, hcap, if_true, if_false] at h
        have := ih (n + 1) _ _ r (by omega) h
        omega
    · simp only [hneed] at h
      have hr := (Option.some.inj h).symm
      subst hr
      simp
      omega

/-- A discrete-state function that never clears `newDiscreteStatesNeeded`, whatever status it
returns, is called 10001 times by the loop of `FMU2_eventIteration` started with
`iterationNumber = 0`. -/
theorem FMU2_loop_never_stops {W : Type} (T : Target) (blkPath : String) (time : fmiReal) :
    ∀ (fuel iterationNumber : Nat) (returnStatus : Bool) (s : FMU2.St W),
      (∀ c ei w, ei.newDiscreteStatesNeeded = true →
        (s.fmustruct.newDiscreteStates c ei w).2.1.newDiscreteStatesNeeded = true) →
      s.fmustruct.eventInfo.newDiscreteStatesNeeded = true →
      iterationNumber ≤ 10000 → 10001 ≤ iterationNumber + fuel →
      ∃ s', FMU2.FMU2_eventIteration.loop T blkPath time fuel iterationNumber returnStatus s
          = some (false, s') ∧
        s'.trace.countP (Event.isCallOf .newDiscreteStates) =
          s.trace.countP (Event.isCallOf .newDiscreteStates) + (10001 - iterationNumber) := by
  intro fuel
  induction fuel with
  | zero => intro n rs s _ _ h1 h2; omega
  | succ fuel ih =>
    intro n rs s hf hneed hn hfuel
    obtain ⟨es, hbody, hes⟩ := FMU2_body_spec T blkPath time s
    have hcount := countP_isCallOf_eq_zero .newDiscreteStates es hes
    rw [FMU2.FMU2_eventIteration.loop]
    by_cases hcap : n ≥ 10000
    · obtain ⟨e, hcapr, he, -⟩ := FMU2_capReport_spec T blkPath time n
        (FMU2.FMU2_eventIteration.body T blkPath time s).2
      refine ⟨_, by simp only [hneed, hcap, if_true]; rfl, ?_⟩
      rw [hcapr, hbody]
      have hn' : n = 10000 := by omega
      subst hn'
      simp [List.countP_append, List.countP_cons, hcount, Event.isCallOf_fmuCall_self,
        Event.isCallOf_eq_false_of_isFmuCall_eq_false _ e he]
    · simp only [hneed, hcap, if_true, if_false]
      obtain ⟨s', hs', hc'⟩ := ih (n + 1) (FMU2.FMU2_eventIteration.body T blkPath time s).1
        (FMU2.FMU2_eventIteration.body T blkPath time s).2
        (by rw [hbody]; exact hf) (by rw [hbody]; exact hf _ _ _ hneed) (by omega) (by omega)
      refine ⟨s', hs', ?_⟩
      rw [hc', hbody]
      simp [List.countP_append, List.countP_cons, hcount, Event.isCallOf_fmuCall_self]
      omega

/-- An `eventUpdate` that never sets `iterationConverged`, whatever status it returns, is
called 10001 times by the loop of `FMU1_eventIteration` started with `iterationNumber = 0`. -/
theorem FMU1ME_loop_never_stops {W : Type} (T : Target) (blkPath : String) (time : fmiReal) :
    ∀ (fuel iterationNumber : Nat) (returnStatus : Bool) (s : FMU1ME.St W),
      (∀ c b ei w, ei.iterationConverged = false →
        (s.fmustruct.eventUpdate c b ei w).2.1.iterationConverged = false) →
      s.fmustruct.eventInfo.iterationConverged = false →
      iterationNumber ≤ 10000 → 10001 ≤ iterationNumber + fuel →
      ∃ s', FMU1ME.FMU1_eventIteration.loop T blkPath time fuel iterationNumber returnStatus s
          = some (false, s') ∧
        s'.trace.countP (Event.isCallOf .eventUpdate) =
          s.trace.countP (Event.isCallOf .eventUpdate) + (10001 - iterationNumber) := by
  intro fuel
  induction fuel with
  | zero => intro n rs s _ _ h1 h2; omega
  | succ fuel ih =>
    intro n rs s hf hneed hn hfuel
    obtain ⟨es, hbody, hes⟩ := FMU1ME_body_spec T blkPath time s
    have hcount := countP_isCallOf_eq_zero .eventUpdate es hes
    rw [FMU1ME.FMU1_eventIteration.loop]
    by_cases hcap : n ≥ 10000
    · obtain ⟨e, hcapr, he, -⟩ := FMU1ME_capReport_spec T blkPath time n
        (FMU1ME.FMU1_eventIteration.body T blkPath time s).2
      refine ⟨_, by simp only [hneed, hcap, if_true]; rfl, ?_⟩
      rw [hcapr, hbody]
      have hn' : n = 10000 := by omega
      subst hn'
      simp [List.countP_append, List.countP_cons, hcount, Event.isCallOf_fmuCall_self,
        Event.isCallOf_eq_false_of_isFmuCall_eq_false _ e he]
    · simp only [hneed, hcap, if_true, if_false]
      obtain ⟨s', hs', hc'⟩ := ih (n + 1) (FMU1ME.FMU1_eventIteration.body T blkPath time s).1
        (FMU1ME.FMU1_eventIteration.body T blkPath time s).2
        (by rw [hbody]; exact hf) (by rw [hbody]; exact hf _ _ _ _ hneed) (by omega) (by omega)
      refine ⟨s', hs', ?_⟩
      rw [hc', hbody]
      simp [List.countP_append, List.countP_cons, hcount, Event.isCallOf_fmuCall_self]
      omega

/-! ## Event iteration terminates within the cap (C28) -/

/-- C28: whatever the FMU does (any statuses, any event-info values), every run of
`FMU2_eventIteration` and of `FMU1_eventIteration` returns, and it has called the FMU's
discrete-state function (`newDiscreteStates`, `eventUpdate`) at most 10001 times.  With the
stub `defaultfcn` as the discrete-state function, which never updates the event info, the run
of `FMU2_eventIteration` (and of `FMU1_eventIteration` entered with `iterationConverged`
false) makes exactly 10001 calls and returns false. -/
theorem eventIteration_terminates_within_cap :
    (∀ (W : Type) (T : Target) (s : FMU2.St W) (blkPath : String) (time : fmiReal),
      ∃ r, FMU2.FMU2_eventIteration T s blkPath time = some r ∧
        r.2.trace.countP (Event.isCallOf .newDiscreteStates) ≤
          s.trace.countP (Event.isCallOf .newDiscreteStates) + 10001) ∧
    (∀ (W : Type) (T : Target) (s : FMU1ME.St W) (blkPath : String) (time : fmiReal),
      ∃ r, FMU1ME.FMU1_eventIteration T s blkPath time = some r ∧
        r.2.trace.countP (Event.isCallOf .eventUpdate) ≤
          s.trace.countP (Event.isCallOf .eventUpdate) + 10001) ∧
    (∀ (W : Type) (T : Target) (h : FMU2.FMU2_CSME_RTWCG W) (fmu : W) (trace : List Event)
        (blkPath : String) (time : fmiReal),
      ∃ s', FMU2.FMU2_eventIteration T
          ⟨{ h with newDiscreteStates := FMU2.zeroed.newDiscreteStates }, fmu, trace⟩
          blkPath time = some (false, s') ∧
        s'.trace.countP (Event.isCallOf .newDiscreteStates) =
          trace.countP (Event.isCallOf .newDiscreteStates) + 10001) ∧
    (∀ (W : Type) (T : Target) (h : FMU1ME.FMU1_ME_RTWCG W) (fmu : W) (trace : List Event)
        (blkPath : String) (time : fmiReal),
      ∃ s', FMU1ME.FMU1_eventIteration T
          ⟨{ h with
              eventUpdate := FMU1ME.zeroed.eventUpdate
              eventInfo := { h.eventInfo with iterationConverged := false } }, fmu, trace⟩
          blkPath time = some (false, s') ∧
        s'.trace.countP (Event.isCallOf .eventUpdate) =
          trace.countP (Event.isCallOf .eventUpdate) + 10001) := by
  refine ⟨?_, ?_, ?_, ?_⟩
  · intro W T s blkPath time
    obtain ⟨r, hr⟩ := Option.isSome_iff_exists.1
      (FMU2_eventIteration_loop_fuel T blkPath time 10001 0 true
        ({ s with fmustruct :=
            { s.fmustruct with eventInfo :=
              { s.fmustruct.eventInfo with newDiscreteStatesNeeded := true } } } : FMU2.St W)
        (by omega) (by omega))
    refine ⟨r, hr, ?_⟩
    have := FMU2_loop_calls_bound T blkPath time 10001 0 true _ r (by omega) hr
    simpa using this
  · intro W T s blkPath time
    obtain ⟨r, hr⟩ := Option.isSome_iff_exists.1
      (FMU1_eventIteration_loop_fuel T blkPath time 10001 0 true s (by omega) (by omega))
    refine ⟨r, hr, ?_⟩
    have := FMU1ME_loop_calls_bound T blkPath time 10001 0 true _ r (by omega) hr
    simpa using this
  · intro W T h fmu trace blkPath time
    have := FMU2_loop_never_stops T blkPath time 10001 0 true
      ({ fmustruct :=
          { h with
            newDiscreteStates := FMU2.zeroed.newDiscreteStates
            eventInfo := { h.eventInfo with newDiscreteStatesNeeded := true } }
         fmu := fmu, trace := trace } : FMU2.St W)
      (by intro c ei w hei; exact hei) rfl (by omega) (by omega)
    exact this
  · intro W T h fmu trace blkPath time
    have := FMU1ME_loop_never_stops T blkPath time 10001 0 true
      ({ fmustruct :=
          { h with
            eventUpdate := FMU1ME.zeroed.eventUpdate
            eventInfo := { h.eventInfo with iterationConverged := false } }
         fmu := fmu, trace := trace } : FMU1ME.St W)
      (by intro c b ei w hei; exact hei) rfl (by omega) (by omega)
    exact this

/-! ## The two event-iteration engines on entry (C29) -/

/-- C29: `FMU2_eventIteration` overwrites `eventInfo.newDiscreteStatesNeeded` with true, so
every run of it starts with a call of `newDiscreteStates`, which is handed the event info with
`newDiscreteStatesNeeded` true; `FMU1_eventIteration` entered with
`eventInfo.iterationConverged` true returns true with the system as it was: no FMU call, no
diagnostic, no change of the handle. -/
theorem eventIteration_on_entry :
    (∀ (W : Type) (T : Target) (s : FMU2.St W) (blkPath : String) (time : fmiReal),
      ∃ r es, FMU2.FMU2_eventIteration T s blkPath time = some r ∧
        r.2.trace = s.trace ++
          Event.fmuCall .newDiscreteStates s.fmustruct.mFMIComp
            (some (s.fmustruct.newDiscreteStates s.fmustruct.mFMIComp
              { s.fmustruct.eventInfo with newDiscreteStatesNeeded := true } s.fmu).1) :: es) ∧
    (∀ (W : Type) (T : Target) (s : FMU1ME.St W) (blkPath : String) (time : fmiReal),
      s.fmustruct.eventInfo.iterationConverged = true →
      FMU1ME.FMU1_eventIteration T s blkPath time = some (true, s)) := by
  refine ⟨?_, ?_⟩
  · intro W T s blkPath time
    obtain ⟨es, hbody, -⟩ := FMU2_body_spec T blkPath time
      ({ s with fmustruct :=
          { s.fmustruct with eventInfo :=
            { s.fmustruct.eventInfo with newDiscreteStatesNeeded := true } } } : FMU2.St W)
    obtain ⟨r, hr⟩ := Option.isSome_iff_exists.1
      (FMU2_eventIteration_loop_fuel T blkPath time 10000 1
        (FMU2.FMU2_eventIteration.body T blkPath time
          ({ s with fmustruct :=
              { s.fmustruct with eventInfo :=
                { s.fmustruct.eventInfo with newDiscreteStatesNeeded := true } } } :
            FMU2.St W)).1
        (FMU2.FMU2_eventIteration.body T blkPath time
          ({ s with fmustruct :=
              { s.fmustruct with eventInfo :=
                { s.fmustruct.eventInfo with newDiscreteStatesNeeded := true } } } :
            FMU2.St W)).2
        (by omega) (by omega))
    obtain ⟨es', htr, -⟩ := FMU2_loop_follows T blkPath time _ _ _ _ r hr
    refine ⟨r, es ++ es', ?_, ?_⟩
    · rw [← hr]
      show FMU2.FMU2_eventIteration.loop T blkPath time (10000 + 1) 0 true _ = _
      rw [FMU2.FMU2_eventIteration.loop]
      simp
    · rw [htr, hbody]
      simp
  · intro W T s blkPath time h
    show FMU1ME.FMU1_eventIteration.loop T blkPath time (10000 + 1) 0 true s = _
    rw [FMU1ME.FMU1_eventIteration.loop]
    simp [h]

/-- C29 (witness): `FMU1_eventIteration` on the scripted FMU with `iterationConverged` set. -/
theorem eventIteration_on_entry_witness :
    ({ FMU1ME.mockScripted with
        eventInfo := { FMU1ME.mockScripted.eventInfo with iterationConverged := true } } :
      FMU1ME.FMU1_ME_RTWCG (List fmiStatus)).eventInfo.iterationConverged = true ∧
    FMU1ME.FMU1_eventIteration Target.host
      ⟨{ FMU1ME.mockScripted with
          eventInfo := { FMU1ME.mockScripted.eventInfo with iterationConverged := true } },
        [fmiError], []⟩ "blk" 0 =
      some (true,
        ⟨{ FMU1ME.mockScripted with
            eventInfo := { FMU1ME.mockScripted.eventInfo with iterationConverged := true } },
          [fmiError], []⟩) :=
  ⟨rfl,
    eventIteration_on_entry.2 (List fmiStatus) Target.host
      ⟨{ FMU1ME.mockScripted with
          eventInfo := { FMU1ME.mockScripted.eventInfo with iterationConverged := true } },
        [fmiError], []⟩ "blk" 0 rfl⟩

/-! ## `FMU1_setIterationConverged` (C30) -/

/-- C30: for every handle, flag and time, `FMU1_setIterationConverged` changes nothing but
`eventInfo.iterationConverged` (the other fields of the event info and of the handle, the
state of the FMU and the trace are as before, so no FMU function is called), which it sets to
false if `fmuIsInitialized` is not zero, and otherwise to false exactly when
`eventInfo.upcomingTimeEvent` is true and `eventInfo.nextEventTime <= time`, and to true in
every other case. -/
theorem setIterationConverged_decision :
    ∀ (W : Type) (s : FMU1ME.St W) (fmuIsInitialized : Int) (time : fmiReal),
      FMU1ME.FMU1_setIterationConverged s fmuIsInitialized time =
        { s with fmustruct :=
          { s.fmustruct with eventInfo :=
            { s.fmustruct.eventInfo with
              iterationConverged :=
                if fmuIsInitialized ≠ 0 then false
                else if s.fmustruct.eventInfo.upcomingTimeEvent = true ∧
                    s.fmustruct.eventInfo.nextEventTime ≤ time then false
                else true } } } := by
  intro W s fmuIsInitialized time
  by_cases h0 : fmuIsInitialized = 0
  · by_cases h1 : s.fmustruct.eventInfo.upcomingTimeEvent = true ∧
        s.fmustruct.eventInfo.nextEventTime ≤ time
    · simp [FMU1ME.FMU1_setIterationConverged, h0, h1]
    · simp [FMU1ME.FMU1_setIterationConverged, h0, h1]
  · simp [FMU1ME.FMU1_setIterationConverged, h0]

end RTWCG
